import Mathlib

/-!
# Eventing consumer: vbucket ownership and streaming control plane

A shallow embedding of `consumer/process_events.go` and `consumer/control_routine.go`.

Conventions of the embedding
* A goroutine's loop body is a function from the consumer state and the message it
  received to an `Outcome`; channels are FIFO lists; Go maps used as sets are `Finset`s.
* A byte slice is a list of bytes; a slice expression is in range when its bounds lie
  within the length of the list (capacity is taken equal to length), and is a run-time
  panic otherwise.  `uint32` arithmetic is arithmetic modulo `2^32`.
* Calls that leave the process (metadata bucket, DCP client, JS worker, planner, clock)
  are recorded in logs held in the state, and what they answer is read from an `Oracle`
  that is given afresh to every step.
-/

namespace Eventing

/-! ## Data model -/

abbrev Byte := Fin 256

abbrev Bytes := List Byte

/-- Errors that the routines compare against. -/
inductive Err where
  | ErrRetryTimeout
  | ErrorInvalidVbucket
  | errDcpFeedsClosed
  | other (msg : String)
  deriving DecidableEq, Repr

/-- Modelled from the spec: the DCP opcodes of `mcd` (package `dcp/transport`, not under
src) that `processEvents` switches on; every other opcode falls in the `default` arm. -/
inductive Opcode where
  | DCP_MUTATION
  | DCP_DELETION
  | DCP_STREAMREQ
  | DCP_STREAMEND
  | other (code : Nat)
  deriving DecidableEq, Repr

/-- Modelled from the spec: the status codes of `mcd` (package `dcp/transport`, not under
src) that the routines compare against. -/
inductive Status where
  | SUCCESS
  | KEY_EEXISTS
  | ROLLBACK
  | other (code : Nat)
  deriving DecidableEq, Repr

/-- Modelled from the spec: the failover log of the DCP client (package `dcp`, not under
src), a sequence of `(vbuuid, seqno)` pairs. -/
structure FailoverLog where
  entries : List (Nat × Nat)
  deriving DecidableEq, Repr

/-- Modelled from the spec: `FailoverLog.Latest` of the DCP client (not under src), which
yields the latest `(vbuuid, seqno)` pair of the log or an error; the newest entry is the
first one. -/
def FailoverLog.Latest (flog : FailoverLog) : Except Err (Nat × Nat) :=
  match flog.entries with
  | [] => .error (.other "invalid failover log")
  | latest :: _ => .ok latest

/-- DcpEvent, as the spec lists its fields. -/
structure DcpEvent where
  Opcode : Opcode
  VBucket : Nat
  Key : Bytes
  Value : Bytes
  Seqno : Nat
  Cas : Nat
  Datatype : Nat
  FailoverLog : FailoverLog
  Status : Status
  deriving DecidableEq, Repr

/-- Modelled from the spec: `dcpDatatypeJSON` (consumer constants are not under src). -/
def dcpDatatypeJSON : Nat := 0x01

/-- Modelled from the spec: `dcpDatatypeJSONXattr` (consumer constants are not under src). -/
def dcpDatatypeJSONXattr : Nat := 0x05

/-- Modelled from the spec: stream status and ownership-history operation `running`. -/
def dcpStreamRunning : String := "running"

/-- Modelled from the spec: stream status and ownership-history operation `stopped`. -/
def dcpStreamStopped : String := "stopped"

/-- Modelled from the spec: ownership-history operation `request_failed`. -/
def dcpStreamRequestFailed : String := "request_failed"

/-- Modelled from the spec: ownership-history operation `requested`. -/
def dcpStreamRequested : String := "requested"

/-- Modelled from the spec: ownership-history operation `bootstrap`. -/
def dcpStreamBootstrap : String := "bootstrap"

/-- OwnershipEntry, one entry of the append-only ownership history. -/
structure OwnershipEntry where
  AssignedWorker : String := ""
  CurrentVBOwner : String := ""
  Operation : String := ""
  SeqNo : Nat := 0
  Timestamp : String := ""
  deriving DecidableEq, Repr

/-- Modelled from the spec: the consumer's `vbucketKVBlob` (its declaration is not under
src), with the fields the routines under src read or write. -/
structure vbucketKVBlob where
  AssignedWorker : String := ""
  CurrentVBOwner : String := ""
  DCPStreamStatus : String := ""
  LastSeqNoProcessed : Nat := 0
  NodeUUID : String := ""
  VBId : Nat := 0
  VBuuid : Nat := 0
  PreviousAssignedWorker : String := ""
  PreviousNodeUUID : String := ""
  PreviousVBOwner : String := ""
  OwnershipHistory : List OwnershipEntry := []
  CurrentProcessedDocIDTimer : String := ""
  LastProcessedDocIDTimerEvent : String := ""
  NextDocIDTimerToProcess : String := ""
  deriving DecidableEq, Repr

/-- Modelled from the spec: `xattrMetadata` (its declaration is not under src), the object
`{cas, digest, …}` stored under the handler's xattr key. -/
structure xattrMetadata where
  Cas : String := ""
  Digest : Nat := 0
  deriving DecidableEq, Repr

/-- Modelled from the spec: the consumer's `vbFlogEntry` (only the producer's older
declaration is under src), the outcome the router posts for the failover-log handler. -/
structure vbFlogEntry where
  flog : Option FailoverLog := none
  seqNo : Nat := 0
  signalStreamEnd : Bool := false
  statusCode : Status := Status.SUCCESS
  streamReqRetry : Bool := false
  vb : Nat := 0
  deriving DecidableEq, Repr

/-- Modelled from the spec: `streamRequestInfo` (its declaration is not under src). -/
structure streamRequestInfo where
  vb : Nat
  vbBlob : vbucketKVBlob
  startSeqNo : Nat
  deriving DecidableEq, Repr

/-- The entry received on `filterDataCh`. -/
structure vbSeqNo where
  Vbucket : Nat
  SeqNo : Nat
  deriving DecidableEq, Repr

/-- The attributes the per-vbucket state store keeps for one vbucket.  The store is
untyped in the source; every attribute is taken at the type the callers use, except
`vb_stream_request_metadata_updated`, whose absence the router handles explicitly. -/
structure vbStat where
  last_read_seq_no : Nat := 0
  last_processed_seq_no : Nat := 0
  vb_stream_request_metadata_updated : Option Bool := none
  vb_uuid : Nat := 0
  assigned_worker : String := ""
  current_vb_owner : String := ""
  dcp_stream_status : String := ""
  node_uuid : String := ""
  ever_owned_vb : Bool := false
  host_name : String := ""
  last_checkpointed_seq_no : Nat := 0
  timestamp : String := ""
  worker_name : String := ""
  dcp_stream_requested : Bool := false
  dcp_stream_requested_node_uuid : String := ""
  dcp_stream_requested_worker : String := ""
  seq_no_at_stream_end : Nat := 0
  seq_no_after_close_stream : Nat := 0
  start_seq_no : Nat := 0
  deriving DecidableEq, Repr

/-- The debugger states the router compares against. -/
inductive DebuggerState where
  | startDebug
  | stopDebug
  | debuggerOpcode
  deriving DecidableEq, Repr

/-- One call of `DcpRequestStream` on a feed, with its arguments. -/
structure StreamRequestCall where
  feed : String
  vb : Nat
  opaq : Nat
  flags : Nat
  vbuuid : Nat
  start : Nat
  end_ : Nat
  snapStart : Nat
  snapEnd : Nat
  deriving DecidableEq, Repr

/-- A write handed to the metadata checkpointer: the callback (or method) invoked through
`util.Retry` and the arguments it was given. -/
inductive MetaOp where
  | addOwnershipHistorySRSCallback (key : String) (blob : vbucketKVBlob) (entry : OwnershipEntry)
  | addOwnershipHistorySRFCallback (key : String) (entry : OwnershipEntry)
  | addOwnershipHistorySECallback (key : String) (entry : OwnershipEntry)
  | addOwnershipHistorySRRCallback (key : String) (entry : OwnershipEntry)
  | updateCheckpoint (key : String) (vb : Nat) (blob : vbucketKVBlob)
  | updateCheckpointCallback (key : String) (blob : vbucketKVBlob)
  | setOpCallback (key : String) (blob : vbucketKVBlob)
  deriving DecidableEq, Repr

/-- Modelled from the spec: the stream boundaries of package `common` (not under src)
that `startDcp` switches on. -/
inductive DcpStreamBoundary where
  | DcpEverything
  | DcpFromNow
  | other (name : String)
  deriving DecidableEq, Repr

/-- The constants of one consumer. -/
structure Config where
  AppName : String
  HandlerUUID : Nat
  workerName : String
  hostPortAddr : String
  uuid : String
  metadataPrefix : String
  usingTimer : Bool
  numVbuckets : Nat
  dcpStreamBoundary : DcpStreamBoundary := DcpStreamBoundary.DcpEverything
  deriving DecidableEq, Repr

/-- Modelled from the spec: accessor `ConsumerName` (not under src): this worker's name. -/
def Config.ConsumerName (cfg : Config) : String := cfg.workerName

/-- Modelled from the spec: accessor `HostPortAddr` (not under src): this host. -/
def Config.HostPortAddr (cfg : Config) : String := cfg.hostPortAddr

/-- Modelled from the spec: accessor `NodeUUID` (not under src): this node's uuid. -/
def Config.NodeUUID (cfg : Config) : String := cfg.uuid

/-- Modelled from the spec: `producer.AddMetadataPrefix` (not under src); keys follow
`<metadataPrefix><app>::vb::<V>`. -/
def Config.AddMetadataPrefix (cfg : Config) (key : String) : String :=
  cfg.metadataPrefix ++ key

/-- The key `fmt.Sprintf("%s::vb::%d", c.app.AppName, vb)`. -/
def Config.vbKey (cfg : Config) (vb : Nat) : String :=
  cfg.AppName ++ "::vb::" ++ toString vb

/-- Functions of the libraries and of package `util` that the router calls and whose
bodies are not under src. -/
structure Env where
  /-- Stands for `crc32.Update(0, c.crcTable, ·)`. -/
  crc32 : Bytes → Nat
  /-- Stands for `json.Unmarshal(·, &xMeta)`: the target after the call and whether an
  error was returned. -/
  jsonUnmarshal : Bytes → xattrMetadata → xattrMetadata × Bool
  /-- Stands for `util.ConvertBigEndianToUint64`. -/
  ConvertBigEndianToUint64 : String → Except Err Nat

/-- The places where a routine goes through `util.Retry` (or through a method that
does), named after the callback; `vb` is the vbucket of the key and `n` counts the calls of
the same callback within one step. -/
inductive RetrySite where
  | getOpCallback (vb n : Nat)
  | addOwnershipHistorySRSCallback (vb : Nat)
  | addOwnershipHistorySRFCallback (vb : Nat)
  | addOwnershipHistorySECallback (vb : Nat)
  | addOwnershipHistorySRRCallback (vb : Nat)
  | updateCheckpoint (vb n : Nat)
  | updateCheckpointCallback (vb : Nat)
  | setOpCallback (vb : Nat)
  | getKvVbMap
  | startDCPFeedOpCallback
  | populateDcpFeedVbEntriesCallback
  | getEFFailoverLogOpAllVbucketsCallback (vb : Nat)
  | cleanupVbMetadata (vb : Nat)
  | updateVbOwnerAndStartDCPStream (vb : Nat)
  | getEventingNodeAddrOpCallback
  | checkIfVbStreamsOpenedCallback
  deriving DecidableEq, Repr

/-- What the world outside the routine answers during one step. -/
structure Oracle where
  /-- The reading of `time.Now()`. -/
  now : String := ""
  /-- The planner's answer, `checkIfCurrentConsumerShouldOwnVb`. -/
  checkIfCurrentConsumerShouldOwnVb : Nat → Bool := fun _ => true
  /-- Whether `signalStartDebuggerCh` holds a message. -/
  signalStartDebugger : Bool := false
  /-- Whether the `util.Retry` at a site ends in `ErrRetryTimeout`. -/
  retryTimeout : RetrySite → Bool := fun _ => false
  /-- The blob that the n-th `getOpCallback` for a vbucket delivers. -/
  getOp : Nat → Nat → vbucketKVBlob := fun _ _ => {}
  /-- Whether the n-th `getOpCallback` for a vbucket finds no document. -/
  isNoEnt : Nat → Nat → Bool := fun _ _ => false
  /-- The error of `timers.Create`, if any. -/
  timersCreate : Option Err := none
  /-- The value of `c.isTerminateRunning` at the n-th read of the step (another routine
  sets the flag). -/
  isTerminateRunning : Nat → Bool := fun _ => false
  /-- The error of the n-th `cbBucket.Refresh`, if any. -/
  refresh : Nat → Option Err := fun _ => none
  /-- The vbucket map that `getKvVbMap` installs. -/
  kvVbMap : List (Nat × String) := []
  /-- The entries that `populateDcpFeedVbEntriesCallback` installs in `dcpFeedVbMap`. -/
  dcpFeedVbMap : String → List Nat := fun _ => []
  /-- The error of `DcpRequestStream`, if any. -/
  dcpRequestStream : Option Err := none
  /-- The failover logs that `getEFFailoverLogOpAllVbucketsCallback` fetches. -/
  flogs : Nat → Option FailoverLog := fun _ => none
  /-- The answer of `c.producer.IsPlannerRunning()`. -/
  isPlannerRunning : Bool := false
  /-- Whether `c.superSup.GetLocallyDeployedApps()` lists this app. -/
  appDeployed : Bool := true
  /-- The error of `DcpCloseStream` for a vbucket, if any. -/
  dcpCloseStream : Nat → Option Err := fun _ => none
  /-- The error of `updateVbOwnerAndStartDCPStream` for a vbucket, if any, other than
  the retry timeout. -/
  updateVbOwnerAndStartDCPStream : Nat → Option Err := fun _ => none
  /-- The sequence numbers and the error that `util.BucketSeqnos` returns. -/
  bucketSeqnos : List Nat × Option Err := ([], none)
  /-- The reading of `time.Now().UTC().Add(time.Second)`. -/
  nowPlusSecond : String := ""

/-- The part of the consumer that the routines under src read and write. -/
structure Consumer where
  filterVbEvents : Finset Nat := ∅
  vbStreamRequested : Finset Nat := ∅
  inflightDcpStreams : Finset Nat := ∅
  enqueueMap : Finset Nat := ∅
  vbsRemainingToRestream : List Nat := []
  vbsRemainingToClose : List Nat := []
  vbsRemainingToCleanup : List Nat := []
  vbProcessingStats : Nat → vbStat := fun _ => {}
  vbFlogChan : List vbFlogEntry := []
  reqStreamCh : List streamRequestInfo := []
  aggDCPFeedMem : Int := 0
  dcpMessagesProcessed : Opcode → Nat := fun _ => 0
  dcpMutationCounter : Nat := 0
  dcpDeletionCounter : Nat := 0
  dcpStreamReqCounter : Nat := 0
  dcpStreamReqErrCounter : Nat := 0
  debuggerState : DebuggerState := DebuggerState.debuggerOpcode
  sendMsgToDebugger : Bool := false
  dcpFeedsClosed : Bool := false
  kvVbMap : List (Nat × String) := []
  kvHostDcpFeedMap : List (String × String) := []
  vbDcpFeedMap : Nat → Option String := fun _ => none
  dcpFeedVbMap : String → List Nat := fun _ => []
  /-- Log of `sendDcpEvent` calls: the event forwarded to the JS worker and the
  `sendMsgToDebugger` flag. -/
  sentDcpEvents : List (DcpEvent × Bool) := []
  /-- Log of `sendVbFilterData` calls. -/
  sentVbFilterData : List (DcpEvent × Nat) := []
  /-- Log of the writes handed to the checkpointer. -/
  metaOps : List MetaOp := []
  /-- Log of `DcpRequestStream` calls. -/
  streamRequests : List StreamRequestCall := []
  /-- Log of `feed.Close` calls. -/
  closedFeeds : List String := []
  /-- Log of `timers.Create` calls (the vbucket). -/
  timersCreated : List Nat := []
  /-- Number of times a message was put on `stopCheckpointingCh`. -/
  stopCheckpointing : Nat := 0
  /-- The field `c.isBootstrapping`. -/
  isBootstrapping : Bool := false
  /-- Log of `cleanupVbMetadata` calls (the vbucket). -/
  cleanedVbMetadata : List Nat := []
  /-- Log of `DcpCloseStream` calls: the feed found in `vbDcpFeedMap`, the vbucket and
  the opaque. -/
  closeStreamCalls : List (Option String × Nat × Nat) := []
  /-- Log of `updateVbOwnerAndStartDCPStream` calls: the key, the vbucket and the blob. -/
  restreamCalls : List (String × Nat × vbucketKVBlob) := []
  /-- Log of `checkIfVbStreamsOpenedCallback` calls (the vbuckets). -/
  streamsOpenedChecks : List (List Nat) := []
  /-- Ghost counter, not a field of the source: per vbucket, the number of
  `DcpRequestStream` calls made since the vbucket was last deleted from
  `vbStreamRequested`. -/
  unresolvedStreamReqs : Nat → Nat := fun _ => 0

/-- How one pass through the body of a routine's loop ends. -/
inductive Outcome where
  /-- The loop goes round again. -/
  | next (c : Consumer)
  /-- The routine returned. -/
  | exit (c : Consumer)
  /-- The routine is at `retryCheckMetadataUpdated`, sleeping until the flag is set. -/
  | spin (c : Consumer)
  /-- A run-time panic. -/
  | panic
  /-- The fuel of the embedding ran out (`xattrLoop_fuel` shows that it does not). -/
  | outOfFuel

/-- The state an outcome leaves, if any. -/
def Outcome.state? : Outcome → Option Consumer
  | .next c => some c
  | .exit c => some c
  | .spin c => some c
  | .panic => none
  | .outOfFuel => none

/-- The method `updateVbStat`, through a field update. -/
def Consumer.updateVbStat (c : Consumer) (vb : Nat) (f : vbStat → vbStat) : Consumer :=
  { c with vbProcessingStats := Function.update c.vbProcessingStats vb (f (c.vbProcessingStats vb)) }

/-! ## Byte slices and `uint32` arithmetic -/

/-- Addition of two `uint32` values. -/
def u32add (a b : Nat) : Nat := (a + b) % 2 ^ 32

/-- Subtraction of two `uint32` values. -/
def u32sub (a b : Nat) : Nat := (2 ^ 32 + a % 2 ^ 32 - b % 2 ^ 32) % 2 ^ 32

/-- The function `binary.BigEndian.Uint32`: `none` is the panic on fewer than four bytes. -/
def bigEndianUint32 : Bytes → Option Nat
  | b0 :: b1 :: b2 :: b3 :: _ => some (b0.val * 2 ^ 24 + b1.val * 2 ^ 16 + b2.val * 2 ^ 8 + b3.val)
  | _ => none

/-- The slice expression `b[lo:hi]`: `none` is the panic on bounds out of range. -/
def slice (b : Bytes) (lo hi : Nat) : Option Bytes :=
  if lo ≤ hi ∧ hi ≤ b.length then some ((b.take hi).drop lo) else none

/-- The slice expression `b[lo:]`: `none` is the panic on a bound out of range. -/
def sliceFrom (b : Bytes) (lo : Nat) : Option Bytes :=
  if lo ≤ b.length then some (b.drop lo) else none

/-- The bytes of a string of ASCII characters. -/
def asciiBytes (s : String) : Bytes :=
  s.toList.map fun ch => Fin.ofNat ch.toNat

/-- The value `xattrprefix := strconv.Itoa(int(c.app.HandlerUUID))`, as bytes. -/
def xattrprefixOf (cfg : Config) : Bytes :=
  asciiBytes (toString cfg.HandlerUUID)

/-! ## The event router, `processEvents` -/

/-- How the xattr frame loop ends. -/
inductive XattrLoop where
  | done (xMeta : xattrMetadata)
  | panic
  | outOfFuel
  deriving DecidableEq, Repr

/-- The body of the loop `for bytesDecoded < totalXattrLen` of the `dcpDatatypeJSONXattr`
arm: from `totalXattrData`, `bytesDecoded` and `xMeta` before an iteration to their values
after it; `none` is a panic. -/
def xattrFrame (env : Env) (pfx : Bytes) (totalXattrLen : Nat) (totalXattrData : Bytes)
    (bytesDecoded : Nat) (xMeta : xattrMetadata) : Option (Bytes × Nat × xattrMetadata) :=
  match bigEndianUint32 totalXattrData with
  | none => none
  | some frameLength =>
    let bytesDecoded1 := u32add bytesDecoded 4
    match slice totalXattrData 4 (u32sub (u32add 4 frameLength) 1) with
    | none => none
    | some frameData =>
      let bytesDecoded2 := u32add bytesDecoded1 frameLength
      let rest : Option Bytes :=
        if bytesDecoded2 < totalXattrLen then sliceFrom totalXattrData (u32add 4 frameLength)
        else some totalXattrData
      match rest with
      | none => none
      | some totalXattrData1 =>
        let xMeta1 :=
          if frameData.length > pfx.length then
            if frameData.take pfx.length = pfx then
              (env.jsonUnmarshal (frameData.drop (pfx.length + 1)) xMeta).1
            else xMeta
          else xMeta
        some (totalXattrData1, bytesDecoded2, xMeta1)

/-- The loop `for bytesDecoded < totalXattrLen` of the `dcpDatatypeJSONXattr` arm: one
unit of fuel per iteration. -/
def xattrLoop (env : Env) (pfx : Bytes) (totalXattrLen : Nat) :
    Nat → Bytes → Nat → xattrMetadata → XattrLoop
  | 0, _, _, _ => .outOfFuel
  | fuel + 1, totalXattrData, bytesDecoded, xMeta =>
    if bytesDecoded < totalXattrLen then
      match xattrFrame env pfx totalXattrLen totalXattrData bytesDecoded xMeta with
      | none => .panic
      | some (totalXattrData1, bytesDecoded2, xMeta1) =>
        xattrLoop env pfx totalXattrLen fuel totalXattrData1 bytesDecoded2 xMeta1
    else .done xMeta

/-- The decoding at the head of the `dcpDatatypeJSONXattr` arm: `totalXattrLen` and the
`xMeta` that the frame loop leaves.  No frame is shorter than five bytes, so the length of
the value bounds the number of iterations. -/
def decodeXattrs (env : Env) (pfx : Bytes) (value : Bytes) : Option Nat × XattrLoop :=
  match bigEndianUint32 value with
  | none => (none, .panic)
  | some totalXattrLen =>
    match slice value 4 (u32sub (u32add 4 totalXattrLen) 1) with
    | none => (some totalXattrLen, .panic)
    | some totalXattrData =>
      (some totalXattrLen, xattrLoop env pfx totalXattrLen (value.length + 1) totalXattrData 0 {})

/-- The call `c.sendDcpEvent(e, c.sendMsgToDebugger)`, direct or in a goroutine, after
the counter `n` (mutations or deletions) was incremented by the caller. -/
def Consumer.sendDcpEvent (c : Consumer) (e : DcpEvent) : Consumer :=
  { c with sentDcpEvents := c.sentDcpEvents ++ [(e, c.sendMsgToDebugger)] }

/-- The block `if c.debuggerState == startDebug { … }`. -/
def Consumer.debuggerHandshake (c : Consumer) (o : Oracle) : Consumer :=
  if c.debuggerState = DebuggerState.startDebug then
    { c with
      sendMsgToDebugger := if o.signalStartDebugger then true else c.sendMsgToDebugger
      debuggerState := DebuggerState.stopDebug }
  else c

/-- The arm `case mcd.DCP_MUTATION` of `processEvents`. -/
def handleMutation (cfg : Config) (env : Env) (o : Oracle) (c : Consumer) (e : DcpEvent) :
    Outcome :=
  if e.VBucket ∈ c.filterVbEvents then .next c
  else
    let c := c.updateVbStat e.VBucket fun st => { st with last_read_seq_no := e.Seqno }
    let c := c.debuggerHandshake o
    if e.Datatype = dcpDatatypeJSON then
      .next ({ c with dcpMutationCounter := c.dcpMutationCounter + 1 }.sendDcpEvent e)
    else if e.Datatype = dcpDatatypeJSONXattr then
      match decodeXattrs env (xattrprefixOf cfg) e.Value with
      | (some totalXattrLen, .done xMeta) =>
        if xMeta.Cas ≠ "" then
          match env.ConvertBigEndianToUint64 xMeta.Cas with
          | .error _ => .next c
          | .ok cas =>
            if cas ≠ e.Cas then
              match sliceFrom e.Value (u32add 4 totalXattrLen) with
              | none => .panic
              | some value =>
                let e := { e with Value := value }
                if env.crc32 e.Value ≠ xMeta.Digest then
                  .next ({ c with dcpMutationCounter := c.dcpMutationCounter + 1 }.sendDcpEvent e)
                else .next c
            else .next c
        else
          match sliceFrom e.Value (u32add 4 totalXattrLen) with
          | none => .panic
          | some value =>
            let e := { e with Value := value }
            .next ({ c with dcpMutationCounter := c.dcpMutationCounter + 1 }.sendDcpEvent e)
      | (_, .outOfFuel) => .outOfFuel
      | _ => .panic
    else .next c

/-- The arm `case mcd.DCP_DELETION` of `processEvents`. -/
def handleDeletion (o : Oracle) (c : Consumer) (e : DcpEvent) : Outcome :=
  if e.VBucket ∈ c.filterVbEvents then .next c
  else
    let c := c.updateVbStat e.VBucket fun st => { st with last_read_seq_no := e.Seqno }
    let c := c.debuggerHandshake o
    .next ({ c with dcpDeletionCounter := c.dcpDeletionCounter + 1 }.sendDcpEvent e)

/-- Deleting a vbucket from `vbStreamRequested` (`if _, ok := …; ok { delete(…) }`).  The
ghost counter of unresolved requests of the vbucket starts again from zero. -/
def Consumer.purgeVbStreamRequested (c : Consumer) (vb : Nat) : Consumer :=
  { c with
    vbStreamRequested := c.vbStreamRequested.erase vb
    unresolvedStreamReqs := Function.update c.unresolvedStreamReqs vb 0 }

/-- The send `c.vbFlogChan <- vbFlog`. -/
def Consumer.postVbFlog (c : Consumer) (vbFlog : vbFlogEntry) : Consumer :=
  { c with vbFlogChan := c.vbFlogChan ++ [vbFlog] }

/-- A write handed to the checkpointer that did not time out. -/
def Consumer.logMetaOp (c : Consumer) (op : MetaOp) : Consumer :=
  { c with metaOps := c.metaOps ++ [op] }

/-- The arm `case mcd.DCP_STREAMREQ` of `processEvents`, from the label
`retryCheckMetadataUpdated` on. -/
def handleStreamReq (cfg : Config) (o : Oracle) (c : Consumer) (e : DcpEvent) : Outcome :=
  match (c.vbProcessingStats e.VBucket).vb_stream_request_metadata_updated with
  | some true =>
    let c := c.updateVbStat e.VBucket fun st =>
      { st with vb_stream_request_metadata_updated := some false }
    if e.Status = Status.SUCCESS then
      let timerStep : Option Consumer :=
        if cfg.usingTimer then
          if o.timersCreate = some Err.ErrRetryTimeout then none
          else some { c with timersCreated := c.timersCreated ++ [e.VBucket] }
        else some c
      match timerStep with
      | none => .exit c
      | some c =>
        let vbFlog : vbFlogEntry :=
          { statusCode := e.Status, streamReqRetry := false, vb := e.VBucket }
        let vbKey := cfg.vbKey e.VBucket
        if o.retryTimeout (.getOpCallback e.VBucket 0) then .exit c
        else
          let vbBlob := o.getOp e.VBucket 0
          match e.FailoverLog.Latest with
          | .error _ => .next (c.postVbFlog vbFlog)
          | .ok (vbuuid, seqNo) =>
            let c := c.updateVbStat e.VBucket fun st => { st with vb_uuid := vbuuid }
            let vbBlob := { vbBlob with
              AssignedWorker := cfg.ConsumerName
              CurrentVBOwner := cfg.HostPortAddr
              DCPStreamStatus := dcpStreamRunning
              LastSeqNoProcessed := seqNo
              NodeUUID := cfg.uuid
              VBuuid := vbuuid }
            let startSeqNo := (c.vbProcessingStats e.VBucket).last_processed_seq_no
            let entry : OwnershipEntry :=
              { AssignedWorker := cfg.ConsumerName
                CurrentVBOwner := cfg.HostPortAddr
                Operation := dcpStreamRunning
                SeqNo := startSeqNo
                Timestamp := o.now }
            if o.retryTimeout (.addOwnershipHistorySRSCallback e.VBucket) then .exit c
            else
              let c := c.logMetaOp
                (.addOwnershipHistorySRSCallback (cfg.AddMetadataPrefix vbKey) vbBlob entry)
              let c := c.updateVbStat e.VBucket fun st => { st with
                assigned_worker := cfg.ConsumerName
                current_vb_owner := cfg.HostPortAddr
                dcp_stream_status := dcpStreamRunning
                node_uuid := cfg.uuid
                ever_owned_vb := true
                host_name := cfg.HostPortAddr
                last_checkpointed_seq_no := startSeqNo
                timestamp := o.now
                worker_name := cfg.ConsumerName
                dcp_stream_requested_node_uuid := cfg.NodeUUID
                dcp_stream_requested_worker := cfg.ConsumerName }
              let c :=
                if !o.checkIfCurrentConsumerShouldOwnVb e.VBucket then
                  { c with
                    vbsRemainingToClose := c.vbsRemainingToClose ++ [e.VBucket]
                    filterVbEvents := insert e.VBucket c.filterVbEvents }
                else c
              .next (c.postVbFlog vbFlog)
    else if e.Status = Status.KEY_EEXISTS then
      let vbFlog : vbFlogEntry :=
        { statusCode := e.Status, streamReqRetry := false, vb := e.VBucket }
      .next (c.postVbFlog vbFlog)
    else
      let vbFlog : vbFlogEntry :=
        { flog := some e.FailoverLog
          statusCode := e.Status
          streamReqRetry := true
          vb := e.VBucket }
      let c := c.purgeVbStreamRequested e.VBucket
      let vbKey := cfg.vbKey e.VBucket
      let entry : OwnershipEntry :=
        { AssignedWorker := cfg.ConsumerName
          CurrentVBOwner := cfg.HostPortAddr
          Operation := dcpStreamRequestFailed
          Timestamp := o.now }
      if o.retryTimeout (.addOwnershipHistorySRFCallback e.VBucket) then .exit c
      else
        let c := c.logMetaOp (.addOwnershipHistorySRFCallback (cfg.AddMetadataPrefix vbKey) entry)
        .next (c.postVbFlog vbFlog)
  | _ => .spin c

/-- The arm `case mcd.DCP_STREAMEND` of `processEvents`. -/
def handleStreamEnd (o : Oracle) (c : Consumer) (e : DcpEvent) : Outcome :=
  let lastSeqNo := (c.vbProcessingStats e.VBucket).last_read_seq_no
  let c := c.updateVbStat e.VBucket fun st =>
    { st with seq_no_at_stream_end := lastSeqNo, timestamp := o.now }
  .next { c with sentVbFilterData := c.sentVbFilterData ++ [(e, lastSeqNo)] }

/-- The arm `case e, ok := <-c.filterDataCh` of `processEvents`, for `ok == true`. -/
def handleFilterData (cfg : Config) (o : Oracle) (c : Consumer) (e : vbSeqNo) : Outcome :=
  let c := c.purgeVbStreamRequested e.Vbucket
  let vbKey := cfg.vbKey e.Vbucket
  let seqNo := (c.vbProcessingStats e.Vbucket).last_read_seq_no
  let entry : OwnershipEntry :=
    { AssignedWorker := cfg.ConsumerName
      CurrentVBOwner := cfg.HostPortAddr
      Operation := dcpStreamStopped
      SeqNo := seqNo
      Timestamp := o.now }
  if o.retryTimeout (.addOwnershipHistorySECallback e.Vbucket) then .exit c
  else
    let c := c.logMetaOp (.addOwnershipHistorySECallback (cfg.AddMetadataPrefix vbKey) entry)
    let c := { c with filterVbEvents := c.filterVbEvents.erase e.Vbucket }
    let c := c.updateVbStat e.Vbucket fun st => { st with last_processed_seq_no := e.SeqNo }
    if o.retryTimeout (.getOpCallback e.Vbucket 0) then .exit c
    else
      let vbBlob := o.getOp e.Vbucket 0
      let vbBlob := { vbBlob with LastSeqNoProcessed := e.SeqNo }
      if o.retryTimeout (.updateCheckpoint e.Vbucket 0) then .exit c
      else
        let c := c.logMetaOp (.updateCheckpoint vbKey e.Vbucket vbBlob)
        let c := c.updateVbStat e.Vbucket fun st => { st with
          assigned_worker := ""
          current_vb_owner := ""
          dcp_stream_status := dcpStreamStopped
          node_uuid := "" }
        if o.checkIfCurrentConsumerShouldOwnVb e.Vbucket then
          let vbFlog : vbFlogEntry := { signalStreamEnd := true, vb := e.Vbucket }
          let c := c.postVbFlog vbFlog
          let c := { c with inflightDcpStreams := c.inflightDcpStreams.erase e.Vbucket }
          if o.retryTimeout (.getOpCallback e.Vbucket 1) then .exit c
          else
            let vbBlob := o.getOp e.Vbucket 1
            if o.retryTimeout (.updateCheckpoint e.Vbucket 1) then .exit c
            else
              let c := c.logMetaOp (.updateCheckpoint vbKey e.Vbucket vbBlob)
              .next { c with vbsRemainingToRestream := c.vbsRemainingToRestream ++ [e.Vbucket] }
        else .next c

/-- What the `select` of `processEvents` can receive; `none` is a closed channel.  The
arms for the statistics ticker and for the debugger's stop signal write no state of the
vbucket control plane and are not part of the embedding. -/
inductive RouterMsg where
  | aggDCPFeed (e : Option DcpEvent)
  | filterDataCh (e : Option vbSeqNo)
  | stopConsumerCh

/-- The statements of the arm `case e, ok := <-c.aggDCPFeed` that precede the switch on
the opcode: the in-flight byte counter goes down by the length of the value and the
counter of the opcode goes up by one. -/
def Consumer.countDcpEvent (c : Consumer) (e : DcpEvent) : Consumer :=
  { c with
    aggDCPFeedMem := c.aggDCPFeedMem - (e.Value.length : Int)
    dcpMessagesProcessed :=
      Function.update c.dcpMessagesProcessed e.Opcode (c.dcpMessagesProcessed e.Opcode + 1) }

/-- The arm `case e, ok := <-c.aggDCPFeed` of `processEvents`, for `ok == true`. -/
def handleDcpEvent (cfg : Config) (env : Env) (o : Oracle) (c : Consumer) (e : DcpEvent) :
    Outcome :=
  let c := c.countDcpEvent e
  match e.Opcode with
  | .DCP_MUTATION => handleMutation cfg env o c e
  | .DCP_DELETION => handleDeletion o c e
  | .DCP_STREAMREQ => handleStreamReq cfg o c e
  | .DCP_STREAMEND => handleStreamEnd o c e
  | .other _ => .next c

/-- One pass through the `for` loop of `processEvents`, on the message the `select`
received. -/
def processEvents (cfg : Config) (env : Env) (o : Oracle) (c : Consumer) : RouterMsg → Outcome
  | .aggDCPFeed none => .exit { c with stopCheckpointing := c.stopCheckpointing + 1 }
  | .aggDCPFeed (some e) => handleDcpEvent cfg env o c e
  | .filterDataCh none => .exit { c with stopCheckpointing := c.stopCheckpointing + 1 }
  | .filterDataCh (some e) => handleFilterData cfg o c e
  | .stopConsumerCh => .exit c

/-! ## The feed registry and `dcpRequestStreamHandle` -/

/-- Modelled from the spec: `util.StrSliceDiff` (not under src): the entries of the first
list that are not in the second. -/
def StrSliceDiff (kv1 kv2 : List String) : List String :=
  kv1.filter fun s => !kv2.contains s

/-- The function `clearUpOwnershipInfoFromMeta`. -/
def clearUpOwnershipInfoFromMeta (cfg : Config) (o : Oracle) (c : Consumer) (vb : Nat) :
    Consumer × Option Err :=
  let vbKey := cfg.vbKey vb
  if o.retryTimeout (.getOpCallback vb 0) then (c, some Err.ErrRetryTimeout)
  else
    let vbBlob := o.getOp vb 0
    let vbBlob := { vbBlob with
      AssignedWorker := ""
      CurrentVBOwner := ""
      DCPStreamStatus := dcpStreamStopped
      NodeUUID := ""
      PreviousAssignedWorker := cfg.ConsumerName
      PreviousNodeUUID := cfg.NodeUUID
      PreviousVBOwner := cfg.HostPortAddr }
    let entry : OwnershipEntry :=
      { AssignedWorker := cfg.ConsumerName
        CurrentVBOwner := cfg.HostPortAddr
        Operation := dcpStreamStopped
        Timestamp := o.now }
    if o.retryTimeout (.addOwnershipHistorySECallback vb) then (c, some Err.ErrRetryTimeout)
    else
      let c := c.logMetaOp (.addOwnershipHistorySECallback (cfg.AddMetadataPrefix vbKey) entry)
      if o.retryTimeout (.updateCheckpointCallback vb) then (c, some Err.ErrRetryTimeout)
      else
        let c := c.logMetaOp (.updateCheckpointCallback (cfg.AddMetadataPrefix vbKey) vbBlob)
        let c := c.updateVbStat vb fun st => { st with
          assigned_worker := vbBlob.AssignedWorker
          current_vb_owner := vbBlob.CurrentVBOwner
          dcp_stream_status := vbBlob.DCPStreamStatus
          node_uuid := vbBlob.NodeUUID }
        (c, none)

/-- The loop `for _, vb := range vbsMetadataToUpdate` of `cleanupStaleDcpFeedHandles`. -/
def clearUpAll (cfg : Config) (o : Oracle) : Consumer → List Nat → Consumer × Option Err
  | c, [] => (c, none)
  | c, vb :: vbs =>
    match clearUpOwnershipInfoFromMeta cfg o c vb with
    | (c, some Err.ErrRetryTimeout) => (c, some Err.ErrRetryTimeout)
    | (c, _) => clearUpAll cfg o c vbs

/-- The loop `for _, kvAddr := range kvAddrDcpFeedsToClose` of
`cleanupStaleDcpFeedHandles`. -/
def closeStaleFeeds (cfg : Config) (o : Oracle) : Consumer → List String → Consumer × Option Err
  | c, [] => (c, none)
  | c, kvAddr :: kvAddrs =>
    let feed := c.kvHostDcpFeedMap.lookup kvAddr
    let c :=
      match feed with
      | some f => { c with closedFeeds := c.closedFeeds ++ [f] }
      | none => c
    let vbsMetadataToUpdate :=
      match feed with
      | some f => c.dcpFeedVbMap f
      | none => []
    let c := { c with kvHostDcpFeedMap := c.kvHostDcpFeedMap.filter fun kf => kf.1 ≠ kvAddr }
    match clearUpAll cfg o c vbsMetadataToUpdate with
    | (c, some err) => (c, some err)
    | (c, none) => closeStaleFeeds cfg o c kvAddrs

/-- The function `cleanupStaleDcpFeedHandles`.  Go ranges over a map in no fixed order;
here the hosts come in the order of the association lists. -/
def cleanupStaleDcpFeedHandles (cfg : Config) (o : Oracle) (c : Consumer) :
    Consumer × Option Err :=
  let kvAddrListPerVbMap := (c.kvVbMap.map Prod.snd).dedup
  let kvHostDcpFeedMapEntries := c.kvHostDcpFeedMap.map Prod.fst
  let kvAddrDcpFeedsToClose := StrSliceDiff kvHostDcpFeedMapEntries kvAddrListPerVbMap
  let populated : Consumer × Option Err :=
    if kvAddrDcpFeedsToClose.length > 0 then
      if o.retryTimeout .populateDcpFeedVbEntriesCallback then (c, some Err.ErrRetryTimeout)
      else ({ c with dcpFeedVbMap := o.dcpFeedVbMap }, none)
    else (c, none)
  match populated with
  | (c, some err) => (c, some err)
  | (c, none) => closeStaleFeeds cfg o c kvAddrDcpFeedsToClose

/-- The lookup `c.kvVbMap[vb]`, the empty string for a vbucket that has no entry. -/
def Consumer.kvAddrOf (c : Consumer) (vb : Nat) : String :=
  (c.kvVbMap.lookup vb).getD ""

/-- Modelled from the spec: `startDCPFeedOpCallback` (not under src), which creates the
feed of the given name for a KV host and registers it in `kvHostDcpFeedMap`. -/
def Consumer.startDCPFeedOp (c : Consumer) (feedName kvAddr : String) : Consumer :=
  { c with
    kvHostDcpFeedMap := (c.kvHostDcpFeedMap.filter fun kf => kf.1 ≠ kvAddr) ++ [(kvAddr, feedName)] }

/-- The block of `dcpRequestStreamHandle` under `c.hostDcpFeedRWMutex`, followed by
`c.vbDcpFeedMap[vb] = dcpFeed`: the feed registered for the KV host, or a new feed started
through `startDCPFeedOpCallback` (with `addToAggChan`, which spawns the reader). -/
def lookupOrStartFeed (cfg : Config) (o : Oracle) (c : Consumer) (vb : Nat) (vbKvAddr : String) :
    Consumer × Except (Option Err) (String × String) :=
  match c.kvHostDcpFeedMap.lookup vbKvAddr with
  | some dcpFeed =>
    ({ c with vbDcpFeedMap := Function.update c.vbDcpFeedMap vb (some dcpFeed) },
      .ok (vbKvAddr, dcpFeed))
  | none =>
    let feedName := cfg.HostPortAddr ++ "_" ++ vbKvAddr ++ "_" ++ cfg.workerName
    if o.retryTimeout .startDCPFeedOpCallback then (c, .error (some Err.ErrRetryTimeout))
    else
      let c := c.startDCPFeedOp feedName vbKvAddr
      ({ c with vbDcpFeedMap := Function.update c.vbDcpFeedMap vb (some feedName) },
        .ok (vbKvAddr, feedName))

/-- The first part of `dcpRequestStreamHandle`, up to `c.vbDcpFeedMap[vb] = dcpFeed`:
refresh of the vbucket map, cleanup of stale feeds, and the feed for the vbucket's KV host.
It yields the state and either the value of an early `return` or `vbKvAddr` and
`dcpFeed`. -/
def ensureDcpFeed (cfg : Config) (o : Oracle) (c : Consumer) (vb : Nat) :
    Consumer × Except (Option Err) (String × String) :=
  if o.isTerminateRunning 0 then (c, .error none)
  else
    match o.refresh 0 with
    | some err => (c, .error (some err))
    | none =>
      if o.retryTimeout .getKvVbMap then (c, .error (some Err.ErrRetryTimeout))
      else
        let c := { c with kvVbMap := o.kvVbMap }
        let vbKvAddr := c.kvAddrOf vb
        match cleanupStaleDcpFeedHandles cfg o c with
        | (c, some Err.ErrRetryTimeout) => (c, .error (some Err.ErrRetryTimeout))
        | (c, _) => lookupOrStartFeed cfg o c vb vbKvAddr

/-- The branch `if err != nil` after the call of `DcpRequestStream`. -/
def requestStreamFailed (o : Oracle) (c : Consumer) (vb : Nat) (vbKvAddr dcpFeed : String)
    (err : Err) : Consumer × Option Err :=
  let c := { c with dcpStreamReqErrCounter := c.dcpStreamReqErrCounter + 1 }
  let c := c.purgeVbStreamRequested vb
  let c :=
    if o.checkIfCurrentConsumerShouldOwnVb vb then
      { c with vbsRemainingToRestream := c.vbsRemainingToRestream ++ [vb] }
    else c
  if err = Err.ErrorInvalidVbucket then (c, some err)
  else
    let c := { c with
      closedFeeds := c.closedFeeds ++ [dcpFeed]
      kvHostDcpFeedMap := c.kvHostDcpFeedMap.filter fun kf => kf.1 ≠ vbKvAddr }
    (c, some err)

/-- The branch `else` after the call of `DcpRequestStream`: the request went out. -/
def requestStreamIssued (cfg : Config) (o : Oracle) (c : Consumer) (vb : Nat) (start : Nat) :
    Consumer × Option Err :=
  let c := { c with inflightDcpStreams := insert vb c.inflightDcpStreams }
  let entry : OwnershipEntry :=
    { AssignedWorker := cfg.ConsumerName
      CurrentVBOwner := cfg.HostPortAddr
      Operation := dcpStreamRequested
      SeqNo := start
      Timestamp := o.now }
  let vbKey := cfg.vbKey vb
  if o.retryTimeout (.addOwnershipHistorySRRCallback vb) then (c, some Err.ErrRetryTimeout)
  else
    let c := c.logMetaOp (.addOwnershipHistorySRRCallback (cfg.AddMetadataPrefix vbKey) entry)
    let c := c.updateVbStat vb fun st => { st with
      vb_stream_request_metadata_updated := some true
      dcp_stream_requested := true
      dcp_stream_requested_worker := cfg.ConsumerName
      dcp_stream_requested_node_uuid := cfg.NodeUUID }
    (c, none)

/-- The call `dcpFeed.DcpRequestStream(vb, opaque, flags, vbBlob.VBuuid, start, end,
snapStart, snapEnd)` with the counter incremented before it: the call is logged, and the
ghost counter of the vbucket's unresolved requests goes up by one. -/
def Consumer.callDcpRequestStream (c : Consumer) (dcpFeed : String) (vb : Nat)
    (vbBlob : vbucketKVBlob) (start : Nat) : Consumer :=
  let opaq := vb
  let flags := 0
  let end_ := 0xFFFFFFFFFFFFFFFF
  let snapStart := start
  let snapEnd := start
  let call : StreamRequestCall :=
    { feed := dcpFeed, vb := vb, opaq := opaq, flags := flags, vbuuid := vbBlob.VBuuid,
      start := start, end_ := end_, snapStart := snapStart, snapEnd := snapEnd }
  { c with
    dcpStreamReqCounter := c.dcpStreamReqCounter + 1
    streamRequests := c.streamRequests ++ [call]
    unresolvedStreamReqs :=
      Function.update c.unresolvedStreamReqs vb (c.unresolvedStreamReqs vb + 1) }

/-- The second part of `dcpRequestStreamHandle`, from `if c.dcpFeedsClosed` on. -/
def requestStream (cfg : Config) (o : Oracle) (c : Consumer) (vb : Nat)
    (vbBlob : vbucketKVBlob) (start : Nat) (vbKvAddr dcpFeed : String) : Consumer × Option Err :=
  if c.dcpFeedsClosed then (c, some Err.errDcpFeedsClosed)
  else if vb ∈ c.vbStreamRequested then (c, none)
  else
    let c := { c with vbStreamRequested := insert vb c.vbStreamRequested }
    match o.refresh 1 with
    | some err => (c, some err)
    | none =>
      if o.isTerminateRunning 1 then (c, some (Err.other "function is terminating"))
      else
        let c := c.callDcpRequestStream dcpFeed vb vbBlob start
        match o.dcpRequestStream with
        | some err => requestStreamFailed o c vb vbKvAddr dcpFeed err
        | none => requestStreamIssued cfg o c vb start

/-- The function `dcpRequestStreamHandle`: the state it leaves and the error it returns. -/
def dcpRequestStreamHandle (cfg : Config) (o : Oracle) (c : Consumer) (vb : Nat)
    (vbBlob : vbucketKVBlob) (start : Nat) : Consumer × Option Err :=
  match ensureDcpFeed cfg o c vb with
  | (c, .error r) => (c, r)
  | (c, .ok (vbKvAddr, dcpFeed)) => requestStream cfg o c vb vbBlob start vbKvAddr dcpFeed

/-! ## The failover-log handler, `handleFailoverLog` -/

/-- Modelled from the spec: `checkIfAlreadyEnqueued` (not under src), membership in the
dedup set `enqueueMap`. -/
def Consumer.checkIfAlreadyEnqueued (c : Consumer) (vb : Nat) : Bool :=
  decide (vb ∈ c.enqueueMap)

/-- Modelled from the spec: `addToEnqueueMap` (not under src), insertion in the dedup set
`enqueueMap`. -/
def Consumer.addToEnqueueMap (c : Consumer) (vb : Nat) : Consumer :=
  { c with enqueueMap := insert vb c.enqueueMap }

/-- The send `c.reqStreamCh <- &streamRequestInfo{…}`. -/
def Consumer.sendReqStream (c : Consumer) (msg : streamRequestInfo) : Consumer :=
  { c with reqStreamCh := c.reqStreamCh ++ [msg] }

/-- One pass through the `for` loop of `handleFailoverLog`, on the entry received from
`vbFlogChan`. -/
def handleFailoverLog (o : Oracle) (c : Consumer) (vbFlog : vbFlogEntry) : Outcome :=
  let c := { c with inflightDcpStreams := c.inflightDcpStreams.erase vbFlog.vb }
  if vbFlog.signalStreamEnd then .next c
  else if !vbFlog.streamReqRetry && vbFlog.statusCode = Status.SUCCESS then .next c
  else if vbFlog.streamReqRetry then
    if o.retryTimeout (.getOpCallback vbFlog.vb 0) then .exit c
    else
      let vbBlob := o.getOp vbFlog.vb 0
      if o.retryTimeout (.getEFFailoverLogOpAllVbucketsCallback vbFlog.vb) then .exit c
      else
        let flogs := o.flogs
        let latest : Except Err (vbucketKVBlob × Nat) :=
          match flogs vbFlog.vb with
          | some flog =>
            match flog.Latest with
            | .error err => .error err
            | .ok (vbuuid, startSeqNo) => .ok ({ vbBlob with VBuuid := vbuuid }, startSeqNo)
          | none => .ok (vbBlob, 0)
        match latest with
        | .error _ =>
          .next { c with vbsRemainingToRestream := c.vbsRemainingToRestream ++ [vbFlog.vb] }
        | .ok (vbBlob, startSeqNo) =>
          if vbFlog.statusCode = Status.ROLLBACK then
            if c.checkIfAlreadyEnqueued vbFlog.vb then .next c
            else
              let c := c.addToEnqueueMap vbFlog.vb
              let c := c.sendReqStream
                { vb := vbFlog.vb, vbBlob := vbBlob, startSeqNo := vbFlog.seqNo }
              .next (c.updateVbStat vbFlog.vb fun st =>
                { st with start_seq_no := startSeqNo, timestamp := o.now })
          else
            if c.checkIfAlreadyEnqueued vbFlog.vb then .next c
            else
              let c := c.addToEnqueueMap vbFlog.vb
              let c := c.sendReqStream
                { vb := vbFlog.vb, vbBlob := vbBlob, startSeqNo := startSeqNo }
              .next (c.updateVbStat vbFlog.vb fun st =>
                { st with start_seq_no := 0, timestamp := o.now })
  else .next c

/-! ## Interleavings of the stream-request path -/

/-- The steps that read or write `vbStreamRequested`: a call of `dcpRequestStreamHandle`,
a pass of the router, and the branch of the restart-stream tick of `controlRoutine` taken
when `updateVbOwnerAndStartDCPStream` returned an error. -/
inductive Step where
  | dcpRequestStreamHandle (vb : Nat) (vbBlob : vbucketKVBlob) (start : Nat)
  | processEvents (msg : RouterMsg)
  | restreamFailed (vb : Nat)

/-- The branch `if err != nil { … }` of the restart-stream tick of `controlRoutine`, up
to the append to the local slice `vbsFailedToStartStream`. -/
def restreamFailed (c : Consumer) (vb : Nat) : Consumer :=
  c.purgeVbStreamRequested vb

/-- The state after one step; a routine that panicked leaves the state as it found it. -/
def step (cfg : Config) (env : Env) (c : Consumer) : Oracle × Step → Consumer
  | (o, .dcpRequestStreamHandle vb vbBlob start) =>
    (dcpRequestStreamHandle cfg o c vb vbBlob start).1
  | (o, .processEvents msg) => ((processEvents cfg env o c msg).state?).getD c
  | (_, .restreamFailed vb) => restreamFailed c vb

/-- The state after a sequence of steps, each with its own oracle. -/
def run (cfg : Config) (env : Env) (c : Consumer) (steps : List (Oracle × Step)) : Consumer :=
  steps.foldl (step cfg env) c

/-- What a pass of a routine that started in state `c` forwarded to the JS worker: the
entries it appended to the log of `sendDcpEvent` calls. -/
def Outcome.forwarded (c : Consumer) (out : Outcome) : List (DcpEvent × Bool) :=
  match out.state? with
  | some c1 => c1.sentDcpEvents.drop c.sentDcpEvents.length
  | none => []

/-- The state in which the arm for mutations and deletions forwards or drops an event
that is not filtered: `last_read_seq_no` is set and the debugger block has run. -/
def Consumer.afterRead (c : Consumer) (o : Oracle) (e : DcpEvent) : Consumer :=
  (c.updateVbStat e.VBucket fun st => { st with last_read_seq_no := e.Seqno }).debuggerHandshake o

/-- The state after one pass of the router; a pass that panicked leaves the state as it
found it. -/
def routerStep (cfg : Config) (env : Env) (c : Consumer) (om : Oracle × RouterMsg) : Consumer :=
  ((processEvents cfg env om.1 c om.2).state?).getD c

/-- The successive values of `last_processed_seq_no` of a vbucket: before the first pass of
the router and after each pass. -/
def lastProcessedSeqNos (cfg : Config) (env : Env) (vb : Nat) :
    Consumer → List (Oracle × RouterMsg) → List Nat
  | c, [] => [(c.vbProcessingStats vb).last_processed_seq_no]
  | c, om :: rest =>
    (c.vbProcessingStats vb).last_processed_seq_no ::
      lastProcessedSeqNos cfg env vb (routerStep cfg env c om) rest

/-- Every filter-data entry of the sequence carries a sequence number that is not below
the `last_processed_seq_no` stored for its vbucket when the router handles it. -/
def filterDataNotBelow (cfg : Config) (env : Env) :
    Consumer → List (Oracle × RouterMsg) → Prop
  | _, [] => True
  | c, om :: rest =>
    (match om.2 with
      | .filterDataCh (some e) => (c.vbProcessingStats e.Vbucket).last_processed_seq_no ≤ e.SeqNo
      | _ => True) ∧
    filterDataNotBelow cfg env (routerStep cfg env c om) rest

/-- The stream-request guard is left alone between two states: the same
`vbStreamRequested`, the same ghost counters and the same log of `DcpRequestStream`
calls. -/
def Consumer.reqFrame (c c1 : Consumer) : Prop :=
  c1.vbStreamRequested = c.vbStreamRequested ∧
  c1.unresolvedStreamReqs = c.unresolvedStreamReqs ∧
  c1.streamRequests = c.streamRequests

/-- The invariant of the stream-request guard: a vbucket has no unresolved request, or it
has exactly one and is in `vbStreamRequested`. -/
def Consumer.reqInv (c : Consumer) : Prop :=
  ∀ vb, c.unresolvedStreamReqs vb = 0 ∨
    (c.unresolvedStreamReqs vb = 1 ∧ vb ∈ c.vbStreamRequested)

/-! ## Sample inputs

Concrete instances on which the statements below are evaluated. -/

/-- A sample instance of the library functions: a checksum that adds the bytes up, a
decoder that reads `cas` and `digest` from the first two bytes, and a conversion that
reads a decimal number. -/
def sampleEnv : Env where
  crc32 := fun b => (b.map Fin.val).sum
  jsonUnmarshal := fun b x =>
    match b with
    | c :: d :: _ => ({ Cas := toString c.val, Digest := d.val }, false)
    | _ => (x, true)
  ConvertBigEndianToUint64 := fun s =>
    match s.toList with
    | [] => .error (.other "invalid cas")
    | chars => .ok (chars.foldl (fun n ch => 10 * n + (ch.toNat - 48)) 0)

/-- A sample consumer configuration; the handler UUID 7 gives the xattr key `"7"`. -/
def sampleConfig : Config :=
  { AppName := "app", HandlerUUID := 7, workerName := "worker_app_0",
    hostPortAddr := "127.0.0.1:8096", uuid := "node-a", metadataPrefix := "eventing::",
    usingTimer := false, numVbuckets := 1024 }

/-- A sample JSON+XATTR value: total xattr length 9, one frame of length 5 holding the
key `"7"`, a separator, the two bytes 9 (cas) and 6 (digest) and the closing byte, and
then the body. -/
def sampleXattrValue (body : Bytes) : Bytes :=
  [0, 0, 0, 9, 0, 0, 0, 5, 55, 0, 9, 6, 0] ++ body

/-- A sample mutation for vbucket 3 with sequence number 42. -/
def sampleMutation (datatype : Nat) (value : Bytes) (cas : Nat) : DcpEvent :=
  { Opcode := Opcode.DCP_MUTATION, VBucket := 3, Key := [], Value := value, Seqno := 42,
    Cas := cas, Datatype := datatype, FailoverLog := ⟨[]⟩, Status := Status.SUCCESS }

/-- A sample STREAMREQ response for vbucket 9. -/
def sampleStreamReq (status : Status) (flog : List (Nat × Nat)) : DcpEvent :=
  { Opcode := Opcode.DCP_STREAMREQ, VBucket := 9, Key := [], Value := [], Seqno := 0,
    Cas := 0, Datatype := 0, FailoverLog := ⟨flog⟩, Status := status }

/-- A sample state in which a stream request for vbucket 9 is outstanding: the vbucket is
in `vbStreamRequested` and `inflightDcpStreams`, its flag
`vb_stream_request_metadata_updated` is set, and its `last_processed_seq_no` is 500. -/
def sampleRequested : Consumer :=
  { vbStreamRequested := {9}
    inflightDcpStreams := {9}
    unresolvedStreamReqs := fun vb => if vb = 9 then 1 else 0
    vbProcessingStats := fun vb =>
      if vb = 9 then
        { last_processed_seq_no := 500, vb_stream_request_metadata_updated := some true }
      else {} }

/-- A sample state in which the stream of vbucket 9 is running and owned by this
consumer: sequence numbers up to 42 were read and 40 is recorded as processed. -/
def sampleStreaming : Consumer :=
  { vbStreamRequested := {9}
    unresolvedStreamReqs := fun vb => if vb = 9 then 1 else 0
    vbProcessingStats := fun vb =>
      if vb = 9 then
        { last_read_seq_no := 42, last_processed_seq_no := 40,
          assigned_worker := "worker_app_0", current_vb_owner := "127.0.0.1:8096",
          dcp_stream_status := "running", node_uuid := "node-a" }
      else {} }

/-- A sample STREAMEND event for vbucket 9. -/
def sampleStreamEnd : DcpEvent :=
  { Opcode := Opcode.DCP_STREAMEND, VBucket := 9, Key := [], Value := [], Seqno := 0,
    Cas := 0, Datatype := 0, FailoverLog := ⟨[]⟩, Status := Status.SUCCESS }

/-- Handling the STREAMEND of vbucket 9 and its filter-data signal `(9, 42)` once, while
the planner still assigns the vbucket to this consumer. -/
def sampleStreamEndHandling : List (Oracle × Step) :=
  [({}, .processEvents (.aggDCPFeed (some sampleStreamEnd))),
   ({}, .processEvents (.filterDataCh (some ⟨9, 42⟩)))]

/-- A sample retry entry for vbucket 9, as the router posts it on a failed STREAMREQ. -/
def sampleRetryEntry (status : Status) : vbFlogEntry :=
  { flog := some ⟨[(77, 100)]⟩, statusCode := status, streamReqRetry := true, vb := 9 }

/-- A sample oracle in which the upstream failover log of vbucket 9 has the latest entry
`(78, 120)`. -/
def sampleFlogOracle : Oracle :=
  { flogs := fun vb => if vb = 9 then some ⟨[(78, 120), (77, 100)]⟩ else none }

/-- A sample interleaving for vbucket 9: a stream request is issued, a second call finds
the vbucket in `vbStreamRequested`, the STREAMREQ response reports ROLLBACK, and a third
call issues a new request. -/
def sampleInterleaving : List (Oracle × Step) :=
  [({}, .dcpRequestStreamHandle 9 {} 500),
   ({}, .dcpRequestStreamHandle 9 {} 500),
   ({}, .processEvents (.aggDCPFeed (some (sampleStreamReq Status.ROLLBACK [(77, 100)])))),
   ({}, .dcpRequestStreamHandle 9 {} 100)]

/-- A sample JSON mutation. -/
def sampleJsonMutation (vb seqno : Nat) : DcpEvent :=
  { Opcode := Opcode.DCP_MUTATION, VBucket := vb, Key := [], Value := [123, 125],
    Seqno := seqno, Cas := 1, Datatype := dcpDatatypeJSON, FailoverLog := ⟨[]⟩,
    Status := Status.SUCCESS }

/-- A sample history of vbucket 9, from the initial state: a stream is requested from 0
and opened, a mutation with sequence number 10 is read, the stream ends and its
filter-data signal `(9, 10)` is handled; after a rollback a stream is requested from 3 and
opened, a mutation with sequence number 5 is read, and the stream ends. -/
def sampleRollbackHistory : List (Oracle × Step) :=
  [({}, .dcpRequestStreamHandle 9 {} 0),
   ({}, .processEvents (.aggDCPFeed (some (sampleStreamReq Status.SUCCESS [(77, 0)])))),
   ({}, .processEvents (.aggDCPFeed (some (sampleJsonMutation 9 10)))),
   ({}, .processEvents (.aggDCPFeed (some sampleStreamEnd))),
   ({}, .processEvents (.filterDataCh (some ⟨9, 10⟩))),
   ({}, .dcpRequestStreamHandle 9 {} 3),
   ({}, .processEvents (.aggDCPFeed (some (sampleStreamReq Status.SUCCESS [(78, 3), (77, 0)])))),
   ({}, .processEvents (.aggDCPFeed (some (sampleJsonMutation 9 5)))),
   ({}, .processEvents (.aggDCPFeed (some sampleStreamEnd)))]

/-! ## The stream request processor, `processReqStreamMessages` -/

/-- Modelled from the spec: `checkIfVbAlreadyOwnedByCurrConsumer` (not under src): the
vbucket is owned when `assigned_worker` and `node_uuid` in the state store name this
consumer, the test that `getCurrentlyOwnedVbs` applies. -/
def Consumer.checkIfVbAlreadyOwnedByCurrConsumer (cfg : Config) (c : Consumer) (vb : Nat) :
    Bool :=
  decide ((c.vbProcessingStats vb).assigned_worker = cfg.ConsumerName) &&
    decide ((c.vbProcessingStats vb).node_uuid = cfg.NodeUUID)

/-- Modelled from the spec: `deleteFromEnqueueMap` (not under src), removal from the
dedup set `enqueueMap`. -/
def Consumer.deleteFromEnqueueMap (c : Consumer) (vb : Nat) : Consumer :=
  { c with enqueueMap := c.enqueueMap.erase vb }

/-- Modelled from the spec: `util.Contains` (not under src), membership in a slice. -/
def Contains (vb : Nat) (vbs : List Nat) : Bool := vbs.contains vb

/-- The body of the goroutine that `processReqStreamMessages` starts and waits for: the
call of `dcpRequestStreamHandle` with the fields of the message, and the append to
`vbsRemainingToRestream` on an error other than the retry timeout. -/
def requestStreamFor (cfg : Config) (o : Oracle) (c : Consumer) (msg : streamRequestInfo) :
    Consumer :=
  match dcpRequestStreamHandle cfg o c msg.vb msg.vbBlob msg.startSeqNo with
  | (c, some Err.ErrRetryTimeout) => c
  | (c, some _) =>
    if !Contains msg.vb c.vbsRemainingToRestream then
      { c with vbsRemainingToRestream := c.vbsRemainingToRestream ++ [msg.vb] }
    else c
  | (c, none) => c

/-- One pass through the `for` loop of `processReqStreamMessages`, on what the receive
from `reqStreamCh` yielded; `none` is the closed channel, on which `msg` is nil and the
first statement reads `msg.vb`.  The call of `cleanupVbMetadata` (not under src) is
logged. -/
def processReqStreamMessages (cfg : Config) (o : Oracle) (c : Consumer) :
    Option streamRequestInfo → Outcome
  | none => .panic
  | some msg =>
    let c := c.deleteFromEnqueueMap msg.vb
    if !o.checkIfCurrentConsumerShouldOwnVb msg.vb then
      let c := { c with cleanedVbMetadata := c.cleanedVbMetadata ++ [msg.vb] }
      if o.retryTimeout (.cleanupVbMetadata msg.vb) then .exit c
      else .next c
    else if c.checkIfVbAlreadyOwnedByCurrConsumer cfg msg.vb then .next c
    else if o.isPlannerRunning then
      let c :=
        if !Contains msg.vb c.vbsRemainingToRestream then
          { c with vbsRemainingToRestream := c.vbsRemainingToRestream ++ [msg.vb] }
        else c
      let c :=
        if !Contains msg.vb c.vbsRemainingToCleanup then
          { c with vbsRemainingToCleanup := c.vbsRemainingToCleanup ++ [msg.vb] }
        else c
      .next c
    else if msg.vb ∈ c.inflightDcpStreams then .next c
    else .next (requestStreamFor cfg o c msg)

/-- The arm `case msg, ok := <-c.reqStreamCh` on an open channel: the oldest item is taken
from the channel and handled; with nothing in the channel the routine waits. -/
def reqStreamReceive (cfg : Config) (o : Oracle) (c : Consumer) : Outcome :=
  match c.reqStreamCh with
  | [] => .spin c
  | msg :: rest => processReqStreamMessages cfg o { c with reqStreamCh := rest } (some msg)

/-- A sample state in which vbucket 9 is queued once in `vbsRemainingToRestream`, its
stream having ended. -/
def sampleQueued : Consumer :=
  { vbsRemainingToRestream := [9]
    vbProcessingStats := fun vb =>
      if vb = 9 then { last_read_seq_no := 42, last_processed_seq_no := 42 } else {} }

/-- A sample oracle in which `DcpRequestStream` returns an error. -/
def sampleRequestFails : Oracle :=
  { dcpRequestStream := some (Err.other "stream request failed") }

/-- A sample oracle in which the upstream returns a failover log without entries for
vbucket 9. -/
def sampleNoFlogOracle : Oracle :=
  { flogs := fun vb => if vb = 9 then some ⟨[]⟩ else none }

/-- A sample oracle in which the planner assigns no vbucket to this consumer. -/
def sampleNotOwner : Oracle :=
  { checkIfCurrentConsumerShouldOwnVb := fun _ => false }

/-- A sample oracle in which the planner is running. -/
def samplePlannerRunning : Oracle :=
  { isPlannerRunning := true }

/-- The sets and queues of the control plane that the feed registry does not touch are
left alone between two states. -/
structure Consumer.queueFrame (c c1 : Consumer) : Prop where
  inflight : c1.inflightDcpStreams = c.inflightDcpStreams
  enqueued : c1.enqueueMap = c.enqueueMap
  toRestream : c1.vbsRemainingToRestream = c.vbsRemainingToRestream
  toClose : c1.vbsRemainingToClose = c.vbsRemainingToClose
  toCleanup : c1.vbsRemainingToCleanup = c.vbsRemainingToCleanup
  reqCh : c1.reqStreamCh = c.reqStreamCh
  flogCh : c1.vbFlogChan = c.vbFlogChan
  filtered : c1.filterVbEvents = c.filterVbEvents
  feedsClosed : c1.dcpFeedsClosed = c.dcpFeedsClosed
  cleaned : c1.cleanedVbMetadata = c.cleanedVbMetadata

/-- A sample oracle in which `DcpRequestStream` returns the invalid-vbucket error. -/
def sampleInvalidVbucket : Oracle :=
  { dcpRequestStream := some Err.ErrorInvalidVbucket }

/-- A sample oracle in which the vbucket map places vbucket 9 on the KV host
`10.0.0.1:11210` and `DcpRequestStream` returns the given error, if any. -/
def sampleKv (err : Option Err) : Oracle :=
  { kvVbMap := [(9, "10.0.0.1:11210")], dcpRequestStream := err }

/-! ## Bootstrap of the streams, `startDcp` -/

/-- The call `sort.Sort(util.Uint16Slice(·))`: the vbuckets in ascending order. -/
def sortVbs (vbs : List Nat) : List Nat :=
  vbs.insertionSort (· ≤ ·)

/-- The body of the loop `for _, vb := range flogVbs` of `startDcp`, on the state and the
local slice `vbs`: the state and slice it leaves and, when the function returns from inside
the loop, the error returned; `none` is a run-time panic (`vbSeqnos[int(vb)]` out of
range).  The blob is the one `getOpCallback` leaves in `vbBlob`, also when it reports
that no document exists; the version that `vbucketKVBlobVer` adds to the blob is left out
of the logged write. -/
def startDcpVb (cfg : Config) (o : Oracle) (vbSeqnos : List Nat)
    (flogs : List (Nat × FailoverLog)) (c : Consumer) (vbs : List Nat) (vb : Nat) :
    Option (Consumer × List Nat × Option Err) :=
  let latest : Except Err (Nat × Nat) :=
    match flogs.lookup vb with
    | some flog => flog.Latest
    | none => .error (.other "invalid failover log")
  match latest with
  | .error _ => some (c, vbs, none)
  | .ok (vbuuid, _) =>
    let vbKey := cfg.vbKey vb
    let start := 0
    if o.retryTimeout (.getOpCallback vb 0) then some (c, vbs, some Err.ErrRetryTimeout)
    else
      let vbBlob := o.getOp vb 0
      if o.isNoEnt vb 0 then
        let vbBlob := { vbBlob with
          VBuuid := vbuuid
          VBId := vb
          AssignedWorker := cfg.ConsumerName
          CurrentVBOwner := cfg.HostPortAddr
          PreviousAssignedWorker := cfg.ConsumerName
          PreviousNodeUUID := cfg.NodeUUID
          PreviousVBOwner := cfg.HostPortAddr }
        let entry : OwnershipEntry :=
          { AssignedWorker := cfg.ConsumerName
            CurrentVBOwner := cfg.HostPortAddr
            Operation := dcpStreamBootstrap
            Timestamp := o.now }
        let vbBlob := { vbBlob with
          OwnershipHistory := vbBlob.OwnershipHistory ++ [entry]
          CurrentProcessedDocIDTimer := o.now
          LastProcessedDocIDTimerEvent := o.now
          NextDocIDTimerToProcess := o.nowPlusSecond }
        if o.retryTimeout (.setOpCallback vb) then some (c, vbs, some Err.ErrRetryTimeout)
        else
          let c := c.logMetaOp (.setOpCallback (cfg.AddMetadataPrefix vbKey) vbBlob)
          if c.checkIfAlreadyEnqueued vb then some (c, vbs, none)
          else
            let c := c.addToEnqueueMap vb
            let vbs := vbs ++ [vb]
            match cfg.dcpStreamBoundary with
            | .DcpEverything =>
              let c := c.sendReqStream { vb := vb, vbBlob := vbBlob, startSeqNo := 0 }
              some (c.updateVbStat vb fun st =>
                { st with start_seq_no := start, timestamp := o.now }, vbs, none)
            | .DcpFromNow =>
              match vbSeqnos.get? vb with
              | none => none
              | some seqNo =>
                let c := c.sendReqStream { vb := vb, vbBlob := vbBlob, startSeqNo := seqNo }
                some (c.updateVbStat vb fun st =>
                  { st with start_seq_no := start, timestamp := o.now }, vbs, none)
            | .other _ => some (c, vbs, none)
      else
        if (vbBlob.NodeUUID = cfg.NodeUUID ∨ vbBlob.NodeUUID = "") ∧
            (vbBlob.AssignedWorker = cfg.ConsumerName ∨ vbBlob.AssignedWorker = "") then
          if c.checkIfAlreadyEnqueued vb then some (c, vbs, none)
          else
            let c := c.addToEnqueueMap vb
            let vbs := vbs ++ [vb]
            let c := c.sendReqStream
              { vb := vb, vbBlob := vbBlob, startSeqNo := vbBlob.LastSeqNoProcessed }
            some (c.updateVbStat vb fun st =>
              { st with start_seq_no := vbBlob.LastSeqNoProcessed, timestamp := o.now },
              vbs, none)
        else some (c, vbs, none)

/-- The loop `for _, vb := range flogVbs` of `startDcp`. -/
def startDcpLoop (cfg : Config) (o : Oracle) (vbSeqnos : List Nat)
    (flogs : List (Nat × FailoverLog)) :
    Consumer → List Nat → List Nat → Option (Consumer × List Nat × Option Err)
  | c, vbs, [] => some (c, vbs, none)
  | c, vbs, vb :: rest =>
    match startDcpVb cfg o vbSeqnos flogs c vbs vb with
    | none => none
    | some (c, vbs, some err) => some (c, vbs, some err)
    | some (c, vbs, none) => startDcpLoop cfg o vbSeqnos flogs c vbs rest

/-- The function `startDcp` on the failover-log map `flogs` (an association list; a key
stands for its first binding): the state it leaves and the error it returns; `none` is a
run-time panic.  The effects of `getEventingNodeAddrOpCallback` and the call of
`checkIfVbStreamsOpenedCallback` (neither under src) are not modelled beyond the log of
the latter. -/
def startDcp (cfg : Config) (o : Oracle) (c : Consumer) (flogs : List (Nat × FailoverLog)) :
    Option (Consumer × Option Err) :=
  if o.isTerminateRunning 0 then some (c, some (Err.other "terminate routine is running"))
  else if o.retryTimeout .getEventingNodeAddrOpCallback then some (c, some Err.ErrRetryTimeout)
  else
    let vbSeqnos := o.bucketSeqnos.1
    if o.bucketSeqnos.2 ≠ none ∧ cfg.dcpStreamBoundary ≠ DcpStreamBoundary.DcpEverything then
      some (c, none)
    else
      let flogVbs := sortVbs (flogs.map Prod.fst).dedup
      match startDcpLoop cfg o vbSeqnos flogs c [] flogVbs with
      | none => none
      | some (c, _, some err) => some (c, some err)
      | some (c, vbs, none) =>
        let c := { c with streamsOpenedChecks := c.streamsOpenedChecks ++ [vbs] }
        if o.retryTimeout .checkIfVbStreamsOpenedCallback then (some (c, some Err.ErrRetryTimeout))
        else some (c, none)

/-- The steps that read or write `enqueueMap` or `reqStreamCh`: a pass of
`handleFailoverLog`, a call of `startDcp`, a receive of `processReqStreamMessages` with the
handling of the item, and, for the steps that leave both alone, a pass of the router and a
direct call of `dcpRequestStreamHandle`. -/
inductive EnqueueStep where
  | handleFailoverLog (vbFlog : vbFlogEntry)
  | startDcp (flogs : List (Nat × FailoverLog))
  | reqStreamReceive
  | processEvents (msg : RouterMsg)
  | dcpRequestStreamHandle (vb : Nat) (vbBlob : vbucketKVBlob) (start : Nat)

/-- The state after one such step; a routine that panicked leaves the state as it found
it. -/
def enqueueStep (cfg : Config) (env : Env) (c : Consumer) : Oracle × EnqueueStep → Consumer
  | (o, .handleFailoverLog vbFlog) => ((handleFailoverLog o c vbFlog).state?).getD c
  | (o, .startDcp flogs) => ((startDcp cfg o c flogs).map Prod.fst).getD c
  | (o, .reqStreamReceive) => ((reqStreamReceive cfg o c).state?).getD c
  | (o, .processEvents msg) => routerStep cfg env c (o, msg)
  | (o, .dcpRequestStreamHandle vb vbBlob start) =>
    (dcpRequestStreamHandle cfg o c vb vbBlob start).1

/-- The state after a sequence of such steps, each with its own oracle. -/
def enqueueRun (cfg : Config) (env : Env) (c : Consumer)
    (steps : List (Oracle × EnqueueStep)) : Consumer :=
  steps.foldl (enqueueStep cfg env) c

/-- The invariant of the dedup set: the items pending in `reqStreamCh` are for distinct
vbuckets, and the vbucket of each is in `enqueueMap`. -/
def Consumer.enqueueInv (c : Consumer) : Prop :=
  (c.reqStreamCh.map fun msg => msg.vb).Nodup ∧ ∀ msg ∈ c.reqStreamCh, msg.vb ∈ c.enqueueMap

/-- A sample failover-log map for the vbuckets 9 and 3. -/
def sampleFlogs : List (Nat × FailoverLog) :=
  [(9, ⟨[(78, 120), (77, 100)]⟩), (3, ⟨[(55, 0)]⟩)]

/-- A sample oracle for `startDcp`: no metadata blob exists yet, and the upstream failover
log of vbucket 9 has the latest entry `(78, 120)`. -/
def sampleBootstrapOracle : Oracle :=
  { isNoEnt := fun _ _ => true
    flogs := fun vb => if vb = 9 then some ⟨[(78, 120), (77, 100)]⟩ else none }

/-- A sample run: `startDcp` on the sample map, a retry entry for vbucket 9 handled by
`handleFailoverLog` while the item of `startDcp` is pending, one receive, and the retry
entry again. -/
def sampleEnqueueRun : List (Oracle × EnqueueStep) :=
  [(sampleBootstrapOracle, .startDcp sampleFlogs),
   (sampleBootstrapOracle, .handleFailoverLog (sampleRetryEntry Status.ROLLBACK)),
   (sampleBootstrapOracle, .reqStreamReceive),
   (sampleBootstrapOracle, .handleFailoverLog (sampleRetryEntry Status.ROLLBACK))]

/-- What a sender does to the stream-request queue for the vbucket `vb`: it sends nothing
and removes nothing from `enqueueMap`, or the vbucket was not in `enqueueMap` and it sends
one item for the vbucket and adds the vbucket to `enqueueMap`. -/
def Consumer.enqueueEffect (c c1 : Consumer) (vb : Nat) : Prop :=
  (c1.reqStreamCh = c.reqStreamCh ∧ c.enqueueMap ⊆ c1.enqueueMap) ∨
  (vb ∉ c.enqueueMap ∧ c1.enqueueMap = insert vb c.enqueueMap ∧
    ∃ msg : streamRequestInfo, msg.vb = vb ∧ c1.reqStreamCh = c.reqStreamCh ++ [msg])

/-! ## The restart-stream tick of `controlRoutine` -/

/-- Modelled from the spec: `util.VbsSliceDiff` (not under src).  The spec writes the call
`util.VbsSliceDiff(vbsFailedToStartStream, vbsToRestream)` as the set difference
`vbsToRestream \ vbsFailedToStartStream`: the entries of the second slice that are not in
the first. -/
def VbsSliceDiff (X Y : List Nat) : List Nat :=
  Y.filter fun vb => !X.contains vb

/-- How a pass of the restart-stream tick ends. -/
inductive TickResult where
  /-- The arm is left (`continue` or the end of the arm). -/
  | done (c : Consumer)
  /-- The pass starts again (`goto retryVbsRemainingToRestream`). -/
  | retry (c : Consumer)
  /-- The routine returned `common.ErrRetryTimeout`. -/
  | exit (c : Consumer)

/-- The state a pass of the tick leaves. -/
def TickResult.state : TickResult → Consumer
  | .done c => c
  | .retry c => c
  | .exit c => c

/-- The body of the loop `for _, vb := range vbsRemainingToClose` of the tick, for a
vbucket that passed the two tests: the call of `DcpCloseStream` on the feed found in
`vbDcpFeedMap` (logged; its error is only logged by the source), the two stat updates and
the call of `updateCheckpoint` with a zero blob. -/
def closeStreamVb (cfg : Config) (o : Oracle) (c : Consumer) (vb : Nat) :
    Consumer × Option Err :=
  let c := { c with closeStreamCalls := c.closeStreamCalls ++ [(c.vbDcpFeedMap vb, vb, vb)] }
  let lastSeqNo := (c.vbProcessingStats vb).last_read_seq_no
  let c := c.updateVbStat vb fun st =>
    { st with seq_no_after_close_stream := lastSeqNo, timestamp := o.now }
  let vbBlob : vbucketKVBlob := {}
  let vbKey := cfg.vbKey vb
  if o.retryTimeout (.updateCheckpoint vb 0) then (c, some Err.ErrRetryTimeout)
  else (c.logMetaOp (.updateCheckpoint vbKey vb vbBlob), none)

/-- The loop `for _, vb := range vbsRemainingToClose` of the tick, over the sorted
snapshot. -/
def closeStreams (cfg : Config) (o : Oracle) : Consumer → List Nat → Consumer × Option Err
  | c, [] => (c, none)
  | c, vb :: rest =>
    if !c.checkIfVbAlreadyOwnedByCurrConsumer cfg vb then closeStreams cfg o c rest
    else if o.checkIfCurrentConsumerShouldOwnVb vb then closeStreams cfg o c rest
    else
      match closeStreamVb cfg o c vb with
      | (c, some err) => (c, some err)
      | (c, none) => closeStreams cfg o c rest

/-- The body of the loop `for _, vb := range vbsToRestream` of the tick, for a vbucket
that passed the two tests, on the state and the local slice `vbsFailedToStartStream`.  The
call of `updateVbOwnerAndStartDCPStream` (not under src) is logged with its arguments and
its error comes from the oracle; what it does to the state is not modelled. -/
def restreamVb (cfg : Config) (o : Oracle) (c : Consumer) (failed : List Nat) (vb : Nat) :
    Consumer × List Nat × Option Err :=
  let vbKey := cfg.vbKey vb
  if o.retryTimeout (.getOpCallback vb 0) then (c, failed, some Err.ErrRetryTimeout)
  else
    let vbBlob := o.getOp vb 0
    let c := { c with restreamCalls := c.restreamCalls ++ [(vbKey, vb, vbBlob)] }
    if o.retryTimeout (.updateVbOwnerAndStartDCPStream vb) then
      (c, failed, some Err.ErrRetryTimeout)
    else
      match o.updateVbOwnerAndStartDCPStream vb with
      | some Err.ErrRetryTimeout => (c, failed, some Err.ErrRetryTimeout)
      | some _ => (c.purgeVbStreamRequested vb, failed ++ [vb], none)
      | none => (c, failed, none)

/-- The loop `for _, vb := range vbsToRestream` of the tick, over the sorted snapshot. -/
def restreamVbs (cfg : Config) (o : Oracle) :
    Consumer → List Nat → List Nat → Consumer × List Nat × Option Err
  | c, failed, [] => (c, failed, none)
  | c, failed, vb :: rest =>
    if c.checkIfVbAlreadyOwnedByCurrConsumer cfg vb then restreamVbs cfg o c failed rest
    else if !o.checkIfCurrentConsumerShouldOwnVb vb then restreamVbs cfg o c failed rest
    else
      match restreamVb cfg o c failed vb with
      | (c, failed, some err) => (c, failed, some err)
      | (c, failed, none) => restreamVbs cfg o c failed rest

/-- One pass of the arm `case <-c.restartVbDcpStreamTicker.C` of `controlRoutine`, from
the label `retryVbsRemainingToRestream` on, with nothing else writing the queues during
the pass.  The slice `diff` that is sorted at the end shares its array with
`c.vbsRemainingToRestream`, so the queue is left sorted. -/
def restartStreamTick (cfg : Config) (o : Oracle) (c : Consumer) : TickResult :=
  let vbsToRestream := c.vbsRemainingToRestream
  let vbsRemainingToClose := c.vbsRemainingToClose
  if vbsToRestream.length = 0 ∧ vbsRemainingToClose.length = 0 then .done c
  else if !o.appDeployed && !c.isBootstrapping then
    .done { c with vbsRemainingToRestream := [], vbsRemainingToClose := [] }
  else
    match closeStreams cfg o c (sortVbs vbsRemainingToClose) with
    | (c, some _) => .exit c
    | (c, none) =>
      let vbsToRestream := sortVbs vbsToRestream
      match restreamVbs cfg o c [] vbsToRestream with
      | (c, _, some _) => .exit c
      | (c, vbsFailedToStartStream, none) =>
        let vbsToRestream := VbsSliceDiff vbsFailedToStartStream vbsToRestream
        let diff := VbsSliceDiff vbsToRestream c.vbsRemainingToRestream
        let c := { c with vbsRemainingToRestream := sortVbs diff }
        if diff.length > 0 then .retry c else .done c

/-- A sample state for the tick: the vbuckets 42 and 7 are queued for closing and
vbucket 3 for a restart; this consumer owns the vbuckets 42 (read up to 900) and 7. -/
def sampleTickState : Consumer :=
  { vbsRemainingToClose := [42, 7]
    vbsRemainingToRestream := [3]
    vbDcpFeedMap := fun vb => if vb = 42 ∨ vb = 7 then some "feed_kv1" else none
    vbProcessingStats := fun vb =>
      if vb = 42 then
        { last_read_seq_no := 900, assigned_worker := "worker_app_0", node_uuid := "node-a" }
      else if vb = 7 then
        { last_read_seq_no := 15, assigned_worker := "worker_app_0", node_uuid := "node-a" }
      else {} }

/-- A sample oracle for the tick: the planner assigns vbucket 3 to this consumer and no
other vbucket. -/
def sampleTickOracle : Oracle :=
  { checkIfCurrentConsumerShouldOwnVb := fun vb => decide (vb = 3) }

/-- A sample oracle for the tick in which, in addition, the restart of vbucket 3 fails. -/
def sampleTickFails : Oracle :=
  { checkIfCurrentConsumerShouldOwnVb := fun vb => decide (vb = 3)
    updateVbOwnerAndStartDCPStream := fun vb =>
      if vb = 3 then some (Err.other "failed to start stream") else none }

/-- What the two loops of the tick leave alone between two states: the map from
vbuckets to feeds, the two queues, and, for every vbucket, the owner attributes and
`last_read_seq_no`. -/
structure Consumer.tickFrame (cfg : Config) (c c1 : Consumer) : Prop where
  feedMap : c1.vbDcpFeedMap = c.vbDcpFeedMap
  toRestream : c1.vbsRemainingToRestream = c.vbsRemainingToRestream
  toClose : c1.vbsRemainingToClose = c.vbsRemainingToClose
  owned : ∀ vb, c1.checkIfVbAlreadyOwnedByCurrConsumer cfg vb =
    c.checkIfVbAlreadyOwnedByCurrConsumer cfg vb
  lastRead : ∀ vb, (c1.vbProcessingStats vb).last_read_seq_no =
    (c.vbProcessingStats vb).last_read_seq_no

/-- The vbuckets of a list that this consumer owns and that the planner does not assign
to it. -/
def Consumer.ownedNotAssigned (cfg : Config) (o : Oracle) (c : Consumer) (l : List Nat) :
    List Nat :=
  l.filter fun vb =>
    c.checkIfVbAlreadyOwnedByCurrConsumer cfg vb && !o.checkIfCurrentConsumerShouldOwnVb vb

/-- Whether the tick tries to restart the stream of a vbucket and the call of
`updateVbOwnerAndStartDCPStream` returns an error: the vbucket is not owned by this
consumer, the planner assigns it to this consumer, and the oracle has an error for it. -/
def Consumer.restartFails (cfg : Config) (o : Oracle) (c : Consumer) (vb : Nat) : Bool :=
  !c.checkIfVbAlreadyOwnedByCurrConsumer cfg vb && o.checkIfCurrentConsumerShouldOwnVb vb &&
    (o.updateVbOwnerAndStartDCPStream vb).isSome

/-- Whether the pass starts again at once. -/
def TickResult.repeats : TickResult → Bool
  | .retry _ => true
  | _ => false

/-! ## Cleanup of stale feeds -/

/-- The writes that one call of `clearUpOwnershipInfoFromMeta` for a vbucket hands to the
checkpointer when nothing times out: the `stopped` history entry and the blob read with
the owner fields cleared and the previous-owner fields naming this consumer. -/
def clearUpWrites (cfg : Config) (o : Oracle) (vb : Nat) : List MetaOp :=
  [.addOwnershipHistorySECallback (cfg.AddMetadataPrefix (cfg.vbKey vb))
      { AssignedWorker := cfg.ConsumerName
        CurrentVBOwner := cfg.HostPortAddr
        Operation := dcpStreamStopped
        Timestamp := o.now },
   .updateCheckpointCallback (cfg.AddMetadataPrefix (cfg.vbKey vb))
      { o.getOp vb 0 with
        AssignedWorker := ""
        CurrentVBOwner := ""
        DCPStreamStatus := dcpStreamStopped
        NodeUUID := ""
        PreviousAssignedWorker := cfg.ConsumerName
        PreviousNodeUUID := cfg.NodeUUID
        PreviousVBOwner := cfg.HostPortAddr }]

/-- The in-memory owner attributes of a vbucket are cleared. -/
def Consumer.ownerCleared (c : Consumer) (vb : Nat) : Prop :=
  (c.vbProcessingStats vb).assigned_worker = "" ∧
  (c.vbProcessingStats vb).current_vb_owner = "" ∧
  (c.vbProcessingStats vb).dcp_stream_status = dcpStreamStopped ∧
  (c.vbProcessingStats vb).node_uuid = ""

/-- The writes that the cleanup of the feed of one KV host hands to the checkpointer: those
of `clearUpOwnershipInfoFromMeta` for the vbuckets that `dcpFeedVbMap` binds to the feed
registered for the host. -/
def staleFeedWrites (cfg : Config) (o : Oracle) (registry : List (String × String))
    (dcpFeedVbMap : String → List Nat) (kvAddr : String) : List MetaOp :=
  match registry.lookup kvAddr with
  | some feed => (dcpFeedVbMap feed).flatMap (clearUpWrites cfg o)
  | none => []

/-- A sample state with feeds registered for two KV hosts, of which only `10.0.0.1:11210`
is in the vbucket map; vbucket 5 is owned by this consumer. -/
def sampleFeeds : Consumer :=
  { kvVbMap := [(9, "10.0.0.1:11210")]
    kvHostDcpFeedMap := [("10.0.0.1:11210", "feed_kv1"), ("10.0.0.2:11210", "feed_kv2")]
    vbProcessingStats := fun vb =>
      if vb = 5 then
        { assigned_worker := "worker_app_0", current_vb_owner := "127.0.0.1:8096",
          dcp_stream_status := "running", node_uuid := "node-a" }
      else {} }

/-- A sample oracle in which `populateDcpFeedVbEntriesCallback` binds the vbuckets 5 and 6
to the feed `feed_kv2`. -/
def sampleFeedOracle : Oracle :=
  { dcpFeedVbMap := fun feed => if feed = "feed_kv2" then [5, 6] else [] }

/-! ## The vbuckets owned by this consumer, `getCurrentlyOwnedVbs` -/

/-- The conversion `uint16(vb)` of an `int`. -/
def toUint16 (vb : Nat) : Nat := vb % 65536

/-- The function `getCurrentlyOwnedVbs`: the loop over `0 ≤ vb < c.numVbuckets` that
appends `uint16(vb)` when `assigned_worker` and `node_uuid` of `uint16(vb)` name this
consumer, and the sort that follows. -/
def getCurrentlyOwnedVbs (cfg : Config) (c : Consumer) : List Nat :=
  let vbsOwned := ((List.range cfg.numVbuckets).filter fun vb =>
    decide ((c.vbProcessingStats (toUint16 vb)).assigned_worker = cfg.ConsumerName) &&
      decide ((c.vbProcessingStats (toUint16 vb)).node_uuid = cfg.NodeUUID)).map toUint16
  sortVbs vbsOwned

/-! ## The close queue over passes of the tick -/

/-- A sequence of passes of the restart-stream tick, one oracle per pass, each pass
starting from the state the pass before it left (a repeated pass after
`goto retryVbsRemainingToRestream` is one more pass of the sequence). -/
def tickPasses (cfg : Config) : List Oracle → Consumer → Consumer
  | [], c => c
  | o :: rest, c => tickPasses cfg rest (restartStreamTick cfg o c).state

/-- The test of the early exit of the tick (control_routine.go:100) on a state:
`len(vbsToRestream) == 0 && len(vbsRemainingToClose) == 0`. -/
def Consumer.bothQueuesEmpty (c : Consumer) : Bool :=
  decide (c.vbsRemainingToRestream.length = 0 ∧ c.vbsRemainingToClose.length = 0)

/-! ## The in-flight byte counter `aggDCPFeedMem` -/

/-- The arm `case e, ok := <-dcpFeed.C` of the goroutine of `addToAggChan`, for
`ok == true`, on the consumer state and the content of the channel `c.aggDCPFeed`: unless
the terminate routine runs, the counter is raised by `len(e.Value)` and the event is sent.
The sleep above the cap changes nothing. -/
def addToAggChan (o : Oracle) (c : Consumer) (aggDCPFeed : List DcpEvent) (e : DcpEvent) :
    Consumer × List DcpEvent :=
  if !o.isTerminateRunning 0 then
    ({ c with aggDCPFeedMem := c.aggDCPFeedMem + (e.Value.length : Int) }, aggDCPFeed ++ [e])
  else (c, aggDCPFeed)

/-- A step on the aggregated channel: a feed reader puts an event on it, or the router
receives from it. -/
inductive FeedStep where
  | enqueue (e : DcpEvent)
  | receive

/-- One step on the consumer state and the content of the channel `c.aggDCPFeed`.  A
receive takes the oldest event and runs the pass of `processEvents` on it (with nothing
in the channel the router waits); `none` when the pass panicked. -/
def feedStep (cfg : Config) (env : Env) (s : Consumer × List DcpEvent)
    (os : Oracle × FeedStep) : Option (Consumer × List DcpEvent) :=
  match os.2 with
  | .enqueue e => some (addToAggChan os.1 s.1 s.2 e)
  | .receive =>
    match s.2 with
    | [] => some s
    | e :: rest =>
      ((processEvents cfg env os.1 s.1 (.aggDCPFeed (some e))).state?).map fun c => (c, rest)

/-- A sequence of steps on the aggregated channel, each with its oracle. -/
def feedRun (cfg : Config) (env : Env) :
    List (Oracle × FeedStep) → Consumer × List DcpEvent → Option (Consumer × List DcpEvent)
  | [], s => some s
  | os :: rest, s =>
    match feedStep cfg env s os with
    | none => none
    | some s1 => feedRun cfg env rest s1

/-- The sum of the value lengths of the events in the channel. -/
def inFlightBytes (aggDCPFeed : List DcpEvent) : Int :=
  (aggDCPFeed.map fun e => (e.Value.length : Int)).sum

/-- A sample run on the aggregated channel: a JSON mutation (2 bytes) and an xattr
mutation (15 bytes) are put on the channel, the first is received, a STREAMEND event
(0 bytes) is put on the channel, and the two events left are received. -/
def sampleFeedRun : List (Oracle × FeedStep) :=
  [({}, .enqueue (sampleJsonMutation 3 5)),
   ({}, .enqueue (sampleMutation dcpDatatypeJSONXattr (sampleXattrValue [123, 125]) 1)),
   ({}, .receive),
   ({}, .enqueue sampleStreamEnd),
   ({}, .receive),
   ({}, .receive)]

/-! ## The layout of a JSON+XATTR value -/

/-- The four bytes of a `uint32` in big-endian order, what `binary.BigEndian.Uint32`
reads back. -/
def be32 (n : Nat) : Bytes :=
  [Fin.ofNat (n / 2 ^ 24), Fin.ofNat (n / 2 ^ 16), Fin.ofNat (n / 2 ^ 8), Fin.ofNat n]

/-- The xattr region made of the given frames: for each frame the 4-byte big-endian frame
length `F` and then the `F` bytes of the frame. -/
def xattrRegion : List Bytes → Bytes
  | [] => []
  | f :: rest => be32 f.length ++ (f ++ xattrRegion rest)

/-- A JSON+XATTR value: the 4-byte big-endian total length `L` of the region, the region
and the document body. -/
def xattrValue (frames : List Bytes) (body : Bytes) : Bytes :=
  be32 (xattrRegion frames).length ++ (xattrRegion frames ++ body)

/-- What one iteration of the frame loop does to `xMeta` on a frame of `F` bytes:
`frameData` is `totalXattrData[4 : 4+F-1]`, the frame without its last byte, and the
tests and the call of `json.Unmarshal` are those of lines 118 to 127. -/
def frameMeta (env : Env) (pfx : Bytes) (xMeta : xattrMetadata) (f : Bytes) : xattrMetadata :=
  if f.dropLast.length > pfx.length then
    if f.dropLast.take pfx.length = pfx then
      (env.jsonUnmarshal (f.dropLast.drop (pfx.length + 1)) xMeta).1
    else xMeta
  else xMeta

/-! ## Eventing frames -/

/-- Modelled from the spec: the key of a frame, the bytes before its first zero byte
(`F bytes = key\0value`). -/
def frameKey (f : Bytes) : Bytes :=
  f.takeWhile fun b => b != 0

/-- The bytes of the JSON text of an object with `cas` the string `0x1` and `digest` the
number 3, without blanks. -/
def sampleXattrJson : Bytes :=
  [123, 34, 99, 97, 115, 34, 58, 34, 48, 120, 49, 34, 44, 34, 100, 105, 103, 101, 115, 116,
   34, 58, 51, 125]

/-- A sample instance of the library functions whose decoder accepts the text
`sampleXattrJson`, and returns an error and leaves the target as it is on any other
input. -/
def sampleJsonEnv : Env where
  crc32 := sampleEnv.crc32
  jsonUnmarshal := fun b x =>
    if b = sampleXattrJson then ({ Cas := "0x1", Digest := 3 }, false) else (x, true)
  ConvertBigEndianToUint64 := sampleEnv.ConvertBigEndianToUint64

/-! ## The bootstrap of the streams, vbucket by vbucket -/

/-- The blob that the body of the loop of `startDcp` builds and writes when the metadata
blob of the vbucket is missing (lines 646 to 669), from the blob variable as
`getOpCallback` left it. -/
def startDcpBlob (cfg : Config) (o : Oracle) (vbuuid vb : Nat) : vbucketKVBlob :=
  { o.getOp vb 0 with
    VBuuid := vbuuid
    VBId := vb
    AssignedWorker := cfg.ConsumerName
    CurrentVBOwner := cfg.HostPortAddr
    PreviousAssignedWorker := cfg.ConsumerName
    PreviousNodeUUID := cfg.NodeUUID
    PreviousVBOwner := cfg.HostPortAddr
    OwnershipHistory := (o.getOp vb 0).OwnershipHistory ++
      [{ AssignedWorker := cfg.ConsumerName
         CurrentVBOwner := cfg.HostPortAddr
         Operation := dcpStreamBootstrap
         Timestamp := o.now }]
    CurrentProcessedDocIDTimer := o.now
    LastProcessedDocIDTimerEvent := o.now
    NextDocIDTimerToProcess := o.nowPlusSecond }

/-- The test of line 719 on the blob read for a vbucket: the node is this node or unset,
and the worker is this consumer or unset. -/
def startDcpOwnable (cfg : Config) (o : Oracle) (vb : Nat) : Prop :=
  ((o.getOp vb 0).NodeUUID = cfg.NodeUUID ∨ (o.getOp vb 0).NodeUUID = "") ∧
    ((o.getOp vb 0).AssignedWorker = cfg.ConsumerName ∨ (o.getOp vb 0).AssignedWorker = "")

/-- What the body of the loop of `startDcp` does for one vbucket, in terms of the writes
`ops` and the items `items` it adds, of whether the vbucket was in `enqueueMap` and of the
value `stat` of `start_seq_no` afterwards: every item is for the vbucket and there is at
most one; every write is a `setOpCallback` for the vbucket, made when the blob was
missing; with the blob missing the write is that of `startDcpBlob`, and the item starts
from 0 when the vbucket was not enqueued and the boundary is `everything`; with the blob
present nothing is written, an item is sent exactly when the test of line 719 holds and
the vbucket was not enqueued, and it starts from `LastSeqNoProcessed`, as the stat says. -/
def startDcpVbFacts (cfg : Config) (o : Oracle) (flogs : List (Nat × FailoverLog)) (vb : Nat)
    (enqueued : Prop) (stat : Nat) (ops : List MetaOp) (items : List streamRequestInfo) :
    Prop :=
  (∀ it ∈ items, it.vb = vb) ∧ items.length ≤ 1 ∧
  (∀ op ∈ ops, o.isNoEnt vb 0 = true ∧
    ∃ blob, op = MetaOp.setOpCallback (cfg.AddMetadataPrefix (cfg.vbKey vb)) blob) ∧
  (∀ flog vbuuid seq, flogs.lookup vb = some flog → flog.Latest = .ok (vbuuid, seq) →
    o.isNoEnt vb 0 = true →
    ops = [MetaOp.setOpCallback (cfg.AddMetadataPrefix (cfg.vbKey vb))
      (startDcpBlob cfg o vbuuid vb)] ∧
    (¬ enqueued → cfg.dcpStreamBoundary = DcpStreamBoundary.DcpEverything →
      items = [{ vb := vb, vbBlob := startDcpBlob cfg o vbuuid vb, startSeqNo := 0 }])) ∧
  (∀ flog vbuuid seq, flogs.lookup vb = some flog → flog.Latest = .ok (vbuuid, seq) →
    o.isNoEnt vb 0 = false →
    (items ≠ [] ↔ (startDcpOwnable cfg o vb ∧ ¬ enqueued)) ∧
    ∀ it ∈ items,
      it = { vb := vb, vbBlob := o.getOp vb 0,
             startSeqNo := (o.getOp vb 0).LastSeqNoProcessed } ∧
      stat = (o.getOp vb 0).LastSeqNoProcessed)

/-! ## Facts about the xattr decoder -/

theorem bigEndianUint32_lt {b : Bytes} {n : Nat} (h : bigEndianUint32 b = some n) :
    n < 2 ^ 32 := by
  match b, h with
  | b0 :: b1 :: b2 :: b3 :: _, h =>
    simp only [bigEndianUint32, Option.some.injEq] at h
    have h0 := b0.isLt
    have h1 := b1.isLt
    have h2 := b2.isLt
    have h3 := b3.isLt
    omega
  | [], h => simp [bigEndianUint32] at h
  | [_], h => simp [bigEndianUint32] at h
  | [_, _], h => simp [bigEndianUint32] at h
  | [_, _, _], h => simp [bigEndianUint32] at h

theorem slice_eq_some {b r : Bytes} {lo hi : Nat} (h : slice b lo hi = some r) :
    lo ≤ hi ∧ hi ≤ b.length ∧ r = (b.take hi).drop lo := by
  unfold slice at h
  by_cases hb : lo ≤ hi ∧ hi ≤ b.length
  · rw [if_pos hb] at h
    simp only [Option.some.injEq] at h
    exact ⟨hb.1, hb.2, h.symm⟩
  · rw [if_neg hb] at h
    simp at h

theorem sliceFrom_eq_some {b r : Bytes} {lo : Nat} (h : sliceFrom b lo = some r) :
    lo ≤ b.length ∧ r = b.drop lo := by
  unfold sliceFrom at h
  by_cases hb : lo ≤ b.length
  · rw [if_pos hb] at h
    simp only [Option.some.injEq] at h
    exact ⟨hb, h.symm⟩
  · rw [if_neg hb] at h
    simp at h

/-- One iteration of the frame loop that does not panic decodes at least five bytes,
stays within `totalXattrLen`, and leaves data no longer than what remains to decode. -/
theorem xattrFrame_some (env : Env) (pfx : Bytes) (L : Nat) (hL : L < 2 ^ 32)
    {data d1 : Bytes} {bd bd2 : Nat} {x x1 : xattrMetadata}
    (hinv : data.length + bd + 1 ≤ L)
    (h : xattrFrame env pfx L data bd x = some (d1, bd2, x1)) :
    bd + 5 ≤ bd2 ∧ bd2 ≤ L ∧ (bd2 < L → d1.length + bd2 + 1 ≤ L) := by
  unfold xattrFrame at h
  cases hbe : bigEndianUint32 data with
  | none => rw [hbe] at h; cases h
  | some F =>
    rw [hbe] at h
    simp only at h
    have hFlt := bigEndianUint32_lt hbe
    cases hslice : slice data 4 (u32sub (u32add 4 F) 1) with
    | none => rw [hslice] at h; cases h
    | some frameData =>
      rw [hslice] at h
      simp only at h
      obtain ⟨hlo, hhi, _⟩ := slice_eq_some hslice
      have hF4 : u32add 4 F = 4 + F := by
        unfold u32add u32sub at *
        omega
      have hbd2 : u32add (u32add bd 4) F = bd + 4 + F := by
        unfold u32add u32sub at *
        omega
      have hle : 3 + F ≤ data.length := by
        unfold u32add u32sub at *
        omega
      have hF1 : 1 ≤ F := by
        unfold u32add u32sub at *
        omega
      by_cases hlt2 : u32add (u32add bd 4) F < L
      · rw [if_pos hlt2] at h
        cases hrest : sliceFrom data (u32add 4 F) with
        | none => rw [hrest] at h; cases h
        | some data1 =>
          rw [hrest] at h
          simp only [Option.some.injEq, Prod.mk.injEq] at h
          obtain ⟨h1, h2, _⟩ := h
          obtain ⟨hlen, hdata1⟩ := sliceFrom_eq_some hrest
          subst h1 h2
          rw [hbd2]
          refine ⟨by omega, by omega, ?_⟩
          intro _
          rw [hdata1, List.length_drop, hF4]
          omega
      · rw [if_neg hlt2] at h
        simp only [Option.some.injEq, Prod.mk.injEq] at h
        obtain ⟨h1, h2, _⟩ := h
        subst h1 h2
        rw [hbd2] at hlt2 ⊢
        refine ⟨by omega, by omega, ?_⟩
        intro hc
        omega

/-- The frame loop ends within its fuel: with `bytesDecoded ≤ totalXattrLen`, the data left
no longer than what remains to decode, and more fuel than bytes left, the loop does not
run out of fuel. -/
theorem xattrLoop_fuel (env : Env) (pfx : Bytes) (L : Nat) (hL : L < 2 ^ 32) :
    ∀ (fuel : Nat) (data : Bytes) (bd : Nat) (x : xattrMetadata),
      bd ≤ L → (bd < L → data.length + bd + 1 ≤ L) → L < bd + fuel →
      xattrLoop env pfx L fuel data bd x ≠ XattrLoop.outOfFuel := by
  intro fuel
  induction fuel with
  | zero => intro data bd x h1 _ h3; omega
  | succ fuel ih =>
    intro data bd x h1 h2 h3
    unfold xattrLoop
    by_cases hlt : bd < L
    · rw [if_pos hlt]
      cases hframe : xattrFrame env pfx L data bd x with
      | none => simp
      | some r =>
        obtain ⟨d1, bd2, x1⟩ := r
        obtain ⟨ha, hb, hc⟩ := xattrFrame_some env pfx L hL (h2 hlt) hframe
        exact ih d1 bd2 x1 hb hc (by omega)
    · rw [if_neg hlt]
      simp

/-- The decoder of the `dcpDatatypeJSONXattr` arm never runs out of fuel. -/
theorem decodeXattrs_fuel (env : Env) (pfx value : Bytes) :
    (decodeXattrs env pfx value).2 ≠ XattrLoop.outOfFuel := by
  unfold decodeXattrs
  cases hbe : bigEndianUint32 value with
  | none => simp
  | some L =>
    have hLlt := bigEndianUint32_lt hbe
    cases hslice : slice value 4 (u32sub (u32add 4 L) 1) with
    | none => simp only [hslice]; simp
    | some data =>
      obtain ⟨hlo, hhi, hdata⟩ := slice_eq_some hslice
      simp only [hslice]
      apply xattrLoop_fuel env pfx L hLlt
      · omega
      · intro _
        rw [hdata, List.length_drop, List.length_take]
        unfold u32add u32sub at *
        omega
      · unfold u32add u32sub at *
        omega

/-! ## Dropping of filtered events -/

/-- C1: a DCP_MUTATION or DCP_DELETION event whose vbucket is in `filterVbEvents` is not
forwarded to the JS worker (the log of `sendDcpEvent` calls is unchanged), the per-vbucket
state store is unchanged (so `last_read_seq_no` and `last_processed_seq_no` keep their
values), and nothing is handed to the checkpointer; the router goes on to the next
message. -/
theorem filtered_event_is_dropped (cfg : Config) (env : Env) (o : Oracle) (c : Consumer)
    (e : DcpEvent)
    (hop : e.Opcode = Opcode.DCP_MUTATION ∨ e.Opcode = Opcode.DCP_DELETION)
    (hf : e.VBucket ∈ c.filterVbEvents) :
    ∃ c1, processEvents cfg env o c (.aggDCPFeed (some e)) = .next c1 ∧
      c1.sentDcpEvents = c.sentDcpEvents ∧
      c1.vbProcessingStats = c.vbProcessingStats ∧
      (c1.vbProcessingStats e.VBucket).last_read_seq_no =
        (c.vbProcessingStats e.VBucket).last_read_seq_no ∧
      (c1.vbProcessingStats e.VBucket).last_processed_seq_no =
        (c.vbProcessingStats e.VBucket).last_processed_seq_no ∧
      c1.metaOps = c.metaOps := by
  have hf1 : e.VBucket ∈ (c.countDcpEvent e).filterVbEvents := hf
  refine ⟨c.countDcpEvent e, ?_, rfl, rfl, rfl, rfl, rfl⟩
  rcases hop with hop | hop
  · simp only [processEvents, handleDcpEvent, hop, handleMutation, hf1, if_true]
  · simp only [processEvents, handleDcpEvent, hop, handleDeletion, hf1, if_true]

/-- Witness of C1: a mutation for vbucket 3 while vbucket 3 is filtered. -/
theorem filtered_event_is_dropped_witness :
    ∃ c1, processEvents sampleConfig sampleEnv {} { filterVbEvents := {3} }
        (.aggDCPFeed (some (sampleMutation dcpDatatypeJSON [1, 2] 0))) = .next c1 ∧
      c1.sentDcpEvents = [] ∧
      c1.vbProcessingStats = (fun _ => {}) ∧
      (c1.vbProcessingStats 3).last_read_seq_no = 0 ∧
      (c1.vbProcessingStats 3).last_processed_seq_no = 0 ∧
      c1.metaOps = [] :=
  filtered_event_is_dropped sampleConfig sampleEnv {} { filterVbEvents := {3} }
    (sampleMutation dcpDatatypeJSON [1, 2] 0) (Or.inl rfl) (by decide)

/-! ## Mutations that carry extended attributes -/

theorem processEvents_mutation (cfg : Config) (env : Env) (o : Oracle) (c : Consumer)
    (e : DcpEvent) (hop : e.Opcode = Opcode.DCP_MUTATION) :
    processEvents cfg env o c (.aggDCPFeed (some e)) =
      handleMutation cfg env o (c.countDcpEvent e) e := by
  simp only [processEvents, handleDcpEvent, hop]

theorem forwarded_next_append (c c1 : Consumer) (l : List (DcpEvent × Bool))
    (h : c1.sentDcpEvents = c.sentDcpEvents ++ l) :
    (Outcome.next c1).forwarded c = l := by
  simp only [Outcome.forwarded, Outcome.state?, h, List.drop_left]

theorem forwarded_next_same (c c1 : Consumer) (h : c1.sentDcpEvents = c.sentDcpEvents) :
    (Outcome.next c1).forwarded c = [] :=
  forwarded_next_append c c1 [] (by rw [h, List.append_nil])

theorem forwarded_panic (c : Consumer) : Outcome.panic.forwarded c = [] := rfl

theorem debuggerHandshake_sent (c : Consumer) (o : Oracle) :
    (c.debuggerHandshake o).sentDcpEvents = c.sentDcpEvents := by
  unfold Consumer.debuggerHandshake
  by_cases h : c.debuggerState = DebuggerState.startDebug
  · rw [if_pos h]
  · rw [if_neg h]

theorem debuggerHandshake_stats (c : Consumer) (o : Oracle) :
    (c.debuggerHandshake o).vbProcessingStats = c.vbProcessingStats := by
  unfold Consumer.debuggerHandshake
  by_cases h : c.debuggerState = DebuggerState.startDebug
  · rw [if_pos h]
  · rw [if_neg h]

theorem decodeXattrs_len {env : Env} {pfx value : Bytes} {L : Nat} {r : XattrLoop}
    (h : decodeXattrs env pfx value = (some L, r)) : bigEndianUint32 value = some L := by
  unfold decodeXattrs at h
  cases hbe : bigEndianUint32 value with
  | none => rw [hbe] at h; simp only [Prod.mk.injEq] at h; exact absurd h.1 (by simp)
  | some L1 =>
    rw [hbe] at h
    cases hslice : slice value 4 (u32sub (u32add 4 L1) 1) with
    | none => simp only [hslice, Prod.mk.injEq] at h; rw [h.1]
    | some data => simp only [hslice, Prod.mk.injEq] at h; rw [h.1]

theorem decodeXattrs_done_slice {env : Env} {pfx value : Bytes} {L : Nat} {x : xattrMetadata}
    (h : decodeXattrs env pfx value = (some L, XattrLoop.done x)) :
    ∃ data, slice value 4 (u32sub (u32add 4 L) 1) = some data := by
  have hbe := decodeXattrs_len h
  unfold decodeXattrs at h
  rw [hbe] at h
  cases hslice : slice value 4 (u32sub (u32add 4 L) 1) with
  | none =>
    simp only [hslice, Prod.mk.injEq] at h
    exact absurd h.2 (by simp)
  | some data => exact ⟨data, rfl⟩

theorem afterRead_sent (c : Consumer) (o : Oracle) (e : DcpEvent) :
    (c.afterRead o e).sentDcpEvents = c.sentDcpEvents := by
  unfold Consumer.afterRead
  rw [debuggerHandshake_sent]
  rfl

theorem afterRead_last_read (c : Consumer) (o : Oracle) (e : DcpEvent) :
    ((c.afterRead o e).vbProcessingStats e.VBucket).last_read_seq_no = e.Seqno := by
  unfold Consumer.afterRead
  rw [debuggerHandshake_stats]
  simp only [Consumer.updateVbStat, Function.update_same]

/-- What the router does with a JSON+XATTR mutation that is not filtered, once the frame
loop has left `xMeta` with a `Cas` that converts to `cas`. -/
theorem handleMutation_xattr_cas (cfg : Config) (env : Env) (o : Oracle) (c : Consumer)
    (e : DcpEvent) (L : Nat) (xMeta : xattrMetadata) (cas : Nat)
    (hnf : e.VBucket ∉ c.filterVbEvents)
    (hdt : e.Datatype = dcpDatatypeJSONXattr)
    (hdec : decodeXattrs env (xattrprefixOf cfg) e.Value = (some L, XattrLoop.done xMeta))
    (hcas : xMeta.Cas ≠ "")
    (hconv : env.ConvertBigEndianToUint64 xMeta.Cas = .ok cas) :
    handleMutation cfg env o c e =
      (if cas ≠ e.Cas then
         match sliceFrom e.Value (u32add 4 L) with
         | none => Outcome.panic
         | some value =>
           if env.crc32 value ≠ xMeta.Digest then
             Outcome.next ({ c.afterRead o e with
               dcpMutationCounter := (c.afterRead o e).dcpMutationCounter + 1 }.sendDcpEvent
               { e with Value := value })
           else Outcome.next (c.afterRead o e)
       else Outcome.next (c.afterRead o e)) := by
  have hne : ¬ dcpDatatypeJSONXattr = dcpDatatypeJSON := by decide
  simp only [handleMutation, hnf, hdt, hne, hdec, hcas, hconv, if_false, if_true, ne_eq,
    not_false_eq_true, Consumer.afterRead]

/-- What a JSON+XATTR mutation with a decoded eventing xattr makes the router forward. -/
theorem forwarded_xattr_cas (cfg : Config) (env : Env) (o : Oracle) (c : Consumer)
    (e : DcpEvent) (L : Nat) (xMeta : xattrMetadata) (cas : Nat)
    (hop : e.Opcode = Opcode.DCP_MUTATION)
    (hnf : e.VBucket ∉ c.filterVbEvents)
    (hdt : e.Datatype = dcpDatatypeJSONXattr)
    (hdec : decodeXattrs env (xattrprefixOf cfg) e.Value = (some L, XattrLoop.done xMeta))
    (hcas : xMeta.Cas ≠ "")
    (hconv : env.ConvertBigEndianToUint64 xMeta.Cas = .ok cas) :
    (processEvents cfg env o c (.aggDCPFeed (some e))).forwarded c =
      (if cas ≠ e.Cas then
         match sliceFrom e.Value (u32add 4 L) with
         | none => []
         | some value =>
           if env.crc32 value ≠ xMeta.Digest then
             [({ e with Value := value }, ((c.countDcpEvent e).afterRead o e).sendMsgToDebugger)]
           else []
       else []) := by
  have hnf1 : e.VBucket ∉ (c.countDcpEvent e).filterVbEvents := hnf
  have hs : ((c.countDcpEvent e).afterRead o e).sentDcpEvents = c.sentDcpEvents := by
    rw [afterRead_sent]
    rfl
  rw [processEvents_mutation cfg env o c e hop,
    handleMutation_xattr_cas cfg env o (c.countDcpEvent e) e L xMeta cas hnf1 hdt hdec hcas hconv]
  by_cases hc : cas ≠ e.Cas
  · rw [if_pos hc, if_pos hc]
    cases hsl : sliceFrom e.Value (u32add 4 L) with
    | none => rfl
    | some value =>
      simp only
      by_cases hd : env.crc32 value ≠ xMeta.Digest
      · rw [if_pos hd, if_pos hd]
        apply forwarded_next_append
        simp only [Consumer.sendDcpEvent, hs]
      · rw [if_neg hd, if_neg hd]
        exact forwarded_next_same _ _ hs
  · rw [if_neg hc, if_neg hc]
    exact forwarded_next_same _ _ hs

/-- C2: for a JSON+XATTR mutation that is not filtered and in which the frame loop decoded
an eventing xattr object whose `cas` converts to a `uint64`, the router forwards to the JS
worker if and only if `xattr.cas ≠ event.cas` and `crc32(value[4+L:]) ≠ xattr.digest`,
where `L` is the leading 4-byte big-endian length; what it forwards is the event with the
value `value[4+L:]`.  The sum `4+L` is taken in `uint32` as in the source; it is the plain
sum for every value shorter than `2^32 - 1` bytes. -/
theorem xattr_mutation_forwarded_iff (cfg : Config) (env : Env) (o : Oracle) (c : Consumer)
    (e : DcpEvent) (L : Nat) (xMeta : xattrMetadata) (cas : Nat)
    (hop : e.Opcode = Opcode.DCP_MUTATION)
    (hnf : e.VBucket ∉ c.filterVbEvents)
    (hdt : e.Datatype = dcpDatatypeJSONXattr)
    (hdec : decodeXattrs env (xattrprefixOf cfg) e.Value = (some L, XattrLoop.done xMeta))
    (hcas : xMeta.Cas ≠ "")
    (hconv : env.ConvertBigEndianToUint64 xMeta.Cas = .ok cas) :
    bigEndianUint32 e.Value = some L ∧
    (((processEvents cfg env o c (.aggDCPFeed (some e))).forwarded c ≠ []) ↔
      (cas ≠ e.Cas ∧
        ∃ body, sliceFrom e.Value (u32add 4 L) = some body ∧ env.crc32 body ≠ xMeta.Digest)) ∧
    (∀ body, sliceFrom e.Value (u32add 4 L) = some body →
      (processEvents cfg env o c (.aggDCPFeed (some e))).forwarded c ≠ [] →
      ((processEvents cfg env o c (.aggDCPFeed (some e))).forwarded c).map Prod.fst =
        [{ e with Value := body }]) ∧
    (e.Value.length < 2 ^ 32 - 1 → u32add 4 L = 4 + L) := by
  have hbe := decodeXattrs_len hdec
  have hfw := forwarded_xattr_cas cfg env o c e L xMeta cas hop hnf hdt hdec hcas hconv
  refine ⟨hbe, ?_, ?_, ?_⟩
  · rw [hfw]
    by_cases hc : cas ≠ e.Cas
    · rw [if_pos hc]
      cases hsl : sliceFrom e.Value (u32add 4 L) with
      | none => simp
      | some value =>
        by_cases hd : env.crc32 value ≠ xMeta.Digest
        · simp [hc, hd]
        · simp [hc, hd]
    · rw [if_neg hc]
      simp [hc]
  · intro body hsl
    rw [hfw, hsl]
    by_cases hc : cas ≠ e.Cas
    · rw [if_pos hc]
      by_cases hd : env.crc32 body ≠ xMeta.Digest
      · simp [hd]
      · simp [hd]
    · rw [if_neg hc]
      simp
  · intro hlen
    obtain ⟨data, hslice⟩ := decodeXattrs_done_slice hdec
    obtain ⟨hlo, hhi, _⟩ := slice_eq_some hslice
    have hL := bigEndianUint32_lt hbe
    unfold u32add u32sub at *
    omega

/-- Witness of C2: the sample value carries the xattr `{cas = 9, digest = 6}`; the event's
cas is 8 and the body `[1, 2, 4]` has checksum 7, so the mutation is forwarded with the
body as its value. -/
theorem xattr_mutation_forwarded_iff_witness :
    decodeXattrs sampleEnv (xattrprefixOf sampleConfig) (sampleXattrValue [1, 2, 4]) =
      (some 9, XattrLoop.done { Cas := "9", Digest := 6 }) ∧
    (((processEvents sampleConfig sampleEnv {} {}
        (.aggDCPFeed (some (sampleMutation dcpDatatypeJSONXattr (sampleXattrValue [1, 2, 4]) 8)))).forwarded
        {} ≠ []) ↔
      (9 ≠ 8 ∧ ∃ body, sliceFrom (sampleXattrValue [1, 2, 4]) (u32add 4 9) = some body ∧
        sampleEnv.crc32 body ≠ 6)) :=
  ⟨by decide,
   (xattr_mutation_forwarded_iff sampleConfig sampleEnv {} {}
      (sampleMutation dcpDatatypeJSONXattr (sampleXattrValue [1, 2, 4]) 8) 9
      { Cas := "9", Digest := 6 } 9 rfl (by decide) rfl (by decide) (by decide) rfl).2.1⟩

/-- C3: for a JSON+XATTR mutation that is not filtered and whose eventing xattr has a cas
equal to the event's cas (whatever its digest, in particular when the digest is the
checksum of the value without the xattr region), the router forwards nothing to the JS
worker, sets `last_read_seq_no` of the vbucket to the event's seqno, and goes on to the
next message. -/
theorem self_recursion_suppressed (cfg : Config) (env : Env) (o : Oracle) (c : Consumer)
    (e : DcpEvent) (L : Nat) (xMeta : xattrMetadata)
    (hop : e.Opcode = Opcode.DCP_MUTATION)
    (hnf : e.VBucket ∉ c.filterVbEvents)
    (hdt : e.Datatype = dcpDatatypeJSONXattr)
    (hdec : decodeXattrs env (xattrprefixOf cfg) e.Value = (some L, XattrLoop.done xMeta))
    (hcas : xMeta.Cas ≠ "")
    (hconv : env.ConvertBigEndianToUint64 xMeta.Cas = .ok e.Cas) :
    ∃ c1, processEvents cfg env o c (.aggDCPFeed (some e)) = .next c1 ∧
      c1.sentDcpEvents = c.sentDcpEvents ∧
      (c1.vbProcessingStats e.VBucket).last_read_seq_no = e.Seqno := by
  have hnf1 : e.VBucket ∉ (c.countDcpEvent e).filterVbEvents := hnf
  refine ⟨(c.countDcpEvent e).afterRead o e, ?_, ?_, afterRead_last_read _ o e⟩
  · rw [processEvents_mutation cfg env o c e hop,
      handleMutation_xattr_cas cfg env o (c.countDcpEvent e) e L xMeta e.Cas hnf1 hdt hdec hcas
        hconv]
    simp only [ne_eq, not_true_eq_false, if_false]
  · rw [afterRead_sent]
    rfl

/-- Witness of C3: the sample value carries the xattr `{cas = 9, digest = 6}`, the event's
cas is 9 and the body `[1, 2, 3]` has checksum 6. -/
theorem self_recursion_suppressed_witness :
    sampleEnv.crc32 [1, 2, 3] = 6 ∧
    ∃ c1, processEvents sampleConfig sampleEnv {} {}
        (.aggDCPFeed (some (sampleMutation dcpDatatypeJSONXattr (sampleXattrValue [1, 2, 3]) 9))) =
        .next c1 ∧
      c1.sentDcpEvents = [] ∧ (c1.vbProcessingStats 3).last_read_seq_no = 42 :=
  ⟨by decide,
   self_recursion_suppressed sampleConfig sampleEnv {} {}
      (sampleMutation dcpDatatypeJSONXattr (sampleXattrValue [1, 2, 3]) 9) 9
      { Cas := "9", Digest := 6 } rfl (by decide) rfl (by decide) (by decide) rfl⟩

/-! ## Stream-request responses -/

theorem processEvents_streamreq (cfg : Config) (env : Env) (o : Oracle) (c : Consumer)
    (e : DcpEvent) (hop : e.Opcode = Opcode.DCP_STREAMREQ) :
    processEvents cfg env o c (.aggDCPFeed (some e)) =
      handleStreamReq cfg o (c.countDcpEvent e) e := by
  simp only [processEvents, handleDcpEvent, hop]

/-- The STREAMREQ arm on status SUCCESS, with the flag observed true, a failover log that
has a latest entry and no retry timeout: what it posts, what it hands to the checkpointer
and what it writes. -/
theorem handleStreamReq_success (cfg : Config) (o : Oracle) (c : Consumer) (e : DcpEvent)
    (vbuuid seqNo : Nat)
    (hflag : (c.vbProcessingStats e.VBucket).vb_stream_request_metadata_updated = some true)
    (hst : e.Status = Status.SUCCESS)
    (hlatest : e.FailoverLog.Latest = .ok (vbuuid, seqNo))
    (hto : ∀ site, o.retryTimeout site = false)
    (htimer : o.timersCreate ≠ some Err.ErrRetryTimeout) :
    ∃ c2 : Consumer,
      handleStreamReq cfg o c e = .next c2 ∧
      c2.vbFlogChan = c.vbFlogChan ++
        [{ statusCode := e.Status, streamReqRetry := false, vb := e.VBucket }] ∧
      c2.metaOps = c.metaOps ++
        [.addOwnershipHistorySRSCallback (cfg.AddMetadataPrefix (cfg.vbKey e.VBucket))
          { o.getOp e.VBucket 0 with
            AssignedWorker := cfg.ConsumerName
            CurrentVBOwner := cfg.HostPortAddr
            DCPStreamStatus := dcpStreamRunning
            LastSeqNoProcessed := seqNo
            NodeUUID := cfg.uuid
            VBuuid := vbuuid }
          { AssignedWorker := cfg.ConsumerName
            CurrentVBOwner := cfg.HostPortAddr
            Operation := dcpStreamRunning
            SeqNo := (c.vbProcessingStats e.VBucket).last_processed_seq_no
            Timestamp := o.now }] ∧
      (c2.vbProcessingStats e.VBucket).vb_uuid = vbuuid ∧
      (c2.vbProcessingStats e.VBucket).last_checkpointed_seq_no =
        (c.vbProcessingStats e.VBucket).last_processed_seq_no ∧
      (c2.vbProcessingStats e.VBucket).last_processed_seq_no =
        (c.vbProcessingStats e.VBucket).last_processed_seq_no ∧
      c2.vbStreamRequested = c.vbStreamRequested ∧
      (o.checkIfCurrentConsumerShouldOwnVb e.VBucket = false →
        c2.filterVbEvents = insert e.VBucket c.filterVbEvents ∧
        c2.vbsRemainingToClose = c.vbsRemainingToClose ++ [e.VBucket]) ∧
      (o.checkIfCurrentConsumerShouldOwnVb e.VBucket = true →
        c2.filterVbEvents = c.filterVbEvents ∧
        c2.vbsRemainingToClose = c.vbsRemainingToClose) := by
  by_cases hown : o.checkIfCurrentConsumerShouldOwnVb e.VBucket = true
  · by_cases htm : cfg.usingTimer = true
    · simp only [handleStreamReq, hflag, hst, hlatest, hto, htimer, htm, hown, if_true, if_false,
        Bool.false_eq_true, Bool.not_true]
      refine ⟨_, rfl, ?_, ?_, ?_, ?_, ?_, ?_, ?_, ?_⟩ <;>
        simp [Consumer.updateVbStat, Consumer.postVbFlog, Consumer.logMetaOp]
    · simp only [handleStreamReq, hflag, hst, hlatest, hto, htm, hown, if_true, if_false,
        Bool.false_eq_true, Bool.not_true]
      refine ⟨_, rfl, ?_, ?_, ?_, ?_, ?_, ?_, ?_, ?_⟩ <;>
        simp [Consumer.updateVbStat, Consumer.postVbFlog, Consumer.logMetaOp]
  · have hown2 : o.checkIfCurrentConsumerShouldOwnVb e.VBucket = false := by
      cases h : o.checkIfCurrentConsumerShouldOwnVb e.VBucket with
      | true => exact absurd h hown
      | false => rfl
    by_cases htm : cfg.usingTimer = true
    · simp only [handleStreamReq, hflag, hst, hlatest, hto, htimer, htm, hown2, if_true, if_false,
        Bool.false_eq_true, Bool.not_false]
      refine ⟨_, rfl, ?_, ?_, ?_, ?_, ?_, ?_, ?_, ?_⟩ <;>
        simp [Consumer.updateVbStat, Consumer.postVbFlog, Consumer.logMetaOp]
    · simp only [handleStreamReq, hflag, hst, hlatest, hto, htm, hown2, if_true, if_false,
        Bool.false_eq_true, Bool.not_false]
      refine ⟨_, rfl, ?_, ?_, ?_, ?_, ?_, ?_, ?_, ?_⟩ <;>
        simp [Consumer.updateVbStat, Consumer.postVbFlog, Consumer.logMetaOp]

/-- C6: a STREAMREQ event that the router handles to completion (the flag
`vb_stream_request_metadata_updated` observed true, no retry timeout) posts exactly one
entry to `vbFlogChan`, for the event's vbucket and with the event's status: with
`streamReqRetry = false` on SUCCESS and on KEY_EEXISTS, and with `streamReqRetry = true`
and the event's failover log on every other status; in that last case the vbucket is absent
from `vbStreamRequested` afterwards and a `request_failed` ownership-history entry was
handed to the checkpointer. -/
theorem streamreq_posts_one_flog_entry (cfg : Config) (env : Env) (o : Oracle) (c : Consumer)
    (e : DcpEvent)
    (hop : e.Opcode = Opcode.DCP_STREAMREQ)
    (hflag : (c.vbProcessingStats e.VBucket).vb_stream_request_metadata_updated = some true)
    (hto : ∀ site, o.retryTimeout site = false)
    (htimer : o.timersCreate ≠ some Err.ErrRetryTimeout) :
    ∃ (c1 : Consumer) (entry : vbFlogEntry),
      processEvents cfg env o c (.aggDCPFeed (some e)) = .next c1 ∧
      c1.vbFlogChan = c.vbFlogChan ++ [entry] ∧
      entry.vb = e.VBucket ∧ entry.statusCode = e.Status ∧ entry.signalStreamEnd = false ∧
      ((e.Status = Status.SUCCESS ∨ e.Status = Status.KEY_EEXISTS) →
        entry.streamReqRetry = false) ∧
      (e.Status ≠ Status.SUCCESS → e.Status ≠ Status.KEY_EEXISTS →
        entry.streamReqRetry = true ∧ entry.flog = some e.FailoverLog ∧
        e.VBucket ∉ c1.vbStreamRequested ∧
        ∃ hist : OwnershipEntry,
          hist.Operation = dcpStreamRequestFailed ∧
          c1.metaOps = c.metaOps ++
            [.addOwnershipHistorySRFCallback (cfg.AddMetadataPrefix (cfg.vbKey e.VBucket)) hist]) := by
  have hflag1 : ((c.countDcpEvent e).vbProcessingStats e.VBucket).vb_stream_request_metadata_updated
      = some true := hflag
  rw [processEvents_streamreq cfg env o c e hop]
  by_cases hs : e.Status = Status.SUCCESS
  · cases hl : e.FailoverLog.Latest with
    | error err =>
      by_cases htm : cfg.usingTimer = true
      · simp only [handleStreamReq, hflag1, hs, hl, hto, htimer, htm, if_true, if_false,
          Bool.false_eq_true]
        refine ⟨_, _, rfl, rfl, ?_, ?_, ?_, ?_, ?_⟩ <;> simp
      · simp only [handleStreamReq, hflag1, hs, hl, hto, htm, if_true, if_false,
          Bool.false_eq_true]
        refine ⟨_, _, rfl, rfl, ?_, ?_, ?_, ?_, ?_⟩ <;> simp
    | ok r =>
      obtain ⟨vbuuid, seqNo⟩ := r
      obtain ⟨c2, h1, h2, _⟩ :=
        handleStreamReq_success cfg o (c.countDcpEvent e) e vbuuid seqNo hflag1 hs hl hto htimer
      refine ⟨c2, _, h1, h2, ?_, ?_, ?_, ?_, ?_⟩ <;> simp [hs]
  · by_cases hk : e.Status = Status.KEY_EEXISTS
    · simp only [handleStreamReq, hflag1, hs, hk, if_true, if_false]
      refine ⟨_, _, rfl, rfl, ?_, ?_, ?_, ?_, ?_⟩ <;> simp
    · simp only [handleStreamReq, hflag1, hs, hk, hto, if_true, if_false, Bool.false_eq_true]
      refine ⟨_, _, rfl, rfl, ?_, ?_, ?_, ?_, ?_⟩ <;>
        simp [hs, hk, Consumer.purgeVbStreamRequested, Consumer.logMetaOp, Consumer.postVbFlog,
          Consumer.updateVbStat, Consumer.countDcpEvent, dcpStreamRequestFailed]

/-- Witness of C6: a STREAMREQ response with status ROLLBACK for vbucket 9. -/
theorem streamreq_posts_one_flog_entry_witness :
    ∃ (c1 : Consumer) (entry : vbFlogEntry),
      processEvents sampleConfig sampleEnv {} sampleRequested
        (.aggDCPFeed (some (sampleStreamReq Status.ROLLBACK [(77, 100)]))) = .next c1 ∧
      c1.vbFlogChan = [] ++ [entry] ∧
      entry.vb = 9 ∧ entry.statusCode = Status.ROLLBACK ∧ entry.signalStreamEnd = false ∧
      ((Status.ROLLBACK = Status.SUCCESS ∨ Status.ROLLBACK = Status.KEY_EEXISTS) →
        entry.streamReqRetry = false) ∧
      (Status.ROLLBACK ≠ Status.SUCCESS → Status.ROLLBACK ≠ Status.KEY_EEXISTS →
        entry.streamReqRetry = true ∧ entry.flog = some ⟨[(77, 100)]⟩ ∧
        9 ∉ c1.vbStreamRequested ∧
        ∃ hist : OwnershipEntry,
          hist.Operation = dcpStreamRequestFailed ∧
          c1.metaOps = [] ++
            [.addOwnershipHistorySRFCallback
              (sampleConfig.AddMetadataPrefix (sampleConfig.vbKey 9)) hist]) :=
  streamreq_posts_one_flog_entry sampleConfig sampleEnv {} sampleRequested
    (sampleStreamReq Status.ROLLBACK [(77, 100)]) rfl rfl (fun _ => rfl) (by decide)

/-- C7: for a STREAMREQ event with status SUCCESS whose failover log has the latest entry
`(vbuuid, seqNo)`, handled with the flag observed true and without retry timeout, the blob
handed to the checkpointer (through `addOwnershipHistorySRSCallback`) has `VBuuid = vbuuid`,
`AssignedWorker` this consumer's name, `CurrentVBOwner` this host, `NodeUUID` this node's
uuid and `DCPStreamStatus = running`, and the in-memory `vb_uuid` of the vbucket is set
to `vbuuid`. -/
theorem streamreq_success_blob_fields (cfg : Config) (env : Env) (o : Oracle) (c : Consumer)
    (e : DcpEvent) (vbuuid seqNo : Nat)
    (hop : e.Opcode = Opcode.DCP_STREAMREQ)
    (hflag : (c.vbProcessingStats e.VBucket).vb_stream_request_metadata_updated = some true)
    (hst : e.Status = Status.SUCCESS)
    (hlatest : e.FailoverLog.Latest = .ok (vbuuid, seqNo))
    (hto : ∀ site, o.retryTimeout site = false)
    (htimer : o.timersCreate ≠ some Err.ErrRetryTimeout) :
    ∃ (c1 : Consumer) (blob : vbucketKVBlob) (entry : OwnershipEntry),
      processEvents cfg env o c (.aggDCPFeed (some e)) = .next c1 ∧
      c1.metaOps = c.metaOps ++
        [.addOwnershipHistorySRSCallback (cfg.AddMetadataPrefix (cfg.vbKey e.VBucket)) blob entry] ∧
      blob.VBuuid = vbuuid ∧
      blob.AssignedWorker = cfg.ConsumerName ∧
      blob.CurrentVBOwner = cfg.HostPortAddr ∧
      blob.NodeUUID = cfg.uuid ∧
      blob.DCPStreamStatus = dcpStreamRunning ∧
      (c1.vbProcessingStats e.VBucket).vb_uuid = vbuuid := by
  obtain ⟨c2, h1, _, h3, h4, _⟩ :=
    handleStreamReq_success cfg o (c.countDcpEvent e) e vbuuid seqNo hflag hst hlatest hto htimer
  exact ⟨c2, _, _, (processEvents_streamreq cfg env o c e hop).trans h1, h3, rfl, rfl, rfl, rfl,
    rfl, h4⟩

/-- Witness of C7: a STREAMREQ response with status SUCCESS for vbucket 9 whose failover
log has the latest entry `(77, 100)`. -/
theorem streamreq_success_blob_fields_witness :
    ∃ (c1 : Consumer) (blob : vbucketKVBlob) (entry : OwnershipEntry),
      processEvents sampleConfig sampleEnv {} sampleRequested
        (.aggDCPFeed (some (sampleStreamReq Status.SUCCESS [(77, 100)]))) = .next c1 ∧
      c1.metaOps = [] ++
        [.addOwnershipHistorySRSCallback (sampleConfig.AddMetadataPrefix (sampleConfig.vbKey 9))
          blob entry] ∧
      blob.VBuuid = 77 ∧
      blob.AssignedWorker = "worker_app_0" ∧
      blob.CurrentVBOwner = "127.0.0.1:8096" ∧
      blob.NodeUUID = "node-a" ∧
      blob.DCPStreamStatus = "running" ∧
      (c1.vbProcessingStats 9).vb_uuid = 77 :=
  streamreq_success_blob_fields sampleConfig sampleEnv {} sampleRequested
    (sampleStreamReq Status.SUCCESS [(77, 100)]) 77 100 rfl rfl rfl rfl (fun _ => rfl)
    (by decide)

/-- C8, as stated, fails: with the latest failover-log entry `(77, 100)` and
`last_processed_seq_no = 500` in the state store, the blob handed to the checkpointer has
`LastSeqNoProcessed = 100`, while `startSeqNo`, recorded as `SeqNo` of the `running`
history entry, is 500. -/
theorem streamreq_success_last_seq_no_counterexample :
    ∃ (c1 : Consumer) (blob : vbucketKVBlob) (entry : OwnershipEntry),
      processEvents sampleConfig sampleEnv {} sampleRequested
        (.aggDCPFeed (some (sampleStreamReq Status.SUCCESS [(77, 100)]))) = .next c1 ∧
      c1.metaOps =
        [.addOwnershipHistorySRSCallback (sampleConfig.AddMetadataPrefix (sampleConfig.vbKey 9))
          blob entry] ∧
      (sampleRequested.vbProcessingStats 9).last_processed_seq_no = 500 ∧
      entry.Operation = dcpStreamRunning ∧ entry.SeqNo = 500 ∧
      blob.LastSeqNoProcessed = 100 ∧
      blob.LastSeqNoProcessed ≠ (sampleRequested.vbProcessingStats 9).last_processed_seq_no := by
  obtain ⟨c2, h1, _, h3, _⟩ :=
    handleStreamReq_success sampleConfig {}
      (sampleRequested.countDcpEvent (sampleStreamReq Status.SUCCESS [(77, 100)]))
      (sampleStreamReq Status.SUCCESS [(77, 100)]) 77 100 rfl rfl rfl (fun _ => rfl) (by decide)
  exact ⟨c2, _, _,
    (processEvents_streamreq sampleConfig sampleEnv {} sampleRequested _ rfl).trans h1, h3, rfl,
    rfl, rfl, rfl, by decide⟩

/-- C8, amended: for a STREAMREQ event with status SUCCESS whose failover log has the
latest entry `(vbuuid, seqNo)`, handled with the flag observed true and without retry
timeout, `LastSeqNoProcessed` of the blob handed to the checkpointer is `seqNo`, the
sequence number of that failover-log entry; `startSeqNo`, the vbucket's
`last_processed_seq_no` read from the state store, is recorded as `SeqNo` of the `running`
ownership-history entry written with the blob and as `last_checkpointed_seq_no`, and
`last_processed_seq_no` itself is unchanged. -/
theorem streamreq_success_last_seq_no (cfg : Config) (env : Env) (o : Oracle) (c : Consumer)
    (e : DcpEvent) (vbuuid seqNo : Nat)
    (hop : e.Opcode = Opcode.DCP_STREAMREQ)
    (hflag : (c.vbProcessingStats e.VBucket).vb_stream_request_metadata_updated = some true)
    (hst : e.Status = Status.SUCCESS)
    (hlatest : e.FailoverLog.Latest = .ok (vbuuid, seqNo))
    (hto : ∀ site, o.retryTimeout site = false)
    (htimer : o.timersCreate ≠ some Err.ErrRetryTimeout) :
    ∃ (c1 : Consumer) (blob : vbucketKVBlob) (entry : OwnershipEntry),
      processEvents cfg env o c (.aggDCPFeed (some e)) = .next c1 ∧
      c1.metaOps = c.metaOps ++
        [.addOwnershipHistorySRSCallback (cfg.AddMetadataPrefix (cfg.vbKey e.VBucket)) blob entry] ∧
      blob.LastSeqNoProcessed = seqNo ∧
      entry.Operation = dcpStreamRunning ∧
      entry.SeqNo = (c.vbProcessingStats e.VBucket).last_processed_seq_no ∧
      (c1.vbProcessingStats e.VBucket).last_checkpointed_seq_no =
        (c.vbProcessingStats e.VBucket).last_processed_seq_no ∧
      (c1.vbProcessingStats e.VBucket).last_processed_seq_no =
        (c.vbProcessingStats e.VBucket).last_processed_seq_no := by
  obtain ⟨c2, h1, _, h3, _, h5, h6, _⟩ :=
    handleStreamReq_success cfg o (c.countDcpEvent e) e vbuuid seqNo hflag hst hlatest hto htimer
  exact ⟨c2, _, _, (processEvents_streamreq cfg env o c e hop).trans h1, h3, rfl, rfl, rfl, h5,
    h6⟩

/-- Witness of the amended C8: the same response, with `last_processed_seq_no = 500`. -/
theorem streamreq_success_last_seq_no_witness :
    ∃ (c1 : Consumer) (blob : vbucketKVBlob) (entry : OwnershipEntry),
      processEvents sampleConfig sampleEnv {} sampleRequested
        (.aggDCPFeed (some (sampleStreamReq Status.SUCCESS [(77, 100)]))) = .next c1 ∧
      c1.metaOps = [] ++
        [.addOwnershipHistorySRSCallback (sampleConfig.AddMetadataPrefix (sampleConfig.vbKey 9))
          blob entry] ∧
      blob.LastSeqNoProcessed = 100 ∧
      entry.Operation = dcpStreamRunning ∧
      entry.SeqNo = 500 ∧
      (c1.vbProcessingStats 9).last_checkpointed_seq_no = 500 ∧
      (c1.vbProcessingStats 9).last_processed_seq_no = 500 :=
  streamreq_success_last_seq_no sampleConfig sampleEnv {} sampleRequested
    (sampleStreamReq Status.SUCCESS [(77, 100)]) 77 100 rfl rfl rfl rfl (fun _ => rfl)
    (by decide)

/-! ## Retry of a failed stream request -/

/-- C9: for a retry entry (not a STREAMEND signal) whose vbucket is not yet in `enqueueMap`,
handled without retry timeout while the failover log just fetched for the vbucket has the
latest entry `(vbuuid, seqno)`, `handleFailoverLog` enqueues exactly one
`streamRequestInfo` for the vbucket: its `startSeqNo` is the entry's `seqNo` if the status is
ROLLBACK and `seqno` otherwise, and in both cases its blob snapshot carries
`VBuuid = vbuuid`. -/
theorem failover_retry_request (o : Oracle) (c : Consumer) (vbFlog : vbFlogEntry)
    (flog : FailoverLog) (vbuuid seqno : Nat)
    (hretry : vbFlog.streamReqRetry = true)
    (hse : vbFlog.signalStreamEnd = false)
    (hto : ∀ site, o.retryTimeout site = false)
    (hflog : o.flogs vbFlog.vb = some flog)
    (hlatest : flog.Latest = .ok (vbuuid, seqno))
    (hnq : vbFlog.vb ∉ c.enqueueMap) :
    ∃ (c1 : Consumer) (req : streamRequestInfo),
      handleFailoverLog o c vbFlog = .next c1 ∧
      c1.reqStreamCh = c.reqStreamCh ++ [req] ∧
      req.vb = vbFlog.vb ∧
      (vbFlog.statusCode = Status.ROLLBACK → req.startSeqNo = vbFlog.seqNo) ∧
      (vbFlog.statusCode ≠ Status.ROLLBACK → req.startSeqNo = seqno) ∧
      req.vbBlob.VBuuid = vbuuid := by
  by_cases hr : vbFlog.statusCode = Status.ROLLBACK
  · have hns : ¬ vbFlog.statusCode = Status.SUCCESS := by rw [hr]; decide
    simp only [handleFailoverLog, hretry, hse, hto, hflog, hlatest, hr, hnq,
      Consumer.checkIfAlreadyEnqueued, Bool.false_eq_true, if_false, if_true, Bool.not_true,
      Bool.false_and, decide_False]
    refine ⟨_, _, rfl, rfl, ?_, ?_, ?_, ?_⟩ <;>
      simp [Consumer.updateVbStat, Consumer.sendReqStream, Consumer.addToEnqueueMap]
  · simp only [handleFailoverLog, hretry, hse, hto, hflog, hlatest, hr, hnq,
      Consumer.checkIfAlreadyEnqueued, Bool.false_eq_true, if_false, if_true, Bool.not_true,
      Bool.false_and, decide_False]
    refine ⟨_, _, rfl, rfl, ?_, ?_, ?_, ?_⟩ <;>
      simp [hr, Consumer.updateVbStat, Consumer.sendReqStream, Consumer.addToEnqueueMap]

/-- Witness of C9: a ROLLBACK retry entry for vbucket 9 while the fetched failover log
has the latest entry `(78, 120)`. -/
theorem failover_retry_request_witness :
    ∃ (c1 : Consumer) (req : streamRequestInfo),
      handleFailoverLog sampleFlogOracle {} (sampleRetryEntry Status.ROLLBACK) = .next c1 ∧
      c1.reqStreamCh = [] ++ [req] ∧
      req.vb = 9 ∧
      (Status.ROLLBACK = Status.ROLLBACK → req.startSeqNo = 0) ∧
      (Status.ROLLBACK ≠ Status.ROLLBACK → req.startSeqNo = 120) ∧
      req.vbBlob.VBuuid = 78 :=
  failover_retry_request sampleFlogOracle {} (sampleRetryEntry Status.ROLLBACK)
    ⟨[(78, 120), (77, 100)]⟩ 78 120 rfl rfl (fun _ => rfl) rfl rfl (by decide)

/-! ## A STREAMEND handled twice -/

/-- C10 fails on the code: with the planner still assigning vbucket 9 to this consumer,
handling the STREAMEND and its filter-data signal once leaves `vbsRemainingToRestream`
equal to `[9]`, handling them twice leaves `[9, 9]`; the filter-data arm appends without
looking whether the vbucket is already queued. -/
theorem streamend_twice_restream_queue :
    (run sampleConfig sampleEnv sampleStreaming sampleStreamEndHandling).vbsRemainingToRestream
      = [9] ∧
    (run sampleConfig sampleEnv sampleStreaming
      (sampleStreamEndHandling ++ sampleStreamEndHandling)).vbsRemainingToRestream = [9, 9] := by
  constructor <;> rfl

/-! ## What each arm of the router leaves untouched -/

/-- The forms in which the MUTATION arm ends. -/
theorem handleMutation_cases (cfg : Config) (env : Env) (o : Oracle) (c : Consumer)
    (e : DcpEvent) :
    handleMutation cfg env o c e = .next c ∨
    handleMutation cfg env o c e = .panic ∨
    handleMutation cfg env o c e = .outOfFuel ∨
    handleMutation cfg env o c e = .next (c.afterRead o e) ∨
    ∃ e1, handleMutation cfg env o c e =
      .next ({ c.afterRead o e with
        dcpMutationCounter := (c.afterRead o e).dcpMutationCounter + 1 }.sendDcpEvent e1) := by
  unfold handleMutation
  by_cases hf : e.VBucket ∈ c.filterVbEvents
  · rw [if_pos hf]; exact Or.inl rfl
  · rw [if_neg hf]
    simp only
    by_cases hj : e.Datatype = dcpDatatypeJSON
    · rw [if_pos hj]; exact Or.inr (Or.inr (Or.inr (Or.inr ⟨e, rfl⟩)))
    · rw [if_neg hj]
      by_cases hx : e.Datatype = dcpDatatypeJSONXattr
      · rw [if_pos hx]
        rcases hd : decodeXattrs env (xattrprefixOf cfg) e.Value with ⟨l, r⟩
        cases r with
        | panic => cases l <;> exact Or.inr (Or.inl rfl)
        | outOfFuel => cases l <;> exact Or.inr (Or.inr (Or.inl rfl))
        | done xMeta =>
          cases l with
          | none => exact Or.inr (Or.inl rfl)
          | some L =>
            simp only
            by_cases hcas : xMeta.Cas = ""
            · simp only [hcas, ne_eq, not_true_eq_false, if_false]
              cases hsl : sliceFrom e.Value (u32add 4 L) with
              | none => exact Or.inr (Or.inl rfl)
              | some value => exact Or.inr (Or.inr (Or.inr (Or.inr ⟨_, rfl⟩)))
            · simp only [hcas, ne_eq, not_false_eq_true, if_true]
              cases hconv : env.ConvertBigEndianToUint64 xMeta.Cas with
              | error err => exact Or.inr (Or.inr (Or.inr (Or.inl rfl)))
              | ok cas =>
                simp only
                by_cases hc : cas = e.Cas
                · simp only [hc, not_true_eq_false, if_false]
                  exact Or.inr (Or.inr (Or.inr (Or.inl rfl)))
                · simp only [hc, not_false_eq_true, if_true]
                  cases hsl : sliceFrom e.Value (u32add 4 L) with
                  | none => exact Or.inr (Or.inl rfl)
                  | some value =>
                    simp only
                    by_cases hd2 : env.crc32 value = xMeta.Digest
                    · simp only [hd2, not_true_eq_false, if_false]
                      exact Or.inr (Or.inr (Or.inr (Or.inl rfl)))
                    · simp only [hd2, not_false_eq_true, if_true]
                      exact Or.inr (Or.inr (Or.inr (Or.inr ⟨_, rfl⟩)))
      · rw [if_neg hx]
        exact Or.inr (Or.inr (Or.inr (Or.inl rfl)))

theorem handleStreamReq_req (cfg : Config) (o : Oracle) (c c1 : Consumer) (e : DcpEvent)
    (h : (handleStreamReq cfg o c e).state? = some c1) :
    (c1.streamRequests = c.streamRequests ∧
      ∀ vb, (c1.vbProcessingStats vb).last_processed_seq_no =
        (c.vbProcessingStats vb).last_processed_seq_no) ∧
    ((c1.vbStreamRequested = c.vbStreamRequested ∧
        c1.unresolvedStreamReqs = c.unresolvedStreamReqs) ∨
      (c1.vbStreamRequested = c.vbStreamRequested.erase e.VBucket ∧
        c1.unresolvedStreamReqs = Function.update c.unresolvedStreamReqs e.VBucket 0)) := by
  unfold handleStreamReq at h
  repeat' split at h
  all_goals
    simp only [Outcome.state?, Option.some.injEq] at h
    subst h
    simp [Consumer.updateVbStat, Consumer.postVbFlog, Consumer.logMetaOp,
      Consumer.purgeVbStreamRequested, Function.update_apply]
  all_goals
    intro vb
    by_cases hv : vb = e.VBucket <;> simp [hv]

theorem handleFilterData_req (cfg : Config) (o : Oracle) (c c1 : Consumer) (e : vbSeqNo)
    (h : (handleFilterData cfg o c e).state? = some c1) :
    c1.streamRequests = c.streamRequests ∧
    c1.vbStreamRequested = c.vbStreamRequested.erase e.Vbucket ∧
    c1.unresolvedStreamReqs = Function.update c.unresolvedStreamReqs e.Vbucket 0 ∧
    (∀ vb, vb ≠ e.Vbucket → (c1.vbProcessingStats vb).last_processed_seq_no =
      (c.vbProcessingStats vb).last_processed_seq_no) ∧
    ((c1.vbProcessingStats e.Vbucket).last_processed_seq_no =
        (c.vbProcessingStats e.Vbucket).last_processed_seq_no ∨
      (c1.vbProcessingStats e.Vbucket).last_processed_seq_no = e.SeqNo) := by
  unfold handleFilterData at h
  repeat' split at h
  all_goals
    simp only [Outcome.state?, Option.some.injEq] at h
    subst h
    simp [Consumer.updateVbStat, Consumer.postVbFlog, Consumer.logMetaOp,
      Consumer.purgeVbStreamRequested, Function.update_apply]
  all_goals
    intro vb hv
    simp [hv]

theorem handleMutation_frame (cfg : Config) (env : Env) (o : Oracle) (c c1 : Consumer)
    (e : DcpEvent) (h : (handleMutation cfg env o c e).state? = some c1) :
    c.reqFrame c1 ∧ ∀ vb, (c1.vbProcessingStats vb).last_processed_seq_no =
      (c.vbProcessingStats vb).last_processed_seq_no := by
  have hlp : ∀ vb, ((c.afterRead o e).vbProcessingStats vb).last_processed_seq_no =
      (c.vbProcessingStats vb).last_processed_seq_no := by
    intro vb
    unfold Consumer.afterRead
    rw [debuggerHandshake_stats]
    by_cases hv : vb = e.VBucket <;> simp [Consumer.updateVbStat, hv]
  have hfr : c.reqFrame (c.afterRead o e) := by
    unfold Consumer.afterRead Consumer.debuggerHandshake Consumer.reqFrame
    split <;> exact ⟨rfl, rfl, rfl⟩
  rcases handleMutation_cases cfg env o c e with h1 | h1 | h1 | h1 | ⟨e1, h1⟩ <;>
    rw [h1] at h <;> simp only [Outcome.state?, Option.some.injEq] at h
  · subst h; exact ⟨⟨rfl, rfl, rfl⟩, fun _ => rfl⟩
  · cases h
  · cases h
  · subst h; exact ⟨hfr, hlp⟩
  · subst h; exact ⟨hfr, hlp⟩

theorem handleDeletion_frame (o : Oracle) (c c1 : Consumer) (e : DcpEvent)
    (h : (handleDeletion o c e).state? = some c1) :
    c.reqFrame c1 ∧ ∀ vb, (c1.vbProcessingStats vb).last_processed_seq_no =
      (c.vbProcessingStats vb).last_processed_seq_no := by
  unfold handleDeletion at h
  by_cases hf : e.VBucket ∈ c.filterVbEvents
  · rw [if_pos hf] at h
    simp only [Outcome.state?, Option.some.injEq] at h
    subst h
    exact ⟨⟨rfl, rfl, rfl⟩, fun _ => rfl⟩
  · rw [if_neg hf] at h
    simp only [Outcome.state?, Option.some.injEq] at h
    subst h
    refine ⟨?_, ?_⟩
    · unfold Consumer.debuggerHandshake Consumer.reqFrame
      split <;> exact ⟨rfl, rfl, rfl⟩
    · intro vb
      simp only [Consumer.sendDcpEvent]
      rw [debuggerHandshake_stats]
      by_cases hv : vb = e.VBucket <;> simp [Consumer.updateVbStat, hv]

theorem handleStreamEnd_frame (o : Oracle) (c c1 : Consumer) (e : DcpEvent)
    (h : (handleStreamEnd o c e).state? = some c1) :
    c.reqFrame c1 ∧ ∀ vb, (c1.vbProcessingStats vb).last_processed_seq_no =
      (c.vbProcessingStats vb).last_processed_seq_no := by
  unfold handleStreamEnd at h
  simp only [Outcome.state?, Option.some.injEq] at h
  subst h
  refine ⟨⟨rfl, rfl, rfl⟩, ?_⟩
  intro vb
  by_cases hv : vb = e.VBucket <;> simp [Consumer.updateVbStat, hv]

/-- What one pass of the router does to the stream-request guard and to
`last_processed_seq_no`: it issues no stream request; it leaves `vbStreamRequested` and
the ghost counters alone or purges one vbucket; and it writes `last_processed_seq_no`
only for the vbucket of a filter-data entry, with the entry's sequence number. -/
theorem routerStep_effect (cfg : Config) (env : Env) (c : Consumer) (o : Oracle)
    (m : RouterMsg) :
    (routerStep cfg env c (o, m)).streamRequests = c.streamRequests ∧
    (((routerStep cfg env c (o, m)).vbStreamRequested = c.vbStreamRequested ∧
        (routerStep cfg env c (o, m)).unresolvedStreamReqs = c.unresolvedStreamReqs) ∨
      ∃ vb, (routerStep cfg env c (o, m)).vbStreamRequested = c.vbStreamRequested.erase vb ∧
        (routerStep cfg env c (o, m)).unresolvedStreamReqs =
          Function.update c.unresolvedStreamReqs vb 0) ∧
    (∀ vb, ((routerStep cfg env c (o, m)).vbProcessingStats vb).last_processed_seq_no =
        (c.vbProcessingStats vb).last_processed_seq_no ∨
      ∃ e, m = .filterDataCh (some e) ∧ e.Vbucket = vb ∧
        ((routerStep cfg env c (o, m)).vbProcessingStats vb).last_processed_seq_no = e.SeqNo) := by
  unfold routerStep
  simp only
  cases hs : (processEvents cfg env o c m).state? with
  | none => exact ⟨rfl, Or.inl ⟨rfl, rfl⟩, fun _ => Or.inl rfl⟩
  | some c1 =>
    simp only [Option.getD_some]
    cases m with
    | stopConsumerCh =>
      simp only [processEvents, Outcome.state?, Option.some.injEq] at hs
      subst hs
      exact ⟨rfl, Or.inl ⟨rfl, rfl⟩, fun _ => Or.inl rfl⟩
    | filterDataCh oe =>
      cases oe with
      | none =>
        simp only [processEvents, Outcome.state?, Option.some.injEq] at hs
        subst hs
        exact ⟨rfl, Or.inl ⟨rfl, rfl⟩, fun _ => Or.inl rfl⟩
      | some e =>
        simp only [processEvents] at hs
        obtain ⟨h1, h2, h3, h4, h5⟩ := handleFilterData_req cfg o c c1 e hs
        refine ⟨h1, Or.inr ⟨e.Vbucket, h2, h3⟩, ?_⟩
        intro vb
        by_cases hv : vb = e.Vbucket
        · subst hv
          rcases h5 with h5 | h5
          · exact Or.inl h5
          · exact Or.inr ⟨e, rfl, rfl, h5⟩
        · exact Or.inl (h4 vb hv)
    | aggDCPFeed oe =>
      cases oe with
      | none =>
        simp only [processEvents, Outcome.state?, Option.some.injEq] at hs
        subst hs
        exact ⟨rfl, Or.inl ⟨rfl, rfl⟩, fun _ => Or.inl rfl⟩
      | some e =>
        simp only [processEvents, handleDcpEvent] at hs
        cases hop : e.Opcode with
        | DCP_MUTATION =>
          rw [hop] at hs
          obtain ⟨⟨h1, h2, h3⟩, h4⟩ := handleMutation_frame cfg env o _ c1 e hs
          exact ⟨h3, Or.inl ⟨h1, h2⟩, fun vb => Or.inl (h4 vb)⟩
        | DCP_DELETION =>
          rw [hop] at hs
          obtain ⟨⟨h1, h2, h3⟩, h4⟩ := handleDeletion_frame o _ c1 e hs
          exact ⟨h3, Or.inl ⟨h1, h2⟩, fun vb => Or.inl (h4 vb)⟩
        | DCP_STREAMREQ =>
          rw [hop] at hs
          obtain ⟨⟨h1, h2⟩, h3⟩ := handleStreamReq_req cfg o _ c1 e hs
          refine ⟨h1, ?_, fun vb => Or.inl (h2 vb)⟩
          rcases h3 with h3 | h3
          · exact Or.inl h3
          · exact Or.inr ⟨e.VBucket, h3⟩
        | DCP_STREAMEND =>
          rw [hop] at hs
          obtain ⟨⟨h1, h2, h3⟩, h4⟩ := handleStreamEnd_frame o _ c1 e hs
          exact ⟨h3, Or.inl ⟨h1, h2⟩, fun vb => Or.inl (h4 vb)⟩
        | other code =>
          rw [hop] at hs
          simp only [Outcome.state?, Option.some.injEq] at hs
          subst hs
          exact ⟨rfl, Or.inl ⟨rfl, rfl⟩, fun _ => Or.inl rfl⟩

/-! ## The stream-request guard -/

theorem reqFrame_refl (c : Consumer) : c.reqFrame c := ⟨rfl, rfl, rfl⟩

theorem reqFrame_trans {c c1 c2 : Consumer} (h1 : c.reqFrame c1) (h2 : c1.reqFrame c2) :
    c.reqFrame c2 :=
  ⟨h2.1.trans h1.1, h2.2.1.trans h1.2.1, h2.2.2.trans h1.2.2⟩

theorem reqInv_of_frame {c c1 : Consumer} (h : c.reqFrame c1) (hi : c.reqInv) : c1.reqInv := by
  intro vb
  rw [h.1, h.2.1]
  exact hi vb

theorem reqInv_purge {c c1 : Consumer} (vb : Nat)
    (hR : c1.vbStreamRequested = c.vbStreamRequested.erase vb)
    (hU : c1.unresolvedStreamReqs = Function.update c.unresolvedStreamReqs vb 0)
    (hi : c.reqInv) : c1.reqInv := by
  intro v
  rw [hR, hU]
  by_cases hv : v = vb
  · subst hv
    exact Or.inl (by simp)
  · rcases hi v with h | ⟨h1, h2⟩
    · exact Or.inl (by simp [hv, h])
    · exact Or.inr ⟨by simp [hv, h1], by simp [hv, h2]⟩

theorem clearUpOwnershipInfoFromMeta_frame (cfg : Config) (o : Oracle) (c : Consumer)
    (vb : Nat) : c.reqFrame (clearUpOwnershipInfoFromMeta cfg o c vb).1 := by
  unfold clearUpOwnershipInfoFromMeta
  repeat' split
  all_goals exact ⟨rfl, rfl, rfl⟩

theorem clearUpAll_frame (cfg : Config) (o : Oracle) (vbs : List Nat) :
    ∀ c : Consumer, c.reqFrame (clearUpAll cfg o c vbs).1 := by
  induction vbs with
  | nil => intro c; exact reqFrame_refl c
  | cons vb vbs ih =>
    intro c
    have h1 := clearUpOwnershipInfoFromMeta_frame cfg o c vb
    unfold clearUpAll
    rcases hc : clearUpOwnershipInfoFromMeta cfg o c vb with ⟨c1, r⟩
    rw [hc] at h1
    cases r with
    | none => exact reqFrame_trans h1 (ih c1)
    | some err =>
      cases err with
      | ErrRetryTimeout => exact h1
      | ErrorInvalidVbucket => exact reqFrame_trans h1 (ih c1)
      | errDcpFeedsClosed => exact reqFrame_trans h1 (ih c1)
      | other msg => exact reqFrame_trans h1 (ih c1)

theorem closeStaleFeeds_frame (cfg : Config) (o : Oracle) (kvAddrs : List String) :
    ∀ c : Consumer, c.reqFrame (closeStaleFeeds cfg o c kvAddrs).1 := by
  induction kvAddrs with
  | nil => intro c; exact reqFrame_refl c
  | cons kvAddr kvAddrs ih =>
    intro c
    unfold closeStaleFeeds
    simp only
    cases hl : c.kvHostDcpFeedMap.lookup kvAddr with
    | none =>
      simp only
      have h1 := clearUpAll_frame cfg o []
        { c with kvHostDcpFeedMap := c.kvHostDcpFeedMap.filter fun kf => kf.1 ≠ kvAddr }
      rcases hc : clearUpAll cfg o
        { c with kvHostDcpFeedMap := c.kvHostDcpFeedMap.filter fun kf => kf.1 ≠ kvAddr } []
        with ⟨c1, r⟩
      rw [hc] at h1
      cases r with
      | none => exact reqFrame_trans h1 (ih c1)
      | some err => exact h1
    | some f =>
      simp only
      have h1 := clearUpAll_frame cfg o (c.dcpFeedVbMap f)
        { c with
          closedFeeds := c.closedFeeds ++ [f]
          kvHostDcpFeedMap := c.kvHostDcpFeedMap.filter fun kf => kf.1 ≠ kvAddr }
      rcases hc : clearUpAll cfg o
        { c with
          closedFeeds := c.closedFeeds ++ [f]
          kvHostDcpFeedMap := c.kvHostDcpFeedMap.filter fun kf => kf.1 ≠ kvAddr }
        (c.dcpFeedVbMap f) with ⟨c1, r⟩
      rw [hc] at h1
      cases r with
      | none => exact reqFrame_trans h1 (ih c1)
      | some err => exact h1

theorem cleanupStaleDcpFeedHandles_frame (cfg : Config) (o : Oracle) (c : Consumer) :
    c.reqFrame (cleanupStaleDcpFeedHandles cfg o c).1 := by
  unfold cleanupStaleDcpFeedHandles
  simp only
  by_cases hlen : (StrSliceDiff (c.kvHostDcpFeedMap.map Prod.fst)
      (c.kvVbMap.map Prod.snd).dedup).length > 0
  · by_cases ht : o.retryTimeout .populateDcpFeedVbEntriesCallback = true
    · simp only [hlen, ht, if_true]
      exact reqFrame_refl c
    · simp only [hlen, ht, if_true, if_false]
      exact @reqFrame_trans c { c with dcpFeedVbMap := o.dcpFeedVbMap } _ ⟨rfl, rfl, rfl⟩
        (closeStaleFeeds_frame cfg o _ _)
  · simp only [hlen, if_false]
    exact closeStaleFeeds_frame cfg o _ c

theorem lookupOrStartFeed_frame (cfg : Config) (o : Oracle) (c : Consumer) (vb : Nat)
    (vbKvAddr : String) : c.reqFrame (lookupOrStartFeed cfg o c vb vbKvAddr).1 := by
  unfold lookupOrStartFeed
  cases c.kvHostDcpFeedMap.lookup vbKvAddr with
  | some dcpFeed => exact reqFrame_refl c
  | none =>
    simp only
    by_cases hs : o.retryTimeout .startDCPFeedOpCallback = true
    · rw [if_pos hs]; exact reqFrame_refl c
    · rw [if_neg hs]; exact reqFrame_refl c

theorem ensureDcpFeed_frame (cfg : Config) (o : Oracle) (c : Consumer) (vb : Nat) :
    c.reqFrame (ensureDcpFeed cfg o c vb).1 := by
  unfold ensureDcpFeed
  by_cases h0 : o.isTerminateRunning 0 = true
  · rw [if_pos h0]
    exact reqFrame_refl c
  · rw [if_neg h0]
    cases hr : o.refresh 0 with
    | some err => exact reqFrame_refl c
    | none =>
      simp only
      by_cases ht : o.retryTimeout .getKvVbMap = true
      · rw [if_pos ht]
        exact reqFrame_refl c
      · rw [if_neg ht]
        have h1 := cleanupStaleDcpFeedHandles_frame cfg o { c with kvVbMap := o.kvVbMap }
        rcases hc : cleanupStaleDcpFeedHandles cfg o { c with kvVbMap := o.kvVbMap } with ⟨c1, r⟩
        rw [hc] at h1
        have h2 : c.reqFrame c1 := @reqFrame_trans c { c with kvVbMap := o.kvVbMap } c1
          ⟨rfl, rfl, rfl⟩ h1
        have hrest := reqFrame_trans h2 (lookupOrStartFeed_frame cfg o c1 vb
          (Consumer.kvAddrOf { c with kvVbMap := o.kvVbMap } vb))
        cases r with
        | none => exact hrest
        | some err =>
          cases err with
          | ErrRetryTimeout => exact h2
          | ErrorInvalidVbucket => exact hrest
          | errDcpFeedsClosed => exact hrest
          | other msg => exact hrest

theorem requestStreamIssued_frame (cfg : Config) (o : Oracle) (c : Consumer) (vb start : Nat) :
    c.reqFrame (requestStreamIssued cfg o c vb start).1 := by
  unfold requestStreamIssued
  simp only
  by_cases ht : o.retryTimeout (.addOwnershipHistorySRRCallback vb) = true
  · rw [if_pos ht]; exact ⟨rfl, rfl, rfl⟩
  · rw [if_neg ht]; exact ⟨rfl, rfl, rfl⟩

theorem requestStreamFailed_effect (o : Oracle) (c : Consumer) (vb : Nat)
    (vbKvAddr dcpFeed : String) (err : Err) :
    (requestStreamFailed o c vb vbKvAddr dcpFeed err).1.vbStreamRequested =
      c.vbStreamRequested.erase vb ∧
    (requestStreamFailed o c vb vbKvAddr dcpFeed err).1.unresolvedStreamReqs =
      Function.update c.unresolvedStreamReqs vb 0 ∧
    (requestStreamFailed o c vb vbKvAddr dcpFeed err).1.streamRequests = c.streamRequests := by
  unfold requestStreamFailed
  simp only
  by_cases hown : o.checkIfCurrentConsumerShouldOwnVb vb = true <;>
    by_cases he : err = Err.ErrorInvalidVbucket <;>
    simp [hown, he, Consumer.purgeVbStreamRequested]

/-- What the second part of `dcpRequestStreamHandle` does to the guard: with the vbucket
already in `vbStreamRequested` it issues nothing; when it issues, the vbucket was absent,
exactly one call for the vbucket is logged, and the vbucket is in `vbStreamRequested`
afterwards unless the call returned an error. -/
theorem requestStream_effect (cfg : Config) (o : Oracle) (c : Consumer) (vb : Nat)
    (vbBlob : vbucketKVBlob) (start : Nat) (vbKvAddr dcpFeed : String) :
    (vb ∈ c.vbStreamRequested →
      c.reqFrame (requestStream cfg o c vb vbBlob start vbKvAddr dcpFeed).1) ∧
    ((requestStream cfg o c vb vbBlob start vbKvAddr dcpFeed).1.streamRequests ≠
        c.streamRequests →
      vb ∉ c.vbStreamRequested ∧
      (∃ call : StreamRequestCall, call.vb = vb ∧
        (requestStream cfg o c vb vbBlob start vbKvAddr dcpFeed).1.streamRequests =
          c.streamRequests ++ [call]) ∧
      (o.dcpRequestStream = none →
        vb ∈ (requestStream cfg o c vb vbBlob start vbKvAddr dcpFeed).1.vbStreamRequested)) ∧
    (c.reqInv → (requestStream cfg o c vb vbBlob start vbKvAddr dcpFeed).1.reqInv) := by
  unfold requestStream
  by_cases hcl : c.dcpFeedsClosed = true
  · rw [if_pos hcl]
    exact ⟨fun _ => reqFrame_refl c, fun h => absurd rfl h, fun h => h⟩
  · rw [if_neg hcl]
    by_cases hin : vb ∈ c.vbStreamRequested
    · rw [if_pos hin]
      exact ⟨fun _ => reqFrame_refl c, fun h => absurd rfl h, fun h => h⟩
    · rw [if_neg hin]
      have hins : ∀ c1 : Consumer,
          c1.vbStreamRequested = insert vb c.vbStreamRequested →
          c1.unresolvedStreamReqs = c.unresolvedStreamReqs → c.reqInv → c1.reqInv := by
        intro c1 hR hU hi v
        rw [hR, hU]
        rcases hi v with h | ⟨h1, h2⟩
        · exact Or.inl h
        · exact Or.inr ⟨h1, Finset.mem_insert_of_mem h2⟩
      have hU0 : c.reqInv → c.unresolvedStreamReqs vb = 0 := by
        intro hi
        rcases hi vb with h | ⟨_, h2⟩
        · exact h
        · exact absurd h2 hin
      refine ⟨fun h => absurd h hin, ?_, ?_⟩
      · cases hr : o.refresh 1 with
        | some err => exact fun h => absurd rfl h
        | none =>
          simp only
          by_cases ht : o.isTerminateRunning 1 = true
          · rw [if_pos ht]
            exact fun h => absurd rfl h
          · rw [if_neg ht]
            intro _
            refine ⟨hin, ?_, ?_⟩
            · cases hd : o.dcpRequestStream with
              | some err =>
                simp only
                rw [(requestStreamFailed_effect o _ vb vbKvAddr dcpFeed err).2.2]
                exact ⟨_, rfl, rfl⟩
              | none =>
                simp only
                rw [(requestStreamIssued_frame cfg o _ vb start).2.2]
                exact ⟨_, rfl, rfl⟩
            · intro hd
              rw [hd]
              simp only
              rw [(requestStreamIssued_frame cfg o _ vb start).1]
              exact Finset.mem_insert_self vb c.vbStreamRequested
      · intro hi
        cases hr : o.refresh 1 with
        | some err => exact hins _ rfl rfl hi
        | none =>
          simp only
          by_cases ht : o.isTerminateRunning 1 = true
          · rw [if_pos ht]
            exact hins _ rfl rfl hi
          · rw [if_neg ht]
            have hcall : Consumer.reqInv
                (Consumer.callDcpRequestStream
                  { c with vbStreamRequested := insert vb c.vbStreamRequested }
                  dcpFeed vb vbBlob start) := by
              intro v
              by_cases hv : v = vb
              · subst hv
                exact Or.inr ⟨by simp [Consumer.callDcpRequestStream, hU0 hi],
                  Finset.mem_insert_self _ _⟩
              · rcases hi v with h | ⟨h1, h2⟩
                · exact Or.inl (by simp [Consumer.callDcpRequestStream, hv, h])
                · exact Or.inr ⟨by simp [Consumer.callDcpRequestStream, hv, h1],
                    Finset.mem_insert_of_mem h2⟩
            cases hd : o.dcpRequestStream with
            | some err =>
              simp only
              obtain ⟨h1, h2, _⟩ := requestStreamFailed_effect o
                (Consumer.callDcpRequestStream
                  { c with vbStreamRequested := insert vb c.vbStreamRequested }
                  dcpFeed vb vbBlob start) vb vbKvAddr dcpFeed err
              exact reqInv_purge vb h1 h2 hcall
            | none =>
              simp only
              exact reqInv_of_frame (requestStreamIssued_frame cfg o _ vb start) hcall

theorem dcpRequestStreamHandle_effect (cfg : Config) (o : Oracle) (c : Consumer) (vb : Nat)
    (vbBlob : vbucketKVBlob) (start : Nat) :
    (vb ∈ c.vbStreamRequested →
      c.reqFrame (dcpRequestStreamHandle cfg o c vb vbBlob start).1) ∧
    ((dcpRequestStreamHandle cfg o c vb vbBlob start).1.streamRequests ≠ c.streamRequests →
      vb ∉ c.vbStreamRequested ∧
      (∃ call : StreamRequestCall, call.vb = vb ∧
        (dcpRequestStreamHandle cfg o c vb vbBlob start).1.streamRequests =
          c.streamRequests ++ [call]) ∧
      (o.dcpRequestStream = none →
        vb ∈ (dcpRequestStreamHandle cfg o c vb vbBlob start).1.vbStreamRequested)) ∧
    (c.reqInv → (dcpRequestStreamHandle cfg o c vb vbBlob start).1.reqInv) := by
  have hf := ensureDcpFeed_frame cfg o c vb
  unfold dcpRequestStreamHandle
  rcases he : ensureDcpFeed cfg o c vb with ⟨c1, r⟩
  rw [he] at hf
  cases r with
  | error r =>
    simp only
    exact ⟨fun _ => hf, fun h => absurd hf.2.2 h, fun hi => reqInv_of_frame hf hi⟩
  | ok af =>
    obtain ⟨vbKvAddr, dcpFeed⟩ := af
    simp only
    obtain ⟨h1, h2, h3⟩ := requestStream_effect cfg o c1 vb vbBlob start vbKvAddr dcpFeed
    refine ⟨?_, ?_, ?_⟩
    · intro hin
      exact reqFrame_trans hf (h1 (by rw [hf.1]; exact hin))
    · intro hne
      have hne1 : (requestStream cfg o c1 vb vbBlob start vbKvAddr dcpFeed).1.streamRequests ≠
          c1.streamRequests := by
        rw [hf.2.2]; exact hne
      obtain ⟨ha, ⟨call, hb1, hb2⟩, hc⟩ := h2 hne1
      refine ⟨by rw [← hf.1]; exact ha, ⟨call, hb1, by rw [hb2, hf.2.2]⟩, hc⟩
    · intro hi
      exact h3 (reqInv_of_frame hf hi)

theorem routerStep_reqInv (cfg : Config) (env : Env) (c : Consumer) (om : Oracle × RouterMsg)
    (hi : c.reqInv) : (routerStep cfg env c om).reqInv := by
  obtain ⟨o, m⟩ := om
  obtain ⟨_, h2, _⟩ := routerStep_effect cfg env c o m
  rcases h2 with ⟨hR, hU⟩ | ⟨vb, hR, hU⟩
  · intro v
    rw [hR, hU]
    exact hi v
  · exact reqInv_purge vb hR hU hi

theorem step_reqInv (cfg : Config) (env : Env) (c : Consumer) (os : Oracle × Step)
    (hi : c.reqInv) : (step cfg env c os).reqInv := by
  obtain ⟨o, st⟩ := os
  cases st with
  | dcpRequestStreamHandle vb vbBlob start =>
    exact (dcpRequestStreamHandle_effect cfg o c vb vbBlob start).2.2 hi
  | processEvents msg => exact routerStep_reqInv cfg env c (o, msg) hi
  | restreamFailed vb => exact reqInv_purge vb rfl rfl hi

theorem run_reqInv (cfg : Config) (env : Env) (steps : List (Oracle × Step)) :
    ∀ c : Consumer, c.reqInv → (run cfg env c steps).reqInv := by
  induction steps with
  | nil => intro c hi; exact hi
  | cons os steps ih =>
    intro c hi
    exact ih (step cfg env c os) (step_reqInv cfg env c os hi)

/-- C4: `dcpRequestStreamHandle` issues `DcpRequestStream` for a vbucket only when the
vbucket was absent from `vbStreamRequested` (the call is logged once and, unless it returns
an error, the vbucket is in `vbStreamRequested` afterwards), and with the vbucket already
present it issues nothing and leaves the guard as it was.  Consequently, over every
sequence of `dcpRequestStreamHandle` calls, router passes (STREAMREQ responses, filter-data
and all other messages) and failed restarts of the restart-stream tick, started in a state
where every vbucket has at most one unresolved request and is in `vbStreamRequested` if it
has one, the number of stream requests issued for a vbucket and not yet resolved (issued
since the vbucket was last deleted from `vbStreamRequested`) never exceeds one. -/
theorem stream_request_guard (cfg : Config) (env : Env) :
    (∀ (o : Oracle) (c : Consumer) (vb : Nat) (vbBlob : vbucketKVBlob) (start : Nat),
      (vb ∈ c.vbStreamRequested →
        (dcpRequestStreamHandle cfg o c vb vbBlob start).1.streamRequests = c.streamRequests ∧
        (dcpRequestStreamHandle cfg o c vb vbBlob start).1.vbStreamRequested =
          c.vbStreamRequested) ∧
      ((dcpRequestStreamHandle cfg o c vb vbBlob start).1.streamRequests ≠ c.streamRequests →
        vb ∉ c.vbStreamRequested ∧
        (∃ call : StreamRequestCall, call.vb = vb ∧
          (dcpRequestStreamHandle cfg o c vb vbBlob start).1.streamRequests =
            c.streamRequests ++ [call]) ∧
        (o.dcpRequestStream = none →
          vb ∈ (dcpRequestStreamHandle cfg o c vb vbBlob start).1.vbStreamRequested))) ∧
    (∀ (c : Consumer) (steps : List (Oracle × Step)) (vb : Nat), c.reqInv →
      (run cfg env c steps).unresolvedStreamReqs vb ≤ 1) := by
  constructor
  · intro o c vb vbBlob start
    obtain ⟨h1, h2, _⟩ := dcpRequestStreamHandle_effect cfg o c vb vbBlob start
    exact ⟨fun hin => ⟨(h1 hin).2.2, (h1 hin).1⟩, h2⟩
  · intro c steps vb hi
    rcases run_reqInv cfg env steps c hi vb with h | ⟨h, _⟩
    · rw [h]; exact Nat.zero_le 1
    · rw [h]

/-- Witness of C4: from the initial state, a stream request for vbucket 9, a second call
that finds the request in progress, the ROLLBACK response, and a third call: two calls
are logged, and one request is unresolved at the end. -/
theorem stream_request_guard_witness :
    Consumer.reqInv {} ∧
    (run sampleConfig sampleEnv {} sampleInterleaving).streamRequests.length = 2 ∧
    (run sampleConfig sampleEnv {} sampleInterleaving).unresolvedStreamReqs 9 = 1 ∧
    (run sampleConfig sampleEnv {} sampleInterleaving).unresolvedStreamReqs 9 ≤ 1 :=
  ⟨fun _ => Or.inl rfl, rfl, rfl,
    (stream_request_guard sampleConfig sampleEnv).2 {} sampleInterleaving 9
      (fun _ => Or.inl rfl)⟩

/-! ## Monotonicity of `last_processed_seq_no` -/

theorem lastProcessedSeqNos_head (cfg : Config) (env : Env) (vb : Nat) (c : Consumer)
    (steps : List (Oracle × RouterMsg)) :
    (lastProcessedSeqNos cfg env vb c steps).head? =
      some (c.vbProcessingStats vb).last_processed_seq_no := by
  cases steps <;> rfl

/-- C5, as stated, fails: in the sample history the consumer owns vbucket 9 again and
`last_processed_seq_no` is 10 when the filter-data signal `(9, 5)` of the second STREAMEND
arrives (the signal carries `last_read_seq_no = 5`, as `sendVbFilterData` was given); the
router then stores 5, a value below the one it replaces. -/
theorem last_processed_seq_no_counterexample :
    ((run sampleConfig sampleEnv {} sampleRollbackHistory).vbProcessingStats 9).assigned_worker =
      sampleConfig.ConsumerName ∧
    ((run sampleConfig sampleEnv {} sampleRollbackHistory).vbProcessingStats 9).node_uuid =
      sampleConfig.NodeUUID ∧
    ((run sampleConfig sampleEnv {} sampleRollbackHistory).sentVbFilterData.map Prod.snd) =
      [10, 5] ∧
    ((run sampleConfig sampleEnv {} sampleRollbackHistory).vbProcessingStats
      9).last_processed_seq_no = 10 ∧
    ((run sampleConfig sampleEnv {}
      (sampleRollbackHistory ++
        [(({} : Oracle), Step.processEvents (.filterDataCh (some ⟨9, 5⟩)))])).vbProcessingStats
      9).last_processed_seq_no = 5 := by
  refine ⟨?_, ?_, ?_, ?_, ?_⟩ <;> decide

/-- C5, amended: in a pass of the router `last_processed_seq_no` of a vbucket is written
only by the filter-data arm, which stores the sequence number of the entry (mutations,
deletions, STREAMREQ, STREAMEND and every other message leave it unchanged); hence, for
every vbucket and every sequence of messages handled by the router in which every
filter-data entry carries a sequence number not below the value stored for its vbucket,
the successive values of `last_processed_seq_no` are monotonically non-decreasing. -/
theorem last_processed_seq_no_non_decreasing (cfg : Config) (env : Env) (vb : Nat) :
    (∀ (c : Consumer) (o : Oracle) (m : RouterMsg),
      ((routerStep cfg env c (o, m)).vbProcessingStats vb).last_processed_seq_no =
        (c.vbProcessingStats vb).last_processed_seq_no ∨
      ∃ e, m = .filterDataCh (some e) ∧ e.Vbucket = vb ∧
        ((routerStep cfg env c (o, m)).vbProcessingStats vb).last_processed_seq_no = e.SeqNo) ∧
    (∀ (steps : List (Oracle × RouterMsg)) (c : Consumer),
      filterDataNotBelow cfg env c steps →
      (lastProcessedSeqNos cfg env vb c steps).Chain' (· ≤ ·)) := by
  refine ⟨fun c o m => (routerStep_effect cfg env c o m).2.2 vb, ?_⟩
  intro steps
  induction steps with
  | nil => intro c _; exact List.chain'_singleton _
  | cons om steps ih =>
    intro c h
    obtain ⟨o, m⟩ := om
    obtain ⟨h1, h2⟩ := h
    show ((c.vbProcessingStats vb).last_processed_seq_no ::
      lastProcessedSeqNos cfg env vb (routerStep cfg env c (o, m)) steps).Chain' (· ≤ ·)
    rw [List.chain'_cons', lastProcessedSeqNos_head]
    refine ⟨?_, ih _ h2⟩
    intro y hy
    simp only [Option.mem_def, Option.some.injEq] at hy
    subst hy
    rcases (routerStep_effect cfg env c o m).2.2 vb with heq | ⟨e, hm, hv, heq⟩
    · rw [heq]
    · subst hm
      subst hv
      rw [heq]
      exact h1

/-- Witness of the amended C5: from the sample state with `last_processed_seq_no = 40` for
vbucket 9, the STREAMEND and its filter-data signal `(9, 42)` give the values 40, 40, 42. -/
theorem last_processed_seq_no_non_decreasing_witness :
    lastProcessedSeqNos sampleConfig sampleEnv 9 sampleStreaming
      [({}, .aggDCPFeed (some sampleStreamEnd)), ({}, .filterDataCh (some ⟨9, 42⟩))] =
      [40, 40, 42] ∧
    (lastProcessedSeqNos sampleConfig sampleEnv 9 sampleStreaming
      [({}, .aggDCPFeed (some sampleStreamEnd)),
       ({}, .filterDataCh (some ⟨9, 42⟩))]).Chain' (· ≤ ·) :=
  ⟨rfl,
   (last_processed_seq_no_non_decreasing sampleConfig sampleEnv 9).2
     [({}, .aggDCPFeed (some sampleStreamEnd)), ({}, .filterDataCh (some ⟨9, 42⟩))]
     sampleStreaming ⟨trivial, by decide, trivial⟩⟩

/-! ## The queue `vbsRemainingToRestream` -/

/-- C11 fails on the code: starting from the duplicate-free queue `[9]`, the filter-data
arm (planner still assigning vbucket 9), the error path of `dcpRequestStreamHandle` and
the failover-log handler (no latest entry) each leave `[9, 9]`, which has a duplicate;
the append of `processReqStreamMessages` (planner running), which looks first whether the
vbucket is already queued, leaves `[9]`. -/
theorem restream_queue_duplicates :
    sampleQueued.vbsRemainingToRestream.Nodup ∧
    (routerStep sampleConfig sampleEnv sampleQueued
      ({}, .filterDataCh (some ⟨9, 42⟩))).vbsRemainingToRestream = [9, 9] ∧
    (dcpRequestStreamHandle sampleConfig sampleRequestFails sampleQueued 9 {}
      42).1.vbsRemainingToRestream = [9, 9] ∧
    ((handleFailoverLog sampleNoFlogOracle sampleQueued
      (sampleRetryEntry Status.ROLLBACK)).state?.map
        fun c => c.vbsRemainingToRestream) = some [9, 9] ∧
    ¬ ([9, 9] : List Nat).Nodup ∧
    ((processReqStreamMessages sampleConfig samplePlannerRunning sampleQueued
      (some ⟨9, {}, 42⟩)).state?.map fun c => c.vbsRemainingToRestream) = some [9] := by
  refine ⟨?_, ?_, ?_, ?_, ?_, ?_⟩ <;> decide

/-! ## The filter-data arm -/

/-- C13: for every filter-data entry `(vb, lastSeq)` that `processEvents` handles to
completion (no retry timeout): afterwards `vb` is absent from `vbStreamRequested` and from
`filterVbEvents`, `last_processed_seq_no` of `vb` equals `lastSeq`, the blob handed to
`updateCheckpoint` right after the `stopped` history entry is the blob read with
`LastSeqNoProcessed = lastSeq`, and the in-memory `assigned_worker`, `current_vb_owner` and
`node_uuid` of `vb` are empty with `dcp_stream_status = stopped`; if the planner still
assigns `vb` to this consumer, `vb` is absent from `inflightDcpStreams`, the blob read again
is checkpointed and `vb` has been appended to `vbsRemainingToRestream`; otherwise nothing
more is checkpointed and `vbsRemainingToRestream` is unchanged. -/
theorem filter_data_postconditions (cfg : Config) (env : Env) (o : Oracle) (c : Consumer)
    (e : vbSeqNo) (hto : ∀ site, o.retryTimeout site = false) :
    ∃ c1 : Consumer,
      processEvents cfg env o c (.filterDataCh (some e)) = .next c1 ∧
      e.Vbucket ∉ c1.vbStreamRequested ∧
      e.Vbucket ∉ c1.filterVbEvents ∧
      (c1.vbProcessingStats e.Vbucket).last_processed_seq_no = e.SeqNo ∧
      (∃ (hist : OwnershipEntry) (rest : List MetaOp),
        hist.Operation = dcpStreamStopped ∧
        c1.metaOps = c.metaOps ++
          [.addOwnershipHistorySECallback (cfg.AddMetadataPrefix (cfg.vbKey e.Vbucket)) hist,
           .updateCheckpoint (cfg.vbKey e.Vbucket) e.Vbucket
             { o.getOp e.Vbucket 0 with LastSeqNoProcessed := e.SeqNo }] ++ rest ∧
        (o.checkIfCurrentConsumerShouldOwnVb e.Vbucket = true →
          rest = [.updateCheckpoint (cfg.vbKey e.Vbucket) e.Vbucket (o.getOp e.Vbucket 1)]) ∧
        (o.checkIfCurrentConsumerShouldOwnVb e.Vbucket = false → rest = [])) ∧
      (c1.vbProcessingStats e.Vbucket).assigned_worker = "" ∧
      (c1.vbProcessingStats e.Vbucket).current_vb_owner = "" ∧
      (c1.vbProcessingStats e.Vbucket).node_uuid = "" ∧
      (c1.vbProcessingStats e.Vbucket).dcp_stream_status = dcpStreamStopped ∧
      (o.checkIfCurrentConsumerShouldOwnVb e.Vbucket = true →
        e.Vbucket ∉ c1.inflightDcpStreams ∧
        c1.vbsRemainingToRestream = c.vbsRemainingToRestream ++ [e.Vbucket]) ∧
      (o.checkIfCurrentConsumerShouldOwnVb e.Vbucket = false →
        c1.vbsRemainingToRestream = c.vbsRemainingToRestream) := by
  cases hown : o.checkIfCurrentConsumerShouldOwnVb e.Vbucket with
  | true =>
    simp only [processEvents, handleFilterData, hto, hown, if_true, if_false,
      Bool.false_eq_true]
    refine ⟨_, rfl, ?_, ?_, ?_, ⟨⟨cfg.ConsumerName, cfg.HostPortAddr, dcpStreamStopped,
        (c.vbProcessingStats e.Vbucket).last_read_seq_no, o.now⟩,
      _, rfl, ?_, fun _ => rfl, ?_⟩, ?_, ?_, ?_, ?_, ?_, ?_⟩ <;>
      simp [Consumer.updateVbStat, Consumer.postVbFlog, Consumer.logMetaOp,
        Consumer.purgeVbStreamRequested]
  | false =>
    simp only [processEvents, handleFilterData, hto, hown, if_true, if_false,
      Bool.false_eq_true]
    refine ⟨_, rfl, ?_, ?_, ?_, ⟨⟨cfg.ConsumerName, cfg.HostPortAddr, dcpStreamStopped,
        (c.vbProcessingStats e.Vbucket).last_read_seq_no, o.now⟩,
      [], rfl, ?_, ?_, fun _ => rfl⟩, ?_, ?_, ?_, ?_, ?_, ?_⟩ <;>
      simp [Consumer.updateVbStat, Consumer.postVbFlog, Consumer.logMetaOp,
        Consumer.purgeVbStreamRequested]

/-- Witness of C13: the filter-data entry `(9, 42)` on the sample state in which the stream
of vbucket 9 is running, the planner still assigning the vbucket. -/
theorem filter_data_postconditions_witness :
    ∃ c1 : Consumer,
      processEvents sampleConfig sampleEnv {} sampleStreaming (.filterDataCh (some ⟨9, 42⟩)) =
        .next c1 ∧
      9 ∉ c1.vbStreamRequested ∧ 9 ∉ c1.filterVbEvents ∧
      (c1.vbProcessingStats 9).last_processed_seq_no = 42 ∧
      (c1.vbProcessingStats 9).assigned_worker = "" ∧
      (c1.vbProcessingStats 9).dcp_stream_status = dcpStreamStopped ∧
      9 ∉ c1.inflightDcpStreams ∧ c1.vbsRemainingToRestream = [9] := by
  obtain ⟨c1, h, h1, h2, h3, _, h5, _, _, h8, h9, _⟩ :=
    filter_data_postconditions sampleConfig sampleEnv {} sampleStreaming ⟨9, 42⟩ (fun _ => rfl)
  exact ⟨c1, h, h1, h2, h3, h5, h8, (h9 rfl).1, (h9 rfl).2⟩

/-! ## The planner's answer after a successful stream request -/

/-- Counterexample to C14 as stated: a STREAMREQ response with status SUCCESS whose
failover log has no latest entry is handled to completion (one entry is posted and the
loop goes round again) while the planner says that this consumer should not own
vbucket 9; the vbucket is neither in `filterVbEvents` nor in `vbsRemainingToClose`
afterwards. -/
theorem streamreq_success_planner_counterexample :
    (sampleStreamReq Status.SUCCESS []).Status = Status.SUCCESS ∧
    sampleNotOwner.checkIfCurrentConsumerShouldOwnVb 9 = false ∧
    (∀ site, sampleNotOwner.retryTimeout site = false) ∧
    ∃ c1 : Consumer,
      processEvents sampleConfig sampleEnv sampleNotOwner sampleRequested
        (.aggDCPFeed (some (sampleStreamReq Status.SUCCESS []))) = .next c1 ∧
      c1.vbFlogChan = [{ statusCode := Status.SUCCESS, streamReqRetry := false, vb := 9 }] ∧
      9 ∉ c1.filterVbEvents ∧
      c1.vbsRemainingToClose = [] :=
  ⟨rfl, rfl, fun _ => rfl, _, rfl, by decide, by decide, rfl⟩

/-- C14, amended: for every STREAMREQ event with status SUCCESS whose failover log has a
latest entry, handled to completion (the flag observed true, no retry timeout): if the
planner says that this consumer should not own the vbucket, the vbucket is in
`filterVbEvents` afterwards and has been appended to `vbsRemainingToClose`; if the planner
says that it should own the vbucket, `filterVbEvents` and `vbsRemainingToClose` are
unchanged. -/
theorem streamreq_success_planner (cfg : Config) (env : Env) (o : Oracle) (c : Consumer)
    (e : DcpEvent) (vbuuid seqNo : Nat)
    (hop : e.Opcode = Opcode.DCP_STREAMREQ)
    (hflag : (c.vbProcessingStats e.VBucket).vb_stream_request_metadata_updated = some true)
    (hst : e.Status = Status.SUCCESS)
    (hlatest : e.FailoverLog.Latest = .ok (vbuuid, seqNo))
    (hto : ∀ site, o.retryTimeout site = false)
    (htimer : o.timersCreate ≠ some Err.ErrRetryTimeout) :
    ∃ c1 : Consumer,
      processEvents cfg env o c (.aggDCPFeed (some e)) = .next c1 ∧
      (o.checkIfCurrentConsumerShouldOwnVb e.VBucket = false →
        e.VBucket ∈ c1.filterVbEvents ∧
        c1.filterVbEvents = insert e.VBucket c.filterVbEvents ∧
        c1.vbsRemainingToClose = c.vbsRemainingToClose ++ [e.VBucket]) ∧
      (o.checkIfCurrentConsumerShouldOwnVb e.VBucket = true →
        c1.filterVbEvents = c.filterVbEvents ∧
        c1.vbsRemainingToClose = c.vbsRemainingToClose) := by
  have hflag1 : ((c.countDcpEvent e).vbProcessingStats e.VBucket).vb_stream_request_metadata_updated
      = some true := hflag
  rw [processEvents_streamreq cfg env o c e hop]
  obtain ⟨c2, h1, _, _, _, _, _, _, h8, h9⟩ :=
    handleStreamReq_success cfg o (c.countDcpEvent e) e vbuuid seqNo hflag1 hst hlatest hto htimer
  refine ⟨c2, h1, fun h => ?_, fun h => ?_⟩
  · obtain ⟨ha, hb⟩ := h8 h
    refine ⟨?_, ha, hb⟩
    rw [ha]
    exact Finset.mem_insert_self _ _
  · exact h9 h

/-- Witness of C14: the sample STREAMREQ response with status SUCCESS and latest entry
`(77, 100)`, the planner assigning no vbucket to this consumer. -/
theorem streamreq_success_planner_witness :
    ∃ c1 : Consumer,
      processEvents sampleConfig sampleEnv sampleNotOwner sampleRequested
        (.aggDCPFeed (some (sampleStreamReq Status.SUCCESS [(77, 100)]))) = .next c1 ∧
      9 ∈ c1.filterVbEvents ∧ c1.vbsRemainingToClose = [9] := by
  obtain ⟨c1, h, h1, _⟩ :=
    streamreq_success_planner sampleConfig sampleEnv sampleNotOwner sampleRequested
      (sampleStreamReq Status.SUCCESS [(77, 100)]) 77 100 rfl rfl rfl rfl (fun _ => rfl)
      (by decide)
  exact ⟨c1, h, (h1 rfl).1, (h1 rfl).2.2⟩

/-! ## What the feed registry leaves untouched -/

theorem queueFrame_refl (c : Consumer) : c.queueFrame c :=
  ⟨rfl, rfl, rfl, rfl, rfl, rfl, rfl, rfl, rfl, rfl⟩

theorem queueFrame_trans {c c1 c2 : Consumer} (h1 : c.queueFrame c1) (h2 : c1.queueFrame c2) :
    c.queueFrame c2 :=
  ⟨h2.inflight.trans h1.inflight, h2.enqueued.trans h1.enqueued,
    h2.toRestream.trans h1.toRestream, h2.toClose.trans h1.toClose,
    h2.toCleanup.trans h1.toCleanup, h2.reqCh.trans h1.reqCh, h2.flogCh.trans h1.flogCh,
    h2.filtered.trans h1.filtered, h2.feedsClosed.trans h1.feedsClosed,
    h2.cleaned.trans h1.cleaned⟩

theorem clearUpOwnershipInfoFromMeta_queueFrame (cfg : Config) (o : Oracle) (c : Consumer)
    (vb : Nat) : c.queueFrame (clearUpOwnershipInfoFromMeta cfg o c vb).1 := by
  unfold clearUpOwnershipInfoFromMeta
  repeat' split
  all_goals exact ⟨rfl, rfl, rfl, rfl, rfl, rfl, rfl, rfl, rfl, rfl⟩

theorem clearUpAll_queueFrame (cfg : Config) (o : Oracle) (vbs : List Nat) :
    ∀ c : Consumer, c.queueFrame (clearUpAll cfg o c vbs).1 := by
  induction vbs with
  | nil => intro c; exact queueFrame_refl c
  | cons vb vbs ih =>
    intro c
    have h1 := clearUpOwnershipInfoFromMeta_queueFrame cfg o c vb
    unfold clearUpAll
    rcases hc : clearUpOwnershipInfoFromMeta cfg o c vb with ⟨c1, r⟩
    rw [hc] at h1
    cases r with
    | none => exact queueFrame_trans h1 (ih c1)
    | some err =>
      cases err with
      | ErrRetryTimeout => exact h1
      | ErrorInvalidVbucket => exact queueFrame_trans h1 (ih c1)
      | errDcpFeedsClosed => exact queueFrame_trans h1 (ih c1)
      | other msg => exact queueFrame_trans h1 (ih c1)

theorem closeStaleFeeds_queueFrame (cfg : Config) (o : Oracle) (kvAddrs : List String) :
    ∀ c : Consumer, c.queueFrame (closeStaleFeeds cfg o c kvAddrs).1 := by
  induction kvAddrs with
  | nil => intro c; exact queueFrame_refl c
  | cons kvAddr kvAddrs ih =>
    intro c
    unfold closeStaleFeeds
    simp only
    cases hl : c.kvHostDcpFeedMap.lookup kvAddr with
    | none =>
      simp only
      have h1 := clearUpAll_queueFrame cfg o []
        { c with kvHostDcpFeedMap := c.kvHostDcpFeedMap.filter fun kf => kf.1 ≠ kvAddr }
      rcases hc : clearUpAll cfg o
        { c with kvHostDcpFeedMap := c.kvHostDcpFeedMap.filter fun kf => kf.1 ≠ kvAddr } []
        with ⟨c1, r⟩
      rw [hc] at h1
      have h0 : c.queueFrame c1 := ⟨h1.1, h1.2, h1.3, h1.4, h1.5, h1.6, h1.7, h1.8, h1.9, h1.10⟩
      cases r with
      | none => exact queueFrame_trans h0 (ih c1)
      | some err => exact h0
    | some f =>
      simp only
      have h1 := clearUpAll_queueFrame cfg o (c.dcpFeedVbMap f)
        { c with
          closedFeeds := c.closedFeeds ++ [f]
          kvHostDcpFeedMap := c.kvHostDcpFeedMap.filter fun kf => kf.1 ≠ kvAddr }
      rcases hc : clearUpAll cfg o
        { c with
          closedFeeds := c.closedFeeds ++ [f]
          kvHostDcpFeedMap := c.kvHostDcpFeedMap.filter fun kf => kf.1 ≠ kvAddr }
        (c.dcpFeedVbMap f) with ⟨c1, r⟩
      rw [hc] at h1
      have h0 : c.queueFrame c1 := ⟨h1.1, h1.2, h1.3, h1.4, h1.5, h1.6, h1.7, h1.8, h1.9, h1.10⟩
      cases r with
      | none => exact queueFrame_trans h0 (ih c1)
      | some err => exact h0

theorem cleanupStaleDcpFeedHandles_queueFrame (cfg : Config) (o : Oracle) (c : Consumer) :
    c.queueFrame (cleanupStaleDcpFeedHandles cfg o c).1 := by
  unfold cleanupStaleDcpFeedHandles
  simp only
  by_cases hlen : (StrSliceDiff (c.kvHostDcpFeedMap.map Prod.fst)
      (c.kvVbMap.map Prod.snd).dedup).length > 0
  · by_cases ht : o.retryTimeout .populateDcpFeedVbEntriesCallback = true
    · simp only [hlen, ht, if_true]
      exact queueFrame_refl c
    · simp only [hlen, ht, if_true, if_false]
      have h1 := closeStaleFeeds_queueFrame cfg o
        (StrSliceDiff (c.kvHostDcpFeedMap.map Prod.fst) (c.kvVbMap.map Prod.snd).dedup)
        { c with dcpFeedVbMap := o.dcpFeedVbMap }
      exact ⟨h1.1, h1.2, h1.3, h1.4, h1.5, h1.6, h1.7, h1.8, h1.9, h1.10⟩
  · simp only [hlen, if_false]
    exact closeStaleFeeds_queueFrame cfg o _ c

theorem lookupOrStartFeed_queueFrame (cfg : Config) (o : Oracle) (c : Consumer) (vb : Nat)
    (vbKvAddr : String) : c.queueFrame (lookupOrStartFeed cfg o c vb vbKvAddr).1 := by
  unfold lookupOrStartFeed
  cases c.kvHostDcpFeedMap.lookup vbKvAddr with
  | some dcpFeed => exact ⟨rfl, rfl, rfl, rfl, rfl, rfl, rfl, rfl, rfl, rfl⟩
  | none =>
    simp only
    by_cases hs : o.retryTimeout .startDCPFeedOpCallback = true
    · rw [if_pos hs]; exact ⟨rfl, rfl, rfl, rfl, rfl, rfl, rfl, rfl, rfl, rfl⟩
    · rw [if_neg hs]; exact ⟨rfl, rfl, rfl, rfl, rfl, rfl, rfl, rfl, rfl, rfl⟩

theorem ensureDcpFeed_queueFrame (cfg : Config) (o : Oracle) (c : Consumer) (vb : Nat) :
    c.queueFrame (ensureDcpFeed cfg o c vb).1 := by
  unfold ensureDcpFeed
  by_cases h0 : o.isTerminateRunning 0 = true
  · rw [if_pos h0]
    exact queueFrame_refl c
  · rw [if_neg h0]
    cases hr : o.refresh 0 with
    | some err => exact queueFrame_refl c
    | none =>
      simp only
      by_cases ht : o.retryTimeout .getKvVbMap = true
      · rw [if_pos ht]
        exact queueFrame_refl c
      · rw [if_neg ht]
        have h1 := cleanupStaleDcpFeedHandles_queueFrame cfg o { c with kvVbMap := o.kvVbMap }
        rcases hc : cleanupStaleDcpFeedHandles cfg o { c with kvVbMap := o.kvVbMap } with ⟨c1, r⟩
        rw [hc] at h1
        have h2 : c.queueFrame c1 :=
          ⟨h1.1, h1.2, h1.3, h1.4, h1.5, h1.6, h1.7, h1.8, h1.9, h1.10⟩
        have hrest := queueFrame_trans h2 (lookupOrStartFeed_queueFrame cfg o c1 vb
          (Consumer.kvAddrOf { c with kvVbMap := o.kvVbMap } vb))
        cases r with
        | none => exact hrest
        | some err =>
          cases err with
          | ErrRetryTimeout => exact h2
          | ErrorInvalidVbucket => exact hrest
          | errDcpFeedsClosed => exact hrest
          | other msg => exact hrest

theorem lookup_filter_ne (l : List (String × String)) (k : String) :
    (l.filter fun kf => kf.1 ≠ k).lookup k = none := by
  induction l with
  | nil => rfl
  | cons kf l ih =>
    obtain ⟨a, b⟩ := kf
    by_cases h : a = k
    · have hd : decide ((a, b).1 ≠ k) = false := by simp [h]
      simp only [List.filter_cons, hd, Bool.false_eq_true, if_false]
      exact ih
    · have hd : decide ((a, b).1 ≠ k) = true := by simp [h]
      have hk : (k == a) = false := by
        simp only [beq_eq_false_iff_ne, ne_eq]
        exact fun h1 => h h1.symm
      simp only [List.filter_cons, hd, if_true, List.lookup_cons, hk]
      exact ih

theorem lookup_filter_append (l : List (String × String)) (k v : String) :
    ((l.filter fun kf => kf.1 ≠ k) ++ [(k, v)]).lookup k = some v := by
  rw [List.lookup_append, lookup_filter_ne]
  simp [List.lookup]

/-- The feed that the first part of `dcpRequestStreamHandle` yields is the one registered
for the KV host it yields. -/
theorem lookupOrStartFeed_registered (cfg : Config) (o : Oracle) (c : Consumer) (vb : Nat)
    (a vbKvAddr dcpFeed : String)
    (h : (lookupOrStartFeed cfg o c vb a).2 = .ok (vbKvAddr, dcpFeed)) :
    vbKvAddr = a ∧
    (lookupOrStartFeed cfg o c vb a).1.kvHostDcpFeedMap.lookup vbKvAddr = some dcpFeed := by
  unfold lookupOrStartFeed at h ⊢
  cases hl : c.kvHostDcpFeedMap.lookup a with
  | some f =>
    rw [hl] at h
    simp only [Except.ok.injEq, Prod.mk.injEq] at h
    obtain ⟨h1, h2⟩ := h
    subst h1; subst h2
    exact ⟨rfl, hl⟩
  | none =>
    rw [hl] at h
    simp only at h ⊢
    by_cases hs : o.retryTimeout .startDCPFeedOpCallback = true
    · rw [if_pos hs] at h
      cases h
    · rw [if_neg hs] at h ⊢
      simp only [Except.ok.injEq, Prod.mk.injEq] at h
      obtain ⟨h1, h2⟩ := h
      subst h1; subst h2
      exact ⟨rfl, lookup_filter_append _ _ _⟩

theorem ensureDcpFeed_registered (cfg : Config) (o : Oracle) (c : Consumer) (vb : Nat)
    (vbKvAddr dcpFeed : String)
    (h : (ensureDcpFeed cfg o c vb).2 = .ok (vbKvAddr, dcpFeed)) :
    vbKvAddr = (o.kvVbMap.lookup vb).getD "" ∧
    (ensureDcpFeed cfg o c vb).1.kvHostDcpFeedMap.lookup vbKvAddr = some dcpFeed := by
  unfold ensureDcpFeed at h ⊢
  by_cases h0 : o.isTerminateRunning 0 = true
  · rw [if_pos h0] at h
    cases h
  · rw [if_neg h0] at h ⊢
    cases hr : o.refresh 0 with
    | some err =>
      rw [hr] at h
      cases h
    | none =>
      rw [hr] at h
      simp only at h ⊢
      by_cases ht : o.retryTimeout .getKvVbMap = true
      · rw [if_pos ht] at h
        cases h
      · rw [if_neg ht] at h ⊢
        rcases hc : cleanupStaleDcpFeedHandles cfg o { c with kvVbMap := o.kvVbMap } with ⟨c1, r⟩
        rw [hc] at h
        have hreg := lookupOrStartFeed_registered cfg o c1 vb
          (Consumer.kvAddrOf { c with kvVbMap := o.kvVbMap } vb) vbKvAddr dcpFeed
        cases r with
        | none => exact hreg h
        | some err =>
          cases err with
          | ErrRetryTimeout => cases h
          | ErrorInvalidVbucket => exact hreg h
          | errDcpFeedsClosed => exact hreg h
          | other msg => exact hreg h

/-! ## The outcome of the `DcpRequestStream` call -/

/-- C16: when the `DcpRequestStream` call inside `dcpRequestStreamHandle` returns an error
(the first part yielded the feed `dcpFeed` of the KV host `vbKvAddr`, the feeds are not
closed, the vbucket is not in `vbStreamRequested`, the second refresh succeeds and no
termination is under way): the call was made, the vbucket is absent from
`vbStreamRequested` afterwards and `inflightDcpStreams` is as before; the vbucket is
appended to `vbsRemainingToRestream` if the planner still assigns it to this consumer
and the queue is unchanged otherwise; the error is returned unchanged; on the
invalid-vbucket error no feed is closed and the feed stays registered for the KV host; on
any other error the feed is closed and the KV host is removed from `kvHostDcpFeedMap`. -/
theorem request_stream_error (cfg : Config) (o : Oracle) (c : Consumer) (vb : Nat)
    (vbBlob : vbucketKVBlob) (start : Nat) (vbKvAddr dcpFeed : String) (err : Err)
    (hfeed : (ensureDcpFeed cfg o c vb).2 = .ok (vbKvAddr, dcpFeed))
    (hopen : c.dcpFeedsClosed = false)
    (hreq : vb ∉ c.vbStreamRequested)
    (hrefresh : o.refresh 1 = none)
    (hterm : o.isTerminateRunning 1 = false)
    (herr : o.dcpRequestStream = some err) :
    ∃ c1 : Consumer,
      dcpRequestStreamHandle cfg o c vb vbBlob start = (c1, some err) ∧
      c1.streamRequests = c.streamRequests ++
        [{ feed := dcpFeed, vb := vb, opaq := vb, flags := 0, vbuuid := vbBlob.VBuuid,
           start := start, end_ := 0xFFFFFFFFFFFFFFFF, snapStart := start, snapEnd := start }] ∧
      vb ∉ c1.vbStreamRequested ∧
      c1.inflightDcpStreams = c.inflightDcpStreams ∧
      (o.checkIfCurrentConsumerShouldOwnVb vb = true →
        c1.vbsRemainingToRestream = c.vbsRemainingToRestream ++ [vb]) ∧
      (o.checkIfCurrentConsumerShouldOwnVb vb = false →
        c1.vbsRemainingToRestream = c.vbsRemainingToRestream) ∧
      vbKvAddr = (o.kvVbMap.lookup vb).getD "" ∧
      (err = Err.ErrorInvalidVbucket →
        c1.closedFeeds = (ensureDcpFeed cfg o c vb).1.closedFeeds ∧
        c1.kvHostDcpFeedMap = (ensureDcpFeed cfg o c vb).1.kvHostDcpFeedMap ∧
        c1.kvHostDcpFeedMap.lookup vbKvAddr = some dcpFeed) ∧
      (err ≠ Err.ErrorInvalidVbucket →
        c1.closedFeeds = (ensureDcpFeed cfg o c vb).1.closedFeeds ++ [dcpFeed] ∧
        c1.kvHostDcpFeedMap =
          ((ensureDcpFeed cfg o c vb).1.kvHostDcpFeedMap.filter fun kf => kf.1 ≠ vbKvAddr) ∧
        c1.kvHostDcpFeedMap.lookup vbKvAddr = none) := by
  have hq := ensureDcpFeed_queueFrame cfg o c vb
  have hf := ensureDcpFeed_frame cfg o c vb
  obtain ⟨hka, hreg⟩ := ensureDcpFeed_registered cfg o c vb vbKvAddr dcpFeed hfeed
  unfold dcpRequestStreamHandle
  rcases he : ensureDcpFeed cfg o c vb with ⟨c0, r⟩
  rw [he] at hq hf hfeed hreg
  simp only at hfeed hreg
  subst hfeed
  have hi0 : c0.inflightDcpStreams = c.inflightDcpStreams := hq.inflight
  have hr0 : c0.vbsRemainingToRestream = c.vbsRemainingToRestream := hq.toRestream
  have hs0 : c0.streamRequests = c.streamRequests := hf.2.2
  have hopen0 : c0.dcpFeedsClosed = false := hq.feedsClosed.trans hopen
  have hreq0 : vb ∉ c0.vbStreamRequested := by rw [hf.1]; exact hreq
  simp only [requestStream, hopen0, hreq0, hrefresh, hterm, herr, if_false,
    Bool.false_eq_true, requestStreamFailed]
  by_cases hown : o.checkIfCurrentConsumerShouldOwnVb vb = true
  · by_cases hinv : err = Err.ErrorInvalidVbucket
    · simp only [hown, hinv, if_true]
      refine ⟨_, rfl, ?_, ?_, ?_, ?_, ?_, hka, ?_, ?_⟩ <;>
        simp [Consumer.purgeVbStreamRequested, Consumer.callDcpRequestStream, hi0, hr0, hs0, hreg]
    · simp only [hown, hinv, if_true, if_false]
      refine ⟨_, rfl, ?_, ?_, ?_, ?_, ?_, hka, ?_,
        fun _ => ⟨rfl, rfl, lookup_filter_ne _ _⟩⟩ <;>
        simp [Consumer.purgeVbStreamRequested, Consumer.callDcpRequestStream, hi0, hr0, hs0, hinv]
  · have hown2 : o.checkIfCurrentConsumerShouldOwnVb vb = false := by
      cases h : o.checkIfCurrentConsumerShouldOwnVb vb with
      | true => exact absurd h hown
      | false => rfl
    by_cases hinv : err = Err.ErrorInvalidVbucket
    · simp only [hown2, hinv, if_true, if_false, Bool.false_eq_true]
      refine ⟨_, rfl, ?_, ?_, ?_, ?_, ?_, hka, ?_, ?_⟩ <;>
        simp [Consumer.purgeVbStreamRequested, Consumer.callDcpRequestStream, hi0, hr0, hs0, hreg]
    · simp only [hown2, hinv, if_true, if_false, Bool.false_eq_true]
      refine ⟨_, rfl, ?_, ?_, ?_, ?_, ?_, hka, ?_,
        fun _ => ⟨rfl, rfl, lookup_filter_ne _ _⟩⟩ <;>
        simp [Consumer.purgeVbStreamRequested, Consumer.callDcpRequestStream, hi0, hr0, hs0, hinv]
/-- Witness of C16: from the initial state, a stream request for vbucket 9 that fails
with an error other than invalid-vbucket, the planner assigning the vbucket to this
consumer: the vbucket is queued for a restart, and the feed started for the KV host is
closed and removed from the registry. -/
theorem request_stream_error_witness :
    ∃ c1 : Consumer,
      dcpRequestStreamHandle sampleConfig (sampleKv (some (Err.other "connection reset"))) {} 9
        {} 100 = (c1, some (Err.other "connection reset")) ∧
      9 ∉ c1.vbStreamRequested ∧
      c1.inflightDcpStreams = ∅ ∧
      c1.vbsRemainingToRestream = [9] ∧
      c1.closedFeeds = ["127.0.0.1:8096_10.0.0.1:11210_worker_app_0"] ∧
      c1.kvHostDcpFeedMap = [] := by
  obtain ⟨c1, h, _, h2, h3, h4, _, _, _, h8⟩ :=
    request_stream_error sampleConfig (sampleKv (some (Err.other "connection reset"))) {} 9
      {} 100 "10.0.0.1:11210" "127.0.0.1:8096_10.0.0.1:11210_worker_app_0"
      (Err.other "connection reset") rfl rfl (by decide) rfl rfl rfl
  exact ⟨c1, h, h2, h3, h4 rfl, (h8 (by decide)).1, (h8 (by decide)).2.1⟩

/-- C17: when the `DcpRequestStream` call inside `dcpRequestStreamHandle` succeeds and the
history append does not time out (the first part yielded the feed `dcpFeed`, the feeds are
not closed, the vbucket is not in `vbStreamRequested`, the second refresh succeeds and no
termination is under way): the request was issued once, on that feed, with opaque `vb`,
flags 0, vbuuid `vbBlob.VBuuid`, end `0xFFFFFFFFFFFFFFFF` and `snapStart = snapEnd =
start`; afterwards the vbucket is in `inflightDcpStreams` and in `vbStreamRequested`, an
ownership-history entry with operation `requested` and `SeqNo = start` has been appended
under the vbucket's key, `vb_stream_request_metadata_updated` is true, and no error is
returned. -/
theorem request_stream_success (cfg : Config) (o : Oracle) (c : Consumer) (vb : Nat)
    (vbBlob : vbucketKVBlob) (start : Nat) (vbKvAddr dcpFeed : String)
    (hfeed : (ensureDcpFeed cfg o c vb).2 = .ok (vbKvAddr, dcpFeed))
    (hopen : c.dcpFeedsClosed = false)
    (hreq : vb ∉ c.vbStreamRequested)
    (hrefresh : o.refresh 1 = none)
    (hterm : o.isTerminateRunning 1 = false)
    (hok : o.dcpRequestStream = none)
    (hto : o.retryTimeout (.addOwnershipHistorySRRCallback vb) = false) :
    ∃ c1 : Consumer,
      dcpRequestStreamHandle cfg o c vb vbBlob start = (c1, none) ∧
      c1.streamRequests = c.streamRequests ++
        [{ feed := dcpFeed, vb := vb, opaq := vb, flags := 0, vbuuid := vbBlob.VBuuid,
           start := start, end_ := 0xFFFFFFFFFFFFFFFF, snapStart := start, snapEnd := start }] ∧
      vb ∈ c1.inflightDcpStreams ∧
      c1.inflightDcpStreams = insert vb c.inflightDcpStreams ∧
      vb ∈ c1.vbStreamRequested ∧
      c1.metaOps = (ensureDcpFeed cfg o c vb).1.metaOps ++
        [.addOwnershipHistorySRRCallback (cfg.AddMetadataPrefix (cfg.vbKey vb))
          { AssignedWorker := cfg.ConsumerName
            CurrentVBOwner := cfg.HostPortAddr
            Operation := dcpStreamRequested
            SeqNo := start
            Timestamp := o.now }] ∧
      (c1.vbProcessingStats vb).vb_stream_request_metadata_updated = some true ∧
      c1.vbsRemainingToRestream = c.vbsRemainingToRestream := by
  have hq := ensureDcpFeed_queueFrame cfg o c vb
  have hf := ensureDcpFeed_frame cfg o c vb
  unfold dcpRequestStreamHandle
  rcases he : ensureDcpFeed cfg o c vb with ⟨c0, r⟩
  rw [he] at hq hf hfeed
  simp only at hfeed
  subst hfeed
  have hi0 : c0.inflightDcpStreams = c.inflightDcpStreams := hq.inflight
  have hr0 : c0.vbsRemainingToRestream = c.vbsRemainingToRestream := hq.toRestream
  have hs0 : c0.streamRequests = c.streamRequests := hf.2.2
  have hopen0 : c0.dcpFeedsClosed = false := hq.feedsClosed.trans hopen
  have hreq0 : vb ∉ c0.vbStreamRequested := by rw [hf.1]; exact hreq
  simp only [requestStream, hopen0, hreq0, hrefresh, hterm, hok, hto, if_false,
    Bool.false_eq_true, requestStreamIssued]
  refine ⟨_, rfl, ?_, ?_, ?_, ?_, ?_, ?_, ?_⟩ <;>
    simp [Consumer.callDcpRequestStream, Consumer.logMetaOp, Consumer.updateVbStat, hi0, hr0,
      hs0]

/-- Witness of C17: from the initial state, a stream request for vbucket 9 with vbuuid 77
and start 100 that the feed accepts. -/
theorem request_stream_success_witness :
    ∃ c1 : Consumer,
      dcpRequestStreamHandle sampleConfig (sampleKv none) {} 9 { VBuuid := 77 } 100 =
        (c1, none) ∧
      c1.streamRequests =
        [{ feed := "127.0.0.1:8096_10.0.0.1:11210_worker_app_0", vb := 9, opaq := 9,
           flags := 0, vbuuid := 77, start := 100, end_ := 0xFFFFFFFFFFFFFFFF,
           snapStart := 100, snapEnd := 100 }] ∧
      9 ∈ c1.inflightDcpStreams ∧ 9 ∈ c1.vbStreamRequested ∧
      (c1.vbProcessingStats 9).vb_stream_request_metadata_updated = some true := by
  obtain ⟨c1, h, h1, h2, _, h4, _, h6, _⟩ :=
    request_stream_success sampleConfig (sampleKv none) {} 9 { VBuuid := 77 } 100
      "10.0.0.1:11210" "127.0.0.1:8096_10.0.0.1:11210_worker_app_0"
      rfl rfl (by decide) rfl rfl rfl rfl
  exact ⟨c1, h, h1, h2, h4, h6⟩

/-! ## The stream request processor -/

theorem requestStream_enqueue (cfg : Config) (o : Oracle) (c : Consumer) (vb : Nat)
    (vbBlob : vbucketKVBlob) (start : Nat) (vbKvAddr dcpFeed : String) :
    (requestStream cfg o c vb vbBlob start vbKvAddr dcpFeed).1.enqueueMap = c.enqueueMap ∧
    (requestStream cfg o c vb vbBlob start vbKvAddr dcpFeed).1.reqStreamCh = c.reqStreamCh ∧
    (requestStream cfg o c vb vbBlob start vbKvAddr dcpFeed).1.cleanedVbMetadata =
      c.cleanedVbMetadata ∧
    (requestStream cfg o c vb vbBlob start vbKvAddr dcpFeed).1.vbsRemainingToCleanup =
      c.vbsRemainingToCleanup := by
  unfold requestStream requestStreamFailed requestStreamIssued
  repeat' split
  all_goals exact ⟨rfl, rfl, rfl, rfl⟩

theorem dcpRequestStreamHandle_enqueue (cfg : Config) (o : Oracle) (c : Consumer) (vb : Nat)
    (vbBlob : vbucketKVBlob) (start : Nat) :
    (dcpRequestStreamHandle cfg o c vb vbBlob start).1.enqueueMap = c.enqueueMap ∧
    (dcpRequestStreamHandle cfg o c vb vbBlob start).1.reqStreamCh = c.reqStreamCh ∧
    (dcpRequestStreamHandle cfg o c vb vbBlob start).1.cleanedVbMetadata =
      c.cleanedVbMetadata ∧
    (dcpRequestStreamHandle cfg o c vb vbBlob start).1.vbsRemainingToCleanup =
      c.vbsRemainingToCleanup := by
  have hq := ensureDcpFeed_queueFrame cfg o c vb
  unfold dcpRequestStreamHandle
  rcases he : ensureDcpFeed cfg o c vb with ⟨c0, r⟩
  rw [he] at hq
  cases r with
  | error r => exact ⟨hq.enqueued, hq.reqCh, hq.cleaned, hq.toCleanup⟩
  | ok af =>
    obtain ⟨vbKvAddr, dcpFeed⟩ := af
    obtain ⟨h1, h2, h3, h4⟩ := requestStream_enqueue cfg o c0 vb vbBlob start vbKvAddr dcpFeed
    exact ⟨h1.trans hq.enqueued, h2.trans hq.reqCh, h3.trans hq.cleaned, h4.trans hq.toCleanup⟩

theorem requestStreamFor_enqueue (cfg : Config) (o : Oracle) (c : Consumer)
    (msg : streamRequestInfo) :
    (requestStreamFor cfg o c msg).enqueueMap = c.enqueueMap ∧
    (requestStreamFor cfg o c msg).reqStreamCh = c.reqStreamCh ∧
    (requestStreamFor cfg o c msg).cleanedVbMetadata = c.cleanedVbMetadata ∧
    (requestStreamFor cfg o c msg).vbsRemainingToCleanup = c.vbsRemainingToCleanup ∧
    (requestStreamFor cfg o c msg).streamRequests =
      (dcpRequestStreamHandle cfg o c msg.vb msg.vbBlob msg.startSeqNo).1.streamRequests := by
  have h := dcpRequestStreamHandle_enqueue cfg o c msg.vb msg.vbBlob msg.startSeqNo
  unfold requestStreamFor
  rcases hd : dcpRequestStreamHandle cfg o c msg.vb msg.vbBlob msg.startSeqNo with ⟨c1, r⟩
  rw [hd] at h
  obtain ⟨h1, h2, h3, h4⟩ := h
  cases r with
  | none => exact ⟨h1, h2, h3, h4, rfl⟩
  | some err =>
    cases err with
    | ErrRetryTimeout => exact ⟨h1, h2, h3, h4, rfl⟩
    | ErrorInvalidVbucket =>
      simp only
      split <;> exact ⟨h1, h2, h3, h4, rfl⟩
    | errDcpFeedsClosed =>
      simp only
      split <;> exact ⟨h1, h2, h3, h4, rfl⟩
    | other m =>
      simp only
      split <;> exact ⟨h1, h2, h3, h4, rfl⟩

/-- C15: for each `streamRequestInfo` that `processReqStreamMessages` dequeues, the vbucket
is first removed from `enqueueMap`, and then, tested in this order: (1) if the planner says
that the consumer must not own the vbucket, `cleanupVbMetadata(vb)` is called and no
stream request is issued; (2) if the vbucket is already owned by this consumer, nothing
further happens; (3) if the planner is running, the vbucket is put into
`vbsRemainingToRestream` and `vbsRemainingToCleanup`, each only if not already present, and
no stream request is issued; (4) if the vbucket is in `inflightDcpStreams`, nothing further
happens; (5) otherwise `dcpRequestStreamHandle` is called once with the vbucket, the blob
and the start sequence number of the item, and the pass ends in the state that call
leaves, with the vbucket appended to `vbsRemainingToRestream` (if not already present)
when the call returned an error other than the retry timeout. -/
theorem process_req_stream_message (cfg : Config) (o : Oracle) (c : Consumer)
    (msg : streamRequestInfo) :
    (o.checkIfCurrentConsumerShouldOwnVb msg.vb = false →
      (processReqStreamMessages cfg o c (some msg)).state? =
        some { c.deleteFromEnqueueMap msg.vb with
          cleanedVbMetadata := c.cleanedVbMetadata ++ [msg.vb] }) ∧
    (o.checkIfCurrentConsumerShouldOwnVb msg.vb = true →
      c.checkIfVbAlreadyOwnedByCurrConsumer cfg msg.vb = true →
      processReqStreamMessages cfg o c (some msg) = .next (c.deleteFromEnqueueMap msg.vb)) ∧
    (o.checkIfCurrentConsumerShouldOwnVb msg.vb = true →
      c.checkIfVbAlreadyOwnedByCurrConsumer cfg msg.vb = false →
      o.isPlannerRunning = true →
      processReqStreamMessages cfg o c (some msg) =
        .next { c.deleteFromEnqueueMap msg.vb with
          vbsRemainingToRestream :=
            if msg.vb ∈ c.vbsRemainingToRestream then c.vbsRemainingToRestream
            else c.vbsRemainingToRestream ++ [msg.vb]
          vbsRemainingToCleanup :=
            if msg.vb ∈ c.vbsRemainingToCleanup then c.vbsRemainingToCleanup
            else c.vbsRemainingToCleanup ++ [msg.vb] }) ∧
    (o.checkIfCurrentConsumerShouldOwnVb msg.vb = true →
      c.checkIfVbAlreadyOwnedByCurrConsumer cfg msg.vb = false →
      o.isPlannerRunning = false →
      msg.vb ∈ c.inflightDcpStreams →
      processReqStreamMessages cfg o c (some msg) = .next (c.deleteFromEnqueueMap msg.vb)) ∧
    (o.checkIfCurrentConsumerShouldOwnVb msg.vb = true →
      c.checkIfVbAlreadyOwnedByCurrConsumer cfg msg.vb = false →
      o.isPlannerRunning = false →
      msg.vb ∉ c.inflightDcpStreams →
      ∃ (c1 c2 : Consumer) (r : Option Err),
        dcpRequestStreamHandle cfg o (c.deleteFromEnqueueMap msg.vb) msg.vb msg.vbBlob
          msg.startSeqNo = (c2, r) ∧
        processReqStreamMessages cfg o c (some msg) = .next c1 ∧
        c1.enqueueMap = c.enqueueMap.erase msg.vb ∧
        c1.cleanedVbMetadata = c.cleanedVbMetadata ∧
        c1.streamRequests = c2.streamRequests ∧
        ((r = none ∨ r = some Err.ErrRetryTimeout) → c1 = c2) ∧
        (r ≠ none → r ≠ some Err.ErrRetryTimeout →
          c1 = { c2 with
            vbsRemainingToRestream :=
              if msg.vb ∈ c2.vbsRemainingToRestream then c2.vbsRemainingToRestream
              else c2.vbsRemainingToRestream ++ [msg.vb] })) := by
  refine ⟨?_, ?_, ?_, ?_, ?_⟩
  · intro h1
    by_cases ht : o.retryTimeout (.cleanupVbMetadata msg.vb) = true
    · simp [processReqStreamMessages, h1, ht, Outcome.state?, Consumer.deleteFromEnqueueMap]
    · simp [processReqStreamMessages, h1, ht, Outcome.state?, Consumer.deleteFromEnqueueMap]
  · intro h1 h2
    have h2' : (c.deleteFromEnqueueMap msg.vb).checkIfVbAlreadyOwnedByCurrConsumer cfg msg.vb
        = true := h2
    simp [processReqStreamMessages, h1, h2']
  · intro h1 h2 h3
    have h2' : (c.deleteFromEnqueueMap msg.vb).checkIfVbAlreadyOwnedByCurrConsumer cfg msg.vb
        = false := h2
    simp only [processReqStreamMessages, h1, h2', h3, Bool.not_true, Bool.false_eq_true,
      if_false, if_true]
    by_cases ha : msg.vb ∈ c.vbsRemainingToRestream <;>
      by_cases hb : msg.vb ∈ c.vbsRemainingToCleanup <;>
      simp [Contains, ha, hb, Consumer.deleteFromEnqueueMap]
  · intro h1 h2 h3 h4
    have h2' : (c.deleteFromEnqueueMap msg.vb).checkIfVbAlreadyOwnedByCurrConsumer cfg msg.vb
        = false := h2
    have h4' : msg.vb ∈ (c.deleteFromEnqueueMap msg.vb).inflightDcpStreams := h4
    simp [processReqStreamMessages, h1, h2', h3, h4']
  · intro h1 h2 h3 h4
    have h2' : (c.deleteFromEnqueueMap msg.vb).checkIfVbAlreadyOwnedByCurrConsumer cfg msg.vb
        = false := h2
    have h4' : msg.vb ∉ (c.deleteFromEnqueueMap msg.vb).inflightDcpStreams := h4
    obtain ⟨e1, _, e3, _, e5⟩ := requestStreamFor_enqueue cfg o (c.deleteFromEnqueueMap msg.vb) msg
    have hp : processReqStreamMessages cfg o c (some msg) =
        .next (requestStreamFor cfg o (c.deleteFromEnqueueMap msg.vb) msg) := by
      simp [processReqStreamMessages, h1, h2', h3, h4']
    rcases hd : dcpRequestStreamHandle cfg o (c.deleteFromEnqueueMap msg.vb) msg.vb msg.vbBlob
      msg.startSeqNo with ⟨c2, r⟩
    rw [hd] at e5
    refine ⟨_, c2, r, rfl, hp, e1, e3, e5, ?_, ?_⟩
    · intro hr
      unfold requestStreamFor
      rw [hd]
      rcases hr with hr | hr <;> subst hr <;> rfl
    · intro hr1 hr2
      unfold requestStreamFor
      rw [hd]
      cases r with
      | none => exact absurd rfl hr1
      | some err =>
        cases err with
        | ErrRetryTimeout => exact absurd rfl hr2
        | ErrorInvalidVbucket =>
          by_cases ha : msg.vb ∈ c2.vbsRemainingToRestream <;> simp [Contains, ha]
        | errDcpFeedsClosed =>
          by_cases ha : msg.vb ∈ c2.vbsRemainingToRestream <;> simp [Contains, ha]
        | other m =>
          by_cases ha : msg.vb ∈ c2.vbsRemainingToRestream <;> simp [Contains, ha]
/-- Witness of C15: the item `(9, blob, 42)` taken while the planner is running is put
back into both queues without a stream request, and the same item taken in the initial
state with the planner at rest leads to one call of `dcpRequestStreamHandle`, which
issues the request. -/
theorem process_req_stream_message_witness :
    processReqStreamMessages sampleConfig samplePlannerRunning sampleQueued
        (some ⟨9, {}, 42⟩) =
      .next { sampleQueued.deleteFromEnqueueMap 9 with
        vbsRemainingToRestream := [9]
        vbsRemainingToCleanup := [9] } ∧
    ∃ (c1 c2 : Consumer) (r : Option Err),
      dcpRequestStreamHandle sampleConfig (sampleKv none)
        (Consumer.deleteFromEnqueueMap {} 9) 9 {} 42 = (c2, r) ∧
      processReqStreamMessages sampleConfig (sampleKv none) {} (some ⟨9, {}, 42⟩) = .next c1 ∧
      c1.enqueueMap = (∅ : Finset Nat).erase 9 ∧
      c1.cleanedVbMetadata = [] ∧
      c1.streamRequests = c2.streamRequests ∧
      ((r = none ∨ r = some Err.ErrRetryTimeout) → c1 = c2) ∧
      (r ≠ none → r ≠ some Err.ErrRetryTimeout →
        c1 = { c2 with
          vbsRemainingToRestream :=
            if 9 ∈ c2.vbsRemainingToRestream then c2.vbsRemainingToRestream
            else c2.vbsRemainingToRestream ++ [9] }) :=
  ⟨(process_req_stream_message sampleConfig samplePlannerRunning sampleQueued
      ⟨9, {}, 42⟩).2.2.1 rfl rfl rfl,
    (process_req_stream_message sampleConfig (sampleKv none) {} ⟨9, {}, 42⟩).2.2.2.2
      rfl rfl rfl (by decide)⟩

/-! ## The dedup set `enqueueMap` -/

theorem enqueueInv_of_effect {c c1 : Consumer} {vb : Nat} (h : c.enqueueEffect c1 vb)
    (hi : c.enqueueInv) : c1.enqueueInv := by
  obtain ⟨hnd, hmem⟩ := hi
  rcases h with ⟨h1, h2⟩ | ⟨h1, h2, msg, h3, h4⟩
  · refine ⟨by rw [h1]; exact hnd, ?_⟩
    intro m hm
    rw [h1] at hm
    exact h2 (hmem m hm)
  · refine ⟨?_, ?_⟩
    · rw [h4, List.map_append, List.map_singleton, h3]
      refine List.Nodup.append hnd (List.nodup_singleton vb) ?_
      intro a ha hb
      rw [List.mem_singleton] at hb
      subst hb
      obtain ⟨m, hm, rfl⟩ := List.mem_map.mp ha
      exact h1 (hmem m hm)
    · intro m hm
      rw [h4, List.mem_append, List.mem_singleton] at hm
      rw [h2]
      rcases hm with hm | hm
      · exact Finset.mem_insert_of_mem (hmem m hm)
      · subst hm
        rw [h3]
        exact Finset.mem_insert_self _ _

theorem enqueueInv_of_same {c c1 : Consumer} (h1 : c1.reqStreamCh = c.reqStreamCh)
    (h2 : c1.enqueueMap = c.enqueueMap) (hi : c.enqueueInv) : c1.enqueueInv :=
  @enqueueInv_of_effect c c1 0 (Or.inl ⟨h1, by rw [h2]⟩) hi

/-- A pass of `handleFailoverLog` sends an item for the vbucket of its entry only if the
vbucket is not in `enqueueMap`, and adds the vbucket when it sends. -/
theorem handleFailoverLog_enqueue (o : Oracle) (c c1 : Consumer) (vbFlog : vbFlogEntry)
    (h : (handleFailoverLog o c vbFlog).state? = some c1) :
    c.enqueueEffect c1 vbFlog.vb := by
  have hsame : ∀ c2 : Consumer,
      (Outcome.next c2).state? = some c1 ∨ (Outcome.exit c2).state? = some c1 →
      c2.reqStreamCh = c.reqStreamCh → c2.enqueueMap = c.enqueueMap →
      c.enqueueEffect c1 vbFlog.vb := by
    intro c2 h3 h1 h2
    have h4 : c2 = c1 := by
      rcases h3 with h3 | h3 <;> simpa [Outcome.state?] using h3
    subst h4
    exact Or.inl ⟨h1, by rw [h2]⟩
  unfold handleFailoverLog at h
  simp only at h
  by_cases h1 : vbFlog.signalStreamEnd = true
  · rw [if_pos h1] at h
    exact hsame _ (Or.inl h) rfl rfl
  · rw [if_neg h1] at h
    by_cases h2 : (!vbFlog.streamReqRetry && decide (vbFlog.statusCode = Status.SUCCESS)) = true
    · rw [if_pos h2] at h
      exact hsame _ (Or.inl h) rfl rfl
    · rw [if_neg h2] at h
      by_cases h3 : vbFlog.streamReqRetry = true
      · rw [if_pos h3] at h
        by_cases h4 : o.retryTimeout (.getOpCallback vbFlog.vb 0) = true
        · rw [if_pos h4] at h
          exact hsame _ (Or.inr h) rfl rfl
        · rw [if_neg h4] at h
          by_cases h5 : o.retryTimeout (.getEFFailoverLogOpAllVbucketsCallback vbFlog.vb) = true
          · rw [if_pos h5] at h
            exact hsame _ (Or.inr h) rfl rfl
          · rw [if_neg h5] at h
            have hrest : ∀ (vbBlob : vbucketKVBlob) (startSeqNo : Nat),
                (if vbFlog.statusCode = Status.ROLLBACK then
                  if Consumer.checkIfAlreadyEnqueued
                      { c with inflightDcpStreams := c.inflightDcpStreams.erase vbFlog.vb }
                      vbFlog.vb = true then
                    Outcome.next { c with inflightDcpStreams := c.inflightDcpStreams.erase vbFlog.vb }
                  else
                    Outcome.next
                      ((((Consumer.addToEnqueueMap
                        { c with inflightDcpStreams := c.inflightDcpStreams.erase vbFlog.vb }
                        vbFlog.vb).sendReqStream
                        { vb := vbFlog.vb, vbBlob := vbBlob, startSeqNo := vbFlog.seqNo })).updateVbStat
                        vbFlog.vb fun st =>
                          { st with start_seq_no := startSeqNo, timestamp := o.now })
                else
                  if Consumer.checkIfAlreadyEnqueued
                      { c with inflightDcpStreams := c.inflightDcpStreams.erase vbFlog.vb }
                      vbFlog.vb = true then
                    Outcome.next { c with inflightDcpStreams := c.inflightDcpStreams.erase vbFlog.vb }
                  else
                    Outcome.next
                      ((((Consumer.addToEnqueueMap
                        { c with inflightDcpStreams := c.inflightDcpStreams.erase vbFlog.vb }
                        vbFlog.vb).sendReqStream
                        { vb := vbFlog.vb, vbBlob := vbBlob, startSeqNo := startSeqNo })).updateVbStat
                        vbFlog.vb fun st =>
                          { st with start_seq_no := 0, timestamp := o.now })).state? = some c1 →
                c.enqueueEffect c1 vbFlog.vb := by
              intro vbBlob startSeqNo h
              by_cases hq : Consumer.checkIfAlreadyEnqueued
                  { c with inflightDcpStreams := c.inflightDcpStreams.erase vbFlog.vb }
                  vbFlog.vb = true
              · simp only [hq, if_true, ite_self] at h
                exact hsame _ (Or.inl h) rfl rfl
              · have hq2 : Consumer.checkIfAlreadyEnqueued
                    { c with inflightDcpStreams := c.inflightDcpStreams.erase vbFlog.vb }
                    vbFlog.vb = false := by
                  simpa using hq
                have hq3 : c.checkIfAlreadyEnqueued vbFlog.vb = false := hq2
                by_cases hrb : vbFlog.statusCode = Status.ROLLBACK
                · simp only [hrb, hq2, if_true, Bool.false_eq_true, if_false, Outcome.state?,
                    Option.some.injEq] at h
                  subst h
                  exact Or.inr ⟨by simpa [Consumer.checkIfAlreadyEnqueued] using hq3, rfl, _,
                    rfl, rfl⟩
                · simp only [hrb, hq2, Bool.false_eq_true, if_false, Outcome.state?,
                    Option.some.injEq] at h
                  subst h
                  exact Or.inr ⟨by simpa [Consumer.checkIfAlreadyEnqueued] using hq3, rfl, _,
                    rfl, rfl⟩
            cases hfl : o.flogs vbFlog.vb with
            | none =>
              rw [hfl] at h
              exact hrest _ _ h
            | some flog =>
              rw [hfl] at h
              simp only at h
              cases hl : flog.Latest with
              | error err =>
                rw [hl] at h
                exact hsame _ (Or.inl h) rfl rfl
              | ok r =>
                obtain ⟨vbuuid, startSeqNo⟩ := r
                rw [hl] at h
                exact hrest _ _ h
      · rw [if_neg h3] at h
        exact hsame _ (Or.inl h) rfl rfl

/-- The body of the loop of `startDcp` sends an item for its vbucket only if the vbucket
is not in `enqueueMap`, and adds the vbucket when it sends. -/
theorem startDcpVb_enqueue (cfg : Config) (o : Oracle) (vbSeqnos : List Nat)
    (flogs : List (Nat × FailoverLog)) (c c1 : Consumer) (vbs vbs1 : List Nat) (vb : Nat)
    (r : Option Err)
    (h : startDcpVb cfg o vbSeqnos flogs c vbs vb = some (c1, vbs1, r)) :
    c.enqueueEffect c1 vb := by
  unfold startDcpVb at h
  simp only at h
  repeat' split at h
  all_goals try (simp only [Option.some.injEq, Prod.mk.injEq, reduceCtorEq] at h)
  all_goals
    obtain ⟨h1, _, _⟩ := h
    subst h1
    first
      | exact Or.inl ⟨rfl, Finset.Subset.refl _⟩
      | exact Or.inl ⟨rfl, Finset.subset_insert _ _⟩
      | (refine Or.inr ⟨?_, rfl, _, rfl, rfl⟩
         simp_all [Consumer.checkIfAlreadyEnqueued, Consumer.logMetaOp])

theorem startDcpLoop_enqueueInv (cfg : Config) (o : Oracle) (vbSeqnos : List Nat)
    (flogs : List (Nat × FailoverLog)) (flogVbs : List Nat) :
    ∀ (c c1 : Consumer) (vbs vbs1 : List Nat) (r : Option Err),
      startDcpLoop cfg o vbSeqnos flogs c vbs flogVbs = some (c1, vbs1, r) →
      c.enqueueInv → c1.enqueueInv := by
  induction flogVbs with
  | nil =>
    intro c c1 vbs vbs1 r h hi
    simp only [startDcpLoop, Option.some.injEq, Prod.mk.injEq] at h
    obtain ⟨h1, _, _⟩ := h
    subst h1
    exact hi
  | cons vb rest ih =>
    intro c c1 vbs vbs1 r h hi
    unfold startDcpLoop at h
    cases hb : startDcpVb cfg o vbSeqnos flogs c vbs vb with
    | none =>
      rw [hb] at h
      cases h
    | some res =>
      obtain ⟨c2, vbs2, r2⟩ := res
      have hi2 : c2.enqueueInv :=
        enqueueInv_of_effect (startDcpVb_enqueue cfg o vbSeqnos flogs c c2 vbs vbs2 vb r2 hb) hi
      rw [hb] at h
      cases r2 with
      | some err =>
        simp only [Option.some.injEq, Prod.mk.injEq] at h
        obtain ⟨h1, _, _⟩ := h
        subst h1
        exact hi2
      | none => exact ih c2 c1 vbs2 vbs1 r h hi2

theorem startDcp_enqueueInv (cfg : Config) (o : Oracle) (c c1 : Consumer)
    (flogs : List (Nat × FailoverLog)) (r : Option Err)
    (h : startDcp cfg o c flogs = some (c1, r)) (hi : c.enqueueInv) : c1.enqueueInv := by
  unfold startDcp at h
  by_cases h0 : o.isTerminateRunning 0 = true
  · rw [if_pos h0] at h
    simp only [Option.some.injEq, Prod.mk.injEq] at h
    obtain ⟨h1, _⟩ := h
    subst h1
    exact hi
  · rw [if_neg h0] at h
    by_cases h1 : o.retryTimeout .getEventingNodeAddrOpCallback = true
    · rw [if_pos h1] at h
      simp only [Option.some.injEq, Prod.mk.injEq] at h
      obtain ⟨h1, _⟩ := h
      subst h1
      exact hi
    · rw [if_neg h1] at h
      simp only at h
      by_cases h2 : o.bucketSeqnos.2 ≠ none ∧
          cfg.dcpStreamBoundary ≠ DcpStreamBoundary.DcpEverything
      · rw [if_pos h2] at h
        simp only [Option.some.injEq, Prod.mk.injEq] at h
        obtain ⟨h1, _⟩ := h
        subst h1
        exact hi
      · rw [if_neg h2] at h
        cases hl : startDcpLoop cfg o o.bucketSeqnos.1 flogs c []
            (sortVbs (flogs.map Prod.fst).dedup) with
        | none =>
          rw [hl] at h
          cases h
        | some res =>
          obtain ⟨c2, vbs2, r2⟩ := res
          have hi2 : c2.enqueueInv :=
            startDcpLoop_enqueueInv cfg o _ flogs _ c c2 [] vbs2 r2 hl hi
          rw [hl] at h
          cases r2 with
          | some err =>
            simp only [Option.some.injEq, Prod.mk.injEq] at h
            obtain ⟨h1, _⟩ := h
            subst h1
            exact hi2
          | none =>
            simp only at h
            by_cases h3 : o.retryTimeout .checkIfVbStreamsOpenedCallback = true
            · rw [if_pos h3] at h
              simp only [Option.some.injEq, Prod.mk.injEq] at h
              obtain ⟨h1, _⟩ := h
              subst h1
              exact enqueueInv_of_same rfl rfl hi2
            · rw [if_neg h3] at h
              simp only [Option.some.injEq, Prod.mk.injEq] at h
              obtain ⟨h1, _⟩ := h
              subst h1
              exact enqueueInv_of_same rfl rfl hi2

/-- A pass of `processReqStreamMessages` on an item removes the vbucket of the item from
`enqueueMap` and sends nothing. -/
theorem processReqStreamMessages_enqueue (cfg : Config) (o : Oracle) (c c1 : Consumer)
    (msg : streamRequestInfo)
    (h : (processReqStreamMessages cfg o c (some msg)).state? = some c1) :
    c1.reqStreamCh = c.reqStreamCh ∧ c1.enqueueMap = c.enqueueMap.erase msg.vb := by
  obtain ⟨e1, e2, _⟩ := requestStreamFor_enqueue cfg o (c.deleteFromEnqueueMap msg.vb) msg
  unfold processReqStreamMessages at h
  simp only at h
  repeat' split at h
  all_goals
    simp only [Outcome.state?, Option.some.injEq] at h
    subst h
    first
      | exact ⟨rfl, rfl⟩
      | exact ⟨e2, e1⟩

theorem reqStreamReceive_enqueueInv (cfg : Config) (o : Oracle) (c c1 : Consumer)
    (h : (reqStreamReceive cfg o c).state? = some c1) (hi : c.enqueueInv) : c1.enqueueInv := by
  unfold reqStreamReceive at h
  cases hch : c.reqStreamCh with
  | nil =>
    rw [hch] at h
    simp only [Outcome.state?, Option.some.injEq] at h
    subst h
    exact hi
  | cons msg rest =>
    rw [hch] at h
    simp only at h
    obtain ⟨h1, h2⟩ := processReqStreamMessages_enqueue cfg o _ c1 msg h
    obtain ⟨hnd, hmem⟩ := hi
    rw [hch] at hnd hmem
    simp only [List.map_cons, List.nodup_cons] at hnd
    refine ⟨by rw [h1]; exact hnd.2, ?_⟩
    intro m hm
    rw [h1] at hm
    rw [h2]
    have hne : m.vb ≠ msg.vb := by
      intro heq
      exact hnd.1 (heq ▸ List.mem_map_of_mem _ hm)
    exact Finset.mem_erase.mpr ⟨hne, hmem m (List.mem_cons_of_mem _ hm)⟩

theorem handleStreamReq_enqueue (cfg : Config) (o : Oracle) (c c1 : Consumer) (e : DcpEvent)
    (h : (handleStreamReq cfg o c e).state? = some c1) :
    c1.reqStreamCh = c.reqStreamCh ∧ c1.enqueueMap = c.enqueueMap := by
  unfold handleStreamReq at h
  repeat' split at h
  all_goals
    simp only [Outcome.state?, Option.some.injEq] at h
    subst h
    simp [Consumer.updateVbStat, Consumer.postVbFlog, Consumer.logMetaOp,
      Consumer.purgeVbStreamRequested]

theorem handleFilterData_enqueue (cfg : Config) (o : Oracle) (c c1 : Consumer) (e : vbSeqNo)
    (h : (handleFilterData cfg o c e).state? = some c1) :
    c1.reqStreamCh = c.reqStreamCh ∧ c1.enqueueMap = c.enqueueMap := by
  unfold handleFilterData at h
  repeat' split at h
  all_goals
    simp only [Outcome.state?, Option.some.injEq] at h
    subst h
    exact ⟨rfl, rfl⟩

theorem debuggerHandshake_enqueue (c : Consumer) (o : Oracle) :
    (c.debuggerHandshake o).reqStreamCh = c.reqStreamCh ∧
    (c.debuggerHandshake o).enqueueMap = c.enqueueMap := by
  unfold Consumer.debuggerHandshake
  split <;> exact ⟨rfl, rfl⟩

theorem routerStep_enqueue (cfg : Config) (env : Env) (c : Consumer) (om : Oracle × RouterMsg) :
    (routerStep cfg env c om).reqStreamCh = c.reqStreamCh ∧
    (routerStep cfg env c om).enqueueMap = c.enqueueMap := by
  obtain ⟨o, m⟩ := om
  unfold routerStep
  simp only
  cases hs : (processEvents cfg env o c m).state? with
  | none => exact ⟨rfl, rfl⟩
  | some c1 =>
    simp only [Option.getD_some]
    cases m with
    | stopConsumerCh =>
      simp only [processEvents, Outcome.state?, Option.some.injEq] at hs
      subst hs
      exact ⟨rfl, rfl⟩
    | filterDataCh oe =>
      cases oe with
      | none =>
        simp only [processEvents, Outcome.state?, Option.some.injEq] at hs
        subst hs
        exact ⟨rfl, rfl⟩
      | some e =>
        simp only [processEvents] at hs
        exact handleFilterData_enqueue cfg o c c1 e hs
    | aggDCPFeed oe =>
      cases oe with
      | none =>
        simp only [processEvents, Outcome.state?, Option.some.injEq] at hs
        subst hs
        exact ⟨rfl, rfl⟩
      | some e =>
        simp only [processEvents, handleDcpEvent] at hs
        cases hop : e.Opcode with
        | DCP_MUTATION =>
          rw [hop] at hs
          have hs : (handleMutation cfg env o (c.countDcpEvent e) e).state? = some c1 := hs
          have ha := debuggerHandshake_enqueue
            ((c.countDcpEvent e).updateVbStat e.VBucket fun st =>
              { st with last_read_seq_no := e.Seqno }) o
          rcases handleMutation_cases cfg env o (c.countDcpEvent e) e with
            h1 | h1 | h1 | h1 | ⟨e1, h1⟩ <;>
            rw [h1] at hs <;> simp only [Outcome.state?, Option.some.injEq] at hs
          · subst hs; exact ⟨rfl, rfl⟩
          · cases hs
          · cases hs
          · subst hs; exact ha
          · subst hs; exact ha
        | DCP_DELETION =>
          rw [hop] at hs
          have hs : (handleDeletion o (c.countDcpEvent e) e).state? = some c1 := hs
          unfold handleDeletion at hs
          have ha := debuggerHandshake_enqueue
            ((c.countDcpEvent e).updateVbStat e.VBucket fun st =>
              { st with last_read_seq_no := e.Seqno }) o
          by_cases hf : e.VBucket ∈ (c.countDcpEvent e).filterVbEvents
          · rw [if_pos hf] at hs
            simp only [Outcome.state?, Option.some.injEq] at hs
            subst hs
            exact ⟨rfl, rfl⟩
          · rw [if_neg hf] at hs
            simp only [Outcome.state?, Option.some.injEq] at hs
            subst hs
            exact ha
        | DCP_STREAMREQ =>
          rw [hop] at hs
          exact handleStreamReq_enqueue cfg o (c.countDcpEvent e) c1 e hs
        | DCP_STREAMEND =>
          rw [hop] at hs
          have hs : (handleStreamEnd o (c.countDcpEvent e) e).state? = some c1 := hs
          simp only [handleStreamEnd, Outcome.state?, Option.some.injEq] at hs
          subst hs
          exact ⟨rfl, rfl⟩
        | other code =>
          rw [hop] at hs
          have hs : (Outcome.next (c.countDcpEvent e)).state? = some c1 := hs
          simp only [Outcome.state?, Option.some.injEq] at hs
          subst hs
          exact ⟨rfl, rfl⟩

theorem enqueueStep_enqueueInv (cfg : Config) (env : Env) (c : Consumer)
    (os : Oracle × EnqueueStep) (hi : c.enqueueInv) : (enqueueStep cfg env c os).enqueueInv := by
  obtain ⟨o, st⟩ := os
  cases st with
  | handleFailoverLog vbFlog =>
    simp only [enqueueStep]
    cases hs : (handleFailoverLog o c vbFlog).state? with
    | none => exact hi
    | some c1 => exact enqueueInv_of_effect (handleFailoverLog_enqueue o c c1 vbFlog hs) hi
  | startDcp flogs =>
    simp only [enqueueStep]
    cases hs : startDcp cfg o c flogs with
    | none => exact hi
    | some res =>
      obtain ⟨c1, r⟩ := res
      exact startDcp_enqueueInv cfg o c c1 flogs r hs hi
  | reqStreamReceive =>
    simp only [enqueueStep]
    cases hs : (reqStreamReceive cfg o c).state? with
    | none => exact hi
    | some c1 => exact reqStreamReceive_enqueueInv cfg o c c1 hs hi
  | processEvents msg =>
    obtain ⟨h1, h2⟩ := routerStep_enqueue cfg env c (o, msg)
    exact enqueueInv_of_same h1 h2 hi
  | dcpRequestStreamHandle vb vbBlob start =>
    obtain ⟨h1, h2, _⟩ := dcpRequestStreamHandle_enqueue cfg o c vb vbBlob start
    exact enqueueInv_of_same h2 h1 hi

theorem enqueueRun_enqueueInv (cfg : Config) (env : Env) (steps : List (Oracle × EnqueueStep)) :
    ∀ c : Consumer, c.enqueueInv → (enqueueRun cfg env c steps).enqueueInv := by
  induction steps with
  | nil => intro c hi; exact hi
  | cons os steps ih =>
    intro c hi
    exact ih (enqueueStep cfg env c os) (enqueueStep_enqueueInv cfg env c os hi)

/-- C12: `enqueueMap` prevents double-enqueue.  A pass of `handleFailoverLog` and the loop
body of `startDcp` send an item for a vbucket on `reqStreamCh` only if the vbucket is not in
`enqueueMap`, and add the vbucket when they send; a pass of `processReqStreamMessages`
removes the vbucket of the item it dequeued and sends nothing.  Hence, over every sequence
of passes of `handleFailoverLog`, calls of `startDcp`, receives of
`processReqStreamMessages`, router passes and calls of `dcpRequestStreamHandle`, started in
a state where the pending items are for distinct vbuckets that are in `enqueueMap`, the
queue holds at most one pending item per vbucket. -/
theorem enqueue_map_dedup (cfg : Config) (env : Env) :
    (∀ (o : Oracle) (c c1 : Consumer) (vbFlog : vbFlogEntry),
      (handleFailoverLog o c vbFlog).state? = some c1 →
      c1.reqStreamCh = c.reqStreamCh ∨
      (vbFlog.vb ∉ c.enqueueMap ∧ c1.enqueueMap = insert vbFlog.vb c.enqueueMap ∧
        ∃ msg : streamRequestInfo, msg.vb = vbFlog.vb ∧
          c1.reqStreamCh = c.reqStreamCh ++ [msg])) ∧
    (∀ (o : Oracle) (vbSeqnos : List Nat) (flogs : List (Nat × FailoverLog))
      (c c1 : Consumer) (vbs vbs1 : List Nat) (vb : Nat) (r : Option Err),
      startDcpVb cfg o vbSeqnos flogs c vbs vb = some (c1, vbs1, r) →
      c1.reqStreamCh = c.reqStreamCh ∨
      (vb ∉ c.enqueueMap ∧ c1.enqueueMap = insert vb c.enqueueMap ∧
        ∃ msg : streamRequestInfo, msg.vb = vb ∧ c1.reqStreamCh = c.reqStreamCh ++ [msg])) ∧
    (∀ (o : Oracle) (c c1 : Consumer) (msg : streamRequestInfo),
      (processReqStreamMessages cfg o c (some msg)).state? = some c1 →
      c1.reqStreamCh = c.reqStreamCh ∧ c1.enqueueMap = c.enqueueMap.erase msg.vb) ∧
    (∀ (c : Consumer) (steps : List (Oracle × EnqueueStep)) (vb : Nat), c.enqueueInv →
      ((enqueueRun cfg env c steps).reqStreamCh.map fun msg => msg.vb).count vb ≤ 1) := by
  refine ⟨?_, ?_, ?_, ?_⟩
  · intro o c c1 vbFlog h
    rcases handleFailoverLog_enqueue o c c1 vbFlog h with ⟨h1, _⟩ | h1
    · exact Or.inl h1
    · exact Or.inr h1
  · intro o vbSeqnos flogs c c1 vbs vbs1 vb r h
    rcases startDcpVb_enqueue cfg o vbSeqnos flogs c c1 vbs vbs1 vb r h with ⟨h1, _⟩ | h1
    · exact Or.inl h1
    · exact Or.inr h1
  · intro o c c1 msg h
    exact processReqStreamMessages_enqueue cfg o c c1 msg h
  · intro c steps vb hi
    exact List.nodup_iff_count_le_one.mp (enqueueRun_enqueueInv cfg env steps c hi).1 vb

/-- Witness of C12: from the initial state, `startDcp` enqueues the vbuckets 3 and 9, a
retry entry for vbucket 9 finds the vbucket in `enqueueMap`, the item of vbucket 3 is
dequeued, and the retry entry for vbucket 9 is handled again: one item, for vbucket 9, is
pending. -/
theorem enqueue_map_dedup_witness :
    Consumer.enqueueInv {} ∧
    ((enqueueRun sampleConfig sampleEnv {} sampleEnqueueRun).reqStreamCh.map
      fun msg => msg.vb) = [9] ∧
    ((enqueueRun sampleConfig sampleEnv {} sampleEnqueueRun).reqStreamCh.map
      fun msg => msg.vb).count 9 ≤ 1 :=
  ⟨⟨List.nodup_nil, fun _ h => absurd h (List.not_mem_nil _)⟩, by decide,
    (enqueue_map_dedup sampleConfig sampleEnv).2.2.2 {} sampleEnqueueRun 9
      ⟨List.nodup_nil, fun _ h => absurd h (List.not_mem_nil _)⟩⟩

/-! ## The restart-stream tick -/

theorem tickFrame_refl (cfg : Config) (c : Consumer) : c.tickFrame cfg c :=
  ⟨rfl, rfl, rfl, fun _ => rfl, fun _ => rfl⟩

theorem tickFrame_trans {cfg : Config} {c c1 c2 : Consumer} (h1 : c.tickFrame cfg c1)
    (h2 : c1.tickFrame cfg c2) : c.tickFrame cfg c2 :=
  ⟨h2.feedMap.trans h1.feedMap, h2.toRestream.trans h1.toRestream,
    h2.toClose.trans h1.toClose, fun vb => (h2.owned vb).trans (h1.owned vb),
    fun vb => (h2.lastRead vb).trans (h1.lastRead vb)⟩

/-- The body of the close loop: the call is logged for the feed of the vbucket,
`seq_no_after_close_stream` is set to `last_read_seq_no` whether or not the checkpoint
write that follows times out, and the write is handed over exactly when it does not. -/
theorem closeStreamVb_effect (cfg : Config) (o : Oracle) (c : Consumer) (vb : Nat) :
    (closeStreamVb cfg o c vb).1.closeStreamCalls =
      c.closeStreamCalls ++ [(c.vbDcpFeedMap vb, vb, vb)] ∧
    ((closeStreamVb cfg o c vb).1.vbProcessingStats vb).seq_no_after_close_stream =
      (c.vbProcessingStats vb).last_read_seq_no ∧
    (∀ v, v ≠ vb → (closeStreamVb cfg o c vb).1.vbProcessingStats v = c.vbProcessingStats v) ∧
    c.tickFrame cfg (closeStreamVb cfg o c vb).1 ∧
    (o.retryTimeout (.updateCheckpoint vb 0) = true →
      (closeStreamVb cfg o c vb).2 = some Err.ErrRetryTimeout ∧
      (closeStreamVb cfg o c vb).1.metaOps = c.metaOps) ∧
    (o.retryTimeout (.updateCheckpoint vb 0) = false →
      (closeStreamVb cfg o c vb).2 = none ∧
      (closeStreamVb cfg o c vb).1.metaOps =
        c.metaOps ++ [.updateCheckpoint (cfg.vbKey vb) vb {}]) := by
  unfold closeStreamVb
  by_cases ht : o.retryTimeout (.updateCheckpoint vb 0) = true
  · simp only [if_pos ht]
    refine ⟨rfl, ?_, ?_, ⟨rfl, rfl, rfl, ?_, ?_⟩, fun _ => by simp [Consumer.updateVbStat],
      fun h => absurd ht (by simp [h])⟩
    · simp [Consumer.updateVbStat]
    · intro v hv
      simp [Consumer.updateVbStat, hv]
    · intro v
      by_cases hv : v = vb <;>
        simp [Consumer.updateVbStat, Consumer.checkIfVbAlreadyOwnedByCurrConsumer, hv]
    · intro v
      by_cases hv : v = vb <;> simp [Consumer.updateVbStat, hv]
  · simp only [if_neg ht]
    refine ⟨rfl, ?_, ?_, ⟨rfl, rfl, rfl, ?_, ?_⟩, fun h => absurd h ht,
      fun _ => by simp [Consumer.updateVbStat, Consumer.logMetaOp]⟩
    · simp [Consumer.updateVbStat, Consumer.logMetaOp]
    · intro v hv
      simp [Consumer.updateVbStat, Consumer.logMetaOp, hv]
    · intro v
      by_cases hv : v = vb <;>
        simp [Consumer.updateVbStat, Consumer.logMetaOp,
          Consumer.checkIfVbAlreadyOwnedByCurrConsumer, hv]
    · intro v
      by_cases hv : v = vb <;> simp [Consumer.updateVbStat, Consumer.logMetaOp, hv]
/-- The close loop when no checkpoint write times out: the calls it logs, the writes it
hands over and the value of `seq_no_after_close_stream` it leaves, for the vbuckets of
the list that are owned according to the state `c0` before the tick and that the planner
does not assign to this consumer. -/
theorem closeStreams_effect (cfg : Config) (o : Oracle) (c0 : Consumer)
    (hto : ∀ vb, o.retryTimeout (.updateCheckpoint vb 0) = false) (l : List Nat) :
    ∀ c : Consumer, c0.tickFrame cfg c →
      (closeStreams cfg o c l).2 = none ∧
      (closeStreams cfg o c l).1.closeStreamCalls = c.closeStreamCalls ++
        (c0.ownedNotAssigned cfg o l).map (fun vb => (c0.vbDcpFeedMap vb, vb, vb)) ∧
      (closeStreams cfg o c l).1.metaOps = c.metaOps ++
        (c0.ownedNotAssigned cfg o l).map
          (fun vb => MetaOp.updateCheckpoint (cfg.vbKey vb) vb {}) ∧
      c0.tickFrame cfg (closeStreams cfg o c l).1 ∧
      (closeStreams cfg o c l).1.vbStreamRequested = c.vbStreamRequested ∧
      (closeStreams cfg o c l).1.restreamCalls = c.restreamCalls ∧
      ∀ vb,
        ((c.vbProcessingStats vb).seq_no_after_close_stream =
            (c0.vbProcessingStats vb).last_read_seq_no ∨
          (vb ∈ l ∧ c0.checkIfVbAlreadyOwnedByCurrConsumer cfg vb = true ∧
            o.checkIfCurrentConsumerShouldOwnVb vb = false)) →
        ((closeStreams cfg o c l).1.vbProcessingStats vb).seq_no_after_close_stream =
          (c0.vbProcessingStats vb).last_read_seq_no := by
  induction l with
  | nil =>
    intro c hf
    refine ⟨rfl, by simp [closeStreams, Consumer.ownedNotAssigned],
      by simp [closeStreams, Consumer.ownedNotAssigned], hf, rfl, rfl, ?_⟩
    intro vb h
    rcases h with h | ⟨h, _⟩
    · exact h
    · exact absurd h (List.not_mem_nil _)
  | cons v rest ih =>
    intro c hf
    unfold closeStreams
    by_cases ho : c0.checkIfVbAlreadyOwnedByCurrConsumer cfg v = true
    · have ho1 : c.checkIfVbAlreadyOwnedByCurrConsumer cfg v = true := (hf.owned v).trans ho
      by_cases hs : o.checkIfCurrentConsumerShouldOwnVb v = true
      · simp only [ho1, hs, Bool.not_true, Bool.false_eq_true, if_false, if_true]
        obtain ⟨h1, h2, h3, h4, h5, h6, h7⟩ := ih c hf
        refine ⟨h1, ?_, ?_, h4, h5, h6, ?_⟩
        · rw [h2]; simp [Consumer.ownedNotAssigned, List.filter_cons, ho, hs]
        · rw [h3]; simp [Consumer.ownedNotAssigned, List.filter_cons, ho, hs]
        · intro vb h
          apply h7 vb
          rcases h with h | ⟨h, hq1, hq2⟩
          · exact Or.inl h
          · rcases List.mem_cons.mp h with h | h
            · subst h
              rw [hs] at hq2
              cases hq2
            · exact Or.inr ⟨h, hq1, hq2⟩
      · have hs1 : o.checkIfCurrentConsumerShouldOwnVb v = false := by
          cases h : o.checkIfCurrentConsumerShouldOwnVb v with
          | true => exact absurd h hs
          | false => rfl
        obtain ⟨e1, e2, e3, e4, _, e6⟩ := closeStreamVb_effect cfg o c v
        obtain ⟨e6a, e6b⟩ := e6 (hto v)
        have e7 : (closeStreamVb cfg o c v).1.vbStreamRequested = c.vbStreamRequested := by
          unfold closeStreamVb
          simp only [hto v, Bool.false_eq_true, if_false]
          rfl
        have e8 : (closeStreamVb cfg o c v).1.restreamCalls = c.restreamCalls := by
          unfold closeStreamVb
          simp only [hto v, Bool.false_eq_true, if_false]
          rfl
        simp only [ho1, hs1, Bool.not_true, Bool.false_eq_true, if_false]
        rcases hc : closeStreamVb cfg o c v with ⟨c1, r⟩
        rw [hc] at e1 e2 e3 e4 e6a e6b e7 e8
        simp only at e1 e2 e3 e4 e6a e6b e7 e8
        subst e6a
        simp only
        have hf1 : c0.tickFrame cfg c1 := tickFrame_trans hf e4
        obtain ⟨h1, h2, h3, h4, h5, h6, h7⟩ := ih c1 hf1
        refine ⟨h1, ?_, ?_, h4, h5.trans e7, h6.trans e8, ?_⟩
        · rw [h2, e1, hf.feedMap]; simp [Consumer.ownedNotAssigned, List.filter_cons, ho, hs1]
        · rw [h3, e6b]; simp [Consumer.ownedNotAssigned, List.filter_cons, ho, hs1]
        · intro vb h
          apply h7 vb
          by_cases hv : vb = v
          · subst hv
            left
            rw [e2]
            exact hf.lastRead vb
          · rcases h with h | ⟨h, hq1, hq2⟩
            · left
              rw [e3 vb hv]
              exact h
            · rcases List.mem_cons.mp h with h | h
              · exact absurd h hv
              · exact Or.inr ⟨h, hq1, hq2⟩
    · have ho0 : c0.checkIfVbAlreadyOwnedByCurrConsumer cfg v = false := by
        cases h : c0.checkIfVbAlreadyOwnedByCurrConsumer cfg v with
        | true => exact absurd h ho
        | false => rfl
      have ho1 : c.checkIfVbAlreadyOwnedByCurrConsumer cfg v = false := (hf.owned v).trans ho0
      simp only [ho1, Bool.not_false, if_true]
      obtain ⟨h1, h2, h3, h4, h5, h6, h7⟩ := ih c hf
      refine ⟨h1, ?_, ?_, h4, h5, h6, ?_⟩
      · rw [h2]; simp [Consumer.ownedNotAssigned, List.filter_cons, ho0]
      · rw [h3]; simp [Consumer.ownedNotAssigned, List.filter_cons, ho0]
      · intro vb h
        apply h7 vb
        rcases h with h | ⟨h, hq1, hq2⟩
        · exact Or.inl h
        · rcases List.mem_cons.mp h with h | h
          · subst h
            rw [ho0] at hq1
            cases hq1
          · exact Or.inr ⟨h, hq1, hq2⟩

theorem restreamVb_frame (cfg : Config) (o : Oracle) (c : Consumer) (failed : List Nat)
    (vb : Nat) :
    (restreamVb cfg o c failed vb).1.vbProcessingStats = c.vbProcessingStats ∧
    (restreamVb cfg o c failed vb).1.closeStreamCalls = c.closeStreamCalls ∧
    (restreamVb cfg o c failed vb).1.metaOps = c.metaOps ∧
    (restreamVb cfg o c failed vb).1.vbsRemainingToRestream = c.vbsRemainingToRestream ∧
    (restreamVb cfg o c failed vb).1.vbsRemainingToClose = c.vbsRemainingToClose := by
  unfold restreamVb
  simp only
  repeat' split
  all_goals exact ⟨rfl, rfl, rfl, rfl, rfl⟩

theorem restreamVbs_frame (cfg : Config) (o : Oracle) (l : List Nat) :
    ∀ (c : Consumer) (failed : List Nat),
      (restreamVbs cfg o c failed l).1.vbProcessingStats = c.vbProcessingStats ∧
      (restreamVbs cfg o c failed l).1.closeStreamCalls = c.closeStreamCalls ∧
      (restreamVbs cfg o c failed l).1.metaOps = c.metaOps ∧
      (restreamVbs cfg o c failed l).1.vbsRemainingToRestream = c.vbsRemainingToRestream ∧
      (restreamVbs cfg o c failed l).1.vbsRemainingToClose = c.vbsRemainingToClose := by
  induction l with
  | nil => intro c failed; exact ⟨rfl, rfl, rfl, rfl, rfl⟩
  | cons v rest ih =>
    intro c failed
    unfold restreamVbs
    by_cases ho : c.checkIfVbAlreadyOwnedByCurrConsumer cfg v = true
    · rw [if_pos ho]
      exact ih c failed
    · rw [if_neg ho]
      by_cases hs : (!o.checkIfCurrentConsumerShouldOwnVb v) = true
      · rw [if_pos hs]
        exact ih c failed
      · rw [if_neg hs]
        obtain ⟨e1, e2, e3, e4, e5⟩ := restreamVb_frame cfg o c failed v
        rcases hc : restreamVb cfg o c failed v with ⟨c1, failed1, r⟩
        rw [hc] at e1 e2 e3 e4 e5
        simp only at e1 e2 e3 e4 e5
        cases r with
        | some err => exact ⟨e1, e2, e3, e4, e5⟩
        | none =>
          obtain ⟨h1, h2, h3, h4, h5⟩ := ih c1 failed1
          exact ⟨h1.trans e1, h2.trans e2, h3.trans e3, h4.trans e4, h5.trans e5⟩

/-- The restart loop when nothing times out: it returns no error, and the vbuckets it
collects in `vbsFailedToStartStream` are those of the list that are not owned, that the
planner assigns to this consumer and whose restart returned an error. -/
theorem restreamVbs_failed (cfg : Config) (o : Oracle) (c0 : Consumer)
    (hget : ∀ vb, o.retryTimeout (.getOpCallback vb 0) = false)
    (hupd : ∀ vb, o.retryTimeout (.updateVbOwnerAndStartDCPStream vb) = false)
    (herr : ∀ vb, o.updateVbOwnerAndStartDCPStream vb ≠ some Err.ErrRetryTimeout)
    (l : List Nat) :
    ∀ (c : Consumer) (failed : List Nat), c.vbProcessingStats = c0.vbProcessingStats →
      (restreamVbs cfg o c failed l).2.2 = none ∧
      (restreamVbs cfg o c failed l).2.1 = failed ++ l.filter (c0.restartFails cfg o) := by
  induction l with
  | nil => intro c failed _; simp [restreamVbs]
  | cons v rest ih =>
    intro c failed hst
    have hown : c.checkIfVbAlreadyOwnedByCurrConsumer cfg v =
        c0.checkIfVbAlreadyOwnedByCurrConsumer cfg v := by
      unfold Consumer.checkIfVbAlreadyOwnedByCurrConsumer
      rw [hst]
    unfold restreamVbs
    by_cases ho : c0.checkIfVbAlreadyOwnedByCurrConsumer cfg v = true
    · rw [if_pos (hown.trans ho)]
      obtain ⟨h1, h2⟩ := ih c failed hst
      refine ⟨h1, ?_⟩
      rw [h2]
      simp [List.filter_cons, Consumer.restartFails, ho]
    · have ho0 : c0.checkIfVbAlreadyOwnedByCurrConsumer cfg v = false := by
        cases h : c0.checkIfVbAlreadyOwnedByCurrConsumer cfg v with
        | true => exact absurd h ho
        | false => rfl
      have ho1 : ¬ c.checkIfVbAlreadyOwnedByCurrConsumer cfg v = true := by
        rw [hown]; exact ho
      rw [if_neg ho1]
      cases hs : o.checkIfCurrentConsumerShouldOwnVb v with
      | false =>
        simp only [Bool.not_false, if_true]
        obtain ⟨h1, h2⟩ := ih c failed hst
        refine ⟨h1, ?_⟩
        rw [h2]
        simp [List.filter_cons, Consumer.restartFails, ho0, hs]
      | true =>
        simp only [Bool.not_true, Bool.false_eq_true, if_false]
        cases hu : o.updateVbOwnerAndStartDCPStream v with
        | none =>
          have hb : restreamVb cfg o c failed v =
              ({ c with restreamCalls := c.restreamCalls ++ [(cfg.vbKey v, v, o.getOp v 0)] },
                failed, none) := by
            simp [restreamVb, hget v, hupd v, hu]
          rw [hb]
          simp only
          obtain ⟨h1, h2⟩ := ih
            { c with restreamCalls := c.restreamCalls ++ [(cfg.vbKey v, v, o.getOp v 0)] }
            failed hst
          refine ⟨h1, ?_⟩
          rw [h2]
          simp [List.filter_cons, Consumer.restartFails, ho0, hs, hu]
        | some err =>
          have hne : err ≠ Err.ErrRetryTimeout := by
            intro h
            exact herr v (by rw [hu, h])
          have hb : restreamVb cfg o c failed v =
              (Consumer.purgeVbStreamRequested
                { c with restreamCalls := c.restreamCalls ++ [(cfg.vbKey v, v, o.getOp v 0)] } v,
                failed ++ [v], none) := by
            cases err with
            | ErrRetryTimeout => exact absurd rfl hne
            | ErrorInvalidVbucket => simp [restreamVb, hget v, hupd v, hu]
            | errDcpFeedsClosed => simp [restreamVb, hget v, hupd v, hu]
            | other m => simp [restreamVb, hget v, hupd v, hu]
          rw [hb]
          simp only
          obtain ⟨h1, h2⟩ := ih
            (Consumer.purgeVbStreamRequested
              { c with restreamCalls := c.restreamCalls ++ [(cfg.vbKey v, v, o.getOp v 0)] } v)
            (failed ++ [v]) hst
          refine ⟨h1, ?_⟩
          rw [h2]
          simp [List.filter_cons, Consumer.restartFails, ho0, hs, hu]

theorem sortVbs_sorted (l : List Nat) : (sortVbs l).Sorted (· ≤ ·) :=
  List.sorted_insertionSort (· ≤ ·) l

theorem mem_sortVbs (l : List Nat) (vb : Nat) : vb ∈ sortVbs l ↔ vb ∈ l :=
  (List.perm_insertionSort (· ≤ ·) l).mem_iff

/-- The state after the close loop of a pass that goes on to the loops (the queues not
both empty, the app deployed or the consumer bootstrapping) and in which no checkpoint
write times out is, for the calls of `DcpCloseStream`, the checkpoint writes and the
per-vbucket attributes, the state the pass leaves. -/
theorem restartStreamTick_close (cfg : Config) (o : Oracle) (c : Consumer)
    (hdep : o.appDeployed = true ∨ c.isBootstrapping = true)
    (hwork : c.vbsRemainingToRestream ≠ [] ∨ c.vbsRemainingToClose ≠ [])
    (hto : ∀ vb, o.retryTimeout (.updateCheckpoint vb 0) = false) :
    (restartStreamTick cfg o c).state.closeStreamCalls =
      (closeStreams cfg o c (sortVbs c.vbsRemainingToClose)).1.closeStreamCalls ∧
    (restartStreamTick cfg o c).state.metaOps =
      (closeStreams cfg o c (sortVbs c.vbsRemainingToClose)).1.metaOps ∧
    (restartStreamTick cfg o c).state.vbProcessingStats =
      (closeStreams cfg o c (sortVbs c.vbsRemainingToClose)).1.vbProcessingStats ∧
    (restartStreamTick cfg o c).state.vbsRemainingToClose = c.vbsRemainingToClose := by
  obtain ⟨e1, _, _, e4, _⟩ :=
    closeStreams_effect cfg o c hto (sortVbs c.vbsRemainingToClose) c (tickFrame_refl cfg c)
  have h1 : ¬ (c.vbsRemainingToRestream.length = 0 ∧ c.vbsRemainingToClose.length = 0) := by
    intro h
    rcases hwork with hw | hw
    · exact hw (List.length_eq_zero.mp h.1)
    · exact hw (List.length_eq_zero.mp h.2)
  have h2 : ¬ ((!o.appDeployed && !c.isBootstrapping) = true) := by
    rcases hdep with hd | hd <;> simp [hd]
  unfold restartStreamTick
  simp only
  rw [if_neg h1, if_neg h2]
  rcases hc : closeStreams cfg o c (sortVbs c.vbsRemainingToClose) with ⟨c1, r⟩
  rw [hc] at e1 e4
  simp only at e1 e4
  subst e1
  simp only
  obtain ⟨f1, f2, f3, _, f5⟩ :=
    restreamVbs_frame cfg o (sortVbs c.vbsRemainingToRestream) c1 []
  rcases hr : restreamVbs cfg o c1 [] (sortVbs c.vbsRemainingToRestream) with ⟨c2, failed, r2⟩
  rw [hr] at f1 f2 f3 f5
  simp only at f1 f2 f3 f5
  cases r2 with
  | some err => exact ⟨f2, f3, f1, f5.trans e4.toClose⟩
  | none =>
    simp only
    split <;> exact ⟨f2, f3, f1, f5.trans e4.toClose⟩

/-- C18: in a pass of the restart-stream tick that goes on to the loops (the queues not
both empty, the app deployed or the consumer bootstrapping) and in which no checkpoint
write times out, `DcpCloseStream(vb, vb)` is issued, on the feed of the vbucket, for the
vbuckets of the sorted `vbsRemainingToClose` snapshot that this consumer owns and that
the planner does not assign to it, and for no other; these are the vbuckets of the
snapshot that are owned and not assigned, in ascending order; one checkpoint write is
handed over for each; and `seq_no_after_close_stream` of each is the vbucket's
`last_read_seq_no` afterwards.  In the loop body the attribute is set before the
checkpoint is written: it is set also when the write times out and nothing is handed
over. -/
theorem tick_close_streams (cfg : Config) (o : Oracle) (c : Consumer)
    (hdep : o.appDeployed = true ∨ c.isBootstrapping = true)
    (hwork : c.vbsRemainingToRestream ≠ [] ∨ c.vbsRemainingToClose ≠ [])
    (hto : ∀ vb, o.retryTimeout (.updateCheckpoint vb 0) = false) :
    (restartStreamTick cfg o c).state.closeStreamCalls = c.closeStreamCalls ++
      (c.ownedNotAssigned cfg o (sortVbs c.vbsRemainingToClose)).map
        (fun vb => (c.vbDcpFeedMap vb, vb, vb)) ∧
    (∀ vb, vb ∈ c.ownedNotAssigned cfg o (sortVbs c.vbsRemainingToClose) ↔
      (vb ∈ c.vbsRemainingToClose ∧ c.checkIfVbAlreadyOwnedByCurrConsumer cfg vb = true ∧
        o.checkIfCurrentConsumerShouldOwnVb vb = false)) ∧
    (c.ownedNotAssigned cfg o (sortVbs c.vbsRemainingToClose)).Sorted (· ≤ ·) ∧
    (restartStreamTick cfg o c).state.metaOps = c.metaOps ++
      (c.ownedNotAssigned cfg o (sortVbs c.vbsRemainingToClose)).map
        (fun vb => MetaOp.updateCheckpoint (cfg.vbKey vb) vb {}) ∧
    (∀ vb, vb ∈ c.vbsRemainingToClose → c.checkIfVbAlreadyOwnedByCurrConsumer cfg vb = true →
      o.checkIfCurrentConsumerShouldOwnVb vb = false →
      ((restartStreamTick cfg o c).state.vbProcessingStats vb).seq_no_after_close_stream =
        (c.vbProcessingStats vb).last_read_seq_no) ∧
    (∀ (o1 : Oracle) (c1 : Consumer) (vb : Nat),
      o1.retryTimeout (.updateCheckpoint vb 0) = true →
      ((closeStreamVb cfg o1 c1 vb).1.vbProcessingStats vb).seq_no_after_close_stream =
        (c1.vbProcessingStats vb).last_read_seq_no ∧
      (closeStreamVb cfg o1 c1 vb).1.metaOps = c1.metaOps) := by
  obtain ⟨t1, t2, t3, _⟩ := restartStreamTick_close cfg o c hdep hwork hto
  obtain ⟨_, e2, e3, _, _, _, e7⟩ :=
    closeStreams_effect cfg o c hto (sortVbs c.vbsRemainingToClose) c (tickFrame_refl cfg c)
  refine ⟨t1.trans e2, ?_, ?_, t2.trans e3, ?_, ?_⟩
  · intro vb
    unfold Consumer.ownedNotAssigned
    rw [List.mem_filter, mem_sortVbs]
    cases c.checkIfVbAlreadyOwnedByCurrConsumer cfg vb <;>
      cases o.checkIfCurrentConsumerShouldOwnVb vb <;> simp
  · exact List.Sorted.filter _ (sortVbs_sorted _)
  · intro vb hin hown hnot
    rw [t3]
    exact e7 vb (Or.inr ⟨(mem_sortVbs _ vb).mpr hin, hown, hnot⟩)
  · intro o1 c1 vb ht
    obtain ⟨_, a2, _, _, a5, _⟩ := closeStreamVb_effect cfg o1 c1 vb
    exact ⟨a2, (a5 ht).2⟩

/-- Witness of C18: in the sample state the vbuckets 42 and 7 are queued for closing,
both owned by this consumer and neither assigned to it by the planner: the closes are
issued for 7 and then for 42, and `seq_no_after_close_stream` of vbucket 42 is 900. -/
theorem tick_close_streams_witness :
    (restartStreamTick sampleConfig sampleTickOracle sampleTickState).state.closeStreamCalls =
      [(some "feed_kv1", 7, 7), (some "feed_kv1", 42, 42)] ∧
    ((restartStreamTick sampleConfig sampleTickOracle sampleTickState).state.vbProcessingStats
      42).seq_no_after_close_stream = 900 :=
  ⟨(tick_close_streams sampleConfig sampleTickOracle sampleTickState (Or.inl rfl)
      (Or.inl (by decide)) (fun _ => rfl)).1,
    (tick_close_streams sampleConfig sampleTickOracle sampleTickState (Or.inl rfl)
      (Or.inl (by decide)) (fun _ => rfl)).2.2.2.2.1 42 (by decide) rfl rfl⟩

theorem VbsSliceDiff_failed (queue : List Nat) (p : Nat → Bool) :
    VbsSliceDiff (VbsSliceDiff ((sortVbs queue).filter p) (sortVbs queue)) queue =
      queue.filter p := by
  unfold VbsSliceDiff
  apply List.filter_congr
  intro vb hvb
  have hs : vb ∈ sortVbs queue := (mem_sortVbs queue vb).mpr hvb
  cases hp : p vb <;> simp [List.mem_filter, hs, hp]

/-- A pass of the tick that goes on to the loops and in which nothing times out: the
slice `vbsFailedToStartStream` it collects and the queue it leaves. -/
theorem restartStreamTick_restream (cfg : Config) (o : Oracle) (c : Consumer)
    (hdep : o.appDeployed = true ∨ c.isBootstrapping = true)
    (hwork : c.vbsRemainingToRestream ≠ [] ∨ c.vbsRemainingToClose ≠ [])
    (hto : ∀ vb, o.retryTimeout (.updateCheckpoint vb 0) = false)
    (hget : ∀ vb, o.retryTimeout (.getOpCallback vb 0) = false)
    (hupd : ∀ vb, o.retryTimeout (.updateVbOwnerAndStartDCPStream vb) = false)
    (herr : ∀ vb, o.updateVbOwnerAndStartDCPStream vb ≠ some Err.ErrRetryTimeout) :
    (restreamVbs cfg o (closeStreams cfg o c (sortVbs c.vbsRemainingToClose)).1 []
        (sortVbs c.vbsRemainingToRestream)).2 =
      ((sortVbs c.vbsRemainingToRestream).filter (c.restartFails cfg o), none) ∧
    (restartStreamTick cfg o c).state.vbsRemainingToRestream =
      sortVbs (c.vbsRemainingToRestream.filter (c.restartFails cfg o)) ∧
    ((restartStreamTick cfg o c).repeats = true ↔
      c.vbsRemainingToRestream.filter (c.restartFails cfg o) ≠ []) := by
  obtain ⟨e1, _, _, e4, _⟩ :=
    closeStreams_effect cfg o c hto (sortVbs c.vbsRemainingToClose) c (tickFrame_refl cfg c)
  have h1 : ¬ (c.vbsRemainingToRestream.length = 0 ∧ c.vbsRemainingToClose.length = 0) := by
    intro h
    rcases hwork with hw | hw
    · exact hw (List.length_eq_zero.mp h.1)
    · exact hw (List.length_eq_zero.mp h.2)
  have h2 : ¬ ((!o.appDeployed && !c.isBootstrapping) = true) := by
    rcases hdep with hd | hd <;> simp [hd]
  unfold restartStreamTick
  simp only
  rw [if_neg h1, if_neg h2]
  rcases hc : closeStreams cfg o c (sortVbs c.vbsRemainingToClose) with ⟨c1, r⟩
  rw [hc] at e1 e4
  simp only at e1 e4
  subst e1
  simp only
  have hfails : c1.restartFails cfg o = c.restartFails cfg o := by
    funext vb
    unfold Consumer.restartFails
    rw [e4.owned vb]
  obtain ⟨g1, g2⟩ := restreamVbs_failed cfg o c1 hget hupd herr
    (sortVbs c.vbsRemainingToRestream) c1 [] rfl
  obtain ⟨_, _, _, f4, _⟩ :=
    restreamVbs_frame cfg o (sortVbs c.vbsRemainingToRestream) c1 []
  rcases hr : restreamVbs cfg o c1 [] (sortVbs c.vbsRemainingToRestream) with ⟨c2, failed, r2⟩
  rw [hr] at g1 g2 f4
  simp only [List.nil_append] at g1 g2 f4
  subst g1
  rw [hfails] at g2
  subst g2
  have hq : c2.vbsRemainingToRestream = c.vbsRemainingToRestream := f4.trans e4.toRestream
  simp only [hq, VbsSliceDiff_failed]
  refine ⟨trivial, ?_, ?_⟩
  · split <;> rfl
  · by_cases hl : (c.vbsRemainingToRestream.filter (c.restartFails cfg o)).length > 0
    · rw [if_pos hl]
      simp only [TickResult.repeats, true_iff]
      exact List.ne_nil_of_length_pos hl
    · rw [if_neg hl]
      simp only [TickResult.repeats, Bool.false_eq_true, false_iff, not_not]
      exact List.length_eq_zero.mp (Nat.eq_zero_of_not_pos hl)

theorem sortVbs_eq_nil (l : List Nat) : sortVbs l = [] ↔ l = [] := by
  constructor
  · intro h
    have hl : (sortVbs l).length = l.length := List.length_insertionSort (· ≤ ·) l
    rw [h] at hl
    exact List.length_eq_zero.mp hl.symm
  · intro h
    subst h
    rfl

/-- C19, as stated, fails: in the sample state the snapshot of the queue is `[3]` and
the restart of vbucket 3 succeeds, so `vbsFailedToStartStream` is empty and the claim
gives `[3] \ [] = [3]` and an immediate repetition, while the pass leaves the queue empty
and is not repeated; and when the restart of vbucket 3 fails the claim gives
`[3] \ [3] = []` and no repetition, while the pass leaves `[3]` and is repeated. -/
theorem tick_restream_queue_counterexample :
    sampleTickState.vbsRemainingToRestream = [3] ∧
    (restreamVbs sampleConfig sampleTickOracle
      (closeStreams sampleConfig sampleTickOracle sampleTickState (sortVbs [42, 7])).1 []
      (sortVbs [3])).2 = ([], none) ∧
    VbsSliceDiff [] [3] = [3] ∧
    (restartStreamTick sampleConfig sampleTickOracle sampleTickState).state.vbsRemainingToRestream
      = [] ∧
    (restartStreamTick sampleConfig sampleTickOracle sampleTickState).repeats = false ∧
    (restreamVbs sampleConfig sampleTickFails
      (closeStreams sampleConfig sampleTickFails sampleTickState (sortVbs [42, 7])).1 []
      (sortVbs [3])).2 = ([3], none) ∧
    VbsSliceDiff [3] [3] = [] ∧
    (restartStreamTick sampleConfig sampleTickFails sampleTickState).state.vbsRemainingToRestream
      = [3] ∧
    (restartStreamTick sampleConfig sampleTickFails sampleTickState).repeats = true := by
  refine ⟨rfl, ?_, ?_, ?_, ?_, ?_, ?_, ?_, ?_⟩ <;> decide

/-- C19, amended: at the end of a pass of the restart-stream tick that goes on to the
loops and in which nothing times out, with nothing else writing the queue during the
pass, `vbsRemainingToRestream` is set to the vbuckets of the queue that are in
`vbsFailedToStartStream`, in ascending order, where `vbsFailedToStartStream` holds the
vbuckets of the snapshot whose `updateVbOwnerAndStartDCPStream` call failed in the pass
(not owned, assigned by the planner, error returned); the pass is repeated immediately
exactly when that result is non-empty. -/
theorem tick_restream_queue (cfg : Config) (o : Oracle) (c : Consumer)
    (hdep : o.appDeployed = true ∨ c.isBootstrapping = true)
    (hwork : c.vbsRemainingToRestream ≠ [] ∨ c.vbsRemainingToClose ≠ [])
    (hto : ∀ vb, o.retryTimeout (.updateCheckpoint vb 0) = false)
    (hget : ∀ vb, o.retryTimeout (.getOpCallback vb 0) = false)
    (hupd : ∀ vb, o.retryTimeout (.updateVbOwnerAndStartDCPStream vb) = false)
    (herr : ∀ vb, o.updateVbOwnerAndStartDCPStream vb ≠ some Err.ErrRetryTimeout) :
    ∃ vbsFailedToStartStream : List Nat,
      (restreamVbs cfg o (closeStreams cfg o c (sortVbs c.vbsRemainingToClose)).1 []
        (sortVbs c.vbsRemainingToRestream)).2 = (vbsFailedToStartStream, none) ∧
      (∀ vb, vb ∈ vbsFailedToStartStream ↔
        (vb ∈ c.vbsRemainingToRestream ∧
          c.checkIfVbAlreadyOwnedByCurrConsumer cfg vb = false ∧
          o.checkIfCurrentConsumerShouldOwnVb vb = true ∧
          o.updateVbOwnerAndStartDCPStream vb ≠ none)) ∧
      (restartStreamTick cfg o c).state.vbsRemainingToRestream =
        sortVbs (c.vbsRemainingToRestream.filter
          fun vb => decide (vb ∈ vbsFailedToStartStream)) ∧
      ((restartStreamTick cfg o c).repeats = true ↔
        (restartStreamTick cfg o c).state.vbsRemainingToRestream ≠ []) := by
  obtain ⟨h1, h2, h3⟩ := restartStreamTick_restream cfg o c hdep hwork hto hget hupd herr
  have hmem : ∀ vb, vb ∈ (sortVbs c.vbsRemainingToRestream).filter (c.restartFails cfg o) ↔
      (vb ∈ c.vbsRemainingToRestream ∧
        c.checkIfVbAlreadyOwnedByCurrConsumer cfg vb = false ∧
        o.checkIfCurrentConsumerShouldOwnVb vb = true ∧
        o.updateVbOwnerAndStartDCPStream vb ≠ none) := by
    intro vb
    rw [List.mem_filter, mem_sortVbs]
    unfold Consumer.restartFails
    cases c.checkIfVbAlreadyOwnedByCurrConsumer cfg vb <;>
      cases o.checkIfCurrentConsumerShouldOwnVb vb <;>
      cases o.updateVbOwnerAndStartDCPStream vb <;> simp
  have hfilter : (c.vbsRemainingToRestream.filter fun vb =>
      decide (vb ∈ (sortVbs c.vbsRemainingToRestream).filter (c.restartFails cfg o))) =
      c.vbsRemainingToRestream.filter (c.restartFails cfg o) := by
    apply List.filter_congr
    intro vb hvb
    have hs : vb ∈ sortVbs c.vbsRemainingToRestream := (mem_sortVbs _ vb).mpr hvb
    cases hp : c.restartFails cfg o vb <;> simp [List.mem_filter, hs, hp]
  refine ⟨_, h1, hmem, ?_, ?_⟩
  · rw [h2, hfilter]
  · rw [h3, h2]
    exact not_congr (sortVbs_eq_nil _).symm

/-- Witness of C19: the sample state with the restart of vbucket 3 failing: the queue
is left as `[3]` and the pass is repeated. -/
theorem tick_restream_queue_witness :
    ∃ vbsFailedToStartStream : List Nat,
      (∀ vb, vb ∈ vbsFailedToStartStream ↔
        (vb ∈ sampleTickState.vbsRemainingToRestream ∧
          sampleTickState.checkIfVbAlreadyOwnedByCurrConsumer sampleConfig vb = false ∧
          sampleTickFails.checkIfCurrentConsumerShouldOwnVb vb = true ∧
          sampleTickFails.updateVbOwnerAndStartDCPStream vb ≠ none)) ∧
      (restartStreamTick sampleConfig sampleTickFails sampleTickState).state.vbsRemainingToRestream
        = sortVbs (sampleTickState.vbsRemainingToRestream.filter
          fun vb => decide (vb ∈ vbsFailedToStartStream)) ∧
      (restartStreamTick sampleConfig sampleTickFails sampleTickState).state.vbsRemainingToRestream
        = [3] := by
  obtain ⟨failed, _, h2, h3, _⟩ :=
    tick_restream_queue sampleConfig sampleTickFails sampleTickState (Or.inl rfl)
      (Or.inl (by decide)) (fun _ => rfl) (fun _ => rfl) (fun _ => rfl)
      (fun vb => by unfold sampleTickFails; simp only; split <;> simp)
  exact ⟨failed, h2, h3, by decide⟩

/-! ## Cleanup of stale feeds -/

theorem clearUpOwnershipInfoFromMeta_effect (cfg : Config) (o : Oracle) (c : Consumer)
    (vb : Nat) (hto : ∀ site, o.retryTimeout site = false) :
    (clearUpOwnershipInfoFromMeta cfg o c vb).2 = none ∧
    (clearUpOwnershipInfoFromMeta cfg o c vb).1.metaOps = c.metaOps ++ clearUpWrites cfg o vb ∧
    (clearUpOwnershipInfoFromMeta cfg o c vb).1.kvHostDcpFeedMap = c.kvHostDcpFeedMap ∧
    (clearUpOwnershipInfoFromMeta cfg o c vb).1.closedFeeds = c.closedFeeds ∧
    (clearUpOwnershipInfoFromMeta cfg o c vb).1.dcpFeedVbMap = c.dcpFeedVbMap ∧
    (clearUpOwnershipInfoFromMeta cfg o c vb).1.ownerCleared vb ∧
    (∀ v, c.ownerCleared v → (clearUpOwnershipInfoFromMeta cfg o c vb).1.ownerCleared v) := by
  simp only [clearUpOwnershipInfoFromMeta, hto, Bool.false_eq_true, if_false]
  refine ⟨trivial, ?_, rfl, rfl, rfl, ?_, ?_⟩
  · simp [Consumer.logMetaOp, Consumer.updateVbStat, clearUpWrites]
  · simp [Consumer.ownerCleared, Consumer.logMetaOp, Consumer.updateVbStat]
  · intro v hv
    by_cases h : v = vb
    · subst h
      simp [Consumer.ownerCleared, Consumer.logMetaOp, Consumer.updateVbStat]
    · simpa [Consumer.ownerCleared, Consumer.logMetaOp, Consumer.updateVbStat, h] using hv

theorem clearUpAll_effect (cfg : Config) (o : Oracle) (hto : ∀ site, o.retryTimeout site = false)
    (vbs : List Nat) :
    ∀ c : Consumer,
      (clearUpAll cfg o c vbs).2 = none ∧
      (clearUpAll cfg o c vbs).1.metaOps = c.metaOps ++ vbs.flatMap (clearUpWrites cfg o) ∧
      (clearUpAll cfg o c vbs).1.kvHostDcpFeedMap = c.kvHostDcpFeedMap ∧
      (clearUpAll cfg o c vbs).1.closedFeeds = c.closedFeeds ∧
      (clearUpAll cfg o c vbs).1.dcpFeedVbMap = c.dcpFeedVbMap ∧
      (∀ v, (v ∈ vbs ∨ c.ownerCleared v) → (clearUpAll cfg o c vbs).1.ownerCleared v) := by
  induction vbs with
  | nil =>
    intro c
    refine ⟨rfl, by simp [clearUpAll], rfl, rfl, rfl, ?_⟩
    intro v h
    rcases h with h | h
    · exact absurd h (List.not_mem_nil _)
    · exact h
  | cons vb rest ih =>
    intro c
    obtain ⟨e1, e2, e3, e4, e5, e6, e7⟩ := clearUpOwnershipInfoFromMeta_effect cfg o c vb hto
    unfold clearUpAll
    rcases hc : clearUpOwnershipInfoFromMeta cfg o c vb with ⟨c1, r⟩
    rw [hc] at e1 e2 e3 e4 e5 e6 e7
    simp only at e1 e2 e3 e4 e5 e6 e7
    subst e1
    simp only
    obtain ⟨h1, h2, h3, h4, h5, h6⟩ := ih c1
    refine ⟨h1, ?_, h3.trans e3, h4.trans e4, h5.trans e5, ?_⟩
    · rw [h2, e2, List.flatMap_cons, List.append_assoc]
    · intro v h
      apply h6 v
      rcases h with h | h
      · rcases List.mem_cons.mp h with h | h
        · subst h
          exact Or.inr e6
        · exact Or.inl h
      · exact Or.inr (e7 v h)

theorem lookup_filter_other (l : List (String × String)) (k k0 : String) (h : k ≠ k0) :
    (l.filter fun kf => kf.1 ≠ k0).lookup k = l.lookup k := by
  induction l with
  | nil => rfl
  | cons kf l ih =>
    obtain ⟨a, b⟩ := kf
    by_cases ha : a = k0
    · have hd : decide ((a, b).1 ≠ k0) = false := by simp [ha]
      have hk : (k == a) = false := by
        simp only [beq_eq_false_iff_ne, ne_eq]
        rw [ha]
        exact h
      simp only [List.filter_cons, hd, Bool.false_eq_true, if_false, List.lookup_cons, hk]
      exact ih
    · have hd : decide ((a, b).1 ≠ k0) = true := by simp [ha]
      simp only [List.filter_cons, hd, if_true, List.lookup_cons]
      rw [ih]

/-- The loop over the KV hosts to close when nothing times out, for distinct hosts: the
registry loses the hosts of the list, the feeds registered for them are closed, and the
ownership information is cleared for the vbuckets bound to those feeds. -/
theorem closeStaleFeeds_effect (cfg : Config) (o : Oracle)
    (hto : ∀ site, o.retryTimeout site = false) (l : List String) :
    l.Nodup → ∀ c : Consumer,
      (closeStaleFeeds cfg o c l).2 = none ∧
      (closeStaleFeeds cfg o c l).1.kvHostDcpFeedMap =
        c.kvHostDcpFeedMap.filter (fun kf => decide (kf.1 ∉ l)) ∧
      (closeStaleFeeds cfg o c l).1.closedFeeds =
        c.closedFeeds ++ l.filterMap (fun k => c.kvHostDcpFeedMap.lookup k) ∧
      (closeStaleFeeds cfg o c l).1.metaOps =
        c.metaOps ++ l.flatMap (staleFeedWrites cfg o c.kvHostDcpFeedMap c.dcpFeedVbMap) ∧
      (closeStaleFeeds cfg o c l).1.dcpFeedVbMap = c.dcpFeedVbMap ∧
      (∀ v, ((∃ k ∈ l, ∃ f, c.kvHostDcpFeedMap.lookup k = some f ∧ v ∈ c.dcpFeedVbMap f) ∨
          c.ownerCleared v) → (closeStaleFeeds cfg o c l).1.ownerCleared v) := by
  induction l with
  | nil =>
    intro _ c
    refine ⟨rfl, by simp [closeStaleFeeds], by simp [closeStaleFeeds],
      by simp [closeStaleFeeds], rfl, ?_⟩
    intro v h
    rcases h with ⟨k, hk, _⟩ | h
    · exact absurd hk (List.not_mem_nil _)
    · exact h
  | cons k rest ih =>
    intro hnd c
    obtain ⟨hk, hrest⟩ := List.nodup_cons.mp hnd
    have hne : ∀ x ∈ rest, x ≠ k := fun x hx hxk => hk (hxk ▸ hx)
    have hmain : ∀ (c2 : Consumer) (vbs : List Nat),
        c2.kvHostDcpFeedMap = (c.kvHostDcpFeedMap.filter fun kf => kf.1 ≠ k) →
        c2.dcpFeedVbMap = c.dcpFeedVbMap →
        (match clearUpAll cfg o c2 vbs with
          | (c3, some err) => (c3, some err)
          | (c3, none) => closeStaleFeeds cfg o c3 rest).2 = none ∧
        (match clearUpAll cfg o c2 vbs with
          | (c3, some err) => (c3, some err)
          | (c3, none) => closeStaleFeeds cfg o c3 rest).1.kvHostDcpFeedMap =
            c.kvHostDcpFeedMap.filter (fun kf => decide (kf.1 ∉ k :: rest)) ∧
        (match clearUpAll cfg o c2 vbs with
          | (c3, some err) => (c3, some err)
          | (c3, none) => closeStaleFeeds cfg o c3 rest).1.closedFeeds =
            c2.closedFeeds ++ rest.filterMap (fun k => c.kvHostDcpFeedMap.lookup k) ∧
        (match clearUpAll cfg o c2 vbs with
          | (c3, some err) => (c3, some err)
          | (c3, none) => closeStaleFeeds cfg o c3 rest).1.metaOps =
            c2.metaOps ++ vbs.flatMap (clearUpWrites cfg o) ++
              rest.flatMap (staleFeedWrites cfg o c.kvHostDcpFeedMap c.dcpFeedVbMap) ∧
        (match clearUpAll cfg o c2 vbs with
          | (c3, some err) => (c3, some err)
          | (c3, none) => closeStaleFeeds cfg o c3 rest).1.dcpFeedVbMap = c.dcpFeedVbMap ∧
        (∀ v, (v ∈ vbs ∨
            (∃ k ∈ rest, ∃ f, c.kvHostDcpFeedMap.lookup k = some f ∧ v ∈ c.dcpFeedVbMap f) ∨
            c2.ownerCleared v) →
          (match clearUpAll cfg o c2 vbs with
            | (c3, some err) => (c3, some err)
            | (c3, none) => closeStaleFeeds cfg o c3 rest).1.ownerCleared v) := by
      intro c2 vbs hmap hdf
      obtain ⟨a1, a2, a3, a4, a5, a6⟩ := clearUpAll_effect cfg o hto vbs c2
      rcases hc : clearUpAll cfg o c2 vbs with ⟨c3, r⟩
      rw [hc] at a1 a2 a3 a4 a5 a6
      simp only at a1 a2 a3 a4 a5 a6
      subst a1
      simp only
      obtain ⟨b1, b2, b3, b4, b5, b6⟩ := ih hrest c3
      have hlook : ∀ x ∈ rest, c3.kvHostDcpFeedMap.lookup x = c.kvHostDcpFeedMap.lookup x := by
        intro x hx
        rw [a3, hmap]
        exact lookup_filter_other _ x k (hne x hx)
      refine ⟨b1, ?_, ?_, ?_, b5.trans (a5.trans hdf), ?_⟩
      · rw [b2, a3, hmap, List.filter_filter]
        apply List.filter_congr
        intro kf _
        by_cases h1 : kf.1 = k <;> by_cases h2 : kf.1 ∈ rest <;> simp [h1, h2]
      · rw [b3, a4]
        congr 1
        exact List.filterMap_congr hlook
      · rw [b4, a2]
        congr 1
        apply List.flatMap_congr
        intro x hx
        unfold staleFeedWrites
        rw [hlook x hx, a5, hdf]
      · intro v h
        apply b6 v
        rcases h with h | ⟨x, hx, f, hf, hv⟩ | h
        · exact Or.inr (a6 v (Or.inl h))
        · exact Or.inl ⟨x, hx, f, by rw [hlook x hx]; exact hf, by rw [a5, hdf]; exact hv⟩
        · exact Or.inr (a6 v (Or.inr h))
    unfold closeStaleFeeds
    simp only
    cases hl : c.kvHostDcpFeedMap.lookup k with
    | none =>
      simp only
      obtain ⟨m1, m2, m3, m4, m5, m6⟩ := hmain
        { c with kvHostDcpFeedMap := c.kvHostDcpFeedMap.filter fun kf => kf.1 ≠ k } [] rfl rfl
      refine ⟨m1, m2, ?_, ?_, m5, ?_⟩
      · rw [m3]
        simp [List.filterMap_cons, hl]
      · rw [m4]
        simp [List.flatMap_cons, staleFeedWrites, hl]
      · intro v h
        apply m6 v
        rcases h with ⟨x, hx, f, hf, hv⟩ | h
        · rcases List.mem_cons.mp hx with hx | hx
          · subst hx
            rw [hl] at hf
            cases hf
          · exact Or.inr (Or.inl ⟨x, hx, f, hf, hv⟩)
        · exact Or.inr (Or.inr h)
    | some feed =>
      simp only
      obtain ⟨m1, m2, m3, m4, m5, m6⟩ := hmain
        { c with
          closedFeeds := c.closedFeeds ++ [feed]
          kvHostDcpFeedMap := c.kvHostDcpFeedMap.filter fun kf => kf.1 ≠ k }
        (c.dcpFeedVbMap feed) rfl rfl
      refine ⟨m1, m2, ?_, ?_, m5, ?_⟩
      · rw [m3]
        simp [List.filterMap_cons, hl]
      · rw [m4]
        simp [List.flatMap_cons, staleFeedWrites, hl]
      · intro v h
        apply m6 v
        rcases h with ⟨x, hx, f, hf, hv⟩ | h
        · rcases List.mem_cons.mp hx with hx | hx
          · subst hx
            rw [hl] at hf
            simp only [Option.some.injEq] at hf
            subst hf
            exact Or.inl hv
          · exact Or.inr (Or.inl ⟨x, hx, f, hf, hv⟩)
        · exact Or.inr (Or.inr h)

theorem lookup_of_mem (l : List (String × String)) (k f : String)
    (hnd : (l.map Prod.fst).Nodup) (h : (k, f) ∈ l) : l.lookup k = some f := by
  induction l with
  | nil => exact absurd h (List.not_mem_nil _)
  | cons kf l ih =>
    obtain ⟨a, b⟩ := kf
    simp only [List.map_cons, List.nodup_cons] at hnd
    rcases List.mem_cons.mp h with hhead | htail
    · simp only [Prod.mk.injEq] at hhead
      obtain ⟨h1, h2⟩ := hhead
      subst h1; subst h2
      simp [List.lookup_cons]
    · have hmem : k ∈ l.map Prod.fst := List.mem_map_of_mem Prod.fst htail
      have hne : (k == a) = false := by
        simp only [beq_eq_false_iff_ne, ne_eq]
        intro hka
        exact hnd.1 (hka ▸ hmem)
      simp only [List.lookup_cons, hne]
      exact ih hnd.2 htail

theorem mem_of_lookup (l : List (String × String)) (k f : String)
    (h : l.lookup k = some f) : (k, f) ∈ l := by
  induction l with
  | nil => cases h
  | cons kf l ih =>
    obtain ⟨a, b⟩ := kf
    by_cases hka : k = a
    · subst hka
      simp only [List.lookup_cons, beq_self_eq_true, Option.some.injEq] at h
      subst h
      exact List.mem_cons_self _ _
    · have hne : (k == a) = false := by
        simp only [beq_eq_false_iff_ne, ne_eq]
        exact hka
      simp only [List.lookup_cons, hne] at h
      exact List.mem_cons_of_mem _ (ih h)

/-- C20: after `cleanupStaleDcpFeedHandles` completes with no retry timeout (the registry
`kvHostDcpFeedMap` having one entry per host), `kvHostDcpFeedMap` holds exactly the
previously registered entries whose KV host is the host of some vbucket in `kvVbMap`,
unchanged; the feed of every removed host was closed, and no other feed; nil is
returned; and for every vbucket that `dcpFeedVbMap` (as `populateDcpFeedVbEntriesCallback`
filled it) binds to the feed of a removed host, `clearUpOwnershipInfoFromMeta` ran: its
two writes were handed to the checkpointer and the in-memory owner attributes of the
vbucket are cleared. -/
theorem stale_feeds_cleanup (cfg : Config) (o : Oracle) (c : Consumer)
    (hto : ∀ site, o.retryTimeout site = false)
    (hnd : (c.kvHostDcpFeedMap.map Prod.fst).Nodup) :
    (cleanupStaleDcpFeedHandles cfg o c).2 = none ∧
    (cleanupStaleDcpFeedHandles cfg o c).1.kvHostDcpFeedMap =
      c.kvHostDcpFeedMap.filter (fun kf => decide (kf.1 ∈ c.kvVbMap.map Prod.snd)) ∧
    (∀ k f, (k, f) ∈ c.kvHostDcpFeedMap → k ∉ c.kvVbMap.map Prod.snd →
      f ∈ (cleanupStaleDcpFeedHandles cfg o c).1.closedFeeds) ∧
    (∀ f, f ∈ (cleanupStaleDcpFeedHandles cfg o c).1.closedFeeds →
      f ∈ c.closedFeeds ∨
        ∃ k, (k, f) ∈ c.kvHostDcpFeedMap ∧ k ∉ c.kvVbMap.map Prod.snd) ∧
    (∀ k f vb, (k, f) ∈ c.kvHostDcpFeedMap → k ∉ c.kvVbMap.map Prod.snd →
      vb ∈ o.dcpFeedVbMap f →
      (∀ w ∈ clearUpWrites cfg o vb, w ∈ (cleanupStaleDcpFeedHandles cfg o c).1.metaOps) ∧
      (cleanupStaleDcpFeedHandles cfg o c).1.ownerCleared vb) := by
  have hclose : ∀ k, k ∈ StrSliceDiff (c.kvHostDcpFeedMap.map Prod.fst)
      (c.kvVbMap.map Prod.snd).dedup ↔
      (k ∈ c.kvHostDcpFeedMap.map Prod.fst ∧ k ∉ c.kvVbMap.map Prod.snd) := by
    intro k
    unfold StrSliceDiff
    simp [List.mem_filter]
  have hnd2 : (StrSliceDiff (c.kvHostDcpFeedMap.map Prod.fst)
      (c.kvVbMap.map Prod.snd).dedup).Nodup := List.Nodup.filter _ hnd
  have hgen : ∀ c2 : Consumer, c2.kvHostDcpFeedMap = c.kvHostDcpFeedMap →
      c2.closedFeeds = c.closedFeeds → c2.metaOps = c.metaOps →
      ((StrSliceDiff (c.kvHostDcpFeedMap.map Prod.fst) (c.kvVbMap.map Prod.snd).dedup).length
        > 0 → c2.dcpFeedVbMap = o.dcpFeedVbMap) →
      (closeStaleFeeds cfg o c2 (StrSliceDiff (c.kvHostDcpFeedMap.map Prod.fst)
        (c.kvVbMap.map Prod.snd).dedup)).2 = none ∧
      (closeStaleFeeds cfg o c2 (StrSliceDiff (c.kvHostDcpFeedMap.map Prod.fst)
        (c.kvVbMap.map Prod.snd).dedup)).1.kvHostDcpFeedMap =
        c.kvHostDcpFeedMap.filter (fun kf => decide (kf.1 ∈ c.kvVbMap.map Prod.snd)) ∧
      (∀ k f, (k, f) ∈ c.kvHostDcpFeedMap → k ∉ c.kvVbMap.map Prod.snd →
        f ∈ (closeStaleFeeds cfg o c2 (StrSliceDiff (c.kvHostDcpFeedMap.map Prod.fst)
          (c.kvVbMap.map Prod.snd).dedup)).1.closedFeeds) ∧
      (∀ f, f ∈ (closeStaleFeeds cfg o c2 (StrSliceDiff (c.kvHostDcpFeedMap.map Prod.fst)
          (c.kvVbMap.map Prod.snd).dedup)).1.closedFeeds →
        f ∈ c.closedFeeds ∨
          ∃ k, (k, f) ∈ c.kvHostDcpFeedMap ∧ k ∉ c.kvVbMap.map Prod.snd) ∧
      (∀ k f vb, (k, f) ∈ c.kvHostDcpFeedMap → k ∉ c.kvVbMap.map Prod.snd →
        vb ∈ o.dcpFeedVbMap f →
        (∀ w ∈ clearUpWrites cfg o vb,
          w ∈ (closeStaleFeeds cfg o c2 (StrSliceDiff (c.kvHostDcpFeedMap.map Prod.fst)
            (c.kvVbMap.map Prod.snd).dedup)).1.metaOps) ∧
        (closeStaleFeeds cfg o c2 (StrSliceDiff (c.kvHostDcpFeedMap.map Prod.fst)
          (c.kvVbMap.map Prod.snd).dedup)).1.ownerCleared vb) := by
    intro c2 hmap hcf hmo hdf
    obtain ⟨a1, a2, a3, a4, _, a6⟩ := closeStaleFeeds_effect cfg o hto _ hnd2 c2
    have hin : ∀ k f, (k, f) ∈ c.kvHostDcpFeedMap → k ∉ c.kvVbMap.map Prod.snd →
        k ∈ StrSliceDiff (c.kvHostDcpFeedMap.map Prod.fst) (c.kvVbMap.map Prod.snd).dedup :=
      fun k f hkf hk => (hclose k).mpr ⟨List.mem_map_of_mem Prod.fst hkf, hk⟩
    refine ⟨a1, ?_, ?_, ?_, ?_⟩
    · rw [a2, hmap]
      apply List.filter_congr
      intro kf hkf
      have hkeys : kf.1 ∈ c.kvHostDcpFeedMap.map Prod.fst := List.mem_map_of_mem Prod.fst hkf
      by_cases h : kf.1 ∈ c.kvVbMap.map Prod.snd
      · have : kf.1 ∉ StrSliceDiff (c.kvHostDcpFeedMap.map Prod.fst)
            (c.kvVbMap.map Prod.snd).dedup := fun hc => ((hclose _).mp hc).2 h
        simp only [this, h, not_false_eq_true, decide_True]
      · have : kf.1 ∈ StrSliceDiff (c.kvHostDcpFeedMap.map Prod.fst)
            (c.kvVbMap.map Prod.snd).dedup := (hclose _).mpr ⟨hkeys, h⟩
        simp only [this, h, not_true_eq_false, decide_False]
    · intro k f hkf hk
      rw [a3]
      apply List.mem_append_right
      rw [List.mem_filterMap]
      exact ⟨k, hin k f hkf hk, by rw [hmap]; exact lookup_of_mem _ k f hnd hkf⟩
    · intro f hf
      rw [a3, List.mem_append, List.mem_filterMap] at hf
      rcases hf with hf | ⟨k, hk, hl⟩
      · exact Or.inl (hcf ▸ hf)
      · rw [hmap] at hl
        exact Or.inr ⟨k, mem_of_lookup _ k f hl, ((hclose k).mp hk).2⟩
    · intro k f vb hkf hk hvb
      have hk2 := hin k f hkf hk
      have hlen : (StrSliceDiff (c.kvHostDcpFeedMap.map Prod.fst)
          (c.kvVbMap.map Prod.snd).dedup).length > 0 := List.length_pos_of_mem hk2
      have hl : c2.kvHostDcpFeedMap.lookup k = some f := by
        rw [hmap]; exact lookup_of_mem _ k f hnd hkf
      refine ⟨?_, ?_⟩
      · intro w hw
        rw [a4]
        apply List.mem_append_right
        rw [List.mem_flatMap]
        refine ⟨k, hk2, ?_⟩
        unfold staleFeedWrites
        rw [hl, hdf hlen]
        simp only
        rw [List.mem_flatMap]
        exact ⟨vb, hvb, hw⟩
      · exact a6 vb (Or.inl ⟨k, hk2, f, hl, by rw [hdf hlen]; exact hvb⟩)
  unfold cleanupStaleDcpFeedHandles
  simp only
  by_cases hlen : (StrSliceDiff (c.kvHostDcpFeedMap.map Prod.fst)
      (c.kvVbMap.map Prod.snd).dedup).length > 0
  · simp only [hlen, hto, if_true, Bool.false_eq_true, if_false]
    exact hgen { c with dcpFeedVbMap := o.dcpFeedVbMap } rfl rfl rfl (fun _ => rfl)
  · simp only [hlen, if_false]
    exact hgen c rfl rfl rfl (fun h => absurd h hlen)

/-- Witness of C20: feeds are registered for two KV hosts of which only the first is in
the vbucket map: the entry of the second is removed, its feed `feed_kv2` is closed, and
the owner attributes of vbucket 5, bound to that feed, are cleared. -/
theorem stale_feeds_cleanup_witness :
    (cleanupStaleDcpFeedHandles sampleConfig sampleFeedOracle sampleFeeds).2 = none ∧
    (cleanupStaleDcpFeedHandles sampleConfig sampleFeedOracle sampleFeeds).1.kvHostDcpFeedMap =
      [("10.0.0.1:11210", "feed_kv1")] ∧
    "feed_kv2" ∈ (cleanupStaleDcpFeedHandles sampleConfig sampleFeedOracle sampleFeeds).1.closedFeeds ∧
    (cleanupStaleDcpFeedHandles sampleConfig sampleFeedOracle sampleFeeds).1.ownerCleared 5 :=
  ⟨(stale_feeds_cleanup sampleConfig sampleFeedOracle sampleFeeds (fun _ => rfl)
      (by decide)).1,
    (stale_feeds_cleanup sampleConfig sampleFeedOracle sampleFeeds (fun _ => rfl)
      (by decide)).2.1,
    (stale_feeds_cleanup sampleConfig sampleFeedOracle sampleFeeds (fun _ => rfl)
      (by decide)).2.2.1 "10.0.0.2:11210" "feed_kv2" (by decide) (by decide),
    ((stale_feeds_cleanup sampleConfig sampleFeedOracle sampleFeeds (fun _ => rfl)
      (by decide)).2.2.2.2 "10.0.0.2:11210" "feed_kv2" 5 (by decide) (by decide)
      (by decide)).2⟩

/-! ## The vbuckets owned by this consumer -/

/-- C21: for `numVbuckets ≤ 65536`, `getCurrentlyOwnedVbs` returns a strictly ascending
list that contains a vbucket `V` if and only if `V < numVbuckets` and, in the per-vbucket
state store, `assigned_worker` of `V` is this consumer's name and `node_uuid` of `V` is
this node's uuid. -/
theorem owned_vbs_sorted_iff (cfg : Config) (c : Consumer) (hn : cfg.numVbuckets ≤ 65536) :
    (getCurrentlyOwnedVbs cfg c).Sorted (· < ·) ∧
    ∀ V, V ∈ getCurrentlyOwnedVbs cfg c ↔
      (V < cfg.numVbuckets ∧
        (c.vbProcessingStats V).assigned_worker = cfg.ConsumerName ∧
        (c.vbProcessingStats V).node_uuid = cfg.NodeUUID) := by
  have hid : ∀ vb ∈ List.range cfg.numVbuckets, toUint16 vb = vb := by
    intro vb hvb
    have := List.mem_range.mp hvb
    unfold toUint16
    omega
  have hfilter : ((List.range cfg.numVbuckets).filter fun vb =>
      decide ((c.vbProcessingStats (toUint16 vb)).assigned_worker = cfg.ConsumerName) &&
        decide ((c.vbProcessingStats (toUint16 vb)).node_uuid = cfg.NodeUUID)) =
      (List.range cfg.numVbuckets).filter fun vb =>
        decide ((c.vbProcessingStats vb).assigned_worker = cfg.ConsumerName) &&
          decide ((c.vbProcessingStats vb).node_uuid = cfg.NodeUUID) := by
    apply List.filter_congr
    intro vb hvb
    rw [hid vb hvb]
  have hmap : (((List.range cfg.numVbuckets).filter fun vb =>
      decide ((c.vbProcessingStats vb).assigned_worker = cfg.ConsumerName) &&
        decide ((c.vbProcessingStats vb).node_uuid = cfg.NodeUUID)).map toUint16) =
      (List.range cfg.numVbuckets).filter fun vb =>
        decide ((c.vbProcessingStats vb).assigned_worker = cfg.ConsumerName) &&
          decide ((c.vbProcessingStats vb).node_uuid = cfg.NodeUUID) := by
    conv_rhs => rw [← List.map_id ((List.range cfg.numVbuckets).filter _)]
    apply List.map_congr_left
    intro vb hvb
    exact hid vb (List.mem_of_mem_filter hvb)
  have hlt : ((List.range cfg.numVbuckets).filter fun vb =>
      decide ((c.vbProcessingStats vb).assigned_worker = cfg.ConsumerName) &&
        decide ((c.vbProcessingStats vb).node_uuid = cfg.NodeUUID)).Sorted (· < ·) :=
    List.Sorted.filter _ (List.sorted_lt_range cfg.numVbuckets)
  have heq : getCurrentlyOwnedVbs cfg c =
      (List.range cfg.numVbuckets).filter fun vb =>
        decide ((c.vbProcessingStats vb).assigned_worker = cfg.ConsumerName) &&
          decide ((c.vbProcessingStats vb).node_uuid = cfg.NodeUUID) := by
    unfold getCurrentlyOwnedVbs sortVbs
    simp only
    rw [hfilter, hmap]
    exact List.Sorted.insertionSort_eq (hlt.imp (fun h => Nat.le_of_lt h))
  rw [heq]
  refine ⟨hlt, ?_⟩
  intro V
  simp [List.mem_filter, List.mem_range]

/-- Witness of C21: in the sample state for the tick, this consumer owns exactly the
vbuckets 7 and 42 of the 1024 vbuckets. -/
theorem owned_vbs_sorted_iff_witness :
    (getCurrentlyOwnedVbs sampleConfig sampleTickState).Sorted (· < ·) ∧
    (42 ∈ getCurrentlyOwnedVbs sampleConfig sampleTickState ↔
      (42 < sampleConfig.numVbuckets ∧
        (sampleTickState.vbProcessingStats 42).assigned_worker = sampleConfig.ConsumerName ∧
        (sampleTickState.vbProcessingStats 42).node_uuid = sampleConfig.NodeUUID)) :=
  ⟨(owned_vbs_sorted_iff sampleConfig sampleTickState (by decide)).1,
    (owned_vbs_sorted_iff sampleConfig sampleTickState (by decide)).2 42⟩

/-! ## The sequence number of a retry after ROLLBACK -/

theorem posted_of_cases {c c1 : Consumer}
    (h : c1.vbFlogChan = c.vbFlogChan ∨
      ∃ en : vbFlogEntry, en.seqNo = 0 ∧ c1.vbFlogChan = c.vbFlogChan ++ [en]) :
    ∃ posted : List vbFlogEntry,
      c1.vbFlogChan = c.vbFlogChan ++ posted ∧ ∀ en ∈ posted, en.seqNo = 0 := by
  rcases h with h | ⟨en, h1, h2⟩
  · exact ⟨[], by rw [h, List.append_nil], fun _ hen => absurd hen (List.not_mem_nil _)⟩
  · exact ⟨[en], h2, fun x hx => by rw [List.mem_singleton.mp hx]; exact h1⟩

theorem handleStreamReq_posts (cfg : Config) (o : Oracle) (c c1 : Consumer) (e : DcpEvent)
    (h : (handleStreamReq cfg o c e).state? = some c1) :
    ∃ posted : List vbFlogEntry,
      c1.vbFlogChan = c.vbFlogChan ++ posted ∧ ∀ en ∈ posted, en.seqNo = 0 := by
  apply posted_of_cases
  unfold handleStreamReq at h
  repeat' split at h
  all_goals
    simp only [Outcome.state?, Option.some.injEq] at h
    subst h
    simp [Consumer.updateVbStat, Consumer.postVbFlog, Consumer.logMetaOp,
      Consumer.purgeVbStreamRequested]

theorem handleFilterData_posts (cfg : Config) (o : Oracle) (c c1 : Consumer) (e : vbSeqNo)
    (h : (handleFilterData cfg o c e).state? = some c1) :
    ∃ posted : List vbFlogEntry,
      c1.vbFlogChan = c.vbFlogChan ++ posted ∧ ∀ en ∈ posted, en.seqNo = 0 := by
  apply posted_of_cases
  unfold handleFilterData at h
  repeat' split at h
  all_goals
    simp only [Outcome.state?, Option.some.injEq] at h
    subst h
    simp [Consumer.updateVbStat, Consumer.postVbFlog, Consumer.logMetaOp,
      Consumer.purgeVbStreamRequested]

theorem debuggerHandshake_flogChan (c : Consumer) (o : Oracle) :
    (c.debuggerHandshake o).vbFlogChan = c.vbFlogChan := by
  unfold Consumer.debuggerHandshake
  split <;> rfl

/-- Every entry that a pass of the router posts to `vbFlogChan` has `seqNo = 0`. -/
theorem processEvents_posts (cfg : Config) (env : Env) (o : Oracle) (c c1 : Consumer)
    (m : RouterMsg) (hs : (processEvents cfg env o c m).state? = some c1) :
    ∃ posted : List vbFlogEntry,
      c1.vbFlogChan = c.vbFlogChan ++ posted ∧ ∀ en ∈ posted, en.seqNo = 0 := by
  have hnone : ∀ c2 : Consumer, c2 = c1 → c2.vbFlogChan = c.vbFlogChan →
      ∃ posted : List vbFlogEntry,
        c1.vbFlogChan = c.vbFlogChan ++ posted ∧ ∀ en ∈ posted, en.seqNo = 0 := by
    intro c2 h1 h2
    subst h1
    exact ⟨[], by rw [h2, List.append_nil], fun _ hen => absurd hen (List.not_mem_nil _)⟩
  cases m with
  | stopConsumerCh =>
    simp only [processEvents, Outcome.state?, Option.some.injEq] at hs
    exact hnone _ hs rfl
  | filterDataCh oe =>
    cases oe with
    | none =>
      simp only [processEvents, Outcome.state?, Option.some.injEq] at hs
      exact hnone _ hs rfl
    | some e =>
      simp only [processEvents] at hs
      exact handleFilterData_posts cfg o c c1 e hs
  | aggDCPFeed oe =>
    cases oe with
    | none =>
      simp only [processEvents, Outcome.state?, Option.some.injEq] at hs
      exact hnone _ hs rfl
    | some e =>
      simp only [processEvents, handleDcpEvent] at hs
      cases hop : e.Opcode with
      | DCP_MUTATION =>
        rw [hop] at hs
        have hs : (handleMutation cfg env o (c.countDcpEvent e) e).state? = some c1 := hs
        have ha := debuggerHandshake_flogChan
          ((c.countDcpEvent e).updateVbStat e.VBucket fun st =>
            { st with last_read_seq_no := e.Seqno }) o
        rcases handleMutation_cases cfg env o (c.countDcpEvent e) e with
          h1 | h1 | h1 | h1 | ⟨e1, h1⟩ <;>
          rw [h1] at hs <;> simp only [Outcome.state?, Option.some.injEq] at hs
        · exact hnone _ hs rfl
        · cases hs
        · cases hs
        · exact hnone _ hs ha
        · exact hnone _ hs ha
      | DCP_DELETION =>
        rw [hop] at hs
        have hs : (handleDeletion o (c.countDcpEvent e) e).state? = some c1 := hs
        unfold handleDeletion at hs
        have ha := debuggerHandshake_flogChan
          ((c.countDcpEvent e).updateVbStat e.VBucket fun st =>
            { st with last_read_seq_no := e.Seqno }) o
        by_cases hf : e.VBucket ∈ (c.countDcpEvent e).filterVbEvents
        · rw [if_pos hf] at hs
          simp only [Outcome.state?, Option.some.injEq] at hs
          exact hnone _ hs rfl
        · rw [if_neg hf] at hs
          simp only [Outcome.state?, Option.some.injEq] at hs
          exact hnone _ hs ha
      | DCP_STREAMREQ =>
        rw [hop] at hs
        exact handleStreamReq_posts cfg o (c.countDcpEvent e) c1 e hs
      | DCP_STREAMEND =>
        rw [hop] at hs
        have hs : (handleStreamEnd o (c.countDcpEvent e) e).state? = some c1 := hs
        simp only [handleStreamEnd, Outcome.state?, Option.some.injEq] at hs
        exact hnone _ hs rfl
      | other code =>
        rw [hop] at hs
        have hs : (Outcome.next (c.countDcpEvent e)).state? = some c1 := hs
        simp only [Outcome.state?, Option.some.injEq] at hs
        exact hnone _ hs rfl

/-- What a pass of `handleFailoverLog` on an entry with status ROLLBACK sends: nothing,
or one item for the vbucket of the entry whose `startSeqNo` is the `seqNo` of the entry. -/
theorem handleFailoverLog_rollback (o : Oracle) (c c1 : Consumer) (vbFlog : vbFlogEntry)
    (hrb : vbFlog.statusCode = Status.ROLLBACK)
    (h : (handleFailoverLog o c vbFlog).state? = some c1) :
    c1.reqStreamCh = c.reqStreamCh ∨
    ∃ vbBlob : vbucketKVBlob, c1.reqStreamCh = c.reqStreamCh ++
      [{ vb := vbFlog.vb, vbBlob := vbBlob, startSeqNo := vbFlog.seqNo }] := by
  have hsame : ∀ c2 : Consumer,
      (Outcome.next c2).state? = some c1 ∨ (Outcome.exit c2).state? = some c1 →
      c2.reqStreamCh = c.reqStreamCh →
      (c1.reqStreamCh = c.reqStreamCh ∨
        ∃ vbBlob : vbucketKVBlob, c1.reqStreamCh = c.reqStreamCh ++
          [{ vb := vbFlog.vb, vbBlob := vbBlob, startSeqNo := vbFlog.seqNo }]) := by
    intro c2 h3 h1
    have h4 : c2 = c1 := by
      rcases h3 with h3 | h3 <;> simpa [Outcome.state?] using h3
    subst h4
    exact Or.inl h1
  unfold handleFailoverLog at h
  simp only at h
  by_cases h1 : vbFlog.signalStreamEnd = true
  · rw [if_pos h1] at h
    exact hsame _ (Or.inl h) rfl
  · rw [if_neg h1] at h
    have h2 : ¬ (!vbFlog.streamReqRetry && decide (vbFlog.statusCode = Status.SUCCESS)) = true := by
      rw [hrb]
      simp
    rw [if_neg h2] at h
    by_cases h3 : vbFlog.streamReqRetry = true
    · rw [if_pos h3] at h
      by_cases h4 : o.retryTimeout (.getOpCallback vbFlog.vb 0) = true
      · rw [if_pos h4] at h
        exact hsame _ (Or.inr h) rfl
      · rw [if_neg h4] at h
        by_cases h5 : o.retryTimeout (.getEFFailoverLogOpAllVbucketsCallback vbFlog.vb) = true
        · rw [if_pos h5] at h
          exact hsame _ (Or.inr h) rfl
        · rw [if_neg h5] at h
          have hrest : ∀ (vbBlob : vbucketKVBlob) (startSeqNo : Nat),
              (if vbFlog.statusCode = Status.ROLLBACK then
                if Consumer.checkIfAlreadyEnqueued
                    { c with inflightDcpStreams := c.inflightDcpStreams.erase vbFlog.vb }
                    vbFlog.vb = true then
                  Outcome.next { c with inflightDcpStreams := c.inflightDcpStreams.erase vbFlog.vb }
                else
                  Outcome.next
                    ((((Consumer.addToEnqueueMap
                      { c with inflightDcpStreams := c.inflightDcpStreams.erase vbFlog.vb }
                      vbFlog.vb).sendReqStream
                      { vb := vbFlog.vb, vbBlob := vbBlob, startSeqNo := vbFlog.seqNo })).updateVbStat
                      vbFlog.vb fun st =>
                        { st with start_seq_no := startSeqNo, timestamp := o.now })
              else
                if Consumer.checkIfAlreadyEnqueued
                    { c with inflightDcpStreams := c.inflightDcpStreams.erase vbFlog.vb }
                    vbFlog.vb = true then
                  Outcome.next { c with inflightDcpStreams := c.inflightDcpStreams.erase vbFlog.vb }
                else
                  Outcome.next
                    ((((Consumer.addToEnqueueMap
                      { c with inflightDcpStreams := c.inflightDcpStreams.erase vbFlog.vb }
                      vbFlog.vb).sendReqStream
                      { vb := vbFlog.vb, vbBlob := vbBlob, startSeqNo := startSeqNo })).updateVbStat
                      vbFlog.vb fun st =>
                        { st with start_seq_no := 0, timestamp := o.now })).state? = some c1 →
              (c1.reqStreamCh = c.reqStreamCh ∨
                ∃ vbBlob : vbucketKVBlob, c1.reqStreamCh = c.reqStreamCh ++
                  [{ vb := vbFlog.vb, vbBlob := vbBlob, startSeqNo := vbFlog.seqNo }]) := by
            intro vbBlob startSeqNo h
            rw [if_pos hrb] at h
            by_cases hq : Consumer.checkIfAlreadyEnqueued
                { c with inflightDcpStreams := c.inflightDcpStreams.erase vbFlog.vb }
                vbFlog.vb = true
            · rw [if_pos hq] at h
              exact hsame _ (Or.inl h) rfl
            · rw [if_neg hq] at h
              simp only [Outcome.state?, Option.some.injEq] at h
              subst h
              exact Or.inr ⟨vbBlob, rfl⟩
          cases hfl : o.flogs vbFlog.vb with
          | none =>
            rw [hfl] at h
            exact hrest _ _ h
          | some flog =>
            rw [hfl] at h
            simp only at h
            cases hl : flog.Latest with
            | error err =>
              rw [hl] at h
              exact hsame _ (Or.inl h) rfl
            | ok r =>
              obtain ⟨vbuuid, startSeqNo⟩ := r
              rw [hl] at h
              exact hrest _ _ h
    · rw [if_neg h3] at h
      exact hsame _ (Or.inl h) rfl

/-- C25: every entry that a pass of `processEvents` posts to `vbFlogChan` has `seqNo = 0`;
the entry posted for a STREAMREQ event answered with status ROLLBACK is the retry entry
with the event's failover log and `seqNo = 0`; and every item that `handleFailoverLog`
enqueues for that entry has `startSeqNo = 0`, whatever the state, the event and the
failover log fetched. -/
theorem rollback_restarts_from_zero (cfg : Config) (env : Env) :
    (∀ (o : Oracle) (c c1 : Consumer) (m : RouterMsg),
      (processEvents cfg env o c m).state? = some c1 →
      ∃ posted : List vbFlogEntry,
        c1.vbFlogChan = c.vbFlogChan ++ posted ∧ ∀ en ∈ posted, en.seqNo = 0) ∧
    (∀ (o : Oracle) (c : Consumer) (e : DcpEvent),
      e.Opcode = Opcode.DCP_STREAMREQ → e.Status = Status.ROLLBACK →
      (c.vbProcessingStats e.VBucket).vb_stream_request_metadata_updated = some true →
      (∀ site, o.retryTimeout site = false) →
      ∃ c1 : Consumer,
        processEvents cfg env o c (.aggDCPFeed (some e)) = .next c1 ∧
        c1.vbFlogChan = c.vbFlogChan ++
          [{ flog := some e.FailoverLog, seqNo := 0, statusCode := Status.ROLLBACK,
             streamReqRetry := true, vb := e.VBucket }] ∧
        ∀ (o2 : Oracle) (c2 c3 : Consumer) (req : streamRequestInfo),
          (handleFailoverLog o2 c2
            { flog := some e.FailoverLog, seqNo := 0, statusCode := Status.ROLLBACK,
              streamReqRetry := true, vb := e.VBucket }).state? = some c3 →
          c3.reqStreamCh = c2.reqStreamCh ++ [req] →
          req.vb = e.VBucket ∧ req.startSeqNo = 0) := by
  refine ⟨fun o c c1 m h => processEvents_posts cfg env o c c1 m h, ?_⟩
  intro o c e hop hst hflag hto
  have hflag1 : ((c.countDcpEvent e).vbProcessingStats e.VBucket).vb_stream_request_metadata_updated
      = some true := hflag
  rw [processEvents_streamreq cfg env o c e hop]
  have hs : ¬ e.Status = Status.SUCCESS := by rw [hst]; decide
  have hk : ¬ e.Status = Status.KEY_EEXISTS := by rw [hst]; decide
  simp only [handleStreamReq, hflag1, hs, hk, hto, if_false, Bool.false_eq_true]
  refine ⟨_, rfl, ?_, ?_⟩
  · simp [Consumer.postVbFlog, Consumer.logMetaOp, Consumer.purgeVbStreamRequested,
      Consumer.updateVbStat, Consumer.countDcpEvent, hst]
  · intro o2 c2 c3 req h3 h4
    rcases handleFailoverLog_rollback o2 c2 c3 _ rfl h3 with h5 | ⟨blob, h5⟩
    · rw [h5] at h4
      have := congrArg List.length h4
      simp at this
    · rw [h5] at h4
      have h6 := List.append_cancel_left h4
      simp only [List.cons.injEq, and_true] at h6
      rw [← h6]
      exact ⟨rfl, rfl⟩

/-- Witness of C25: the sample STREAMREQ response for vbucket 9 with status ROLLBACK and
the failover log `[(77, 100)]`, and the handling of the posted entry while the failover
log fetched has the latest entry `(78, 120)`: the item enqueued starts from 0. -/
theorem rollback_restarts_from_zero_witness :
    ∃ c1 : Consumer,
      processEvents sampleConfig sampleEnv {} sampleRequested
        (.aggDCPFeed (some (sampleStreamReq Status.ROLLBACK [(77, 100)]))) = .next c1 ∧
      c1.vbFlogChan = [sampleRetryEntry Status.ROLLBACK] ∧
      ((handleFailoverLog sampleFlogOracle c1 (sampleRetryEntry Status.ROLLBACK)).state?.map
        fun c3 => c3.reqStreamCh.map fun req => (req.vb, req.startSeqNo)) = some [(9, 0)] := by
  obtain ⟨c1, h1, h2, _⟩ :=
    (rollback_restarts_from_zero sampleConfig sampleEnv).2 {} sampleRequested
      (sampleStreamReq Status.ROLLBACK [(77, 100)]) rfl rfl rfl (fun _ => rfl)
  refine ⟨c1, h1, h2, ?_⟩
  have hc : c1 = ((processEvents sampleConfig sampleEnv {} sampleRequested
      (.aggDCPFeed (some (sampleStreamReq Status.ROLLBACK [(77, 100)])))).state?).getD {} := by
    rw [h1]; rfl
  rw [hc]
  decide

/-! ## The close queue over passes of the tick -/

theorem closeStreamVb_queue (cfg : Config) (o : Oracle) (c : Consumer) (vb : Nat) :
    (closeStreamVb cfg o c vb).1.vbsRemainingToClose = c.vbsRemainingToClose ∧
    (closeStreamVb cfg o c vb).1.isBootstrapping = c.isBootstrapping ∧
    ∃ calls : List (Option String × Nat × Nat),
      (closeStreamVb cfg o c vb).1.closeStreamCalls = c.closeStreamCalls ++ calls ∧
      ∀ call ∈ calls, call.2.1 = vb := by
  unfold closeStreamVb
  simp only
  split
  · exact ⟨rfl, rfl, [_], rfl, by simp⟩
  · exact ⟨rfl, rfl, [_], rfl, by simp⟩

/-- The close loop, whether or not a checkpoint write times out: it leaves
`vbsRemainingToClose` and `isBootstrapping` as they were, and every call of
`DcpCloseStream` it makes is for a vbucket of the list it ranges over. -/
theorem closeStreams_queue (cfg : Config) (o : Oracle) (l : List Nat) :
    ∀ c : Consumer,
      (closeStreams cfg o c l).1.vbsRemainingToClose = c.vbsRemainingToClose ∧
      (closeStreams cfg o c l).1.isBootstrapping = c.isBootstrapping ∧
      ∃ calls : List (Option String × Nat × Nat),
        (closeStreams cfg o c l).1.closeStreamCalls = c.closeStreamCalls ++ calls ∧
        ∀ call ∈ calls, call.2.1 ∈ l := by
  induction l with
  | nil => intro c; exact ⟨rfl, rfl, [], by simp [closeStreams], by simp⟩
  | cons v rest ih =>
    intro c
    have hstep : ∀ c1 : Consumer,
        (∃ calls : List (Option String × Nat × Nat),
          c1.closeStreamCalls = c.closeStreamCalls ++ calls ∧ ∀ call ∈ calls, call.2.1 ∈ rest) →
        ∃ calls : List (Option String × Nat × Nat),
          c1.closeStreamCalls = c.closeStreamCalls ++ calls ∧
          ∀ call ∈ calls, call.2.1 ∈ v :: rest := by
      rintro c1 ⟨calls, h1, h2⟩
      exact ⟨calls, h1, fun call hc => List.mem_cons_of_mem _ (h2 call hc)⟩
    unfold closeStreams
    by_cases ho : (!c.checkIfVbAlreadyOwnedByCurrConsumer cfg v) = true
    · rw [if_pos ho]
      obtain ⟨h1, h2, h3⟩ := ih c
      exact ⟨h1, h2, hstep _ h3⟩
    · rw [if_neg ho]
      by_cases hs : o.checkIfCurrentConsumerShouldOwnVb v = true
      · rw [if_pos hs]
        obtain ⟨h1, h2, h3⟩ := ih c
        exact ⟨h1, h2, hstep _ h3⟩
      · rw [if_neg hs]
        obtain ⟨e1, e2, calls1, e3, e4⟩ := closeStreamVb_queue cfg o c v
        rcases hc : closeStreamVb cfg o c v with ⟨c1, r⟩
        rw [hc] at e1 e2 e3
        simp only at e1 e2 e3
        cases r with
        | some err =>
          exact ⟨e1, e2, calls1, e3, fun call hm => by
            rw [e4 call hm]; exact List.mem_cons_self _ _⟩
        | none =>
          obtain ⟨h1, h2, calls2, h3, h4⟩ := ih c1
          refine ⟨h1.trans e1, h2.trans e2, calls1 ++ calls2, ?_, ?_⟩
          · show (closeStreams cfg o c1 rest).1.closeStreamCalls = _
            rw [h3, e3, List.append_assoc]
          · intro call hm
            rcases List.mem_append.mp hm with hm | hm
            · rw [e4 call hm]; exact List.mem_cons_self _ _
            · exact List.mem_cons_of_mem _ (h4 call hm)

theorem restreamVb_bootstrapping (cfg : Config) (o : Oracle) (c : Consumer)
    (failed : List Nat) (vb : Nat) :
    (restreamVb cfg o c failed vb).1.isBootstrapping = c.isBootstrapping := by
  unfold restreamVb
  simp only
  repeat' split
  all_goals rfl

theorem restreamVbs_bootstrapping (cfg : Config) (o : Oracle) (l : List Nat) :
    ∀ (c : Consumer) (failed : List Nat),
      (restreamVbs cfg o c failed l).1.isBootstrapping = c.isBootstrapping := by
  induction l with
  | nil => intro c failed; rfl
  | cons v rest ih =>
    intro c failed
    unfold restreamVbs
    by_cases ho : c.checkIfVbAlreadyOwnedByCurrConsumer cfg v = true
    · rw [if_pos ho]
      exact ih c failed
    · rw [if_neg ho]
      by_cases hs : (!o.checkIfCurrentConsumerShouldOwnVb v) = true
      · rw [if_pos hs]
        exact ih c failed
      · rw [if_neg hs]
        have e1 := restreamVb_bootstrapping cfg o c failed v
        rcases hc : restreamVb cfg o c failed v with ⟨c1, failed1, r⟩
        rw [hc] at e1
        simp only at e1
        cases r with
        | some err => exact e1
        | none => exact (ih c1 failed1).trans e1

/-- A pass of the tick in which the app is deployed or the consumer is bootstrapping,
whatever times out: `vbsRemainingToClose` and `isBootstrapping` are left as they were and
every call of `DcpCloseStream` made in the pass is for a vbucket of the queue. -/
theorem restartStreamTick_queue (cfg : Config) (o : Oracle) (c : Consumer)
    (hdep : o.appDeployed = true ∨ c.isBootstrapping = true) :
    (restartStreamTick cfg o c).state.vbsRemainingToClose = c.vbsRemainingToClose ∧
    (restartStreamTick cfg o c).state.isBootstrapping = c.isBootstrapping ∧
    ∃ calls : List (Option String × Nat × Nat),
      (restartStreamTick cfg o c).state.closeStreamCalls = c.closeStreamCalls ++ calls ∧
      ∀ call ∈ calls, call.2.1 ∈ c.vbsRemainingToClose := by
  have h2 : ¬ ((!o.appDeployed && !c.isBootstrapping) = true) := by
    rcases hdep with hd | hd <;> simp [hd]
  unfold restartStreamTick
  simp only
  by_cases h1 : c.vbsRemainingToRestream.length = 0 ∧ c.vbsRemainingToClose.length = 0
  · rw [if_pos h1]
    exact ⟨rfl, rfl, [], by simp [TickResult.state], by simp⟩
  · rw [if_neg h1, if_neg h2]
    obtain ⟨e1, e2, calls, e3, e4⟩ := closeStreams_queue cfg o (sortVbs c.vbsRemainingToClose) c
    have e4 : ∀ call ∈ calls, call.2.1 ∈ c.vbsRemainingToClose :=
      fun call hm => (mem_sortVbs _ _).mp (e4 call hm)
    rcases hc : closeStreams cfg o c (sortVbs c.vbsRemainingToClose) with ⟨c1, r⟩
    rw [hc] at e1 e2 e3
    simp only at e1 e2 e3
    cases r with
    | some err => exact ⟨e1, e2, calls, e3, e4⟩
    | none =>
      simp only
      obtain ⟨_, f2, _, _, f5⟩ :=
        restreamVbs_frame cfg o (sortVbs c.vbsRemainingToRestream) c1 []
      have f6 := restreamVbs_bootstrapping cfg o (sortVbs c.vbsRemainingToRestream) c1 []
      rcases hr : restreamVbs cfg o c1 [] (sortVbs c.vbsRemainingToRestream) with
        ⟨c2, failed, r2⟩
      rw [hr] at f2 f5 f6
      simp only at f2 f5 f6
      cases r2 with
      | some err => exact ⟨f5.trans e1, f6.trans e2, calls, f2.trans e3, e4⟩
      | none =>
        simp only
        split <;> exact ⟨f5.trans e1, f6.trans e2, calls, f2.trans e3, e4⟩

theorem tickPasses_queue (cfg : Config) (os : List Oracle) :
    ∀ c : Consumer, (∀ o ∈ os, o.appDeployed = true ∨ c.isBootstrapping = true) →
      (tickPasses cfg os c).vbsRemainingToClose = c.vbsRemainingToClose := by
  induction os with
  | nil => intro c _; rfl
  | cons o rest ih =>
    intro c h
    obtain ⟨h1, h2, _⟩ := restartStreamTick_queue cfg o c (h o (List.mem_cons_self _ _))
    unfold tickPasses
    rw [ih _ (fun o1 ho1 => by rw [h2]; exact h o1 (List.mem_cons_of_mem _ ho1)), h1]

/-- C27: a pass of the restart-stream tick in which the app is deployed or the consumer
is bootstrapping leaves `vbsRemainingToClose` equal to the queue before the pass,
whatever times out in the pass; every call of `DcpCloseStream` the pass makes is for a
vbucket that is still in the queue afterwards; and after any sequence of such passes from
a state with a non-empty queue the queue is the same and the test of the early exit
(both queues empty) is false. -/
theorem tick_keeps_close_queue (cfg : Config) (o : Oracle) (c : Consumer)
    (hdep : o.appDeployed = true ∨ c.isBootstrapping = true) :
    (restartStreamTick cfg o c).state.vbsRemainingToClose = c.vbsRemainingToClose ∧
    (∃ calls : List (Option String × Nat × Nat),
      (restartStreamTick cfg o c).state.closeStreamCalls = c.closeStreamCalls ++ calls ∧
      ∀ call ∈ calls, call.2.1 ∈ (restartStreamTick cfg o c).state.vbsRemainingToClose) ∧
    ∀ os : List Oracle, (∀ o1 ∈ os, o1.appDeployed = true ∨ c.isBootstrapping = true) →
      (tickPasses cfg os c).vbsRemainingToClose = c.vbsRemainingToClose ∧
      (c.vbsRemainingToClose ≠ [] → (tickPasses cfg os c).bothQueuesEmpty = false) := by
  obtain ⟨h1, _, calls, h3, h4⟩ := restartStreamTick_queue cfg o c hdep
  refine ⟨h1, ⟨calls, h3, fun call hm => by rw [h1]; exact h4 call hm⟩, ?_⟩
  intro os hos
  have hq := tickPasses_queue cfg os c hos
  refine ⟨hq, fun hne => ?_⟩
  unfold Consumer.bothQueuesEmpty
  rw [hq]
  simp [hne]

/-- Witness of C27: on the sample tick state (42 and 7 queued for closing, both owned and
not assigned by the planner, the app deployed) a pass closes both streams and leaves the
queue `[42, 7]`; a second and a third pass close them again and the queue is unchanged. -/
theorem tick_keeps_close_queue_witness :
    ((restartStreamTick sampleConfig sampleTickOracle sampleTickState).state.vbsRemainingToClose
      = [42, 7] ∧
     (restartStreamTick sampleConfig sampleTickOracle sampleTickState).state.closeStreamCalls
      = [(some "feed_kv1", 7, 7), (some "feed_kv1", 42, 42)]) ∧
    ((tickPasses sampleConfig [sampleTickOracle, sampleTickOracle, sampleTickOracle]
        sampleTickState).vbsRemainingToClose = [42, 7] ∧
     (tickPasses sampleConfig [sampleTickOracle, sampleTickOracle, sampleTickOracle]
        sampleTickState).bothQueuesEmpty = false ∧
     ((tickPasses sampleConfig [sampleTickOracle, sampleTickOracle, sampleTickOracle]
        sampleTickState).closeStreamCalls.map fun call => call.2.1) = [7, 42, 7, 42, 7, 42]) := by
  have h := tick_keeps_close_queue sampleConfig sampleTickOracle sampleTickState
    (Or.inl (by decide))
  refine ⟨⟨h.1, by decide⟩, ?_⟩
  have h3 := h.2.2 [sampleTickOracle, sampleTickOracle, sampleTickOracle]
    (fun o1 ho1 => Or.inl (by
      simp only [List.mem_cons, List.mem_singleton, List.not_mem_nil, or_false, or_self] at ho1
      rw [ho1]; decide))
  exact ⟨h3.1, h3.2 (by decide), by decide⟩

/-! ## The in-flight byte counter `aggDCPFeedMem` -/

theorem debuggerHandshake_mem (c : Consumer) (o : Oracle) :
    (c.debuggerHandshake o).aggDCPFeedMem = c.aggDCPFeedMem := by
  unfold Consumer.debuggerHandshake
  split <;> rfl

theorem handleStreamReq_mem (cfg : Config) (o : Oracle) (c c1 : Consumer) (e : DcpEvent)
    (h : (handleStreamReq cfg o c e).state? = some c1) :
    c1.aggDCPFeedMem = c.aggDCPFeedMem := by
  unfold handleStreamReq at h
  repeat' split at h
  all_goals
    simp only [Outcome.state?, Option.some.injEq] at h
    subst h
    simp [Consumer.updateVbStat, Consumer.postVbFlog, Consumer.logMetaOp,
      Consumer.purgeVbStreamRequested]

/-- The arm of `processEvents` for an event received from the aggregated channel: when the
pass leaves a state, the counter is the one before less `len(e.Value)`. -/
theorem handleDcpEvent_mem (cfg : Config) (env : Env) (o : Oracle) (c c1 : Consumer)
    (e : DcpEvent) (hs : (handleDcpEvent cfg env o c e).state? = some c1) :
    c1.aggDCPFeedMem = c.aggDCPFeedMem - (e.Value.length : Int) := by
  have hcount : (c.countDcpEvent e).aggDCPFeedMem = c.aggDCPFeedMem - (e.Value.length : Int) :=
    rfl
  rw [← hcount]
  have hnone : ∀ c2 : Consumer, c2 = c1 → c2.aggDCPFeedMem = (c.countDcpEvent e).aggDCPFeedMem →
      c1.aggDCPFeedMem = (c.countDcpEvent e).aggDCPFeedMem := by
    intro c2 h1 h2
    subst h1
    exact h2
  simp only [handleDcpEvent] at hs
  cases hop : e.Opcode with
  | DCP_MUTATION =>
    rw [hop] at hs
    have hs : (handleMutation cfg env o (c.countDcpEvent e) e).state? = some c1 := hs
    have ha := debuggerHandshake_mem
      ((c.countDcpEvent e).updateVbStat e.VBucket fun st =>
        { st with last_read_seq_no := e.Seqno }) o
    rcases handleMutation_cases cfg env o (c.countDcpEvent e) e with
      h1 | h1 | h1 | h1 | ⟨e1, h1⟩ <;>
      rw [h1] at hs <;> simp only [Outcome.state?, Option.some.injEq] at hs
    · exact hnone _ hs rfl
    · cases hs
    · cases hs
    · exact hnone _ hs ha
    · exact hnone _ hs ha
  | DCP_DELETION =>
    rw [hop] at hs
    have hs : (handleDeletion o (c.countDcpEvent e) e).state? = some c1 := hs
    unfold handleDeletion at hs
    have ha := debuggerHandshake_mem
      ((c.countDcpEvent e).updateVbStat e.VBucket fun st =>
        { st with last_read_seq_no := e.Seqno }) o
    by_cases hf : e.VBucket ∈ (c.countDcpEvent e).filterVbEvents
    · rw [if_pos hf] at hs
      simp only [Outcome.state?, Option.some.injEq] at hs
      exact hnone _ hs rfl
    · rw [if_neg hf] at hs
      simp only [Outcome.state?, Option.some.injEq] at hs
      exact hnone _ hs ha
  | DCP_STREAMREQ =>
    rw [hop] at hs
    exact handleStreamReq_mem cfg o (c.countDcpEvent e) c1 e hs
  | DCP_STREAMEND =>
    rw [hop] at hs
    have hs : (handleStreamEnd o (c.countDcpEvent e) e).state? = some c1 := hs
    simp only [handleStreamEnd, Outcome.state?, Option.some.injEq] at hs
    exact hnone _ hs rfl
  | other code =>
    rw [hop] at hs
    have hs : (Outcome.next (c.countDcpEvent e)).state? = some c1 := hs
    simp only [Outcome.state?, Option.some.injEq] at hs
    exact hnone _ hs rfl

/-- A pass on an event that is not a JSON+XATTR value leaves a state: it does not panic. -/
theorem handleDcpEvent_total (cfg : Config) (env : Env) (o : Oracle) (c : Consumer)
    (e : DcpEvent) (hd : e.Datatype ≠ dcpDatatypeJSONXattr) :
    ((handleDcpEvent cfg env o c e).state?).isSome = true := by
  simp only [handleDcpEvent]
  cases hop : e.Opcode with
  | DCP_MUTATION =>
    show ((handleMutation cfg env o (c.countDcpEvent e) e).state?).isSome = true
    unfold handleMutation
    simp only [if_neg hd]
    repeat' split
    all_goals rfl
  | DCP_DELETION =>
    show ((handleDeletion o (c.countDcpEvent e) e).state?).isSome = true
    unfold handleDeletion
    split <;> rfl
  | DCP_STREAMREQ =>
    show ((handleStreamReq cfg o (c.countDcpEvent e) e).state?).isSome = true
    unfold handleStreamReq
    repeat' split
    all_goals rfl
  | DCP_STREAMEND => rfl
  | other code => rfl

theorem inFlightBytes_nonneg (ch : List DcpEvent) : 0 ≤ inFlightBytes ch := by
  unfold inFlightBytes
  apply List.sum_nonneg
  intro x hx
  obtain ⟨e, _, he⟩ := List.mem_map.mp hx
  rw [← he]
  exact Int.natCast_nonneg _

/-- One step keeps the counter equal to the bytes in the channel. -/
theorem feedStep_exact (cfg : Config) (env : Env) (s s1 : Consumer × List DcpEvent)
    (os : Oracle × FeedStep) (hi : s.1.aggDCPFeedMem = inFlightBytes s.2)
    (h : feedStep cfg env s os = some s1) :
    s1.1.aggDCPFeedMem = inFlightBytes s1.2 := by
  obtain ⟨c, ch⟩ := s
  obtain ⟨o, st⟩ := os
  simp only at hi
  cases st with
  | enqueue e =>
    simp only [feedStep, Option.some.injEq] at h
    subst h
    unfold addToAggChan
    split
    · simp [inFlightBytes, hi]
    · exact hi
  | receive =>
    cases ch with
    | nil =>
      simp only [feedStep, Option.some.injEq] at h
      subst h
      exact hi
    | cons e rest =>
      simp only [feedStep, processEvents] at h
      cases h1 : (handleDcpEvent cfg env o c e).state? with
      | none => rw [h1] at h; cases h
      | some c1 =>
        rw [h1] at h
        simp only [Option.map_some', Option.some.injEq] at h
        subst h
        have := handleDcpEvent_mem cfg env o c c1 e h1
        simp only [this, hi, inFlightBytes, List.map_cons, List.sum_cons]
        omega

theorem feedRun_exact (cfg : Config) (env : Env) (steps : List (Oracle × FeedStep)) :
    ∀ s s1 : Consumer × List DcpEvent, s.1.aggDCPFeedMem = inFlightBytes s.2 →
      feedRun cfg env steps s = some s1 → s1.1.aggDCPFeedMem = inFlightBytes s1.2 := by
  induction steps with
  | nil =>
    intro s s1 hi h
    simp only [feedRun, Option.some.injEq] at h
    subst h
    exact hi
  | cons os rest ih =>
    intro s s1 hi h
    unfold feedRun at h
    cases hs : feedStep cfg env s os with
    | none => rw [hs] at h; cases h
    | some s2 =>
      rw [hs] at h
      exact ih s2 s1 (feedStep_exact cfg env s s2 os hi hs) h

theorem feedRun_total (cfg : Config) (env : Env) (steps : List (Oracle × FeedStep)) :
    ∀ s : Consumer × List DcpEvent,
      (∀ e ∈ s.2, e.Datatype ≠ dcpDatatypeJSONXattr) →
      (∀ os ∈ steps, ∀ e, os.2 = .enqueue e → e.Datatype ≠ dcpDatatypeJSONXattr) →
      (feedRun cfg env steps s).isSome = true := by
  induction steps with
  | nil => intro s _ _; rfl
  | cons os rest ih =>
    intro s hch hst
    obtain ⟨c, ch⟩ := s
    obtain ⟨o, st⟩ := os
    have hrest : ∀ os ∈ rest, ∀ e, os.2 = .enqueue e → e.Datatype ≠ dcpDatatypeJSONXattr :=
      fun os1 h1 => hst os1 (List.mem_cons_of_mem _ h1)
    unfold feedRun
    cases st with
    | enqueue e =>
      have he := hst (o, .enqueue e) (List.mem_cons_self _ _) e rfl
      simp only [feedStep]
      apply ih _ _ hrest
      unfold addToAggChan
      split
      · intro x hx
        rcases List.mem_append.mp hx with hx | hx
        · exact hch x hx
        · rw [List.mem_singleton.mp hx]; exact he
      · exact hch
    | receive =>
      cases ch with
      | nil =>
        simp only [feedStep]
        exact ih _ hch hrest
      | cons e rest1 =>
        have he := hch e (List.mem_cons_self _ _)
        have ht := handleDcpEvent_total cfg env o c e he
        simp only [feedStep, processEvents]
        cases hk : (handleDcpEvent cfg env o c e).state? with
        | none => rw [hk] at ht; cases ht
        | some c1 =>
          simp only [Option.map_some']
          exact ih _ (fun x hx => hch x (List.mem_cons_of_mem _ hx)) hrest

/-- C30: from a state whose counter `aggDCPFeedMem` is 0 and an empty aggregated channel,
after every sequence of enqueue steps of `addToAggChan` and receive steps of
`processEvents` (each step taken as a whole) the counter equals the sum of the value
lengths of the events in the channel, so it is not negative and it is 0 when the channel
is empty; and the sequence does reach a state when no event put on the channel is a
JSON+XATTR value (the only pass that can panic is the xattr decoding). -/
theorem agg_feed_mem_exact (cfg : Config) (env : Env) (c0 : Consumer)
    (h0 : c0.aggDCPFeedMem = 0) (steps : List (Oracle × FeedStep)) :
    (∀ (c : Consumer) (aggDCPFeed : List DcpEvent),
      feedRun cfg env steps (c0, []) = some (c, aggDCPFeed) →
      c.aggDCPFeedMem = inFlightBytes aggDCPFeed ∧ 0 ≤ c.aggDCPFeedMem ∧
        (aggDCPFeed = [] → c.aggDCPFeedMem = 0)) ∧
    ((∀ os ∈ steps, ∀ e, os.2 = .enqueue e → e.Datatype ≠ dcpDatatypeJSONXattr) →
      (feedRun cfg env steps (c0, [])).isSome = true) := by
  refine ⟨?_, fun h => feedRun_total cfg env steps (c0, [])
    (fun e he => absurd he (List.not_mem_nil _)) h⟩
  intro c ch h
  have hi := feedRun_exact cfg env steps (c0, []) (c, ch) (by simp [h0, inFlightBytes]) h
  simp only at hi
  refine ⟨hi, ?_, ?_⟩
  · rw [hi]; exact inFlightBytes_nonneg ch
  · intro hch
    rw [hi, hch]
    rfl

/-- Witness of C30: the sample run (2 and 15 bytes put on the channel, one event received,
0 bytes put on the channel) leaves the 15-byte and the 0-byte event in the channel and the
counter at 15; after the two receives that follow the channel is empty and the counter
is 0. -/
theorem agg_feed_mem_exact_witness :
    ((feedRun sampleConfig sampleEnv (sampleFeedRun.take 4) ({}, [])).map fun s =>
      (s.1.aggDCPFeedMem, s.2.map fun e => e.Value.length)) = some (15, [15, 0]) ∧
    ((feedRun sampleConfig sampleEnv sampleFeedRun ({}, [])).map fun s =>
      (s.1.aggDCPFeedMem, s.2.length)) = some (0, 0) ∧
    ∀ (c : Consumer) (aggDCPFeed : List DcpEvent),
      feedRun sampleConfig sampleEnv sampleFeedRun ({}, []) = some (c, aggDCPFeed) →
      c.aggDCPFeedMem = inFlightBytes aggDCPFeed ∧ 0 ≤ c.aggDCPFeedMem ∧
        (aggDCPFeed = [] → c.aggDCPFeedMem = 0) :=
  ⟨by decide, by decide, (agg_feed_mem_exact sampleConfig sampleEnv {} rfl sampleFeedRun).1⟩

/-! ## The stream request processor on a closed channel -/

/-- C29: a pass of `processReqStreamMessages` on a receive from the closed `reqStreamCh`
(no message, `ok == false`) panics, for every state and every oracle: `msg.vb` is read
before `ok` is tested, so no state is left and the routine does not return; a pass on a
message leaves a state. -/
theorem closed_req_channel_panics (cfg : Config) (o : Oracle) (c : Consumer) :
    processReqStreamMessages cfg o c none = Outcome.panic ∧
    (processReqStreamMessages cfg o c none).state? = none ∧
    ∀ msg : streamRequestInfo,
      ((processReqStreamMessages cfg o c (some msg)).state?).isSome = true := by
  refine ⟨rfl, rfl, fun msg => ?_⟩
  unfold processReqStreamMessages
  simp only
  repeat' split
  all_goals rfl

/-! ## The decoder on a well-formed JSON+XATTR value -/

theorem bigEndianUint32_be32 (n : Nat) (hn : n < 2 ^ 32) (rest : Bytes) :
    bigEndianUint32 (be32 n ++ rest) = some n := by
  simp only [be32, List.cons_append, List.nil_append, bigEndianUint32]
  show some ((n / 2 ^ 24 % 256) * 2 ^ 24 + (n / 2 ^ 16 % 256) * 2 ^ 16 +
    (n / 2 ^ 8 % 256) * 2 ^ 8 + n % 256) = some n
  congr 1
  omega

theorem be32_length (n : Nat) : (be32 n).length = 4 := rfl

theorem u32_frame_end (F : Nat) (h : 4 + F < 2 ^ 32) (h1 : 1 ≤ F) :
    u32sub (u32add 4 F) 1 = 3 + F ∧ u32add 4 F = 4 + F := by
  unfold u32add u32sub
  omega

theorem slice_after_length (a t : Bytes) (F : Nat) (ha : a.length = 4) (hF : 1 ≤ F)
    (ht : F - 1 ≤ t.length) : slice (a ++ t) 4 (3 + F) = some (t.take (F - 1)) := by
  unfold slice
  have hb : 4 ≤ 3 + F ∧ 3 + F ≤ (a ++ t).length := by
    rw [List.length_append, ha]
    omega
  rw [if_pos hb]
  congr 1
  rw [List.take_append_eq_append_take, ha, List.take_of_length_le (by omega),
    List.drop_append_of_le_length (by omega), ← ha, List.drop_length, List.nil_append, ha]
  congr 1
  omega

theorem sliceFrom_after_frame (a t : Bytes) (F : Nat) (ha : a.length = 4)
    (ht : F ≤ t.length) : sliceFrom (a ++ t) (4 + F) = some (t.drop F) := by
  unfold sliceFrom
  have hb : 4 + F ≤ (a ++ t).length := by
    rw [List.length_append, ha]
    omega
  rw [if_pos hb]
  congr 1
  rw [← ha, ← List.drop_drop, List.drop_left]

theorem dropLast_take_frame (f t : Bytes) (hf : 1 ≤ f.length) :
    ((f ++ t).dropLast).take (f.length - 1) = f.dropLast := by
  rw [List.dropLast_eq_take, List.dropLast_eq_take, List.take_take, List.length_append,
    List.take_append_eq_append_take]
  have h1 : min (f.length - 1) (f.length + t.length - 1) = f.length - 1 := by omega
  rw [h1]
  have h2 : f.length - 1 - f.length = 0 := by omega
  rw [h2, List.take_zero, List.append_nil]

theorem take_pred_append (f t : Bytes) :
    (f ++ t).take (f.length - 1) = f.dropLast := by
  rw [List.take_append_eq_append_take, List.dropLast_eq_take]
  have h2 : f.length - 1 - f.length = 0 := by omega
  rw [h2, List.take_zero, List.append_nil]

theorem xattrRegion_length_cons (f : Bytes) (rest : List Bytes) :
    (xattrRegion (f :: rest)).length = 4 + f.length + (xattrRegion rest).length := by
  simp only [xattrRegion, List.length_append, be32_length]
  omega

theorem xattrRegion_ne_nil (f : Bytes) (rest : List Bytes) : xattrRegion (f :: rest) ≠ [] := by
  intro h
  have := congrArg List.length h
  rw [xattrRegion_length_cons] at this
  simp at this

theorem length_le_xattrRegion (frames : List Bytes) :
    frames.length ≤ (xattrRegion frames).length := by
  induction frames with
  | nil => exact Nat.le_refl _
  | cons f rest ih =>
    rw [xattrRegion_length_cons, List.length_cons]
    omega

/-- One iteration of the frame loop on the region of the frames left, the first of which
has at least one byte: it does not panic, it advances `bytesDecoded` by `4 + F`, it leaves
in `xMeta` what `frameMeta` says, and when frames are left after this one the data is
their region without its last byte. -/
theorem xattrFrame_region (env : Env) (pfx : Bytes) (L : Nat) (hL : L < 2 ^ 32) (f : Bytes)
    (rest : List Bytes) (bd : Nat) (x : xattrMetadata) (hf : 1 ≤ f.length)
    (hinv : bd + (xattrRegion (f :: rest)).length = L) :
    ∃ d1 : Bytes,
      xattrFrame env pfx L (xattrRegion (f :: rest)).dropLast bd x =
        some (d1, bd + 4 + f.length, frameMeta env pfx x f) ∧
      (rest ≠ [] → d1 = (xattrRegion rest).dropLast) := by
  rw [xattrRegion_length_cons] at hinv
  have hdata : (xattrRegion (f :: rest)).dropLast =
      be32 f.length ++ (f ++ xattrRegion rest).dropLast := by
    have hne : f ++ xattrRegion rest ≠ [] := by
      intro h
      have := congrArg List.length h
      simp only [List.length_append, List.length_nil] at this
      omega
    simp only [xattrRegion]
    exact List.dropLast_append_of_ne_nil _ hne
  obtain ⟨hu1, hu2⟩ := u32_frame_end f.length (by omega) hf
  have hbd : u32add (u32add bd 4) f.length = bd + 4 + f.length := by
    unfold u32add
    omega
  have htl : f.length - 1 ≤ ((f ++ xattrRegion rest).dropLast).length := by
    rw [List.length_dropLast, List.length_append]
    omega
  unfold xattrFrame
  rw [hdata, bigEndianUint32_be32 _ (by omega)]
  simp only
  rw [hu1, slice_after_length _ _ _ (be32_length _) hf htl, dropLast_take_frame f _ hf, hbd, hu2]
  simp only
  by_cases hlt : bd + 4 + f.length < L
  · rw [if_pos hlt]
    have hne : xattrRegion rest ≠ [] := by
      intro h
      rw [h] at hinv
      simp at hinv
      omega
    have hdl : (f ++ xattrRegion rest).dropLast = f ++ (xattrRegion rest).dropLast :=
      List.dropLast_append_of_ne_nil _ hne
    rw [sliceFrom_after_frame _ _ _ (be32_length _) (by
      rw [hdl, List.length_append]; omega), hdl, List.drop_left]
    exact ⟨_, rfl, fun _ => rfl⟩
  · rw [if_neg hlt]
    refine ⟨_, rfl, fun hr => ?_⟩
    exfalso
    cases rest with
    | nil => exact hr rfl
    | cons g rest1 =>
      rw [xattrRegion_length_cons] at hinv
      omega

/-- The frame loop on the region of the frames, each of at least one byte: with more
fuel than there are frames it ends with the `xMeta` that the frames leave one after the
other, and with as much fuel as there are frames, or less, the fuel runs out: the body
runs exactly once per frame. -/
theorem xattrLoop_region (env : Env) (pfx : Bytes) (L : Nat) (hL : L < 2 ^ 32) :
    ∀ (frames : List Bytes) (data : Bytes) (bd : Nat) (x : xattrMetadata) (fuel : Nat),
      (∀ f ∈ frames, 1 ≤ f.length) → bd + (xattrRegion frames).length = L →
      (frames ≠ [] → data = (xattrRegion frames).dropLast) →
      xattrLoop env pfx L fuel data bd x =
        if frames.length < fuel then .done (frames.foldl (frameMeta env pfx) x)
        else .outOfFuel := by
  intro frames
  induction frames with
  | nil =>
    intro data bd x fuel _ hinv _
    simp only [xattrRegion, List.length_nil, Nat.add_zero] at hinv
    cases fuel with
    | zero => rfl
    | succ n =>
      unfold xattrLoop
      rw [if_neg (by omega), if_pos (by simp)]
      rfl
  | cons f rest ih =>
    intro data bd x fuel hF hinv hdata
    cases fuel with
    | zero => rfl
    | succ n =>
      have hf := hF f (List.mem_cons_self _ _)
      obtain ⟨d1, h1, h2⟩ := xattrFrame_region env pfx L hL f rest bd x hf hinv
      have hlen := xattrRegion_length_cons f rest
      unfold xattrLoop
      rw [if_pos (by omega), hdata (List.cons_ne_nil _ _), h1]
      simp only
      rw [ih d1 (bd + 4 + f.length) (frameMeta env pfx x f) n
        (fun g hg => hF g (List.mem_cons_of_mem _ hg)) (by omega) h2]
      simp only [List.length_cons, List.foldl_cons, Nat.add_lt_add_iff_right]

/-- The decoding at the head of the arm on a value made of a total length, one or more
frames of at least one byte each and a body, the region ending below `2 ^ 32 - 4`: no
panic, the length read is that of the region, the `xMeta` left is what the frames
leave one after the other, and the slice after the region is the body. -/
theorem decodeXattrs_region (env : Env) (pfx : Bytes) (frames : List Bytes) (body : Bytes)
    (hne : frames ≠ []) (hF : ∀ f ∈ frames, 1 ≤ f.length)
    (hlen : 4 + (xattrRegion frames).length < 2 ^ 32) :
    decodeXattrs env pfx (xattrValue frames body) =
      (some (xattrRegion frames).length, .done (frames.foldl (frameMeta env pfx) {})) ∧
    sliceFrom (xattrValue frames body) (u32add 4 (xattrRegion frames).length) = some body := by
  have hpos : 1 ≤ (xattrRegion frames).length := by
    cases frames with
    | nil => exact absurd rfl hne
    | cons f rest => rw [xattrRegion_length_cons]; omega
  obtain ⟨hu1, hu2⟩ := u32_frame_end _ hlen hpos
  have hcount := length_le_xattrRegion frames
  constructor
  · unfold decodeXattrs xattrValue
    rw [bigEndianUint32_be32 _ (by omega)]
    simp only
    rw [hu1, slice_after_length _ _ _ (be32_length _) hpos (by
      rw [List.length_append]; omega), take_pred_append _ _]
    simp only
    rw [xattrLoop_region env pfx _ (by omega) frames _ 0 {} _ hF (by omega) (fun _ => rfl),
      if_pos (by
        simp only [List.length_append, be32_length]
        omega)]
  · unfold xattrValue
    rw [hu2, sliceFrom_after_frame _ _ _ (be32_length _) (by
      rw [List.length_append]; omega), List.drop_left]

theorem foldl_frameMeta_none (env : Env) (pfx : Bytes) (frames : List Bytes)
    (hnone : ∀ f ∈ frames,
      ¬ (f.dropLast.length > pfx.length ∧ f.dropLast.take pfx.length = pfx)) :
    ∀ x : xattrMetadata, frames.foldl (frameMeta env pfx) x = x := by
  induction frames with
  | nil => intro x; rfl
  | cons f rest ih =>
    intro x
    have hf := hnone f (List.mem_cons_self _ _)
    have h1 : frameMeta env pfx x f = x := by
      unfold frameMeta
      by_cases hl : f.dropLast.length > pfx.length
      · rw [if_pos hl, if_neg (fun hp => hf ⟨hl, hp⟩)]
      · rw [if_neg hl]
    rw [List.foldl_cons, h1]
    exact ih (fun g hg => hnone g (List.mem_cons_of_mem _ hg)) x

/-- The arm for mutations on a JSON+XATTR value whose decoding ends with an `xMeta` that
has no `cas`: the region is stripped and the event is forwarded. -/
theorem handleMutation_xattr_plain (cfg : Config) (env : Env) (o : Oracle) (c : Consumer)
    (e : DcpEvent) (L : Nat) (xMeta : xattrMetadata) (body : Bytes)
    (hnf : e.VBucket ∉ c.filterVbEvents)
    (hdt : e.Datatype = dcpDatatypeJSONXattr)
    (hdec : decodeXattrs env (xattrprefixOf cfg) e.Value = (some L, XattrLoop.done xMeta))
    (hcas : xMeta.Cas = "")
    (hbody : sliceFrom e.Value (u32add 4 L) = some body) :
    handleMutation cfg env o c e =
      Outcome.next ({ c.afterRead o e with
        dcpMutationCounter := (c.afterRead o e).dcpMutationCounter + 1 }.sendDcpEvent
        { e with Value := body }) := by
  have hne : ¬ dcpDatatypeJSONXattr = dcpDatatypeJSON := by decide
  simp only [handleMutation, hnf, hdt, hne, hdec, hcas, hbody, if_false, if_true, ne_eq,
    not_true_eq_false, Consumer.afterRead]

/-- C22: a mutation that is not filtered, of datatype JSON+XATTR, whose value is the
4-byte total length `L`, a region of one or more frames of at least one byte each (the
region ending below `2 ^ 32`, as in every value shorter than 4 GiB) and a body, none of
the frames passing the decoder's test for an eventing frame: the pass of `processEvents`
ends normally and forwards to the JS worker one event, the mutation with the body
(`value[4+L:]`) as its value. -/
theorem xattr_without_eventing_frame_forwarded (cfg : Config) (env : Env) (o : Oracle)
    (c : Consumer) (e : DcpEvent) (frames : List Bytes) (body : Bytes)
    (hop : e.Opcode = Opcode.DCP_MUTATION)
    (hnf : e.VBucket ∉ c.filterVbEvents)
    (hdt : e.Datatype = dcpDatatypeJSONXattr)
    (hval : e.Value = xattrValue frames body)
    (hne : frames ≠ [])
    (hF : ∀ f ∈ frames, 1 ≤ f.length)
    (hlen : 4 + (xattrRegion frames).length < 2 ^ 32)
    (hnone : ∀ f ∈ frames,
      ¬ (f.dropLast.length > (xattrprefixOf cfg).length ∧
        f.dropLast.take (xattrprefixOf cfg).length = xattrprefixOf cfg)) :
    (∃ c1 : Consumer, processEvents cfg env o c (.aggDCPFeed (some e)) = .next c1) ∧
    ((processEvents cfg env o c (.aggDCPFeed (some e))).forwarded c).map Prod.fst =
      [{ e with Value := body }] ∧
    sliceFrom e.Value (4 + (xattrRegion frames).length) = some body := by
  obtain ⟨hdec, hbody⟩ := decodeXattrs_region env (xattrprefixOf cfg) frames body hne hF hlen
  rw [foldl_frameMeta_none env (xattrprefixOf cfg) frames hnone] at hdec
  rw [← hval] at hdec hbody
  have hmut := handleMutation_xattr_plain cfg env o (c.countDcpEvent e) e _ _ body hnf hdt
    hdec rfl hbody
  have hu : u32add 4 (xattrRegion frames).length = 4 + (xattrRegion frames).length := by
    unfold u32add
    omega
  rw [processEvents_mutation cfg env o c e hop, hmut]
  refine ⟨⟨_, rfl⟩, ?_, by rw [← hu]; exact hbody⟩
  rw [forwarded_next_append c _
    [({ e with Value := body }, ((c.countDcpEvent e).afterRead o e).sendMsgToDebugger)]]
  · rfl
  · simp only [Consumer.sendDcpEvent]
    rw [afterRead_sent]
    rfl

/-- Witness of C22: a mutation of vbucket 3 whose value holds the two frames `"81" 0 "a" 0`
and `"x" 0 "b" 0` (total length 17) and the body `[123, 125]`, for the handler UUID 7: the
event is forwarded once with the body as its value. -/
theorem xattr_without_eventing_frame_forwarded_witness :
    xattrValue [[56, 49, 0, 97, 0], [120, 0, 98, 0]] [123, 125] =
      [0, 0, 0, 17, 0, 0, 0, 5, 56, 49, 0, 97, 0, 0, 0, 0, 4, 120, 0, 98, 0, 123, 125] ∧
    ((processEvents sampleConfig sampleEnv {} {}
      (.aggDCPFeed (some (sampleMutation dcpDatatypeJSONXattr
        (xattrValue [[56, 49, 0, 97, 0], [120, 0, 98, 0]] [123, 125]) 8)))).forwarded {}).map
        Prod.fst =
      [sampleMutation dcpDatatypeJSONXattr [123, 125] 8] :=
  ⟨by decide,
   (xattr_without_eventing_frame_forwarded sampleConfig sampleEnv {} {}
      (sampleMutation dcpDatatypeJSONXattr
        (xattrValue [[56, 49, 0, 97, 0], [120, 0, 98, 0]] [123, 125]) 8)
      [[56, 49, 0, 97, 0], [120, 0, 98, 0]] [123, 125] rfl (by decide) rfl rfl (by decide)
      (by decide) (by decide) (by decide)).2.1⟩

/-! ## Eventing frames -/

/-- Counterexample of C23: for the handler UUID 7 the prefix is `"7"`; the frame made of
`7`, a blank, the JSON text of `sampleXattrJson` and a closing zero byte has a key other
than `"7"` (its key is all its bytes before the zero byte), and the decoder treats it as
an eventing frame: it decodes the bytes after the first two and leaves `cas` and
`digest` in `xMeta`, as it does for the frame with the key `"7"` and the same value. -/
theorem eventing_frame_key_counterexample :
    xattrprefixOf sampleConfig = [55] ∧
    frameKey ([55, 32] ++ sampleXattrJson ++ [0]) = [55, 32] ++ sampleXattrJson ∧
    frameKey ([55, 32] ++ sampleXattrJson ++ [0]) ≠ xattrprefixOf sampleConfig ∧
    decodeXattrs sampleJsonEnv (xattrprefixOf sampleConfig)
        (xattrValue [[55, 32] ++ sampleXattrJson ++ [0]] [123, 125]) =
      (some 31, XattrLoop.done { Cas := "0x1", Digest := 3 }) ∧
    decodeXattrs sampleJsonEnv (xattrprefixOf sampleConfig)
        (xattrValue [[55, 0] ++ sampleXattrJson ++ [0]] [123, 125]) =
      (some 31, XattrLoop.done { Cas := "0x1", Digest := 3 }) := by
  refine ⟨by decide, by decide, by decide, by decide, by decide⟩

theorem frameKey_take (f pfx : Bytes) (h : frameKey f = pfx) : f.take pfx.length = pfx := by
  have h1 : f = pfx ++ f.dropWhile (fun b => b != 0) := by
    rw [← h]
    exact (List.takeWhile_append_dropWhile _ f).symm
  rw [h1, List.take_left']
  rfl

theorem dropLast_take_of_lt (f : Bytes) (n : Nat) (h : n + 1 ≤ f.length) :
    f.dropLast.take n = f.take n := by
  rw [List.dropLast_eq_take, List.take_take]
  have : min n (f.length - 1) = n := by omega
  rw [this]

/-- C23: in one iteration of the frame loop on a frame of at least one byte, the frame is
treated as an eventing frame, the bytes of `frameData` after the first
`len(xattrprefix) + 1` being handed to `json.Unmarshal`, exactly when `frameData` (the
frame without its last byte) is longer than the prefix and begins with it; the byte after
the prefix is not looked at.  A frame whose key equals the prefix passes this test
exactly when at least two bytes follow the key, and for a frame `key 0 value 0` whose key
is the prefix the test passes and the bytes decoded are the value. -/
theorem eventing_frame_test (env : Env) (pfx : Bytes) (L : Nat) (hL : L < 2 ^ 32)
    (f : Bytes) (rest : List Bytes) (bd : Nat) (x : xattrMetadata) (hf : 1 ≤ f.length)
    (hinv : bd + (xattrRegion (f :: rest)).length = L) :
    (∃ d1 : Bytes,
      xattrFrame env pfx L (xattrRegion (f :: rest)).dropLast bd x =
        some (d1, bd + 4 + f.length,
          if f.dropLast.length > pfx.length ∧ f.dropLast.take pfx.length = pfx then
            (env.jsonUnmarshal (f.dropLast.drop (pfx.length + 1)) x).1
          else x)) ∧
    (frameKey f = pfx →
      ((f.dropLast.length > pfx.length ∧ f.dropLast.take pfx.length = pfx) ↔
        pfx.length + 2 ≤ f.length)) ∧
    (∀ value : Bytes, f = pfx ++ [0] ++ value ++ [0] →
      (f.dropLast.length > pfx.length ∧ f.dropLast.take pfx.length = pfx) ∧
      f.dropLast.drop (pfx.length + 1) = value) := by
  refine ⟨?_, ?_, ?_⟩
  · obtain ⟨d1, h1, _⟩ := xattrFrame_region env pfx L hL f rest bd x hf hinv
    refine ⟨d1, ?_⟩
    rw [h1]
    unfold frameMeta
    by_cases hl : f.dropLast.length > pfx.length
    · by_cases hp : f.dropLast.take pfx.length = pfx
      · rw [if_pos hl, if_pos hp, if_pos ⟨hl, hp⟩]
      · rw [if_pos hl, if_neg hp, if_neg (fun h => hp h.2)]
    · rw [if_neg hl, if_neg (fun h => hl h.1)]
  · intro hk
    rw [List.length_dropLast]
    constructor
    · intro h
      omega
    · intro h
      refine ⟨by omega, ?_⟩
      rw [dropLast_take_of_lt f _ (by omega)]
      exact frameKey_take f pfx hk
  · intro value hv
    have hd : f.dropLast = pfx ++ ([0] ++ value) := by
      rw [hv, List.dropLast_concat, List.append_assoc]
    rw [hd]
    refine ⟨⟨?_, ?_⟩, ?_⟩
    · simp only [List.length_append, List.length_singleton]
      omega
    · rw [List.take_left']
      rfl
    · rw [← List.drop_drop, List.drop_left']
      · rfl
      · rfl

/-- Witness of C23: the iteration on the frame `"7" 0 value 0` whose value is the JSON
text of `sampleXattrJson`, for the prefix `"7"`: the value is decoded. -/
theorem eventing_frame_test_witness :
    (0 + (xattrRegion [[55, 0] ++ sampleXattrJson ++ [0]]).length = 31) ∧
    (∃ d1 : Bytes,
      xattrFrame sampleJsonEnv [55] 31 (xattrRegion [[55, 0] ++ sampleXattrJson ++ [0]]).dropLast
          0 {} =
        some (d1, 0 + 4 + ([55, 0] ++ sampleXattrJson ++ [0]).length,
          if ([55, 0] ++ sampleXattrJson ++ [0]).dropLast.length > [(55 : Byte)].length ∧
              ([55, 0] ++ sampleXattrJson ++ [0]).dropLast.take [(55 : Byte)].length = [55] then
            (sampleJsonEnv.jsonUnmarshal
              (([55, 0] ++ sampleXattrJson ++ [0]).dropLast.drop ([(55 : Byte)].length + 1)) {}).1
          else {})) ∧
    (sampleJsonEnv.jsonUnmarshal
      (([55, 0] ++ sampleXattrJson ++ [0]).dropLast.drop ([(55 : Byte)].length + 1)) {}).1 =
      { Cas := "0x1", Digest := 3 } :=
  ⟨by decide,
   (eventing_frame_test sampleJsonEnv [55] 31 (by decide) ([55, 0] ++ sampleXattrJson ++ [0]) []
      0 {} (by decide) (by decide)).1,
   by decide⟩

/-! ## Safety of the xattr decoding -/

/-- The head of the decoding on a value whose total length `L` is within three of
`2 ^ 32`: `4 + L - 1` wraps round to less than 4 and the slice `e.Value[4 : 4+L-1]`
panics. -/
theorem decodeXattrs_wraps (env : Env) (pfx : Bytes) (frames : List Bytes) (body : Bytes)
    (hlo : 2 ^ 32 - 3 ≤ (xattrRegion frames).length)
    (hhi : (xattrRegion frames).length < 2 ^ 32) :
    decodeXattrs env pfx (xattrValue frames body) =
      (some (xattrRegion frames).length, XattrLoop.panic) := by
  have hu : u32sub (u32add 4 (xattrRegion frames).length) 1 < 4 := by
    unfold u32add u32sub
    omega
  unfold decodeXattrs xattrValue
  rw [bigEndianUint32_be32 _ hhi]
  simp only
  have hs : slice (be32 (xattrRegion frames).length ++ (xattrRegion frames ++ body)) 4
      (u32sub (u32add 4 (xattrRegion frames).length) 1) = none := by
    unfold slice
    rw [if_neg (fun h => by omega)]
  rw [hs]

/-- Counterexample of C26: on the value with the total length 0, no frame and the body
`[123, 125]`, the slice `e.Value[4 : 4+0-1]` at the head of the decoding is `e.Value[4:3]`
and the pass of `processEvents` panics; and on a value whose region is one frame of
`2 ^ 32 - 7` bytes the total length is `2 ^ 32 - 3`, `4 + L - 1` wraps round to 0 and the
same slice panics. -/
theorem xattr_decoder_safe_counterexample :
    (xattrValue [] [123, 125] = [0, 0, 0, 0, 123, 125] ∧
     decodeXattrs sampleEnv (xattrprefixOf sampleConfig) (xattrValue [] [123, 125]) =
       (some 0, XattrLoop.panic) ∧
     (processEvents sampleConfig sampleEnv {} {}
       (.aggDCPFeed (some (sampleMutation dcpDatatypeJSONXattr
         (xattrValue [] [123, 125]) 8)))).state? = none) ∧
    ((xattrRegion [List.replicate 4294967289 0]).length = 4294967293 ∧
     decodeXattrs sampleEnv (xattrprefixOf sampleConfig)
         (xattrValue [List.replicate 4294967289 0] [123, 125]) =
       (some (xattrRegion [List.replicate 4294967289 0]).length, XattrLoop.panic)) := by
  have hlen : (xattrRegion [List.replicate 4294967289 (0 : Byte)]).length = 4294967293 := by
    rw [xattrRegion_length_cons, List.length_replicate]
    rfl
  refine ⟨⟨by decide, by decide, rfl⟩, hlen, ?_⟩
  exact decodeXattrs_wraps sampleEnv (xattrprefixOf sampleConfig) _ _
    (by rw [hlen]; decide) (by rw [hlen]; decide)

/-- C26: on a JSON+XATTR value made of the 4-byte total length `L`, a region of one or
more frames of at least one byte each with `4 + L` below `2 ^ 32`, and a body, the
decoding does not panic: the slice at its head, every iteration of the frame loop and the
slice `e.Value[4+L:]` after it are in range, the latter being the body; the loop body runs
exactly once per frame (with as much fuel as there are frames the loop is not through,
with one more it ends); and the pass of `processEvents` on a mutation with this value
ends normally. -/
theorem xattr_decoder_safe (cfg : Config) (env : Env) (o : Oracle) (c : Consumer)
    (e : DcpEvent) (frames : List Bytes) (body : Bytes)
    (hval : e.Value = xattrValue frames body)
    (hne : frames ≠ [])
    (hF : ∀ f ∈ frames, 1 ≤ f.length)
    (hlen : 4 + (xattrRegion frames).length < 2 ^ 32) :
    (∃ xMeta : xattrMetadata,
      decodeXattrs env (xattrprefixOf cfg) e.Value =
        (some (xattrRegion frames).length, XattrLoop.done xMeta)) ∧
    sliceFrom e.Value (u32add 4 (xattrRegion frames).length) = some body ∧
    xattrLoop env (xattrprefixOf cfg) (xattrRegion frames).length frames.length
      (xattrRegion frames).dropLast 0 {} = XattrLoop.outOfFuel ∧
    (∃ xMeta : xattrMetadata,
      xattrLoop env (xattrprefixOf cfg) (xattrRegion frames).length (frames.length + 1)
        (xattrRegion frames).dropLast 0 {} = XattrLoop.done xMeta) ∧
    (e.Opcode = Opcode.DCP_MUTATION → e.Datatype = dcpDatatypeJSONXattr →
      ∃ c1 : Consumer, processEvents cfg env o c (.aggDCPFeed (some e)) = .next c1) := by
  obtain ⟨hdec, hbody⟩ := decodeXattrs_region env (xattrprefixOf cfg) frames body hne hF hlen
  rw [← hval] at hdec hbody
  have hloop := fun fuel => xattrLoop_region env (xattrprefixOf cfg) (xattrRegion frames).length
    (by omega) frames (xattrRegion frames).dropLast 0 {} fuel hF (by omega) (fun _ => rfl)
  refine ⟨⟨_, hdec⟩, hbody, ?_,
    ⟨frames.foldl (frameMeta env (xattrprefixOf cfg)) {}, ?_⟩, ?_⟩
  · rw [hloop, if_neg (Nat.lt_irrefl _)]
  · rw [hloop, if_pos (Nat.lt_succ_self _)]
  · intro hop hdt
    rw [processEvents_mutation cfg env o c e hop]
    have hne2 : ¬ dcpDatatypeJSONXattr = dcpDatatypeJSON := by decide
    unfold handleMutation
    simp only [hdt, hne2, hdec, hbody, if_false]
    repeat' split
    all_goals exact ⟨_, rfl⟩

/-- Witness of C26: the sample value with one frame of five bytes (total length 9) and
the body `[1, 2, 4]`: the decoding ends after one iteration and the pass ends normally. -/
theorem xattr_decoder_safe_witness :
    xattrValue [[55, 0, 9, 6, 0]] [1, 2, 4] = sampleXattrValue [1, 2, 4] ∧
    xattrLoop sampleEnv (xattrprefixOf sampleConfig) 9 1
      (xattrRegion [[55, 0, 9, 6, 0]]).dropLast 0 {} = XattrLoop.outOfFuel ∧
    xattrLoop sampleEnv (xattrprefixOf sampleConfig) 9 2
      (xattrRegion [[55, 0, 9, 6, 0]]).dropLast 0 {} =
        XattrLoop.done { Cas := "9", Digest := 6 } ∧
    sliceFrom (sampleXattrValue [1, 2, 4]) (u32add 4 9) = some [1, 2, 4] ∧
    ∃ c1 : Consumer, processEvents sampleConfig sampleEnv {} {}
      (.aggDCPFeed (some (sampleMutation dcpDatatypeJSONXattr (sampleXattrValue [1, 2, 4]) 8)))
        = .next c1 := by
  have h := xattr_decoder_safe sampleConfig sampleEnv {} {}
    (sampleMutation dcpDatatypeJSONXattr (sampleXattrValue [1, 2, 4]) 8)
    [[55, 0, 9, 6, 0]] [1, 2, 4] (by decide) (by decide) (by decide) (by decide)
  exact ⟨by decide, h.2.2.1, by decide, h.2.1, h.2.2.2.2 rfl rfl⟩

/-! ## The bootstrap of the streams, vbucket by vbucket -/

/-- The body of the loop of `startDcp` for one vbucket when nothing times out and the
sequence number of the vbucket is there if the boundary is `from_now`: it ends without an
error, it only appends to the log of writes and to `reqStreamCh`, it leaves the other
vbuckets alone, and what it appends is as `startDcpVbFacts` says. -/
theorem startDcpVb_facts (cfg : Config) (o : Oracle) (vbSeqnos : List Nat)
    (flogs : List (Nat × FailoverLog)) (c : Consumer) (vbs : List Nat) (vb : Nat)
    (hto : ∀ site, o.retryTimeout site = false)
    (hidx : cfg.dcpStreamBoundary = DcpStreamBoundary.DcpFromNow → vb < vbSeqnos.length) :
    ∃ (c1 : Consumer) (vbs1 : List Nat) (ops : List MetaOp) (items : List streamRequestInfo),
      startDcpVb cfg o vbSeqnos flogs c vbs vb = some (c1, vbs1, none) ∧
      c1.metaOps = c.metaOps ++ ops ∧
      c1.reqStreamCh = c.reqStreamCh ++ items ∧
      (∀ w, w ≠ vb → ((w ∈ c1.enqueueMap ↔ w ∈ c.enqueueMap) ∧
        c1.vbProcessingStats w = c.vbProcessingStats w)) ∧
      startDcpVbFacts cfg o flogs vb (vb ∈ c.enqueueMap)
        (c1.vbProcessingStats vb).start_seq_no ops items := by
  have hskip : (∀ flog vbuuid seq, flogs.lookup vb = some flog →
      flog.Latest ≠ .ok (vbuuid, seq)) →
      startDcpVbFacts cfg o flogs vb (vb ∈ c.enqueueMap)
        (c.vbProcessingStats vb).start_seq_no [] [] := by
    intro hno
    refine ⟨by simp, by simp, by simp, ?_, ?_⟩
    · intro flog vbuuid seq hl hlat _
      exact absurd hlat (hno flog vbuuid seq hl)
    · intro flog vbuuid seq hl hlat _
      exact absurd hlat (hno flog vbuuid seq hl)
  unfold startDcpVb
  cases hl : flogs.lookup vb with
  | none =>
    refine ⟨c, vbs, [], [], rfl, by simp, by simp, fun w _ => ⟨Iff.rfl, rfl⟩, hskip ?_⟩
    intro flog vbuuid seq hl1
    rw [hl] at hl1
    cases hl1
  | some flog =>
    simp only
    cases hlat : flog.Latest with
    | error err =>
      refine ⟨c, vbs, [], [], rfl, by simp, by simp, fun w _ => ⟨Iff.rfl, rfl⟩, hskip ?_⟩
      intro flog1 vbuuid seq hl1 hlat1
      rw [hl] at hl1
      cases hl1
      rw [hlat] at hlat1
      cases hlat1
    | ok r =>
      obtain ⟨vbuuid, seq⟩ := r
      simp only [hto, Bool.false_eq_true, if_false]
      have hfix : ∀ {P : Nat → Prop}, (∀ flog1 vbuuid1 seq1, flogs.lookup vb = some flog1 →
          flog1.Latest = .ok (vbuuid1, seq1) → P vbuuid1) ↔ P vbuuid := by
        intro P
        constructor
        · intro h
          exact h flog vbuuid seq hl hlat
        · intro h flog1 vbuuid1 seq1 hl1 hlat1
          rw [hl] at hl1
          cases hl1
          rw [hlat] at hlat1
          cases hlat1
          exact h
      by_cases hne : o.isNoEnt vb 0 = true
      · rw [if_pos hne]
        by_cases hq : vb ∈ c.enqueueMap
        · have hq1 : (c.logMetaOp (.setOpCallback (cfg.AddMetadataPrefix (cfg.vbKey vb))
              (startDcpBlob cfg o vbuuid vb))).checkIfAlreadyEnqueued vb = true := by
            simp [Consumer.checkIfAlreadyEnqueued, Consumer.logMetaOp, hq]
          refine ⟨c.logMetaOp (.setOpCallback (cfg.AddMetadataPrefix (cfg.vbKey vb))
            (startDcpBlob cfg o vbuuid vb)), vbs, [.setOpCallback (cfg.AddMetadataPrefix (cfg.vbKey vb)) (startDcpBlob cfg o vbuuid vb)], [], ?_, rfl, by simp [Consumer.logMetaOp],
            fun w _ => ⟨Iff.rfl, rfl⟩, ?_⟩
          · have := hq1
            unfold startDcpBlob at this
            rw [if_pos this]
            rfl
          · refine ⟨by simp, by simp, ?_, ?_, ?_⟩
            · intro op hop
              rw [List.mem_singleton.mp hop]
              exact ⟨hne, _, rfl⟩
            · rw [hfix]
              intro _
              exact ⟨rfl, fun hnq => absurd hq hnq⟩
            · intro flog1 vbuuid1 seq1 _ _ hne1
              rw [hne] at hne1
              cases hne1
        · have hq1 : ¬ (c.logMetaOp (.setOpCallback (cfg.AddMetadataPrefix (cfg.vbKey vb))
              (startDcpBlob cfg o vbuuid vb))).checkIfAlreadyEnqueued vb = true := by
            simp [Consumer.checkIfAlreadyEnqueued, Consumer.logMetaOp, hq]
          have hq2 := hq1
          unfold startDcpBlob at hq2
          rw [if_neg hq2]
          have hothers : ∀ (c2 : Consumer),
              c2.enqueueMap = insert vb c.enqueueMap →
              (∀ w, w ≠ vb → c2.vbProcessingStats w = c.vbProcessingStats w) →
              ∀ w, w ≠ vb → ((w ∈ c2.enqueueMap ↔ w ∈ c.enqueueMap) ∧
                c2.vbProcessingStats w = c.vbProcessingStats w) := by
            intro c2 h1 h2 w hw
            refine ⟨?_, h2 w hw⟩
            rw [h1, Finset.mem_insert]
            exact ⟨fun h => h.resolve_left hw, Or.inr⟩
          have hfacts : ∀ (stat : Nat) (items : List streamRequestInfo),
              (∀ it ∈ items, it.vb = vb) → items.length ≤ 1 →
              (cfg.dcpStreamBoundary = DcpStreamBoundary.DcpEverything →
                items = [{ vb := vb, vbBlob := startDcpBlob cfg o vbuuid vb, startSeqNo := 0 }]) →
              startDcpVbFacts cfg o flogs vb (vb ∈ c.enqueueMap) stat
                [.setOpCallback (cfg.AddMetadataPrefix (cfg.vbKey vb))
                  (startDcpBlob cfg o vbuuid vb)] items := by
            intro stat items h1 h2 h3
            refine ⟨h1, h2, ?_, ?_, ?_⟩
            · intro op hop
              rw [List.mem_singleton.mp hop]
              exact ⟨hne, _, rfl⟩
            · rw [hfix]
              intro _
              exact ⟨rfl, fun _ hb => h3 hb⟩
            · intro flog1 vbuuid1 seq1 _ _ hne1
              rw [hne] at hne1
              cases hne1
          cases hb : cfg.dcpStreamBoundary with
          | DcpEverything =>
            dsimp only
            refine ⟨_, _, [.setOpCallback (cfg.AddMetadataPrefix (cfg.vbKey vb)) (startDcpBlob cfg o vbuuid vb)],
              [{ vb := vb, vbBlob := startDcpBlob cfg o vbuuid vb, startSeqNo := 0 }], rfl,
              ?_, ?_, hothers _ ?_ ?_, hfacts _ _ ?_ ?_ ?_⟩
            · simp [Consumer.updateVbStat, Consumer.sendReqStream, Consumer.addToEnqueueMap,
                Consumer.logMetaOp, startDcpBlob]
            · simp [Consumer.updateVbStat, Consumer.sendReqStream, Consumer.addToEnqueueMap,
                Consumer.logMetaOp, startDcpBlob]
            · simp [Consumer.updateVbStat, Consumer.sendReqStream, Consumer.addToEnqueueMap,
                Consumer.logMetaOp]
            · intro w hw
              simp [Consumer.updateVbStat, Consumer.sendReqStream, Consumer.addToEnqueueMap,
                Consumer.logMetaOp, hw]
            · simp
            · simp
            · intro _
              simp [startDcpBlob]
          | DcpFromNow =>
            have hlt := hidx hb
            obtain ⟨seqNo, hseq⟩ : ∃ seqNo, vbSeqnos.get? vb = some seqNo :=
              ⟨_, List.get?_eq_get hlt⟩
            dsimp only
            rw [hseq]
            dsimp only
            refine ⟨_, _, [.setOpCallback (cfg.AddMetadataPrefix (cfg.vbKey vb)) (startDcpBlob cfg o vbuuid vb)],
              [{ vb := vb, vbBlob := startDcpBlob cfg o vbuuid vb, startSeqNo := seqNo }], rfl,
              ?_, ?_, hothers _ ?_ ?_, hfacts _ _ ?_ ?_ ?_⟩
            · simp [Consumer.updateVbStat, Consumer.sendReqStream, Consumer.addToEnqueueMap,
                Consumer.logMetaOp, startDcpBlob]
            · simp [Consumer.updateVbStat, Consumer.sendReqStream, Consumer.addToEnqueueMap,
                Consumer.logMetaOp, startDcpBlob]
            · simp [Consumer.updateVbStat, Consumer.sendReqStream, Consumer.addToEnqueueMap,
                Consumer.logMetaOp]
            · intro w hw
              simp [Consumer.updateVbStat, Consumer.sendReqStream, Consumer.addToEnqueueMap,
                Consumer.logMetaOp, hw]
            · simp
            · simp
            · intro h
              rw [hb] at h
              cases h
          | other name =>
            dsimp only
            refine ⟨_, _, [.setOpCallback (cfg.AddMetadataPrefix (cfg.vbKey vb)) (startDcpBlob cfg o vbuuid vb)],
              [], rfl, ?_, ?_, hothers _ ?_ ?_, hfacts _ _ ?_ ?_ ?_⟩
            · simp [Consumer.addToEnqueueMap, Consumer.logMetaOp, startDcpBlob]
            · simp [Consumer.addToEnqueueMap, Consumer.logMetaOp]
            · simp [Consumer.addToEnqueueMap, Consumer.logMetaOp]
            · intro w hw
              simp [Consumer.addToEnqueueMap, Consumer.logMetaOp]
            · simp
            · simp
            · intro h
              rw [hb] at h
              cases h
      · rw [if_neg hne]
        have hne0 : o.isNoEnt vb 0 = false := by simpa using hne
        have hfacts : ∀ (stat : Nat) (items : List streamRequestInfo),
            (∀ it ∈ items, it.vb = vb) → items.length ≤ 1 →
            (items ≠ [] ↔ (startDcpOwnable cfg o vb ∧ ¬ vb ∈ c.enqueueMap)) →
            (∀ it ∈ items,
              it = { vb := vb, vbBlob := o.getOp vb 0,
                     startSeqNo := (o.getOp vb 0).LastSeqNoProcessed } ∧
              stat = (o.getOp vb 0).LastSeqNoProcessed) →
            startDcpVbFacts cfg o flogs vb (vb ∈ c.enqueueMap) stat [] items := by
          intro stat items h1 h2 h3 h4
          refine ⟨h1, h2, by simp, ?_, ?_⟩
          · intro flog1 vbuuid1 seq1 _ _ hne1
            rw [hne0] at hne1
            cases hne1
          · intro flog1 vbuuid1 seq1 _ _ _
            exact ⟨h3, h4⟩
        by_cases hown : startDcpOwnable cfg o vb
        · have hown1 := hown
          unfold startDcpOwnable at hown1
          rw [if_pos hown1]
          by_cases hq : vb ∈ c.enqueueMap
          · have hq1 : c.checkIfAlreadyEnqueued vb = true := by
              simp [Consumer.checkIfAlreadyEnqueued, hq]
            rw [if_pos hq1]
            refine ⟨c, vbs, [], [], rfl, by simp, by simp, fun w _ => ⟨Iff.rfl, rfl⟩,
              hfacts _ _ (by simp) (by simp) ?_ (by simp)⟩
            simp [hq]
          · have hq1 : ¬ c.checkIfAlreadyEnqueued vb = true := by
              simp [Consumer.checkIfAlreadyEnqueued, hq]
            rw [if_neg hq1]
            refine ⟨_, _, [],
              [{ vb := vb, vbBlob := o.getOp vb 0,
                 startSeqNo := (o.getOp vb 0).LastSeqNoProcessed }], rfl, ?_, ?_, ?_,
              hfacts _ _ ?_ ?_ ?_ ?_⟩
            · simp [Consumer.updateVbStat, Consumer.sendReqStream, Consumer.addToEnqueueMap]
            · simp [Consumer.updateVbStat, Consumer.sendReqStream, Consumer.addToEnqueueMap]
            · intro w hw
              simp [Consumer.updateVbStat, Consumer.sendReqStream, Consumer.addToEnqueueMap, hw]
            · simp
            · simp
            · simp [hown, hq]
            · simp [Consumer.updateVbStat, Consumer.sendReqStream, Consumer.addToEnqueueMap]
        · have hown1 := hown
          unfold startDcpOwnable at hown1
          rw [if_neg hown1]
          refine ⟨c, vbs, [], [], rfl, by simp, by simp, fun w _ => ⟨Iff.rfl, rfl⟩,
            hfacts _ _ (by simp) (by simp) ?_ (by simp)⟩
          simp [hown]

/-- The loop of `startDcp` over distinct vbuckets when nothing times out and the sequence
numbers are there if the boundary is `from_now`: it runs through, what it appends to the
log of writes and to `reqStreamCh` is, vbucket after vbucket, what the body appends for
the vbucket, and for each vbucket of the list the body did what `startDcpVbFacts` says
in terms of the state before the loop. -/
theorem startDcpLoop_facts (cfg : Config) (o : Oracle) (vbSeqnos : List Nat)
    (flogs : List (Nat × FailoverLog)) (hto : ∀ site, o.retryTimeout site = false) :
    ∀ (l : List Nat), l.Nodup →
      (cfg.dcpStreamBoundary = DcpStreamBoundary.DcpFromNow →
        ∀ vb ∈ l, vb < vbSeqnos.length) →
      ∀ (c : Consumer) (vbs : List Nat),
        ∃ (c1 : Consumer) (vbs1 : List Nat) (ops : Nat → List MetaOp)
          (items : Nat → List streamRequestInfo),
          startDcpLoop cfg o vbSeqnos flogs c vbs l = some (c1, vbs1, none) ∧
          c1.metaOps = c.metaOps ++ l.flatMap ops ∧
          c1.reqStreamCh = c.reqStreamCh ++ l.flatMap items ∧
          (∀ w, w ∉ l → ((w ∈ c1.enqueueMap ↔ w ∈ c.enqueueMap) ∧
            c1.vbProcessingStats w = c.vbProcessingStats w)) ∧
          ∀ vb ∈ l, startDcpVbFacts cfg o flogs vb (vb ∈ c.enqueueMap)
            (c1.vbProcessingStats vb).start_seq_no (ops vb) (items vb) := by
  intro l
  induction l with
  | nil =>
    intro _ _ c vbs
    exact ⟨c, vbs, fun _ => [], fun _ => [], rfl, by simp, by simp,
      fun w _ => ⟨Iff.rfl, rfl⟩, fun vb hvb => absurd hvb (List.not_mem_nil _)⟩
  | cons v rest ih =>
    intro hnd hidx c vbs
    have hv : v ∉ rest := (List.nodup_cons.mp hnd).1
    obtain ⟨c2, vbs2, opsv, itemsv, hs, hm, hr, hoth, hf⟩ :=
      startDcpVb_facts cfg o vbSeqnos flogs c vbs v hto
        (fun hb => hidx hb v (List.mem_cons_self _ _))
    obtain ⟨c1, vbs1, ops1, items1, hs1, hm1, hr1, hoth1, hf1⟩ :=
      ih (List.nodup_cons.mp hnd).2
        (fun hb vb hvb => hidx hb vb (List.mem_cons_of_mem _ hvb)) c2 vbs2
    have hops : rest.flatMap (fun w => if w = v then opsv else ops1 w) = rest.flatMap ops1 := by
      apply List.flatMap_congr
      intro w hw
      rw [if_neg (fun (h : w = v) => hv (h ▸ hw))]
    have hitems : rest.flatMap (fun w => if w = v then itemsv else items1 w) =
        rest.flatMap items1 := by
      apply List.flatMap_congr
      intro w hw
      rw [if_neg (fun (h : w = v) => hv (h ▸ hw))]
    refine ⟨c1, vbs1, fun w => if w = v then opsv else ops1 w,
      fun w => if w = v then itemsv else items1 w, ?_, ?_, ?_, ?_, ?_⟩
    · unfold startDcpLoop
      rw [hs]
      exact hs1
    · rw [List.flatMap_cons, hops, hm1, hm, if_pos rfl, List.append_assoc]
    · rw [List.flatMap_cons, hitems, hr1, hr, if_pos rfl, List.append_assoc]
    · intro w hw
      have hwv : w ≠ v := fun h => hw (h ▸ List.mem_cons_self _ _)
      have hwr : w ∉ rest := fun h => hw (List.mem_cons_of_mem _ h)
      exact ⟨(hoth1 w hwr).1.trans (hoth w hwv).1, (hoth1 w hwr).2.trans (hoth w hwv).2⟩
    · intro vb hvb
      by_cases hvv : vb = v
      · subst hvv
        simp only [if_pos rfl]
        rw [(hoth1 vb hv).2]
        exact hf
      · have hvr : vb ∈ rest := (List.mem_cons.mp hvb).resolve_left hvv
        simp only [if_neg hvv]
        have he : (vb ∈ c2.enqueueMap) = (vb ∈ c.enqueueMap) := propext (hoth vb hvv).1
        rw [← he]
        exact hf1 vb hvr

theorem sortVbs_dedup_sorted (l : List Nat) : (sortVbs l.dedup).Sorted (· < ·) := by
  apply List.Sorted.lt_of_le (sortVbs_sorted _)
  exact (List.perm_insertionSort (· ≤ ·) l.dedup).nodup_iff.mpr (List.nodup_dedup l)

theorem flog_key_of_lookup (flogs : List (Nat × FailoverLog)) (vb : Nat) (flog : FailoverLog)
    (h : flogs.lookup vb = some flog) : vb ∈ sortVbs (flogs.map Prod.fst).dedup := by
  rw [mem_sortVbs, List.mem_dedup]
  induction flogs with
  | nil => cases h
  | cons kf rest ih =>
    obtain ⟨k, f⟩ := kf
    rw [List.lookup_cons] at h
    by_cases hk : vb = k
    · subst hk
      exact List.mem_cons_self _ _
    · have hk1 : (vb == k) = false := by simpa using hk
      rw [hk1] at h
      exact List.mem_cons_of_mem _ (ih h)

/-- The function `startDcp` when the terminate routine is not running, nothing times out,
the sequence numbers were fetched or the boundary is `everything`, and the sequence number
of every vbucket of the map is there if the boundary is `from_now`: it returns no error,
and what it appends to the log of writes and to `reqStreamCh` is, in ascending order of
the vbuckets of the map, what the body of its loop appends for each. -/
theorem startDcp_facts (cfg : Config) (o : Oracle) (c : Consumer)
    (flogs : List (Nat × FailoverLog))
    (hterm : o.isTerminateRunning 0 = false)
    (hto : ∀ site, o.retryTimeout site = false)
    (hseq : o.bucketSeqnos.2 = none ∨
      cfg.dcpStreamBoundary = DcpStreamBoundary.DcpEverything)
    (hidx : cfg.dcpStreamBoundary = DcpStreamBoundary.DcpFromNow →
      ∀ vb ∈ flogs.map Prod.fst, vb < o.bucketSeqnos.1.length) :
    ∃ (c1 : Consumer) (ops : Nat → List MetaOp) (items : Nat → List streamRequestInfo),
      startDcp cfg o c flogs = some (c1, none) ∧
      c1.metaOps = c.metaOps ++ (sortVbs (flogs.map Prod.fst).dedup).flatMap ops ∧
      c1.reqStreamCh = c.reqStreamCh ++ (sortVbs (flogs.map Prod.fst).dedup).flatMap items ∧
      ∀ vb ∈ sortVbs (flogs.map Prod.fst).dedup,
        startDcpVbFacts cfg o flogs vb (vb ∈ c.enqueueMap)
          (c1.vbProcessingStats vb).start_seq_no (ops vb) (items vb) := by
  obtain ⟨c1, vbs1, ops, items, hs, hm, hr, _, hf⟩ :=
    startDcpLoop_facts cfg o o.bucketSeqnos.1 flogs hto (sortVbs (flogs.map Prod.fst).dedup)
      (sortVbs_dedup_sorted _).nodup
      (fun hb vb hvb => hidx hb vb (List.mem_dedup.mp ((mem_sortVbs _ _).mp hvb))) c []
  have h2 : ¬ (o.bucketSeqnos.2 ≠ none ∧
      cfg.dcpStreamBoundary ≠ DcpStreamBoundary.DcpEverything) := by
    rintro ⟨h3, h4⟩
    rcases hseq with h5 | h5
    · exact h3 h5
    · exact h4 h5
  refine ⟨{ c1 with streamsOpenedChecks := c1.streamsOpenedChecks ++ [vbs1] }, ops, items,
    ?_, hm, hr, hf⟩
  unfold startDcp
  simp only [hterm, hto, Bool.false_eq_true, if_false]
  rw [if_neg h2, hs]

/-- C24: when `startDcp` runs through (the terminate routine not running, no retry
timeout, the sequence numbers fetched or the boundary `everything`, no missing sequence
number under `from_now`), it returns no error and, for every vbucket of the failover-log
map whose failover log has a latest entry and whose metadata blob is missing, a blob is
written with `setOpCallback` under the key of the vbucket whose `VBuuid` is the latest
vbuuid of the failover log, whose owner and previous-owner fields name this consumer and
whose `OwnershipHistory` ends with an entry of operation `bootstrap`; and when the
vbucket was not in `enqueueMap` and the boundary is `everything`, the item with this
vbucket, this blob and `startSeqNo = 0` is sent to `reqStreamCh`. -/
theorem start_dcp_missing_blob (cfg : Config) (o : Oracle) (c : Consumer)
    (flogs : List (Nat × FailoverLog))
    (hterm : o.isTerminateRunning 0 = false)
    (hto : ∀ site, o.retryTimeout site = false)
    (hseq : o.bucketSeqnos.2 = none ∨
      cfg.dcpStreamBoundary = DcpStreamBoundary.DcpEverything)
    (hidx : cfg.dcpStreamBoundary = DcpStreamBoundary.DcpFromNow →
      ∀ vb ∈ flogs.map Prod.fst, vb < o.bucketSeqnos.1.length) :
    ∃ (c1 : Consumer) (ops : List MetaOp) (items : List streamRequestInfo),
      startDcp cfg o c flogs = some (c1, none) ∧
      c1.metaOps = c.metaOps ++ ops ∧
      c1.reqStreamCh = c.reqStreamCh ++ items ∧
      ∀ (vb : Nat) (flog : FailoverLog) (vbuuid seq : Nat),
        flogs.lookup vb = some flog → flog.Latest = .ok (vbuuid, seq) →
        o.isNoEnt vb 0 = true →
        ∃ blob : vbucketKVBlob,
          MetaOp.setOpCallback (cfg.AddMetadataPrefix (cfg.vbKey vb)) blob ∈ ops ∧
          blob.VBuuid = vbuuid ∧ blob.VBId = vb ∧
          blob.AssignedWorker = cfg.ConsumerName ∧ blob.CurrentVBOwner = cfg.HostPortAddr ∧
          blob.PreviousAssignedWorker = cfg.ConsumerName ∧
          blob.PreviousNodeUUID = cfg.NodeUUID ∧ blob.PreviousVBOwner = cfg.HostPortAddr ∧
          blob.OwnershipHistory.getLast? =
            some { AssignedWorker := cfg.ConsumerName, CurrentVBOwner := cfg.HostPortAddr,
                   Operation := dcpStreamBootstrap, Timestamp := o.now } ∧
          (vb ∉ c.enqueueMap →
            cfg.dcpStreamBoundary = DcpStreamBoundary.DcpEverything →
            ({ vb := vb, vbBlob := blob, startSeqNo := 0 } : streamRequestInfo) ∈ items) := by
  obtain ⟨c1, ops, items, hs, hm, hr, hf⟩ := startDcp_facts cfg o c flogs hterm hto hseq hidx
  refine ⟨c1, _, _, hs, hm, hr, ?_⟩
  intro vb flog vbuuid seq hl hlat hne
  have hmem := flog_key_of_lookup flogs vb flog hl
  obtain ⟨_, _, _, hboot, _⟩ := hf vb hmem
  obtain ⟨h1, h2⟩ := hboot flog vbuuid seq hl hlat hne
  refine ⟨startDcpBlob cfg o vbuuid vb, ?_, rfl, rfl, rfl, rfl, rfl, rfl, rfl, ?_, ?_⟩
  · exact List.mem_flatMap_of_mem hmem (by rw [h1]; exact List.mem_singleton.mpr rfl)
  · simp [startDcpBlob]
  · intro hq hb
    exact List.mem_flatMap_of_mem hmem (by rw [h2 hq hb]; exact List.mem_singleton.mpr rfl)

/-- Witness of C24: on the sample map (vbuckets 9 and 3, latest vbuuids 78 and 55), with
no blob present, nothing enqueued and the boundary `everything`, `startDcp` writes the two
blobs and sends the items for 3 and 9, both from 0. -/
theorem start_dcp_missing_blob_witness :
    ((startDcp sampleConfig sampleBootstrapOracle {} sampleFlogs).map fun r =>
      r.1.reqStreamCh.map fun it => (it.vb, it.vbBlob.VBuuid, it.startSeqNo)) =
      some [(3, 55, 0), (9, 78, 0)] ∧
    ((startDcp sampleConfig sampleBootstrapOracle {} sampleFlogs).map fun r =>
      r.1.metaOps.length) = some 2 ∧
    ∃ (c1 : Consumer) (ops : List MetaOp) (items : List streamRequestInfo),
      startDcp sampleConfig sampleBootstrapOracle {} sampleFlogs = some (c1, none) ∧
      c1.metaOps = ({} : Consumer).metaOps ++ ops ∧
      c1.reqStreamCh = ({} : Consumer).reqStreamCh ++ items ∧
      ∀ (vb : Nat) (flog : FailoverLog) (vbuuid seq : Nat),
        sampleFlogs.lookup vb = some flog → flog.Latest = .ok (vbuuid, seq) →
        sampleBootstrapOracle.isNoEnt vb 0 = true →
        ∃ blob : vbucketKVBlob,
          MetaOp.setOpCallback
            (sampleConfig.AddMetadataPrefix (sampleConfig.vbKey vb)) blob ∈ ops ∧
          blob.VBuuid = vbuuid ∧ blob.VBId = vb ∧
          blob.AssignedWorker = sampleConfig.ConsumerName ∧
          blob.CurrentVBOwner = sampleConfig.HostPortAddr ∧
          blob.PreviousAssignedWorker = sampleConfig.ConsumerName ∧
          blob.PreviousNodeUUID = sampleConfig.NodeUUID ∧
          blob.PreviousVBOwner = sampleConfig.HostPortAddr ∧
          blob.OwnershipHistory.getLast? =
            some { AssignedWorker := sampleConfig.ConsumerName,
                   CurrentVBOwner := sampleConfig.HostPortAddr,
                   Operation := dcpStreamBootstrap, Timestamp := sampleBootstrapOracle.now } ∧
          (vb ∉ ({} : Consumer).enqueueMap →
            sampleConfig.dcpStreamBoundary = DcpStreamBoundary.DcpEverything →
            ({ vb := vb, vbBlob := blob, startSeqNo := 0 } : streamRequestInfo) ∈ items) :=
  ⟨by decide, by decide,
   start_dcp_missing_blob sampleConfig sampleBootstrapOracle {} sampleFlogs rfl (fun _ => rfl)
     (Or.inl rfl) (fun h => absurd h (by decide))⟩

theorem flatMap_vb_sublist (items : Nat → List streamRequestInfo) (l : List Nat)
    (h : ∀ w ∈ l, (∀ it ∈ items w, it.vb = w) ∧ (items w).length ≤ 1) :
    ((l.flatMap items).map fun it => it.vb).Sublist l := by
  induction l with
  | nil => exact List.Sublist.refl _
  | cons v rest ih =>
    have ih1 := ih (fun w hw => h w (List.mem_cons_of_mem _ hw))
    obtain ⟨h1, h2⟩ := h v (List.mem_cons_self _ _)
    rw [List.flatMap_cons, List.map_append]
    cases hi : items v with
    | nil => exact List.Sublist.cons _ ih1
    | cons it tl =>
      rw [hi] at h1 h2
      cases tl with
      | nil =>
        have hv : it.vb = v := h1 it (List.mem_singleton.mpr rfl)
        simp only [List.map_cons, List.map_nil, List.singleton_append, hv]
        exact List.Sublist.cons₂ _ ih1
      | cons it2 tl2 =>
        simp only [List.length_cons] at h2
        omega

/-- Counterexample of C28: the map holds vbucket 9 with a failover log that has no entry;
the blob of the vbucket exists, its `NodeUUID` and `AssignedWorker` are empty, and the
vbucket is not in `enqueueMap`; `startDcp` returns no error and sends nothing, while with a
failover log that has an entry it sends the item for vbucket 9. -/
theorem start_dcp_existing_blob_counterexample :
    (({} : Oracle).isNoEnt 9 0 = false ∧ (({} : Oracle).getOp 9 0).NodeUUID = "" ∧
      (({} : Oracle).getOp 9 0).AssignedWorker = "" ∧ 9 ∉ ({} : Consumer).enqueueMap) ∧
    ((startDcp sampleConfig {} {} [(9, ⟨[]⟩)]).map fun r =>
      (r.1.reqStreamCh.map (fun it => it.vb), r.2.isNone)) = some ([], true) ∧
    ((startDcp sampleConfig {} {} [(9, ⟨[(78, 120)]⟩)]).map fun r =>
      (r.1.reqStreamCh.map (fun it => it.vb), r.2.isNone)) = some ([9], true) := by
  refine ⟨⟨rfl, rfl, rfl, by decide⟩, by decide, by decide⟩

/-- C28: when `startDcp` runs through (the terminate routine not running, no retry
timeout, the sequence numbers fetched or the boundary `everything`, no missing sequence
number under `from_now`), it returns no error; the items it sends are in strictly
ascending order of their vbuckets; every write it makes is a `setOpCallback` for a vbucket
whose blob was missing; and for every vbucket of the failover-log map whose failover log
has a latest entry and whose metadata blob exists, an item for the vbucket is sent exactly
when the blob's `NodeUUID` is this node's or empty, its `AssignedWorker` is this consumer
or empty and the vbucket was not in `enqueueMap`, and the item sent carries the blob read
and starts from `blob.LastSeqNoProcessed`, which is also the stat `start_seq_no`
afterwards. -/
theorem start_dcp_existing_blob (cfg : Config) (o : Oracle) (c : Consumer)
    (flogs : List (Nat × FailoverLog))
    (hterm : o.isTerminateRunning 0 = false)
    (hto : ∀ site, o.retryTimeout site = false)
    (hseq : o.bucketSeqnos.2 = none ∨
      cfg.dcpStreamBoundary = DcpStreamBoundary.DcpEverything)
    (hidx : cfg.dcpStreamBoundary = DcpStreamBoundary.DcpFromNow →
      ∀ vb ∈ flogs.map Prod.fst, vb < o.bucketSeqnos.1.length) :
    ∃ (c1 : Consumer) (ops : List MetaOp) (items : List streamRequestInfo),
      startDcp cfg o c flogs = some (c1, none) ∧
      c1.metaOps = c.metaOps ++ ops ∧
      c1.reqStreamCh = c.reqStreamCh ++ items ∧
      (items.map fun it => it.vb).Sorted (· < ·) ∧
      (∀ op ∈ ops, ∃ (w : Nat) (blob : vbucketKVBlob), o.isNoEnt w 0 = true ∧
        op = MetaOp.setOpCallback (cfg.AddMetadataPrefix (cfg.vbKey w)) blob) ∧
      ∀ (vb : Nat) (flog : FailoverLog) (vbuuid seq : Nat),
        flogs.lookup vb = some flog → flog.Latest = .ok (vbuuid, seq) →
        o.isNoEnt vb 0 = false →
        ((∃ it ∈ items, it.vb = vb) ↔
          ((((o.getOp vb 0).NodeUUID = cfg.NodeUUID ∨ (o.getOp vb 0).NodeUUID = "") ∧
            ((o.getOp vb 0).AssignedWorker = cfg.ConsumerName ∨
              (o.getOp vb 0).AssignedWorker = "")) ∧ vb ∉ c.enqueueMap)) ∧
        ∀ it ∈ items, it.vb = vb →
          it.startSeqNo = (o.getOp vb 0).LastSeqNoProcessed ∧ it.vbBlob = o.getOp vb 0 ∧
          (c1.vbProcessingStats vb).start_seq_no = (o.getOp vb 0).LastSeqNoProcessed := by
  obtain ⟨c1, ops, items, hs, hm, hr, hf⟩ := startDcp_facts cfg o c flogs hterm hto hseq hidx
  refine ⟨c1, _, _, hs, hm, hr, ?_, ?_, ?_⟩
  · exact List.Pairwise.sublist
      (flatMap_vb_sublist items _ (fun w hw => ⟨(hf w hw).1, (hf w hw).2.1⟩))
      (sortVbs_dedup_sorted _)
  · intro op hop
    obtain ⟨w, hw, hopw⟩ := List.mem_flatMap.mp hop
    obtain ⟨h1, blob, h2⟩ := (hf w hw).2.2.1 op hopw
    exact ⟨w, blob, h1, h2⟩
  · intro vb flog vbuuid seq hl hlat hne
    have hmem := flog_key_of_lookup flogs vb flog hl
    obtain ⟨hvb, _, _, _, hex⟩ := hf vb hmem
    obtain ⟨h1, h2⟩ := hex flog vbuuid seq hl hlat hne
    have hin : ∀ it ∈ (sortVbs (flogs.map Prod.fst).dedup).flatMap items, it.vb = vb →
        it ∈ items vb := by
      intro it hit hv
      obtain ⟨w, hw, hitw⟩ := List.mem_flatMap.mp hit
      have : w = vb := by rw [← (hf w hw).1 it hitw, hv]
      rw [← this]
      exact hitw
    refine ⟨⟨?_, ?_⟩, ?_⟩
    · rintro ⟨it, hit, hv⟩
      exact h1.mp (List.ne_nil_of_mem (hin it hit hv))
    · intro hc
      obtain ⟨it, hit⟩ := List.exists_mem_of_ne_nil _ (h1.mpr hc)
      exact ⟨it, List.mem_flatMap_of_mem hmem hit, hvb it hit⟩
    · intro it hit hv
      obtain ⟨h3, h4⟩ := h2 it (hin it hit hv)
      rw [h3]
      exact ⟨rfl, rfl, h4⟩

/-- Witness of C28: the blobs of the vbuckets 9 and 3 exist with no owner and
`LastSeqNoProcessed` 40; vbucket 3 is in `enqueueMap`, vbucket 9 is not: `startDcp` sends
one item, for vbucket 9 from 40, writes nothing, and the stat `start_seq_no` of 9 is 40. -/
theorem start_dcp_existing_blob_witness :
    ((startDcp sampleConfig { getOp := fun _ _ => { LastSeqNoProcessed := 40 } }
        { enqueueMap := {3} } sampleFlogs).map fun r =>
      (r.1.reqStreamCh.map (fun it => (it.vb, it.startSeqNo)), r.1.metaOps.length,
        (r.1.vbProcessingStats 9).start_seq_no)) = some ([(9, 40)], 0, 40) ∧
    ∃ (c1 : Consumer) (ops : List MetaOp) (items : List streamRequestInfo),
      startDcp sampleConfig { getOp := fun _ _ => { LastSeqNoProcessed := 40 } }
        { enqueueMap := {3} } sampleFlogs = some (c1, none) ∧
      c1.metaOps = ({ enqueueMap := {3} } : Consumer).metaOps ++ ops ∧
      c1.reqStreamCh = ({ enqueueMap := {3} } : Consumer).reqStreamCh ++ items ∧
      (items.map fun it => it.vb).Sorted (· < ·) := by
  obtain ⟨c1, ops, items, h1, h2, h3, h4, _⟩ :=
    start_dcp_existing_blob sampleConfig { getOp := fun _ _ => { LastSeqNoProcessed := 40 } }
      { enqueueMap := {3} } sampleFlogs rfl (fun _ => rfl) (Or.inl rfl)
      (fun h => absurd h (by decide))
  exact ⟨by decide, c1, ops, items, h1, h2, h3, h4⟩

end Eventing
